import Mathlib

/-!
# Connection core of ngtcp2 (`lib/ngtcp2_conn.c`)

A shallow embedding of the flow-control arithmetic and of the STREAM frame
ingestion path of `lib/ngtcp2_conn.c`, followed by theorems about them.

Conventions of the embedding:

* `uint64_t` and `size_t` values are natural numbers below `2^64`,
  `uint32_t` values are natural numbers below `2^32`; every C operation
  that can wrap is written with an explicit `% 2^64` or `% 2^32`.
* A C function that writes through pointers returns the new values.
-/

namespace Ngtcp2

/-! ## Split offsets -/

/-- The constant `UINT64_MAX` of `<stdint.h>`. -/
def UINT64_MAX : Nat := 2 ^ 64 - 1

/-- Embedding of `ngtcp2_increment_offset`: the result is the pair of the new
`*offset_high` and `*offset_low`. -/
def ngtcp2_increment_offset (offset_high offset_low datalen : Nat) : Nat × Nat :=
  let datalen_high := datalen / 1024
  let datalen_low := (datalen &&& 0x3ff) % 2 ^ 32
  if offset_high > UINT64_MAX - datalen_high then
    (UINT64_MAX, 0x3ff)
  else
    let offset_high1 := (offset_high + datalen_high) % 2 ^ 64
    let offset_low1 := (offset_low + datalen_low) % 2 ^ 32
    if offset_low1 ≤ 0x3ff then
      (offset_high1, offset_low1)
    else if offset_high1 = UINT64_MAX then
      (offset_high1, 0x3ff)
    else
      ((offset_high1 + 1) % 2 ^ 64, offset_low1 &&& 0x3ff)

/-- The 64-bit offset a split pair `(high, low)` stands for: `high * 1024 + low`. -/
def decode_offset (p : Nat × Nat) : Nat := p.1 * 1024 + p.2

/-! ## Error codes and flags -/

/-- Modelled from the spec: the error kinds are declared in the public header
`ngtcp2.h`, which is not among the sources at hand. They are negative and
pairwise distinct; nothing else about their values is used. -/
def NGTCP2_ERR_INVALID_ARGUMENT : Int := -201

/-- Modelled from the spec: error kind PROTO of `ngtcp2.h`. -/
def NGTCP2_ERR_PROTO : Int := -205

/-- Modelled from the spec: error kind STREAM_IN_USE of `ngtcp2.h`. -/
def NGTCP2_ERR_STREAM_IN_USE : Int := -209

/-- Modelled from the spec: error kind FLOW_CONTROL of `ngtcp2.h`. -/
def NGTCP2_ERR_FLOW_CONTROL : Int := -211

/-- Modelled from the spec: error kind STREAM_ID_BLOCKED of `ngtcp2.h`. -/
def NGTCP2_ERR_STREAM_ID_BLOCKED : Int := -208

/-- Modelled from the spec: error kind NOBUF of `ngtcp2.h`. -/
def NGTCP2_ERR_NOBUF : Int := -203

/-- Modelled from the spec: error kind STREAM_DATA_BLOCKED of `ngtcp2.h`. -/
def NGTCP2_ERR_STREAM_DATA_BLOCKED : Int := -210

/-- Modelled from the spec: error kind NOMEM of `ngtcp2.h`. -/
def NGTCP2_ERR_NOMEM : Int := -501

/-- Modelled from the spec: error kind CALLBACK_FAILURE of `ngtcp2.h`. -/
def NGTCP2_ERR_CALLBACK_FAILURE : Int := -502

/-- Modelled from the spec: the shutdown-flags bitfield of a stream
(`ngtcp2_strm.h` is not among the sources at hand): no flag. -/
def NGTCP2_STRM_FLAG_NONE : Nat := 0

/-- Modelled from the spec: the read side of the stream is shut down. -/
def NGTCP2_STRM_FLAG_SHUT_RD : Nat := 0x01

/-- Modelled from the spec: the write side of the stream is shut down. -/
def NGTCP2_STRM_FLAG_SHUT_WR : Nat := 0x02

/-- Modelled from the spec: both sides are shut down (`SHUT_RD | SHUT_WR`). -/
def NGTCP2_STRM_FLAG_SHUT_RDWR : Nat := NGTCP2_STRM_FLAG_SHUT_RD ||| NGTCP2_STRM_FLAG_SHUT_WR

/-- The constant `UINT32_MAX` of `<stdint.h>`. -/
def UINT32_MAX : Nat := 2 ^ 32 - 1

/-! ## Memory allocator

Every allocation of the library goes through `ngtcp2_mem`. The embedding
keeps, in the connection, the list of outcomes of the allocations still to
come: `true` for an allocation that succeeds, `false` for one that fails; an
exhausted list means that every further allocation succeeds. -/

/-- Outcomes of the allocations still to come. -/
abbrev ngtcp2_mem := List Bool

/-- One allocation: its outcome and the outcomes left. -/
def ngtcp2_mem_malloc (mem : ngtcp2_mem) : Bool × ngtcp2_mem :=
  match mem with
  | [] => (true, [])
  | ok :: rest => (ok, rest)

/-! ## Reassembly buffer -/

/-- Modelled from the spec: the reassembly buffer `ngtcp2_rob` (its source
`ngtcp2_rob.c` is not among the sources at hand), "a range-addressed byte
store" of out-of-order bytes awaiting contiguous delivery. `base` is the end
of the prefix that was dropped, `limit` the end of the bytes ever stored, and
`store` the byte kept at an offset. -/
structure ngtcp2_rob where
  base : Nat
  limit : Nat
  store : Nat → Option Nat

/-- Modelled from the spec: the byte the buffer holds at `offset`, none below
the dropped prefix and none at or above `limit`. -/
def ngtcp2_rob.held (rob : ngtcp2_rob) (offset : Nat) : Option Nat :=
  if rob.base ≤ offset ∧ offset < rob.limit then rob.store offset else none

/-- Modelled from the spec: the contiguous bytes held from `offset` on, up to
the first offset with no byte; `fuel` bounds the length of the run. -/
def ngtcp2_rob.run (rob : ngtcp2_rob) : Nat → Nat → List Nat
  | 0, _ => []
  | fuel + 1, offset =>
    match rob.held offset with
    | none => []
    | some b => b :: ngtcp2_rob.run rob fuel (offset + 1)

/-- Modelled from the spec: the empty reassembly buffer (`ngtcp2_rob_init`). -/
def ngtcp2_rob_init : ngtcp2_rob := { base := 0, limit := 0, store := fun _ => none }

/-- Modelled from the spec: `ngtcp2_rob_data_at`, the contiguous bytes held
at `offset` ("contiguous bytes from reassembly ... until a gap is hit"); the
C function returns their number and a pointer to them. -/
def ngtcp2_rob_data_at (rob : ngtcp2_rob) (offset : Nat) : List Nat :=
  rob.run (rob.limit - offset) offset

/-- Modelled from the spec: `ngtcp2_rob_first_gap_offset`, the first offset
that was neither dropped as delivered prefix nor is held. -/
def ngtcp2_rob_first_gap_offset (rob : ngtcp2_rob) : Nat :=
  rob.base + (ngtcp2_rob_data_at rob rob.base).length

/-- Modelled from the spec: `ngtcp2_rob_remove_prefix`, "the reassembly
buffer drops the prefix" below `offset`. -/
def ngtcp2_rob_remove_prefix (rob : ngtcp2_rob) (offset : Nat) : ngtcp2_rob :=
  { rob with base := max rob.base offset }

/-- Modelled from the spec: `ngtcp2_rob_pop`, which releases the `len` bytes
at `offset` after their contiguous delivery. -/
def ngtcp2_rob_pop (rob : ngtcp2_rob) (offset len : Nat) : ngtcp2_rob :=
  ngtcp2_rob_remove_prefix rob (offset + len)

/-- Modelled from the spec: `ngtcp2_rob_push`, which "stores out-of-order
bytes in the reassembly buffer": the bytes of `data` that lie at or above the
dropped prefix are stored at `offset` on; a byte already held is kept. -/
def ngtcp2_rob_push (rob : ngtcp2_rob) (offset : Nat) (data : List Nat) : ngtcp2_rob :=
  { base := rob.base
    limit := max rob.limit (offset + data.length)
    store := fun k =>
      match rob.held k with
      | some b => some b
      | none => if offset ≤ k then data.get? (k - offset) else none }

/-! ## Tracker of acknowledged ranges -/

/-- Modelled from the spec: the "acked-tx range tracker" `ngtcp2_gaptr` (its
source is not among the sources at hand): `acked` tells whether an offset
was pushed, and no offset at or above `limit` was. -/
structure ngtcp2_gaptr where
  limit : Nat
  acked : Nat → Bool

/-- Modelled from the spec: the number of consecutive pushed offsets from
`offset` on. -/
def ngtcp2_gaptr.run (gaptr : ngtcp2_gaptr) : Nat → Nat → Nat
  | 0, _ => 0
  | fuel + 1, offset =>
    if gaptr.acked offset then ngtcp2_gaptr.run gaptr fuel (offset + 1) + 1 else 0

/-- Modelled from the spec: the tracker with nothing pushed (`ngtcp2_gaptr_init`). -/
def ngtcp2_gaptr_init : ngtcp2_gaptr := { limit := 0, acked := fun _ => false }

/-- Modelled from the spec: `ngtcp2_gaptr_first_gap_offset`, the first offset
that was not pushed. -/
def ngtcp2_gaptr_first_gap_offset (gaptr : ngtcp2_gaptr) : Nat :=
  gaptr.run gaptr.limit 0

/-! ## Stream id tracker -/

/-- Modelled from the spec: the stream-id allocator `ngtcp2_idtr` (its source
is not among the sources at hand), the set of ids that were opened. -/
structure ngtcp2_idtr where
  opened : List Nat

/-- Modelled from the spec: the tracker with no id opened (`ngtcp2_idtr_init`). -/
def ngtcp2_idtr_init : ngtcp2_idtr := { opened := [] }

/-- Modelled from the spec: `ngtcp2_idtr_open`, which yields STREAM_IN_USE
for an id that was opened before, and otherwise records the id (an
allocation, which can fail with NOMEM). -/
def ngtcp2_idtr_open (idtr : ngtcp2_idtr) (q : Nat) (mem : ngtcp2_mem) :
    Int × ngtcp2_idtr × ngtcp2_mem :=
  if q ∈ idtr.opened then
    (NGTCP2_ERR_STREAM_IN_USE, idtr, mem)
  else if (ngtcp2_mem_malloc mem).1 then
    (0, { opened := q :: idtr.opened }, (ngtcp2_mem_malloc mem).2)
  else
    (NGTCP2_ERR_NOMEM, idtr, (ngtcp2_mem_malloc mem).2)

/-- Modelled from the spec: `ngtcp2_idtr_is_open`, STREAM_IN_USE for an id
that was opened before and 0 otherwise. -/
def ngtcp2_idtr_is_open (idtr : ngtcp2_idtr) (q : Nat) : Int :=
  if q ∈ idtr.opened then NGTCP2_ERR_STREAM_IN_USE else 0

/-! ## Streams -/

/-- The fields of `ngtcp2_strm` the connection code reads and writes. The
intrusive links `fc_next` and `fc_pprev` are kept in the connection, as the
list `fc_strms` of the ids of the linked streams. `tx_buf` holds the bytes of
the buffer of that name between `pos` and `last`. -/
structure ngtcp2_strm where
  stream_id : Nat
  flags : Nat
  tx_offset : Nat
  max_tx_offset : Nat
  last_rx_offset : Nat
  max_rx_offset : Nat
  unsent_max_rx_offset : Nat
  rob : ngtcp2_rob
  acked_tx_offset : ngtcp2_gaptr
  tx_buf : List Nat := []

/-- Modelled from the spec: `ngtcp2_strm_init`, `init(id, initial_max_rx,
initial_max_tx)`: offsets at zero, the receive credit announced at once, an
empty reassembly buffer and nothing acknowledged. -/
def ngtcp2_strm_init (stream_id flags max_rx_offset max_tx_offset : Nat) : ngtcp2_strm :=
  { stream_id := stream_id
    flags := flags
    tx_offset := 0
    max_tx_offset := max_tx_offset
    last_rx_offset := 0
    max_rx_offset := max_rx_offset
    unsent_max_rx_offset := max_rx_offset
    rob := ngtcp2_rob_init
    acked_tx_offset := ngtcp2_gaptr_init
    tx_buf := [] }

/-- Modelled from the spec: `ngtcp2_strm_rx_offset`, `rx_offset()`, the
"first byte not yet delivered contiguously". -/
def ngtcp2_strm_rx_offset (strm : ngtcp2_strm) : Nat :=
  ngtcp2_rob_first_gap_offset strm.rob

/-- Modelled from the spec: `ngtcp2_strm_shutdown`, `shutdown(direction)`,
which sets the given shutdown flags. -/
def ngtcp2_strm_shutdown (strm : ngtcp2_strm) (flags : Nat) : ngtcp2_strm :=
  { strm with flags := strm.flags ||| flags }

/-! ## ACK tracker, ACK frame and retransmission buffer -/

/-- Modelled from the spec: the received-packet record of the ACK tracker
(`ngtcp2_acktr.h` is not among the sources at hand): a 64-bit packet number
and the receive timestamp. -/
structure ngtcp2_acktr_entry where
  pkt_num : Nat
  tstamp : Nat
deriving DecidableEq, Repr

/-- Modelled from the spec: the ACK tracker, an ordered linked structure
whose head `ent` is the record with the largest packet number; the records
are linked in descending packet-number order. -/
structure ngtcp2_acktr where
  ent : List ngtcp2_acktr_entry

/-- Modelled from the spec: the empty tracker. -/
def ngtcp2_acktr_init : ngtcp2_acktr := { ent := [] }

/-- Modelled from the spec: `get()` peeks the head. -/
def ngtcp2_acktr_get (acktr : ngtcp2_acktr) : Option ngtcp2_acktr_entry :=
  acktr.ent.head?

/-- Modelled from the spec: `remove(entry)` deletes the record. -/
def ngtcp2_acktr_remove (acktr : ngtcp2_acktr) (ent : ngtcp2_acktr_entry) : ngtcp2_acktr :=
  { ent := acktr.ent.erase ent }

/-- Modelled from the spec: insertion into the descending list; a record
whose packet number is already held leaves the list as it is. -/
def ngtcp2_acktr_insert : List ngtcp2_acktr_entry → ngtcp2_acktr_entry → List ngtcp2_acktr_entry
  | [], ent => [ent]
  | x :: xs, ent =>
    if ent.pkt_num < x.pkt_num then x :: ngtcp2_acktr_insert xs ent
    else if x.pkt_num = ent.pkt_num then x :: xs
    else ent :: x :: xs

/-- Modelled from the spec: `add(pkt_num, ts)` inserts preserving the order;
duplicates are idempotent. The result code is 0. -/
def ngtcp2_acktr_add (acktr : ngtcp2_acktr) (ent : ngtcp2_acktr_entry) : Int × ngtcp2_acktr :=
  (0, { ent := ngtcp2_acktr_insert acktr.ent ent })

/-- Modelled from the spec: one `(gap, blklen)` pair of an ACK frame; `gap`
is 8 bits wide, `blklen` is 64 bits wide. -/
structure ngtcp2_ack_blk where
  gap : Nat
  blklen : Nat
deriving DecidableEq, Repr

/-- Modelled from the spec: the ACK frame (`ngtcp2.h` is not among the
sources at hand). `ack_delay` is 16 bits wide. `blks` holds the entries
`blks[0]`, ..., `blks[num_blks - 1]` of the array of the frame, so that
`num_blks` is the length of `blks`. -/
structure ngtcp2_ack where
  type : Nat
  largest_ack : Nat
  ack_delay : Nat
  first_ack_blklen : Nat
  num_ts : Nat
  blks : List ngtcp2_ack_blk
deriving DecidableEq, Repr

/-- The count `num_blks` of an ACK frame. -/
def ngtcp2_ack.num_blks (ack : ngtcp2_ack) : Nat := ack.blks.length

/-- Modelled from the spec: the frame type of an ACK frame. -/
def NGTCP2_FRAME_ACK : Nat := 0xa0

/-- Modelled from the spec: the MAX_STREAM_DATA frame. -/
structure ngtcp2_max_stream_data where
  stream_id : Nat
  max_stream_data : Nat
deriving DecidableEq, Repr

/-- Modelled from the spec: the MAX_DATA frame. -/
structure ngtcp2_max_data where
  max_data : Nat
deriving DecidableEq, Repr

/-! ## Frames, settings and the connection -/

/-- The STREAM frame `ngtcp2_stream`. `datalen` is the length of `data`. -/
structure ngtcp2_stream where
  stream_id : Nat
  fin : Bool
  offset : Nat
  data : List Nat
deriving DecidableEq, Repr

/-- The field `datalen` of a STREAM frame. -/
def ngtcp2_stream.datalen (fr : ngtcp2_stream) : Nat := fr.data.length

/-- Modelled from the spec: the packet header, of which the connection code
reads and writes the flags, the type and the packet number; the connection id
and the version of a header are those of the connection and are left out. -/
structure ngtcp2_pkt_hd where
  flags : Nat
  type : Nat
  pkt_num : Nat
deriving DecidableEq, Repr

/-- Modelled from the spec: `ngtcp2_pkt_hd_init`. -/
def ngtcp2_pkt_hd_init (flags type pkt_num : Nat) : ngtcp2_pkt_hd :=
  { flags := flags, type := type, pkt_num := pkt_num }

/-- Modelled from the spec: the flag of the long header form. -/
def NGTCP2_PKT_FLAG_LONG_FORM : Nat := 0x01

/-- Modelled from the spec: the flag of a short header with connection id. -/
def NGTCP2_PKT_FLAG_CONN_ID : Nat := 0x02

/-- Modelled from the spec: long header type of the first packet of a client. -/
def NGTCP2_PKT_CLIENT_INITIAL : Nat := 0x02

/-- Modelled from the spec: long header type of a handshake packet of a server. -/
def NGTCP2_PKT_SERVER_CLEARTEXT : Nat := 0x04

/-- Modelled from the spec: long header type of a handshake packet of a client. -/
def NGTCP2_PKT_CLIENT_CLEARTEXT : Nat := 0x05

/-- Modelled from the spec: short header type with a packet number of 8 bits. -/
def NGTCP2_PKT_01 : Nat := 0x01

/-- Modelled from the spec: short header type with a packet number of 16 bits. -/
def NGTCP2_PKT_02 : Nat := 0x02

/-- Modelled from the spec: short header type with a packet number of 32 bits. -/
def NGTCP2_PKT_03 : Nat := 0x03

/-- Modelled from the spec: the frame `ngtcp2_frame`, a union tagged by the
frame type. The connection code looks into STREAM, ACK, PADDING, MAX_DATA,
MAX_STREAM_DATA and MAX_STREAM_ID frames; a frame of another type is carried
as its type alone. -/
inductive ngtcp2_frame where
  | stream (fr : ngtcp2_stream)
  | ack (fr : ngtcp2_ack)
  | padding (len : Nat)
  | max_data (fr : ngtcp2_max_data)
  | max_stream_data (fr : ngtcp2_max_stream_data)
  | max_stream_id (max_stream_id : Nat)
  | other (type : Nat)
deriving DecidableEq, Repr

/-- Modelled from the spec: an entry of the retransmission buffer
(`ngtcp2_rtb.h` is not among the sources at hand): the original packet header
snapshot (`flags`, `type` and `pkt_num`), its owned frame chain `frc`, and the
expiry timestamp. -/
structure ngtcp2_rtb_entry where
  pkt_num : Nat
  expiry : Nat
  flags : Nat := 0
  type : Nat := 0
  frc : List ngtcp2_frame := []
deriving DecidableEq, Repr

/-- The header `ent->hd` of an entry. -/
def ngtcp2_rtb_entry.hd (ent : ngtcp2_rtb_entry) : ngtcp2_pkt_hd :=
  { flags := ent.flags, type := ent.type, pkt_num := ent.pkt_num }

/-- Modelled from the spec: the retransmission buffer, a priority queue of
entries keyed by expiry. -/
structure ngtcp2_rtb where
  ents : List ngtcp2_rtb_entry

/-- Modelled from the spec: the empty retransmission buffer. -/
def ngtcp2_rtb_init : ngtcp2_rtb := { ents := [] }

/-- The soonest of `m` and the entries of the list; the earlier entry wins
a tie. -/
def ngtcp2_rtb_soonest : ngtcp2_rtb_entry → List ngtcp2_rtb_entry → ngtcp2_rtb_entry
  | m, [] => m
  | m, e :: es => ngtcp2_rtb_soonest (if e.expiry < m.expiry then e else m) es

/-- Modelled from the spec: `top()` returns the soonest entry, `none` when
the buffer is empty. -/
def ngtcp2_rtb_top (rtb : ngtcp2_rtb) : Option ngtcp2_rtb_entry :=
  match rtb.ents with
  | [] => none
  | e :: es => some (ngtcp2_rtb_soonest e es)

/-- Modelled from the spec: `pop()` removes the soonest entry. -/
def ngtcp2_rtb_pop (rtb : ngtcp2_rtb) : ngtcp2_rtb :=
  match ngtcp2_rtb_top rtb with
  | none => rtb
  | some ent => { ents := rtb.ents.erase ent }

/-- Modelled from the spec: `add(entry)` inserts; the queue may have to grow,
so the insertion fails with `NGTCP2_ERR_NOMEM` when the allocator does. -/
def ngtcp2_rtb_add (rtb : ngtcp2_rtb) (ent : ngtcp2_rtb_entry) (mem : ngtcp2_mem) :
    Int × ngtcp2_rtb × ngtcp2_mem :=
  let a := ngtcp2_mem_malloc mem
  if !a.1 then (NGTCP2_ERR_NOMEM, rtb, a.2)
  else (0, { ents := rtb.ents ++ [ent] }, a.2)

/-- Modelled from the spec: `ngtcp2_rtb_entry_new` allocates an entry for the
header `hd`, the frame chain `frc` and the expiry `expiry`. -/
def ngtcp2_rtb_entry_new (hd : ngtcp2_pkt_hd) (frc : List ngtcp2_frame) (expiry : Nat)
    (mem : ngtcp2_mem) : Int × ngtcp2_rtb_entry × ngtcp2_mem :=
  let a := ngtcp2_mem_malloc mem
  ((if !a.1 then NGTCP2_ERR_NOMEM else 0),
   { pkt_num := hd.pkt_num, expiry := expiry, flags := hd.flags, type := hd.type, frc := frc },
   a.2)

/-- Modelled from the spec: the wire format, which the spec leaves out of
scope, as far as the connection code depends on it: the lengths of an encoded
header and of an encoded frame, and the constants of headers that are not
among the sources at hand (the length `NGTCP2_PKT_MDLEN` of the hash that
ends an unprotected packet, `NGTCP2_STREAM_OVERHEAD`, and the time
`NGTCP2_INITIAL_EXPIRY` after which a packet is retransmitted). -/
structure ngtcp2_wire where
  hdlen : ngtcp2_pkt_hd → Nat
  framelen : ngtcp2_frame → Nat
  NGTCP2_PKT_MDLEN : Nat
  NGTCP2_STREAM_OVERHEAD : Nat
  NGTCP2_INITIAL_EXPIRY : Nat

/-- Modelled from the spec: the packet encoders `ngtcp2_upe` (unprotected) and
`ngtcp2_ppe` (protected) over a destination buffer of `destlen` bytes: `len`
bytes are written, `overhead` bytes are kept free for the hash or the AEAD
tag that ends the packet, and `frames` are the frames encoded so far. -/
structure ngtcp2_pe where
  destlen : Nat
  overhead : Nat
  len : Nat
  frames : List ngtcp2_frame

/-- Modelled from the spec: a packet written to the destination buffer. -/
structure ngtcp2_pkt where
  hd : ngtcp2_pkt_hd
  frames : List ngtcp2_frame
deriving DecidableEq, Repr

/-- Modelled from the spec: `ngtcp2_upe_init`. -/
def ngtcp2_upe_init (W : ngtcp2_wire) (destlen : Nat) : ngtcp2_pe :=
  { destlen := destlen, overhead := W.NGTCP2_PKT_MDLEN, len := 0, frames := [] }

/-- Modelled from the spec: `ngtcp2_upe_encode_hd` and `ngtcp2_ppe_encode_hd`
write the header, or fail with `NGTCP2_ERR_NOBUF` when it does not fit. -/
def ngtcp2_pe_encode_hd (W : ngtcp2_wire) (pe : ngtcp2_pe) (hd : ngtcp2_pkt_hd) :
    Int × ngtcp2_pe :=
  if pe.len + W.hdlen hd + pe.overhead ≤ pe.destlen then
    (0, { pe with len := pe.len + W.hdlen hd })
  else (NGTCP2_ERR_NOBUF, pe)

/-- Modelled from the spec: `ngtcp2_upe_encode_frame` and
`ngtcp2_ppe_encode_frame` append the frame, or fail with `NGTCP2_ERR_NOBUF`
when it would overflow the packet. -/
def ngtcp2_pe_encode_frame (W : ngtcp2_wire) (pe : ngtcp2_pe) (fr : ngtcp2_frame) :
    Int × ngtcp2_pe :=
  if pe.len + W.framelen fr + pe.overhead ≤ pe.destlen then
    (0, { pe with len := pe.len + W.framelen fr, frames := pe.frames ++ [fr] })
  else (NGTCP2_ERR_NOBUF, pe)

/-- Modelled from the spec: `ngtcp2_upe_left` and `ngtcp2_ppe_left`, the
number of bytes a further frame may take. -/
def ngtcp2_pe_left (pe : ngtcp2_pe) : Nat :=
  pe.destlen - pe.len - pe.overhead

/-- Modelled from the spec: `ngtcp2_upe_padding` fills the packet with
padding and returns the number of padding bytes. -/
def ngtcp2_upe_padding (pe : ngtcp2_pe) : Nat × ngtcp2_pe :=
  (ngtcp2_pe_left pe,
   { pe with
     len := pe.len + ngtcp2_pe_left pe
     frames := pe.frames ++ [ngtcp2_frame.padding (ngtcp2_pe_left pe)] })

/-- Modelled from the spec: `ngtcp2_upe_final` appends the hash and returns
the length of the packet. -/
def ngtcp2_upe_final (pe : ngtcp2_pe) : Int :=
  ((pe.len + pe.overhead : Nat) : Int)

/-- Modelled from the spec: the states of the connection state machine,
`CLIENT_INITIAL` → `CLIENT_WAIT_HANDSHAKE` →
`CLIENT_HANDSHAKE_ALMOST_FINISHED` → `POST_HANDSHAKE` → `CLOSE_WAIT`, with the
server mirror `SERVER_INITIAL` → `SERVER_WAIT_HANDSHAKE`. -/
inductive ngtcp2_conn_state where
  | NGTCP2_CS_CLIENT_INITIAL
  | NGTCP2_CS_CLIENT_WAIT_HANDSHAKE
  | NGTCP2_CS_CLIENT_HANDSHAKE_ALMOST_FINISHED
  | NGTCP2_CS_SERVER_INITIAL
  | NGTCP2_CS_SERVER_WAIT_HANDSHAKE
  | NGTCP2_CS_POST_HANDSHAKE
  | NGTCP2_CS_CLOSE_WAIT
deriving DecidableEq, Repr

/-- Modelled from the spec: a buffered early protected packet
(`ngtcp2_pkt_chain`): the bytes of the packet and its arrival time. -/
structure ngtcp2_pkt_chain where
  pkt : List Nat
  ts : Nat
deriving DecidableEq, Repr

/-- The output of one invocation of a handshake callback
(`send_client_initial`, `send_client_cleartext`, `send_server_cleartext`):
whether the callback fails, the starting packet number it stores through
`pkt_num`, and the handshake bytes `payload`, whose length is the result of a
callback that does not fail. -/
structure ngtcp2_handshake_out where
  failed : Bool
  pkt_num : Nat
  payload : List Nat

/-- The result `payloadlen` of a handshake callback. -/
def ngtcp2_handshake_out.payloadlen (o : ngtcp2_handshake_out) : Int :=
  if o.failed then -1 else ((o.payload.length : Nat) : Int)

/-- Modelled from the spec: `ngtcp2_strm_recv_reordering`,
`recv_reordered(frame)`, which "stores out-of-order bytes in the reassembly
buffer"; the store allocates, so it can fail with NOMEM and then leaves the
buffer as it was. -/
def ngtcp2_strm_recv_reordering (strm : ngtcp2_strm) (fr : ngtcp2_stream) (mem : ngtcp2_mem) :
    Int × ngtcp2_strm × ngtcp2_mem :=
  if (ngtcp2_mem_malloc mem).1 then
    (0, { strm with rob := ngtcp2_rob_push strm.rob fr.offset fr.data }, (ngtcp2_mem_malloc mem).2)
  else
    (NGTCP2_ERR_NOMEM, strm, (ngtcp2_mem_malloc mem).2)

/-- Modelled from the spec: a packet header as the decoder hands it over: the
fields of `ngtcp2_pkt_hd` above, with the connection id and the version that
the packet carries. -/
structure ngtcp2_rx_hd where
  hd : ngtcp2_pkt_hd
  conn_id : Nat
  version : Nat
deriving DecidableEq, Repr

/-- The fields of `ngtcp2_settings` the connection code reads here. -/
structure ngtcp2_settings where
  max_stream_data : Nat
  max_data : Nat
  max_stream_id : Nat

/-- One invocation of the `recv_stream_data` callback: the stream id, the fin
flag and the bytes handed over. -/
structure recv_stream_data_call where
  stream_id : Nat
  fin : Bool
  data : List Nat
deriving DecidableEq, Repr

/-- The fields of `ngtcp2_conn` used by the stream ingestion path, by the
acknowledgement path and by the flow-control updates of the peer.

* `strms` is the map from stream id to stream (`ngtcp2_map`).
* `fc_strms` lists the ids of the streams linked into the flow-control
  list, head first.
* `recv_stream_data` is the application callback, `none` when it is not
  set. The callback only observes: its result may depend on the calls made
  before and on the present call. `recv_stream_data_calls` records the
  invocations, oldest first.
* `next_ack_expiry` is the delayed-ack timer, 0 when it is not armed.
* `frq` is the queue of frames `conn->frq`, head first.
* `send_pkt`, `send_frame` and `encrypt` are callbacks of the application
  that only observe; `send_pkt` and `send_frame` are `none` when they are not
  set. `handshake_out` holds the outputs of the handshake callbacks in the
  order of their invocations; once it is used up a callback has no bytes to
  send.
* `recv_pkt`, `recv_frame` and `recv_version_negotiation` are callbacks of
  the application that only observe, `none` when they are not set.
  `recv_version_negotiation` is handed the array `sv` and the number `nsv`;
  an element of the array that was never written is `none`.
* `recv_handshake_data` is the callback that takes the handshake bytes of
  stream 0; its result may depend on the bytes handed over before, which
  `recv_handshake_data_calls` records, and its second component tells whether
  the application calls `ngtcp2_conn_handshake_completed` from within it,
  which sets the flag `handshake_completed`.
* `callbacks_handshake_completed` is the callback `handshake_completed`, given
  by its result, `none` when it is not set.
* `decrypt` is the callback of that name, for the payload, the header bytes
  and the packet number: the plaintext, or `none` when it fails. -/
structure ngtcp2_conn where
  server : Bool
  strms : Nat → Option ngtcp2_strm
  local_idtr : ngtcp2_idtr
  remote_idtr : ngtcp2_idtr
  local_settings : ngtcp2_settings
  remote_settings : ngtcp2_settings
  max_remote_stream_id : Nat
  rx_offset_high : Nat
  rx_offset_low : Nat
  max_rx_offset_high : Nat
  fc_strms : List Nat
  recv_stream_data : Option (List recv_stream_data_call → recv_stream_data_call → Int)
  recv_stream_data_calls : List recv_stream_data_call
  mem : ngtcp2_mem
  max_tx_offset_high : Nat
  acktr : ngtcp2_acktr
  rtb : ngtcp2_rtb
  next_ack_expiry : Nat
  state : ngtcp2_conn_state
  next_tx_pkt_num : Nat
  frq : List ngtcp2_frame
  tx_offset_high : Nat
  tx_offset_low : Nat
  unsent_max_rx_offset_high : Nat
  aead_overhead : Nat
  buffed_rx_ppkts : List ngtcp2_pkt_chain
  send_pkt : Option (ngtcp2_pkt_hd → Int)
  send_frame : Option (ngtcp2_pkt_hd → ngtcp2_frame → Int)
  encrypt : ngtcp2_pkt_hd → List ngtcp2_frame → Int
  handshake_out : List ngtcp2_handshake_out
  version : Nat := 0
  conn_id : Nat := 0
  max_rx_pkt_num : Nat := 0
  handshake_completed : Bool := false
  recv_pkt : Option (ngtcp2_rx_hd → Int) := none
  recv_frame : Option (ngtcp2_rx_hd → ngtcp2_frame → Int) := none
  recv_handshake_data : List (List Nat) → List Nat → Int × Bool := fun _ _ => (0, false)
  recv_handshake_data_calls : List (List Nat) := []
  callbacks_handshake_completed : Option Int := none
  decrypt : List Nat → List Nat → Nat → Option (List Nat) := fun pkt _ _ => some pkt
  recv_version_negotiation : Option (ngtcp2_rx_hd → List (Option Nat) → Nat → Int) := none

/-! ## The functions of `ngtcp2_conn.c` -/

/-- Embedding of `conn_local_stream`: whether `stream_id` is a stream
initiated by the local endpoint. -/
def conn_local_stream (conn : ngtcp2_conn) (stream_id : Nat) : Bool :=
  if conn.server then decide (stream_id % 2 = 0) else decide (stream_id % 2 ≠ 0)

/-- Embedding of `id_from_stream_id`, in 32-bit unsigned arithmetic. -/
def id_from_stream_id (stream_id : Nat) : Nat :=
  if stream_id &&& 1 ≠ 0 then
    ((stream_id + 2 ^ 32 - 1) % 2 ^ 32) / 2
  else
    ((stream_id + 2 ^ 32 - 2) % 2 ^ 32) / 2

/-- Embedding of `conn_call_recv_stream_data`: nothing happens when the
callback is not set; otherwise the invocation is recorded and a nonzero
result of the callback becomes `NGTCP2_ERR_CALLBACK_FAILURE`. -/
def conn_call_recv_stream_data (conn : ngtcp2_conn) (strm : ngtcp2_strm) (fin : Bool)
    (data : List Nat) : Int × ngtcp2_conn :=
  match conn.recv_stream_data with
  | none => (0, conn)
  | some cb =>
    let call : recv_stream_data_call := { stream_id := strm.stream_id, fin := fin, data := data }
    let rv := cb conn.recv_stream_data_calls call
    let conn1 := { conn with recv_stream_data_calls := conn.recv_stream_data_calls ++ [call] }
    if rv ≠ 0 then (NGTCP2_ERR_CALLBACK_FAILURE, conn1) else (0, conn1)

/-- Embedding of `ngtcp2_conn_find_stream` (`ngtcp2_map_find` on `strms`). -/
def ngtcp2_conn_find_stream (conn : ngtcp2_conn) (stream_id : Nat) : Option ngtcp2_strm :=
  conn.strms stream_id

/-- The C code changes a stream through a pointer into the map; the
embedding writes the changed stream back under its id. -/
def conn_store_strm (conn : ngtcp2_conn) (strm : ngtcp2_strm) : ngtcp2_conn :=
  { conn with strms := fun k => if k = strm.stream_id then some strm else conn.strms k }

/-- Embedding of `ngtcp2_conn_init_stream`: the stream is initialised with
the local and remote `max_stream_data` and inserted into the map. Both steps
allocate. `ngtcp2_map_insert` refuses a key that is present. -/
def ngtcp2_conn_init_stream (conn : ngtcp2_conn) (stream_id : Nat) :
    Int × ngtcp2_conn × ngtcp2_strm :=
  let strm := ngtcp2_strm_init stream_id NGTCP2_STRM_FLAG_NONE
    conn.local_settings.max_stream_data conn.remote_settings.max_stream_data
  let a1 := ngtcp2_mem_malloc conn.mem
  if !a1.1 then
    (NGTCP2_ERR_NOMEM, { conn with mem := a1.2 }, strm)
  else if (conn.strms stream_id).isSome then
    (NGTCP2_ERR_INVALID_ARGUMENT, { conn with mem := a1.2 }, strm)
  else
    let a2 := ngtcp2_mem_malloc a1.2
    if !a2.1 then
      (NGTCP2_ERR_NOMEM, { conn with mem := a2.2 }, strm)
    else
      (0, conn_store_strm { conn with mem := a2.2 } strm, strm)

/-- Embedding of `conn_max_data_violated`: whether receiving `datalen` bytes
violates the connection flow control of the local endpoint. -/
def conn_max_data_violated (conn : ngtcp2_conn) (datalen : Nat) : Bool :=
  let left_high := (conn.max_rx_offset_high + 2 ^ 64 - conn.rx_offset_high) % 2 ^ 64
  let low := (conn.rx_offset_low + datalen) % 2 ^ 64
  let from_low := low / 1024
  if left_high = from_low then
    decide ((low &&& 0x3ff) > 0)
  else
    decide (left_high < from_low)

/-- Embedding of `ngtcp2_conn_close_stream`: the stream leaves the map, the
limit of remote stream ids grows by 2 for a stream of the peer, and the
stream is unlinked from the flow-control list. -/
def ngtcp2_conn_close_stream (conn : ngtcp2_conn) (strm : ngtcp2_strm) : Int × ngtcp2_conn :=
  if (conn.strms strm.stream_id).isNone then
    (NGTCP2_ERR_INVALID_ARGUMENT, conn)
  else
    (0, { conn with
      strms := fun k => if k = strm.stream_id then none else conn.strms k
      max_remote_stream_id :=
        if !conn_local_stream conn strm.stream_id && decide (conn.max_remote_stream_id ≤ UINT32_MAX - 2) then
          conn.max_remote_stream_id + 2
        else conn.max_remote_stream_id
      fc_strms := conn.fc_strms.filter (fun k => k ≠ strm.stream_id) })

/-- Embedding of `ngtcp2_conn_close_stream_if_shut_rdwr`. -/
def ngtcp2_conn_close_stream_if_shut_rdwr (conn : ngtcp2_conn) (strm : ngtcp2_strm) :
    Int × ngtcp2_conn :=
  if strm.flags &&& NGTCP2_STRM_FLAG_SHUT_RDWR = NGTCP2_STRM_FLAG_SHUT_RDWR ∧
      ngtcp2_rob_first_gap_offset strm.rob = strm.last_rx_offset ∧
      ngtcp2_gaptr_first_gap_offset strm.acked_tx_offset = strm.tx_offset then
    ngtcp2_conn_close_stream conn strm
  else
    (0, conn)

/-- Embedding of the loop of `conn_emit_pending_stream_data`; `fuel` bounds
the number of iterations and `none` means that it ran out. The result is the
return value, the connection and the stream. The `assert` of the C code has
no effect on the state and is left out. -/
def conn_emit_pending_stream_data_loop :
    Nat → ngtcp2_conn → ngtcp2_strm → Nat → Option (Int × ngtcp2_conn × ngtcp2_strm)
  | 0, _, _, _ => none
  | fuel + 1, conn, strm, rx_offset =>
    let data := ngtcp2_rob_data_at strm.rob rx_offset
    let datalen := data.length
    if datalen = 0 then
      some (0, conn, strm)
    else
      let rx_offset1 := (rx_offset + datalen) % 2 ^ 64
      let r := conn_call_recv_stream_data conn strm
        (decide (strm.flags &&& NGTCP2_STRM_FLAG_SHUT_RD ≠ 0) && decide (rx_offset1 = strm.last_rx_offset))
        data
      if r.1 ≠ 0 then
        some (r.1, r.2, strm)
      else
        let strm1 :=
          { strm with rob := ngtcp2_rob_pop strm.rob ((rx_offset1 + 2 ^ 64 - datalen) % 2 ^ 64) datalen }
        conn_emit_pending_stream_data_loop fuel r.2 strm1 rx_offset1

/-- Embedding of `conn_emit_pending_stream_data`. Every iteration that goes
on drops at least one held byte, so the loop is given one iteration more
than the buffer can hold bytes. -/
def conn_emit_pending_stream_data (conn : ngtcp2_conn) (strm : ngtcp2_strm) (rx_offset : Nat) :
    Option (Int × ngtcp2_conn × ngtcp2_strm) :=
  conn_emit_pending_stream_data_loop (strm.rob.limit - strm.rob.base + 1) conn strm rx_offset

/-- Embedding of the last part of `conn_recv_stream`, from the test
`fr->offset <= rx_offset` on: the frame is delivered, with the contiguous
bytes held behind it, or stored for reordering. The bytes handed to the
callback are those at `fr->data + ncut`, the frame's data without its first
`ncut` bytes. -/
def conn_recv_stream_deliver (conn : ngtcp2_conn) (strm : ngtcp2_strm) (fr : ngtcp2_stream)
    (rx_offset : Nat) : Option (Int × ngtcp2_conn) :=
  if fr.offset ≤ rx_offset then
    let ncut := rx_offset - fr.offset
    let data := fr.data.drop ncut
    let datalen := (fr.datalen + 2 ^ 64 - ncut) % 2 ^ 64
    let rx_offset1 := (rx_offset + datalen) % 2 ^ 64
    let strm1 := { strm with rob := ngtcp2_rob_remove_prefix strm.rob rx_offset1 }
    let r := conn_call_recv_stream_data conn strm1 fr.fin data
    if r.1 ≠ 0 then
      some (r.1, conn_store_strm r.2 strm1)
    else
      match conn_emit_pending_stream_data r.2 strm1 rx_offset1 with
      | none => none
      | some (rv, conn2, strm2) =>
        if rv ≠ 0 then
          some (rv, conn_store_strm conn2 strm2)
        else
          some (ngtcp2_conn_close_stream_if_shut_rdwr (conn_store_strm conn2 strm2) strm2)
  else
    let r := ngtcp2_strm_recv_reordering strm fr conn.mem
    let conn1 := conn_store_strm { conn with mem := r.2.2 } r.2.1
    if r.1 ≠ 0 then
      some (r.1, conn1)
    else
      some (ngtcp2_conn_close_stream_if_shut_rdwr conn1 r.2.1)

/-- Embedding of the part of `conn_recv_stream` that follows the flow-control
checks: `last_rx_offset` is raised to the end of the frame, a fin frame
shuts down the read side and must end at `last_rx_offset`, and the frame is
delivered or stored. `fr_end_offset` is the local variable of that name. -/
def conn_recv_stream_accept (conn : ngtcp2_conn) (strm : ngtcp2_strm) (fr : ngtcp2_stream)
    (fr_end_offset : Nat) : Option (Int × ngtcp2_conn) :=
  let strm1 := { strm with last_rx_offset := max strm.last_rx_offset fr_end_offset }
  if fr.fin then
    let strm2 := ngtcp2_strm_shutdown strm1 NGTCP2_STRM_FLAG_SHUT_RD
    if strm2.last_rx_offset ≠ fr_end_offset then
      some (NGTCP2_ERR_PROTO, conn_store_strm conn strm2)
    else
      let rx_offset := ngtcp2_strm_rx_offset strm2
      if fr_end_offset = rx_offset then
        let r := conn_call_recv_stream_data conn strm2 true []
        if r.1 ≠ 0 then
          some (r.1, conn_store_strm r.2 strm2)
        else
          some (ngtcp2_conn_close_stream_if_shut_rdwr (conn_store_strm r.2 strm2) strm2)
      else
        conn_recv_stream_deliver conn strm2 fr rx_offset
  else
    let rx_offset := ngtcp2_strm_rx_offset strm1
    if fr_end_offset ≤ rx_offset then
      some (ngtcp2_conn_close_stream_if_shut_rdwr (conn_store_strm conn strm1) strm1)
    else
      conn_recv_stream_deliver conn strm1 fr rx_offset

/-- The connection after `ngtcp2_increment_offset(&conn->rx_offset_high,
&conn->rx_offset_low, datalen)`. -/
def conn_increment_rx_offset (conn : ngtcp2_conn) (datalen : Nat) : ngtcp2_conn :=
  { conn with
    rx_offset_high := (ngtcp2_increment_offset conn.rx_offset_high conn.rx_offset_low datalen).1
    rx_offset_low := (ngtcp2_increment_offset conn.rx_offset_high conn.rx_offset_low datalen).2 }

/-- Embedding of the part of `conn_recv_stream` that follows the lookup or
creation of the stream: the flow control of the stream and of the
connection, then the rest of the function. `strm` is the stream of the frame
as it is in the map of `conn`. -/
def conn_recv_stream_strm (conn : ngtcp2_conn) (strm : ngtcp2_strm) (fr : ngtcp2_stream) :
    Option (Int × ngtcp2_conn) :=
  let fr_end_offset := (fr.offset + fr.datalen) % 2 ^ 64
  if strm.max_rx_offset < fr_end_offset then
    some (NGTCP2_ERR_FLOW_CONTROL, conn)
  else if strm.last_rx_offset < fr_end_offset then
    let datalen := fr_end_offset - strm.last_rx_offset
    if conn_max_data_violated conn datalen then
      some (NGTCP2_ERR_FLOW_CONTROL, conn)
    else
      conn_recv_stream_accept (conn_increment_rx_offset conn datalen) strm fr fr_end_offset
  else
    conn_recv_stream_accept conn strm fr fr_end_offset

/-- Embedding of `conn_recv_stream`: the return value and the connection
after the call; `none` only if the delivery loop ran out of fuel. -/
def conn_recv_stream (conn : ngtcp2_conn) (fr : ngtcp2_stream) : Option (Int × ngtcp2_conn) :=
  if fr.stream_id = 0 then
    some (0, conn)
  else
    let local_stream := conn_local_stream conn fr.stream_id
    if !local_stream && decide (conn.local_settings.max_stream_id < fr.stream_id) then
      some (NGTCP2_ERR_PROTO, conn)
    else if UINT64_MAX - fr.datalen < fr.offset then
      some (NGTCP2_ERR_PROTO, conn)
    else
      match ngtcp2_conn_find_stream conn fr.stream_id with
      | some strm => conn_recv_stream_strm conn strm fr
      | none =>
        let o :=
          if local_stream then
            (ngtcp2_idtr_is_open conn.local_idtr (id_from_stream_id fr.stream_id), conn)
          else
            let r := ngtcp2_idtr_open conn.remote_idtr (id_from_stream_id fr.stream_id) conn.mem
            (r.1, { conn with remote_idtr := r.2.1, mem := r.2.2 })
        if o.1 ≠ 0 then
          if o.1 = NGTCP2_ERR_STREAM_IN_USE then some (0, o.2) else some (o.1, o.2)
        else
          let a := ngtcp2_mem_malloc o.2.mem
          if !a.1 then
            some (NGTCP2_ERR_NOMEM, { o.2 with mem := a.2 })
          else
            let i := ngtcp2_conn_init_stream { o.2 with mem := a.2 } fr.stream_id
            if i.1 ≠ 0 then
              some (i.1, i.2.1)
            else
              conn_recv_stream_strm i.2.1 i.2.2 fr

/-! ## Acknowledgements and the delayed-ack timer -/

/-- The function `conn_set_next_ack_expiry`. The constant
`NGTCP2_DELAYED_ACK_TIMEOUT` is defined in a header that is not among the
sources at hand and is a parameter; the sum is taken in 64 bits. -/
def conn_set_next_ack_expiry (NGTCP2_DELAYED_ACK_TIMEOUT : Nat) (conn : ngtcp2_conn)
    (ts : Nat) : ngtcp2_conn :=
  { conn with next_ack_expiry := (ts + NGTCP2_DELAYED_ACK_TIMEOUT) % 2 ^ 64 }

/-- The function `conn_invalidate_next_ack_expiry`. -/
def conn_invalidate_next_ack_expiry (conn : ngtcp2_conn) : ngtcp2_conn :=
  { conn with next_ack_expiry := 0 }

/-- The local variables of `conn_create_ack_frame` and the frame under
construction. -/
structure ack_frame_state where
  first_pkt_num : Nat
  last_pkt_num : Nat
  ack_delay : Nat
  gap : Nat
  initial : Bool
  ack : ngtcp2_ack

/-- The three assignments `ack->largest_ack = ...`, `ack->ack_delay = ...`,
`ack->first_ack_blklen = ...` of `conn_create_ack_frame`. -/
def ack_set_first_blk (st : ack_frame_state) : ngtcp2_ack :=
  { st.ack with
    largest_ack := st.first_pkt_num
    ack_delay := st.ack_delay % 2 ^ 16
    first_ack_blklen := (st.first_pkt_num + 2 ^ 64 - st.last_pkt_num) % 2 ^ 64 }

/-- The three statements `blk = &ack->blks[ack->num_blks++]`,
`blk->gap = (uint8_t)gap`, `blk->blklen = first_pkt_num - last_pkt_num + 1`
of `conn_create_ack_frame`. -/
def ack_add_blk (st : ack_frame_state) : ngtcp2_ack :=
  { st.ack with
    blks := st.ack.blks ++
      [{ gap := st.gap % 2 ^ 8
         blklen := (st.first_pkt_num + 2 ^ 64 - st.last_pkt_num + 1) % 2 ^ 64 }] }

/-- The statements of the loop of `conn_create_ack_frame` from `if (initial)`
through the assignment of `gap`, run when the record `rpkt` does not continue
the present run: the block of the present run is written and the gap below
it is computed. -/
def ack_loop_gap (st : ack_frame_state) (rpkt : ngtcp2_acktr_entry) : ack_frame_state :=
  let st1 : ack_frame_state :=
    if st.initial then { st with initial := false, ack := ack_set_first_blk st }
    else { st with ack := ack_add_blk st }
  { st1 with gap := (st1.last_pkt_num + 2 ^ 64 - rpkt.pkt_num - 1) % 2 ^ 64 }

/-- The assignment `first_pkt_num = last_pkt_num = rpkt->pkt_num` that starts
the next run. -/
def ack_loop_start_run (st : ack_frame_state) (rpkt : ngtcp2_acktr_entry) : ack_frame_state :=
  { st with first_pkt_num := rpkt.pkt_num, last_pkt_num := rpkt.pkt_num }

/-- The `for` loop of `conn_create_ack_frame`. `ngtcp2_acktr_get` peeks the
head of the tracker and the loop removes no record other than that head, so
the loop runs down the list of records: the first component of the result
holds the locals and the frame at the exit of the loop, the second the
records left in the tracker. -/
def conn_create_ack_frame_loop :
    List ngtcp2_acktr_entry → ack_frame_state → ack_frame_state × List ngtcp2_acktr_entry
  | [], st => (st, [])
  | rpkt :: rest, st =>
    if (rpkt.pkt_num + 1) % 2 ^ 64 = st.last_pkt_num then
      conn_create_ack_frame_loop rest { st with last_pkt_num := rpkt.pkt_num }
    else
      let st2 := ack_loop_gap st rpkt
      if st2.gap > 255 then (st2, rpkt :: rest)
      else
        let st3 := ack_loop_start_run st2 rpkt
        if st3.ack.num_blks = 255 then (st3, rest)
        else conn_create_ack_frame_loop rest st3

/-- The statements of `conn_create_ack_frame` between the loop and the last
test of the tracker. -/
def ack_frame_finish (st : ack_frame_state) : ngtcp2_ack :=
  if st.initial then ack_set_first_blk st
  else if st.first_pkt_num ≠ st.last_pkt_num then ack_add_blk st
  else st.ack

/-- The statements of `conn_create_ack_frame` between the first
`ngtcp2_acktr_get` and the loop, for the head `rpkt` of the tracker. The
local `gap` is not initialised in the source and not read before it is
assigned; it starts at 0 here. -/
def ack_frame_init (rpkt : ngtcp2_acktr_entry) (ack : ngtcp2_ack) (ts : Nat) :
    ack_frame_state :=
  { first_pkt_num := rpkt.pkt_num
    last_pkt_num := rpkt.pkt_num
    ack_delay := (ts + 2 ^ 64 - rpkt.tstamp) % 2 ^ 64
    gap := 0
    initial := true
    ack := { ack with type := NGTCP2_FRAME_ACK, num_ts := 0, blks := [] } }

/-- The function `conn_create_ack_frame`: result code, connection and the
frame `*ack`. The records are freed with `ngtcp2_acktr_entry_del`, which does
not fail. -/
def conn_create_ack_frame (conn : ngtcp2_conn) (ack : ngtcp2_ack) (ts : Nat) :
    Int × ngtcp2_conn × ngtcp2_ack :=
  match ngtcp2_acktr_get conn.acktr with
  | none => (0, conn_invalidate_next_ack_expiry conn, ack)
  | some rpkt =>
    let r := conn_create_ack_frame_loop (ngtcp2_acktr_remove conn.acktr rpkt).ent
      (ack_frame_init rpkt ack ts)
    let conn1 : ngtcp2_conn := { conn with acktr := { ent := r.2 } }
    (0,
     if ngtcp2_acktr_get conn1.acktr = none then conn_invalidate_next_ack_expiry conn1
     else conn1,
     ack_frame_finish r.1)

/-- The function `ngtcp2_conn_sched_ack`. `ngtcp2_acktr_entry_new` allocates
the record and fails with `NGTCP2_ERR_NOMEM` when the allocator does. -/
def ngtcp2_conn_sched_ack (NGTCP2_DELAYED_ACK_TIMEOUT : Nat) (conn : ngtcp2_conn)
    (pkt_num ts : Nat) : Int × ngtcp2_conn :=
  let a := ngtcp2_mem_malloc conn.mem
  if !a.1 then (NGTCP2_ERR_NOMEM, { conn with mem := a.2 })
  else
    let r := ngtcp2_acktr_add conn.acktr { pkt_num := pkt_num, tstamp := ts }
    if r.1 ≠ 0 then (r.1, { conn with mem := a.2 })
    else
      let conn1 : ngtcp2_conn := { conn with mem := a.2, acktr := r.2 }
      if conn1.next_ack_expiry = 0 then
        (0, conn_set_next_ack_expiry NGTCP2_DELAYED_ACK_TIMEOUT conn1 ts)
      else (0, conn1)

/-- The function `ngtcp2_conn_earliest_expiry`. -/
def ngtcp2_conn_earliest_expiry (conn : ngtcp2_conn) : Nat :=
  match ngtcp2_rtb_top conn.rtb with
  | none => conn.next_ack_expiry
  | some ent =>
    if conn.next_ack_expiry > 0 then min conn.next_ack_expiry ent.expiry
    else ent.expiry

/-! ## Flow-control updates of the peer and locally opened streams -/

/-- The function `conn_recv_max_stream_data`. -/
def conn_recv_max_stream_data (conn : ngtcp2_conn) (fr : ngtcp2_max_stream_data) :
    Int × ngtcp2_conn :=
  match ngtcp2_conn_find_stream conn fr.stream_id with
  | none => (0, conn)
  | some strm =>
    (0, conn_store_strm conn
      { strm with max_tx_offset := max strm.max_tx_offset fr.max_stream_data })

/-- The function `conn_recv_max_data`. -/
def conn_recv_max_data (conn : ngtcp2_conn) (fr : ngtcp2_max_data) : ngtcp2_conn :=
  { conn with max_tx_offset_high := max conn.max_tx_offset_high fr.max_data }

/-- The function `ngtcp2_conn_open_stream`. The user data pointer of the
stream is not part of the stream of this development. -/
def ngtcp2_conn_open_stream (conn : ngtcp2_conn) (stream_id : Nat) : Int × ngtcp2_conn :=
  if !conn_local_stream conn stream_id then (NGTCP2_ERR_INVALID_ARGUMENT, conn)
  else if stream_id > conn.remote_settings.max_stream_id then
    (NGTCP2_ERR_STREAM_ID_BLOCKED, conn)
  else
    match ngtcp2_conn_find_stream conn stream_id with
    | some _ => (NGTCP2_ERR_STREAM_IN_USE, conn)
    | none =>
      let r := ngtcp2_idtr_open conn.local_idtr (id_from_stream_id stream_id) conn.mem
      let conn1 : ngtcp2_conn := { conn with local_idtr := r.2.1, mem := r.2.2 }
      if r.1 ≠ 0 then (r.1, conn1)
      else
        let a := ngtcp2_mem_malloc conn1.mem
        if !a.1 then (NGTCP2_ERR_NOMEM, { conn1 with mem := a.2 })
        else
          let i := ngtcp2_conn_init_stream { conn1 with mem := a.2 } stream_id
          if i.1 ≠ 0 then (i.1, i.2.1) else (0, i.2.1)

/-! ## Callbacks, encoders and frame chains of the send path -/

/-- The function `conn_call_send_pkt`. -/
def conn_call_send_pkt (conn : ngtcp2_conn) (hd : ngtcp2_pkt_hd) : Int :=
  match conn.send_pkt with
  | none => 0
  | some cb => if cb hd ≠ 0 then NGTCP2_ERR_CALLBACK_FAILURE else 0

/-- The function `conn_call_send_frame`. -/
def conn_call_send_frame (conn : ngtcp2_conn) (hd : ngtcp2_pkt_hd) (fr : ngtcp2_frame) : Int :=
  match conn.send_frame with
  | none => 0
  | some cb => if cb hd fr ≠ 0 then NGTCP2_ERR_CALLBACK_FAILURE else 0

/-- Modelled from the spec: `ngtcp2_ppe_init` with the AEAD overhead of the
connection. -/
def ngtcp2_ppe_init (conn : ngtcp2_conn) (destlen : Nat) : ngtcp2_pe :=
  { destlen := destlen, overhead := conn.aead_overhead, len := 0, frames := [] }

/-- Modelled from the spec: `ngtcp2_ppe_final` seals the packet through the
`encrypt` callback and returns the length of the packet, or
`NGTCP2_ERR_CALLBACK_FAILURE` when the callback fails. -/
def ngtcp2_ppe_final (conn : ngtcp2_conn) (hd : ngtcp2_pkt_hd) (pe : ngtcp2_pe) : Int :=
  if conn.encrypt hd pe.frames ≠ 0 then NGTCP2_ERR_CALLBACK_FAILURE
  else ((pe.len + pe.overhead : Nat) : Int)

/-- Modelled from the spec: `ngtcp2_frame_chain_new` allocates a link of a
frame chain. -/
def ngtcp2_frame_chain_new (mem : ngtcp2_mem) : Int × ngtcp2_mem :=
  let a := ngtcp2_mem_malloc mem
  ((if !a.1 then NGTCP2_ERR_NOMEM else 0), a.2)

/-- The stream `conn->strm0`, which is stream 0 of the map. The pointer
dangles when stream 0 has left the map; a fresh stream without credit stands
for it then. -/
def conn_strm0 (conn : ngtcp2_conn) : ngtcp2_strm :=
  (conn.strms 0).getD (ngtcp2_strm_init 0 NGTCP2_STRM_FLAG_NONE 0 0)

/-- The frame `localfr` after `localfr.type = !NGTCP2_FRAME_ACK`: its type is
0, which is not the type of an ACK frame. The other fields are not initialised
in the source and are 0 here. -/
def ack_frame_unset : ngtcp2_ack :=
  { type := 0, largest_ack := 0, ack_delay := 0, first_ack_blklen := 0, num_ts := 0, blks := [] }

/-- The locals of the loops that encode a chain of frames into a packet, in
`conn_retransmit_unprotected`, `conn_retransmit_protected` and
`conn_send_pkt`: `rv`, the encoder, `pkt_empty`, `send_pkt_cb_called`, and the
frames `sent` of the chain that lie before `*pfrc`. `mem` is the allocator of
the connection. -/
structure pkt_loop_state where
  rv : Int
  mem : ngtcp2_mem
  pe : ngtcp2_pe
  pkt_empty : Bool
  send_pkt_cb_called : Bool
  sent : List ngtcp2_frame

/-- How a loop over a frame chain was left: it ran on to the next frame (and
in the end off the chain), by `break`, or by `return rv`. -/
inductive loop_ctl where
  | next
  | brk
  | ret
deriving DecidableEq, Repr

/-! ## Retransmission -/

/-- The test of `conn_retransmit_unprotected` for a frame that is not sent
again: a MAX_STREAM_DATA frame below `unsent_max_rx_offset` of stream 0. -/
def conn_retransmit_unprotected_stale (conn : ngtcp2_conn) : ngtcp2_frame → Bool
  | ngtcp2_frame.max_stream_data fr =>
    decide (fr.max_stream_data < (conn_strm0 conn).unsent_max_rx_offset)
  | _ => false

/-- The `switch` of `conn_retransmit_protected` for a frame that is not sent
again. -/
def conn_retransmit_protected_stale (conn : ngtcp2_conn) : ngtcp2_frame → Bool
  | ngtcp2_frame.max_stream_id max_stream_id =>
    decide (max_stream_id < conn.max_remote_stream_id)
  | ngtcp2_frame.max_stream_data fr =>
    match ngtcp2_conn_find_stream conn fr.stream_id with
    | none => true
    | some strm => decide (fr.max_stream_data < strm.max_rx_offset)
  | ngtcp2_frame.max_data fr => decide (fr.max_data < conn.max_rx_offset_high)
  | _ => false

/-- The statements of the loops of `conn_retransmit_unprotected` and
`conn_retransmit_protected` from the call of the encoder on, for the frame
`fr` at `*pfrc`. A frame that the encoder refuses with `NGTCP2_ERR_NOBUF`
ends the loop; the source goes on after any other error of the encoder. -/
def conn_retransmit_encode (W : ngtcp2_wire) (conn : ngtcp2_conn) (hd : ngtcp2_pkt_hd)
    (st : pkt_loop_state) (fr : ngtcp2_frame) : pkt_loop_state × loop_ctl :=
  let e := ngtcp2_pe_encode_frame W st.pe fr
  if e.1 ≠ 0 ∧ e.1 = NGTCP2_ERR_NOBUF then ({ st with rv := e.1 }, loop_ctl.brk)
  else
    let rv1 := if st.send_pkt_cb_called then e.1 else conn_call_send_pkt conn hd
    if !st.send_pkt_cb_called && decide (rv1 ≠ 0) then
      ({ st with rv := rv1, pe := e.2 }, loop_ctl.ret)
    else
      let rv2 := conn_call_send_frame conn hd fr
      if rv2 ≠ 0 then
        ({ st with rv := rv2, pe := e.2, send_pkt_cb_called := true }, loop_ctl.ret)
      else
        ({ st with
           rv := rv2
           pe := e.2
           pkt_empty := false
           send_pkt_cb_called := true
           sent := st.sent ++ [fr] }, loop_ctl.next)

/-- The `for` loop over the frame chain of the entry in
`conn_retransmit_unprotected` and in `conn_retransmit_protected`; the two
loops differ in the test `stale` alone. A stale frame is unlinked and deleted.
The result holds the locals, the frames from `*pfrc` on, and how the loop was
left. -/
def conn_retransmit_frc_loop (W : ngtcp2_wire) (conn : ngtcp2_conn) (hd : ngtcp2_pkt_hd)
    (stale : ngtcp2_frame → Bool) :
    List ngtcp2_frame → pkt_loop_state → pkt_loop_state × List ngtcp2_frame × loop_ctl
  | [], st => (st, [], loop_ctl.next)
  | fr :: frc, st =>
    if stale fr then conn_retransmit_frc_loop W conn hd stale frc st
    else
      let en := conn_retransmit_encode W conn hd st fr
      if en.2 ≠ loop_ctl.next then (en.1, fr :: frc, en.2)
      else conn_retransmit_frc_loop W conn hd stale frc en.1

/-- The three statements `nent->frc = ent->frc; ent->frc = *pfrc; *pfrc = NULL`
(and their like in `conn_send_pkt`): the chain of the new entry and the chain
left behind, for the frames `sent` before `*pfrc` and the frames `rest` from
`*pfrc` on. When no frame lies before `*pfrc`, `pfrc` points to the head
itself, the second statement changes nothing and the third empties the chain
left behind. -/
def frame_chain_split (sent rest : List ngtcp2_frame) : List ngtcp2_frame × List ngtcp2_frame :=
  if sent = [] then (rest, []) else (sent, rest)

/-- The statements of `conn_retransmit_unprotected` after the loop, for the
header `hd` of the packet and the result `l` of the loop. -/
def conn_retransmit_unprotected_finish (W : ngtcp2_wire) (conn : ngtcp2_conn)
    (hd : ngtcp2_pkt_hd) (ent : ngtcp2_rtb_entry) (ts : Nat)
    (l : pkt_loop_state × List ngtcp2_frame × loop_ctl) :
    Int × ngtcp2_conn × ngtcp2_rtb_entry × Option ngtcp2_pkt :=
  if l.2.2 = loop_ctl.ret then (l.1.rv, conn, { ent with frc := l.1.sent ++ l.2.1 }, none)
  else if l.1.pkt_empty then (l.1.rv, conn, { ent with frc := l.1.sent ++ l.2.1 }, none)
  else if l.2.1 = [] then
    let ent1 : ngtcp2_rtb_entry :=
      { ent with
        pkt_num := hd.pkt_num
        expiry := (ts + W.NGTCP2_INITIAL_EXPIRY) % 2 ^ 64
        frc := l.1.sent }
    if hd.type = NGTCP2_PKT_CLIENT_INITIAL then
      let p := ngtcp2_upe_padding l.1.pe
      let rv := conn_call_send_frame conn hd (ngtcp2_frame.padding p.1)
      if rv ≠ 0 then (rv, conn, ent1, none)
      else
        (ngtcp2_upe_final p.2,
         { conn with next_tx_pkt_num := (conn.next_tx_pkt_num + 1) % 2 ^ 64 },
         ent1, some { hd := hd, frames := p.2.frames })
    else
      (ngtcp2_upe_final l.1.pe,
       { conn with next_tx_pkt_num := (conn.next_tx_pkt_num + 1) % 2 ^ 64 },
       ent1, some { hd := hd, frames := l.1.pe.frames })
  else
    let n := ngtcp2_rtb_entry_new hd [] ((ts + W.NGTCP2_INITIAL_EXPIRY) % 2 ^ 64) conn.mem
    if n.1 ≠ 0 then (n.1, { conn with mem := n.2.2 }, { ent with frc := l.1.sent ++ l.2.1 }, none)
    else
      let nent : ngtcp2_rtb_entry := { n.2.1 with frc := (frame_chain_split l.1.sent l.2.1).1 }
      let ent1 : ngtcp2_rtb_entry := { ent with frc := (frame_chain_split l.1.sent l.2.1).2 }
      let r := ngtcp2_rtb_add conn.rtb nent n.2.2
      if r.1 ≠ 0 then (r.1, { conn with mem := r.2.2 }, ent1, none)
      else
        (ngtcp2_upe_final l.1.pe,
         { conn with
           rtb := r.2.1
           mem := r.2.2
           next_tx_pkt_num := (conn.next_tx_pkt_num + 1) % 2 ^ 64 },
         ent1, some { hd := hd, frames := l.1.pe.frames })

/-- The function `conn_retransmit_unprotected`: result, connection, the entry
`ent` as the function leaves it, and the packet written when the result is
the length of a packet. -/
def conn_retransmit_unprotected (W : ngtcp2_wire) (conn : ngtcp2_conn) (destlen : Nat)
    (ent : ngtcp2_rtb_entry) (ts : Nat) :
    Int × ngtcp2_conn × ngtcp2_rtb_entry × Option ngtcp2_pkt :=
  let hd : ngtcp2_pkt_hd := { ent.hd with pkt_num := conn.next_tx_pkt_num }
  let h := ngtcp2_pe_encode_hd W (ngtcp2_upe_init W destlen) hd
  if h.1 ≠ 0 then (h.1, conn, ent, none)
  else
    conn_retransmit_unprotected_finish W conn hd ent ts
      (conn_retransmit_frc_loop W conn hd (conn_retransmit_unprotected_stale conn) ent.frc
        { rv := h.1, mem := conn.mem, pe := h.2, pkt_empty := true, send_pkt_cb_called := false,
          sent := [] })

/-- The statements of `conn_retransmit_protected` that put an ACK frame first
when the delayed-ack timer has expired: result (not 0 when the function
returns there), connection and the locals before the loop. -/
def conn_retransmit_protected_ack (W : ngtcp2_wire) (conn : ngtcp2_conn) (hd : ngtcp2_pkt_hd)
    (pe : ngtcp2_pe) (ts : Nat) : Int × ngtcp2_conn × pkt_loop_state :=
  let st0 : pkt_loop_state :=
    { rv := 0, mem := conn.mem, pe := pe, pkt_empty := true, send_pkt_cb_called := false,
      sent := [] }
  if conn.next_ack_expiry ≠ 0 ∧ conn.next_ack_expiry ≤ ts then
    let c := conn_create_ack_frame conn ack_frame_unset ts
    if c.1 ≠ 0 then (c.1, c.2.1, st0)
    else if c.2.2.type = NGTCP2_FRAME_ACK then
      let e := ngtcp2_pe_encode_frame W pe (ngtcp2_frame.ack c.2.2)
      if e.1 ≠ 0 then (e.1, c.2.1, st0)
      else
        let rv1 := conn_call_send_pkt c.2.1 hd
        if rv1 ≠ 0 then (rv1, c.2.1, st0)
        else
          let rv2 := conn_call_send_frame c.2.1 hd (ngtcp2_frame.ack c.2.2)
          if rv2 ≠ 0 then (rv2, c.2.1, st0)
          else
            (0, c.2.1,
             { st0 with pe := e.2, pkt_empty := false, send_pkt_cb_called := true })
    else (0, c.2.1, st0)
  else (0, conn, st0)

/-- The statements of `conn_retransmit_protected` after the loop, for the
header `hd` of the packet and the result `l` of the loop. -/
def conn_retransmit_protected_finish (W : ngtcp2_wire) (conn : ngtcp2_conn)
    (hd : ngtcp2_pkt_hd) (ent : ngtcp2_rtb_entry) (ts : Nat)
    (l : pkt_loop_state × List ngtcp2_frame × loop_ctl) :
    Int × ngtcp2_conn × ngtcp2_rtb_entry × Option ngtcp2_pkt :=
  if l.2.2 = loop_ctl.ret then (l.1.rv, conn, { ent with frc := l.1.sent ++ l.2.1 }, none)
  else if l.1.pkt_empty then (l.1.rv, conn, { ent with frc := l.1.sent ++ l.2.1 }, none)
  else if l.2.1 = [] then
    let ent1 : ngtcp2_rtb_entry :=
      { ent with
        pkt_num := hd.pkt_num
        expiry := (ts + W.NGTCP2_INITIAL_EXPIRY) % 2 ^ 64
        frc := l.1.sent }
    let nwrite := ngtcp2_ppe_final conn hd l.1.pe
    if nwrite < 0 then (nwrite, conn, ent1, none)
    else
      (nwrite, { conn with next_tx_pkt_num := (conn.next_tx_pkt_num + 1) % 2 ^ 64 },
       ent1, some { hd := hd, frames := l.1.pe.frames })
  else
    let n := ngtcp2_rtb_entry_new hd [] ((ts + W.NGTCP2_INITIAL_EXPIRY) % 2 ^ 64) conn.mem
    if n.1 ≠ 0 then
      (n.1, { conn with mem := n.2.2 }, { ent with frc := l.1.sent ++ l.2.1 }, none)
    else
      let nent : ngtcp2_rtb_entry := { n.2.1 with frc := (frame_chain_split l.1.sent l.2.1).1 }
      let ent1 : ngtcp2_rtb_entry := { ent with frc := (frame_chain_split l.1.sent l.2.1).2 }
      let r := ngtcp2_rtb_add conn.rtb nent n.2.2
      if r.1 ≠ 0 then (r.1, { conn with mem := r.2.2 }, ent1, none)
      else
        let conn2 : ngtcp2_conn := { conn with rtb := r.2.1, mem := r.2.2 }
        let nwrite := ngtcp2_ppe_final conn2 hd l.1.pe
        if nwrite < 0 then (nwrite, conn2, ent1, none)
        else
          (nwrite, { conn2 with next_tx_pkt_num := (conn2.next_tx_pkt_num + 1) % 2 ^ 64 },
           ent1, some { hd := hd, frames := l.1.pe.frames })

/-- The function `conn_retransmit_protected`: result, connection, the entry
`ent` as the function leaves it, and the packet written when the result is
the length of a packet. -/
def conn_retransmit_protected (W : ngtcp2_wire) (conn : ngtcp2_conn) (destlen : Nat)
    (ent : ngtcp2_rtb_entry) (ts : Nat) :
    Int × ngtcp2_conn × ngtcp2_rtb_entry × Option ngtcp2_pkt :=
  let hd : ngtcp2_pkt_hd := { ent.hd with pkt_num := conn.next_tx_pkt_num }
  let h := ngtcp2_pe_encode_hd W (ngtcp2_ppe_init conn destlen) hd
  if h.1 ≠ 0 then (h.1, conn, ent, none)
  else
    let a := conn_retransmit_protected_ack W conn hd h.2 ts
    if a.1 ≠ 0 then (a.1, a.2.1, ent, none)
    else
      conn_retransmit_protected_finish W a.2.1 hd ent ts
        (conn_retransmit_frc_loop W a.2.1 hd (conn_retransmit_protected_stale a.2.1) ent.frc
          a.2.2)

/-- Whether `conn_retransmit` knows how to retransmit a packet with the header
of the entry: the two `switch` statements on `ent->hd.type`. -/
def conn_retransmit_supported (ent : ngtcp2_rtb_entry) : Bool :=
  if ent.flags &&& NGTCP2_PKT_FLAG_LONG_FORM ≠ 0 then
    decide (ent.type = NGTCP2_PKT_CLIENT_INITIAL ∨ ent.type = NGTCP2_PKT_SERVER_CLEARTEXT ∨
      ent.type = NGTCP2_PKT_CLIENT_CLEARTEXT)
  else
    decide (ent.type = NGTCP2_PKT_01 ∨ ent.type = NGTCP2_PKT_02 ∨ ent.type = NGTCP2_PKT_03)

/-- The statements of a round of the loop of `conn_retransmit` after the entry
`ent` is popped, for a result `r` of `conn_retransmit_unprotected` or
`conn_retransmit_protected` that is not 0. -/
def conn_retransmit_done (r : Int × ngtcp2_conn × ngtcp2_rtb_entry × Option ngtcp2_pkt) :
    Int × ngtcp2_conn × Option ngtcp2_pkt :=
  if r.1 ≤ 0 then
    if r.1 = NGTCP2_ERR_NOBUF then
      let a := ngtcp2_rtb_add r.2.1.rtb r.2.2.1 r.2.1.mem
      if a.1 ≠ 0 then (a.1, { r.2.1 with mem := a.2.2 }, none)
      else (r.1, { r.2.1 with rtb := a.2.1, mem := a.2.2 }, none)
    else (r.1, r.2.1, none)
  else
    let a := ngtcp2_rtb_add r.2.1.rtb r.2.2.1 r.2.1.mem
    if a.1 ≠ 0 then (a.1, { r.2.1 with mem := a.2.2 }, none)
    else (r.1, { r.2.1 with rtb := a.2.1, mem := a.2.2 }, r.2.2.2)

/-- The call of `conn_retransmit_unprotected` or of
`conn_retransmit_protected` in `conn_retransmit`, by the form of the header
of the entry. -/
def conn_retransmit_entry (W : ngtcp2_wire) (conn : ngtcp2_conn) (destlen : Nat)
    (ent : ngtcp2_rtb_entry) (ts : Nat) :
    Int × ngtcp2_conn × ngtcp2_rtb_entry × Option ngtcp2_pkt :=
  if ent.flags &&& NGTCP2_PKT_FLAG_LONG_FORM ≠ 0 then
    conn_retransmit_unprotected W conn destlen ent ts
  else conn_retransmit_protected W conn destlen ent ts

/-- The loop `for (;;)` of `conn_retransmit`, with `fuel` bounding the number
of its rounds; `none` when the fuel runs out. -/
def conn_retransmit_loop (W : ngtcp2_wire) (destlen ts : Nat) :
    Nat → ngtcp2_conn → Option (Int × ngtcp2_conn × Option ngtcp2_pkt)
  | 0, _ => none
  | fuel + 1, conn =>
    match ngtcp2_rtb_top conn.rtb with
    | none => some (0, conn, none)
    | some ent =>
      if ent.expiry > ts then some (0, conn, none)
      else if !conn_retransmit_supported ent then
        some (NGTCP2_ERR_INVALID_ARGUMENT, { conn with rtb := ngtcp2_rtb_pop conn.rtb }, none)
      else
        let r := conn_retransmit_entry W { conn with rtb := ngtcp2_rtb_pop conn.rtb } destlen
          ent ts
        if r.1 = 0 then conn_retransmit_loop W destlen ts fuel r.2.1
        else some (conn_retransmit_done r)

/-- The function `conn_retransmit`: every round of the loop but the last
removes an entry from the retransmission buffer, so one round more than the
buffer has entries is enough. -/
def conn_retransmit (W : ngtcp2_wire) (conn : ngtcp2_conn) (destlen ts : Nat) :
    Option (Int × ngtcp2_conn × Option ngtcp2_pkt) :=
  conn_retransmit_loop W destlen ts (conn.rtb.ents.length + 1) conn

/-! ## Handshake packets -/

/-- The locals of `conn_encode_handshake_pkt`: `rv`, the connection, the
encoder, `pkt_empty` and the chain `frc_head` of the frames to retransmit. -/
structure handshake_pkt_state where
  rv : Int
  conn : ngtcp2_conn
  pe : ngtcp2_pe
  pkt_empty : Bool
  frc_head : List ngtcp2_frame

/-- The statements of `conn_encode_handshake_pkt` that write the ACK frame.
The function returns `rv` there when `rv` is not 0. -/
def conn_encode_handshake_pkt_ack (W : ngtcp2_wire) (conn : ngtcp2_conn) (hd : ngtcp2_pkt_hd)
    (pe : ngtcp2_pe) (ts : Nat) : handshake_pkt_state :=
  let c := conn_create_ack_frame conn ack_frame_unset ts
  if c.1 ≠ 0 then { rv := c.1, conn := c.2.1, pe := pe, pkt_empty := true, frc_head := [] }
  else if c.2.2.type = NGTCP2_FRAME_ACK then
    let e := ngtcp2_pe_encode_frame W pe (ngtcp2_frame.ack c.2.2)
    if e.1 ≠ 0 then { rv := e.1, conn := c.2.1, pe := pe, pkt_empty := true, frc_head := [] }
    else
      { rv := conn_call_send_frame c.2.1 hd (ngtcp2_frame.ack c.2.2)
        conn := c.2.1, pe := e.2, pkt_empty := false, frc_head := [] }
  else { rv := 0, conn := c.2.1, pe := pe, pkt_empty := true, frc_head := [] }

/-- The statements of `conn_encode_handshake_pkt` that write the
MAX_STREAM_DATA frame of stream 0. The function returns `rv` there, or goes to
`fail`, when `rv` is not 0. -/
def conn_encode_handshake_pkt_max_stream_data (W : ngtcp2_wire) (hd : ngtcp2_pkt_hd)
    (a : handshake_pkt_state) : handshake_pkt_state :=
  let strm0 := conn_strm0 a.conn
  if strm0.max_rx_offset < strm0.unsent_max_rx_offset then
    let m := ngtcp2_frame_chain_new a.conn.mem
    if m.1 ≠ 0 then { a with rv := m.1, conn := { a.conn with mem := m.2 } }
    else
      let fr := ngtcp2_frame.max_stream_data
        { stream_id := 0, max_stream_data := strm0.unsent_max_rx_offset }
      let conn1 := conn_store_strm { a.conn with mem := m.2 }
        { strm0 with max_rx_offset := strm0.unsent_max_rx_offset }
      let e := ngtcp2_pe_encode_frame W a.pe fr
      if e.1 ≠ 0 then { a with rv := e.1, conn := conn1 }
      else
        let rv := conn_call_send_frame conn1 hd fr
        if rv ≠ 0 then { a with rv := rv, conn := conn1, pe := e.2 }
        else { rv := rv, conn := conn1, pe := e.2, pkt_empty := false, frc_head := [fr] }
  else a

/-- The block `if (type != NGTCP2_PKT_CLIENT_INITIAL)` of
`conn_encode_handshake_pkt`: the ACK frame and the MAX_STREAM_DATA frame of
stream 0. The function returns `rv` there when `rv` is not 0. -/
def conn_encode_handshake_pkt_ctrl (W : ngtcp2_wire) (conn : ngtcp2_conn) (hd : ngtcp2_pkt_hd)
    (pe : ngtcp2_pe) (type ts : Nat) : handshake_pkt_state :=
  if type ≠ NGTCP2_PKT_CLIENT_INITIAL then
    let a := conn_encode_handshake_pkt_ack W conn hd pe ts
    if a.rv ≠ 0 then a else conn_encode_handshake_pkt_max_stream_data W hd a
  else { rv := 0, conn := conn, pe := pe, pkt_empty := true, frc_head := [] }

/-- The statements of `conn_encode_handshake_pkt` that write the STREAM frame
of stream 0 from `tx_buf`. The function goes to `fail` there when `rv` is not
0. -/
def conn_encode_handshake_pkt_stream (W : ngtcp2_wire) (hd : ngtcp2_pkt_hd)
    (a : handshake_pkt_state) : handshake_pkt_state :=
  let strm0 := conn_strm0 a.conn
  let nwrite := min (min strm0.tx_buf.length (ngtcp2_pe_left a.pe - W.NGTCP2_STREAM_OVERHEAD))
    ((strm0.max_tx_offset + 2 ^ 64 - strm0.tx_offset) % 2 ^ 64)
  if nwrite > 0 then
    let m := ngtcp2_frame_chain_new a.conn.mem
    if m.1 ≠ 0 then { a with rv := m.1, conn := { a.conn with mem := m.2 } }
    else
      let fr := ngtcp2_frame.stream
        { stream_id := 0, fin := false, offset := strm0.tx_offset,
          data := strm0.tx_buf.take nwrite }
      let conn1 : ngtcp2_conn := { a.conn with mem := m.2 }
      let e := ngtcp2_pe_encode_frame W a.pe fr
      if e.1 ≠ 0 then { a with rv := e.1, conn := conn1 }
      else
        let rv := conn_call_send_frame conn1 hd fr
        if rv ≠ 0 then { a with rv := rv, conn := conn1, pe := e.2 }
        else
          { rv := rv
            conn := conn_store_strm conn1
              { strm0 with
                tx_buf := strm0.tx_buf.drop nwrite
                tx_offset := (strm0.tx_offset + nwrite) % 2 ^ 64 }
            pe := e.2
            pkt_empty := a.pkt_empty
            frc_head := a.frc_head ++ [fr] }
  else { a with rv := 0 }

/-- The statements of `conn_encode_handshake_pkt` after the STREAM frame is
written: the padding of a Client Initial packet, the packet number, and the
entry of the retransmission buffer. -/
def conn_encode_handshake_pkt_finish (W : ngtcp2_wire) (hd : ngtcp2_pkt_hd) (type ts : Nat)
    (b : handshake_pkt_state) : Int × ngtcp2_conn × Option ngtcp2_pkt :=
  let p := if type = NGTCP2_PKT_CLIENT_INITIAL then ngtcp2_upe_padding b.pe else (0, b.pe)
  let rv :=
    if type = NGTCP2_PKT_CLIENT_INITIAL ∧ p.1 > 0 then
      conn_call_send_frame b.conn hd (ngtcp2_frame.padding p.1)
    else b.rv
  if rv ≠ 0 then (rv, b.conn, none)
  else
    let conn1 : ngtcp2_conn :=
      { b.conn with next_tx_pkt_num := (b.conn.next_tx_pkt_num + 1) % 2 ^ 64 }
    if b.frc_head ≠ [] then
      let n := ngtcp2_rtb_entry_new hd b.frc_head
        ((ts + W.NGTCP2_INITIAL_EXPIRY) % 2 ^ 64) conn1.mem
      if n.1 ≠ 0 then (n.1, { conn1 with mem := n.2.2 }, none)
      else
        let r := ngtcp2_rtb_add conn1.rtb n.2.1 n.2.2
        if r.1 ≠ 0 then (r.1, { conn1 with mem := r.2.2 }, none)
        else
          (ngtcp2_upe_final p.2, { conn1 with rtb := r.2.1, mem := r.2.2 },
           some { hd := hd, frames := p.2.frames })
    else (ngtcp2_upe_final p.2, conn1, some { hd := hd, frames := p.2.frames })

/-- The function `conn_encode_handshake_pkt`. The buffer `tx_buf` is the one
of stream 0, as at every call in the source. -/
def conn_encode_handshake_pkt (W : ngtcp2_wire) (conn : ngtcp2_conn) (destlen type ts : Nat) :
    Int × ngtcp2_conn × Option ngtcp2_pkt :=
  let hd := ngtcp2_pkt_hd_init NGTCP2_PKT_FLAG_LONG_FORM type conn.next_tx_pkt_num
  let h := ngtcp2_pe_encode_hd W (ngtcp2_upe_init W destlen) hd
  if h.1 ≠ 0 then (h.1, conn, none)
  else
    let rv := conn_call_send_pkt conn hd
    if rv ≠ 0 then (rv, conn, none)
    else
      let a := conn_encode_handshake_pkt_ctrl W conn hd h.2 type ts
      if a.rv ≠ 0 then (a.rv, a.conn, none)
      else if ngtcp2_pe_left a.pe < W.NGTCP2_STREAM_OVERHEAD + 1 then
        if !a.pkt_empty then
          (ngtcp2_upe_final a.pe,
           { a.conn with next_tx_pkt_num := (a.conn.next_tx_pkt_num + 1) % 2 ^ 64 },
           some { hd := hd, frames := a.pe.frames })
        else (NGTCP2_ERR_NOBUF, a.conn, none)
      else
        let b := conn_encode_handshake_pkt_stream W hd a
        if b.rv ≠ 0 then (b.rv, b.conn, none)
        else conn_encode_handshake_pkt_finish W hd type ts b

/-- The function `conn_encode_unprotected_ack_if_any`. -/
def conn_encode_unprotected_ack_if_any (W : ngtcp2_wire) (conn : ngtcp2_conn)
    (destlen type ts : Nat) : Int × ngtcp2_conn × Option ngtcp2_pkt :=
  if ngtcp2_acktr_get conn.acktr = none then (0, conn, none)
  else
    let c := conn_create_ack_frame conn ack_frame_unset ts
    if c.1 ≠ 0 then (c.1, c.2.1, none)
    else
      let conn1 := c.2.1
      let hd := ngtcp2_pkt_hd_init NGTCP2_PKT_FLAG_LONG_FORM type conn1.next_tx_pkt_num
      let h := ngtcp2_pe_encode_hd W (ngtcp2_upe_init W destlen) hd
      if h.1 ≠ 0 then (h.1, conn1, none)
      else
        let rv := conn_call_send_pkt conn1 hd
        if rv ≠ 0 then (rv, conn1, none)
        else
          let e := ngtcp2_pe_encode_frame W h.2 (ngtcp2_frame.ack c.2.2)
          if e.1 ≠ 0 then (e.1, conn1, none)
          else
            let rv := conn_call_send_frame conn1 hd (ngtcp2_frame.ack c.2.2)
            if rv ≠ 0 then (rv, conn1, none)
            else
              (ngtcp2_upe_final e.2,
               { conn1 with next_tx_pkt_num := (conn1.next_tx_pkt_num + 1) % 2 ^ 64 },
               some { hd := hd, frames := e.2.frames })

/-- One invocation of a handshake callback: the next output of
`handshake_out`; a callback has no bytes to send once the outputs are used
up. -/
def conn_call_handshake (conn : ngtcp2_conn) : ngtcp2_handshake_out × ngtcp2_conn :=
  match conn.handshake_out with
  | [] => ({ failed := false, pkt_num := 0, payload := [] }, conn)
  | o :: rest => (o, { conn with handshake_out := rest })

/-- The function `conn_send_client_initial`. -/
def conn_send_client_initial (W : ngtcp2_wire) (conn : ngtcp2_conn) (destlen ts : Nat) :
    Int × ngtcp2_conn × Option ngtcp2_pkt :=
  let o := conn_call_handshake conn
  if o.1.payloadlen ≤ 0 then (NGTCP2_ERR_CALLBACK_FAILURE, o.2, none)
  else
    let conn1 := conn_store_strm o.2 { conn_strm0 o.2 with tx_buf := o.1.payload }
    let conn2 : ngtcp2_conn := { conn1 with next_tx_pkt_num := o.1.pkt_num }
    conn_encode_handshake_pkt W conn2 destlen NGTCP2_PKT_CLIENT_INITIAL ts

/-- The function `conn_send_client_cleartext`. -/
def conn_send_client_cleartext (W : ngtcp2_wire) (conn : ngtcp2_conn) (destlen ts : Nat) :
    Int × ngtcp2_conn × Option ngtcp2_pkt :=
  if (conn_strm0 conn).tx_buf.length = 0 then
    let o := conn_call_handshake conn
    if o.1.payloadlen < 0 then (NGTCP2_ERR_CALLBACK_FAILURE, o.2, none)
    else if o.1.payloadlen = 0 then
      conn_encode_unprotected_ack_if_any W o.2 destlen NGTCP2_PKT_CLIENT_CLEARTEXT ts
    else
      let conn1 := conn_store_strm o.2 { conn_strm0 o.2 with tx_buf := o.1.payload }
      conn_encode_handshake_pkt W conn1 destlen NGTCP2_PKT_CLIENT_CLEARTEXT ts
  else conn_encode_handshake_pkt W conn destlen NGTCP2_PKT_CLIENT_CLEARTEXT ts

/-- The function `conn_send_server_cleartext`. The local `pkt_num` starts at 0
and is written by the callback, which is not invoked while `tx_buf` holds
bytes. -/
def conn_send_server_cleartext (W : ngtcp2_wire) (conn : ngtcp2_conn) (destlen : Nat)
    (initial : Bool) (ts : Nat) : Int × ngtcp2_conn × Option ngtcp2_pkt :=
  if (conn_strm0 conn).tx_buf.length = 0 then
    let o := conn_call_handshake conn
    if o.1.payloadlen < 0 then (NGTCP2_ERR_CALLBACK_FAILURE, o.2, none)
    else if o.1.payloadlen = 0 then
      if initial then (NGTCP2_ERR_CALLBACK_FAILURE, o.2, none)
      else conn_encode_unprotected_ack_if_any W o.2 destlen NGTCP2_PKT_SERVER_CLEARTEXT ts
    else
      let conn1 := conn_store_strm o.2 { conn_strm0 o.2 with tx_buf := o.1.payload }
      let conn2 : ngtcp2_conn :=
        if initial then { conn1 with next_tx_pkt_num := o.1.pkt_num } else conn1
      conn_encode_handshake_pkt W conn2 destlen NGTCP2_PKT_SERVER_CLEARTEXT ts
  else
    let conn2 : ngtcp2_conn := if initial then { conn with next_tx_pkt_num := 0 } else conn
    conn_encode_handshake_pkt W conn2 destlen NGTCP2_PKT_SERVER_CLEARTEXT ts

/-! ## Protected packets after the handshake -/

/-- The function `conn_should_send_max_stream_data`; the difference is taken
in 64 bits. -/
def conn_should_send_max_stream_data (conn : ngtcp2_conn) (strm : ngtcp2_strm) : Bool :=
  decide (conn.local_settings.max_stream_data / 2 <
    (strm.unsent_max_rx_offset + 2 ^ 64 - strm.max_rx_offset) % 2 ^ 64)

/-- The function `conn_should_send_max_data`; the difference is taken in 64
bits. -/
def conn_should_send_max_data (conn : ngtcp2_conn) : Bool :=
  decide (conn.local_settings.max_data / 2 ≥
    (conn.max_rx_offset_high + 2 ^ 64 - conn.rx_offset_high) % 2 ^ 64)

/-- The locals of `conn_send_pkt` before the packet is encoded: `rv` (the
function returns it there when it is not 0), the connection, the frame
`ackfr` and `pkt_empty`. -/
structure send_pkt_state where
  rv : Int
  conn : ngtcp2_conn
  ackfr : ngtcp2_ack
  pkt_empty : Bool

/-- The statements of `conn_send_pkt` that build the ACK frame when the
delayed-ack timer has expired. -/
def conn_send_pkt_ack (conn : ngtcp2_conn) (ts : Nat) : send_pkt_state :=
  if conn.next_ack_expiry ≠ 0 ∧ conn.next_ack_expiry ≤ ts then
    let c := conn_create_ack_frame conn ack_frame_unset ts
    { rv := c.1, conn := c.2.1, ackfr := c.2.2
      pkt_empty := !decide (c.2.2.type = NGTCP2_FRAME_ACK) }
  else { rv := 0, conn := conn, ackfr := ack_frame_unset, pkt_empty := true }

/-- The statements of `conn_send_pkt` that put a MAX_STREAM_ID frame at the
head of the frame queue. -/
def conn_send_pkt_max_stream_id (a : send_pkt_state) : send_pkt_state :=
  if a.conn.max_remote_stream_id > a.conn.local_settings.max_stream_id then
    let m := ngtcp2_frame_chain_new a.conn.mem
    if m.1 ≠ 0 then { a with rv := m.1, conn := { a.conn with mem := m.2 } }
    else
      { a with
        rv := m.1
        conn :=
          { a.conn with
            mem := m.2
            frq := ngtcp2_frame.max_stream_id a.conn.max_remote_stream_id :: a.conn.frq
            local_settings :=
              { a.conn.local_settings with max_stream_id := a.conn.max_remote_stream_id } }
        pkt_empty := false }
  else a

/-- The statements of `conn_send_pkt` that put a MAX_DATA frame at the head
of the frame queue. -/
def conn_send_pkt_max_data (a : send_pkt_state) : send_pkt_state :=
  if (!a.pkt_empty || decide (a.conn.frq ≠ []) || conn_should_send_max_data a.conn) &&
      decide (a.conn.unsent_max_rx_offset_high > a.conn.max_rx_offset_high) then
    let m := ngtcp2_frame_chain_new a.conn.mem
    if m.1 ≠ 0 then { a with rv := m.1, conn := { a.conn with mem := m.2 } }
    else
      { a with
        rv := m.1
        conn :=
          { a.conn with
            mem := m.2
            frq := ngtcp2_frame.max_data { max_data := a.conn.unsent_max_rx_offset_high }
              :: a.conn.frq
            max_rx_offset_high := a.conn.unsent_max_rx_offset_high }
        pkt_empty := false }
  else a

/-- The loop `while (conn->fc_strms)` of `conn_send_pkt` over the streams
linked into the flow-control list, whose ids are the first argument: result
(not 0 when the function returns from the loop) and connection. A linked
stream is in the map; an id without stream is unlinked and nothing else. -/
def conn_send_pkt_fc_strms : List Nat → ngtcp2_conn → Int × ngtcp2_conn
  | [], conn => (0, { conn with fc_strms := [] })
  | id :: rest, conn =>
    let m := ngtcp2_frame_chain_new conn.mem
    if m.1 ≠ 0 then (m.1, { conn with mem := m.2, fc_strms := id :: rest })
    else
      match conn.strms id with
      | none => conn_send_pkt_fc_strms rest { conn with mem := m.2, fc_strms := rest }
      | some strm =>
        conn_send_pkt_fc_strms rest
          (conn_store_strm
            { conn with
              mem := m.2
              frq := ngtcp2_frame.max_stream_data
                { stream_id := strm.stream_id, max_stream_data := strm.unsent_max_rx_offset }
                :: conn.frq
              fc_strms := rest }
            { strm with max_rx_offset := strm.unsent_max_rx_offset })

/-- The block of the loop of `conn_send_pkt` for a STREAM frame: the loop is
left by `break` when no byte of the frame fits, and a frame of which only a
part fits, of 1024 bytes at least, is split, with a new frame for the part
that fits put before the rest. The result holds the locals, how the loop goes
on, the frame at `*pfrc` and, after a split, the frame that follows it. -/
def conn_send_pkt_split (W : ngtcp2_wire) (st : pkt_loop_state) :
    ngtcp2_frame → pkt_loop_state × loop_ctl × ngtcp2_frame × Option ngtcp2_frame
  | ngtcp2_frame.stream s =>
    if ngtcp2_pe_left st.pe ≤ W.NGTCP2_STREAM_OVERHEAD then
      (st, loop_ctl.brk, ngtcp2_frame.stream s, none)
    else
      let left := ngtcp2_pe_left st.pe - W.NGTCP2_STREAM_OVERHEAD
      if left < s.datalen then
        if left < 1024 then (st, loop_ctl.brk, ngtcp2_frame.stream s, none)
        else
          let m := ngtcp2_frame_chain_new st.mem
          if m.1 ≠ 0 then
            ({ st with rv := m.1, mem := m.2 }, loop_ctl.ret, ngtcp2_frame.stream s, none)
          else
            ({ st with rv := m.1, mem := m.2 }, loop_ctl.next,
             ngtcp2_frame.stream { s with data := s.data.take left },
             some (ngtcp2_frame.stream
               { s with offset := (s.offset + left) % 2 ^ 64, data := s.data.drop left }))
      else (st, loop_ctl.next, ngtcp2_frame.stream s, none)
  | fr => (st, loop_ctl.next, fr, none)

/-- The statements of the loop of `conn_send_pkt` from `ngtcp2_ppe_encode_frame`
on, for the frame `fr` at `*pfrc`. -/
def conn_send_pkt_encode (W : ngtcp2_wire) (conn : ngtcp2_conn) (hd : ngtcp2_pkt_hd)
    (st : pkt_loop_state) (fr : ngtcp2_frame) : pkt_loop_state × loop_ctl :=
  let e := ngtcp2_pe_encode_frame W st.pe fr
  if e.1 ≠ 0 then
    if e.1 = NGTCP2_ERR_NOBUF then ({ st with rv := e.1 }, loop_ctl.brk)
    else ({ st with rv := e.1 }, loop_ctl.ret)
  else
    let rv1 := if st.send_pkt_cb_called then e.1 else conn_call_send_pkt conn hd
    if rv1 ≠ 0 then ({ st with rv := rv1, pe := e.2 }, loop_ctl.ret)
    else
      let rv2 := conn_call_send_frame conn hd fr
      if rv2 ≠ 0 then
        ({ st with rv := rv2, pe := e.2, send_pkt_cb_called := true }, loop_ctl.ret)
      else
        ({ st with
           rv := rv2
           pe := e.2
           pkt_empty := false
           send_pkt_cb_called := true
           sent := st.sent ++ [fr] }, loop_ctl.next)

/-- The loop of `conn_send_pkt` over the frame queue, with `fuel` bounding the
number of its rounds; `none` when the fuel runs out. The result holds the
locals, the frames of the queue from `*pfrc` on, and how the loop was left. -/
def conn_send_pkt_loop (W : ngtcp2_wire) (conn : ngtcp2_conn) (hd : ngtcp2_pkt_hd) :
    Nat → List ngtcp2_frame → pkt_loop_state →
      Option (pkt_loop_state × List ngtcp2_frame × loop_ctl)
  | 0, _, _ => none
  | _ + 1, [], st => some (st, [], loop_ctl.next)
  | fuel + 1, fr :: frq, st =>
    let sp := conn_send_pkt_split W st fr
    if sp.2.1 ≠ loop_ctl.next then some (sp.1, fr :: frq, sp.2.1)
    else
      let rest := match sp.2.2.2 with
        | none => frq
        | some tail => tail :: frq
      let en := conn_send_pkt_encode W conn hd sp.1 sp.2.2.1
      if en.2 ≠ loop_ctl.next then some (en.1, sp.2.2.1 :: rest, en.2)
      else conn_send_pkt_loop W conn hd fuel rest en.1

/-- A bound on the number of rounds of the loop of `conn_send_pkt`: a round
passes a frame or splits a STREAM frame, and a split takes bytes off the
frame. -/
def frq_rounds : List ngtcp2_frame → Nat
  | [] => 0
  | ngtcp2_frame.stream s :: frq => s.datalen + 1 + frq_rounds frq
  | _ :: frq => 1 + frq_rounds frq

/-- The statements of `conn_send_pkt` that write the ACK frame into the
packet: the locals before the loop over the frame queue. The function returns
`rv` there when `rv` is not 0. -/
def conn_send_pkt_encode_ack (W : ngtcp2_wire) (conn : ngtcp2_conn) (hd : ngtcp2_pkt_hd)
    (pe : ngtcp2_pe) (ackfr : ngtcp2_ack) (pkt_empty : Bool) : pkt_loop_state :=
  let st0 : pkt_loop_state :=
    { rv := 0, mem := conn.mem, pe := pe, pkt_empty := pkt_empty,
      send_pkt_cb_called := false, sent := [] }
  if ackfr.type = NGTCP2_FRAME_ACK then
    let e := ngtcp2_pe_encode_frame W pe (ngtcp2_frame.ack ackfr)
    if e.1 ≠ 0 then { st0 with rv := e.1 }
    else
      let rv1 := conn_call_send_pkt conn hd
      if rv1 ≠ 0 then { st0 with rv := rv1, pe := e.2 }
      else
        { st0 with
          rv := conn_call_send_frame conn hd (ngtcp2_frame.ack ackfr)
          pe := e.2
          send_pkt_cb_called := true }
  else st0

/-- The statements of `conn_send_pkt` after the loop over the frame queue, for
the header `hd` of the packet and the result `l` of the loop. -/
def conn_send_pkt_finish (W : ngtcp2_wire) (conn : ngtcp2_conn) (hd : ngtcp2_pkt_hd) (ts : Nat)
    (l : pkt_loop_state × List ngtcp2_frame × loop_ctl) :
    Int × ngtcp2_conn × Option ngtcp2_pkt :=
  let conn1 : ngtcp2_conn := { conn with mem := l.1.mem, frq := l.1.sent ++ l.2.1 }
  if l.2.2 = loop_ctl.ret then (l.1.rv, conn1, none)
  else if l.1.pkt_empty then (l.1.rv, conn1, none)
  else
    let nwrite := ngtcp2_ppe_final conn1 hd l.1.pe
    if nwrite < 0 then (nwrite, conn1, none)
    else if l.1.sent ≠ [] then
      let n := ngtcp2_rtb_entry_new hd [] ((ts + W.NGTCP2_INITIAL_EXPIRY) % 2 ^ 64) conn1.mem
      if n.1 ≠ 0 then (n.1, { conn1 with mem := n.2.2 }, none)
      else
        let ent : ngtcp2_rtb_entry := { n.2.1 with frc := l.1.sent }
        let r := ngtcp2_rtb_add conn1.rtb ent n.2.2
        if r.1 ≠ 0 then (r.1, { conn1 with mem := r.2.2, frq := l.2.1 }, none)
        else
          (nwrite,
            { conn1 with
              rtb := r.2.1
              mem := r.2.2
              frq := l.2.1
              next_tx_pkt_num := (conn1.next_tx_pkt_num + 1) % 2 ^ 64 },
            some { hd := hd, frames := l.1.pe.frames })
    else
      (nwrite, { conn1 with next_tx_pkt_num := (conn1.next_tx_pkt_num + 1) % 2 ^ 64 },
        some { hd := hd, frames := l.1.pe.frames })

/-- The statements of `conn_send_pkt` from `ngtcp2_pkt_hd_init` on, for the
connection `conn`, the frame `ackfr` and `pkt_empty` as the statements before
leave them. -/
def conn_send_pkt_encode_pkt (W : ngtcp2_wire) (conn : ngtcp2_conn) (ackfr : ngtcp2_ack)
    (pkt_empty : Bool) (destlen ts : Nat) : Option (Int × ngtcp2_conn × Option ngtcp2_pkt) :=
  let hd := ngtcp2_pkt_hd_init NGTCP2_PKT_FLAG_CONN_ID NGTCP2_PKT_03 conn.next_tx_pkt_num
  let h := ngtcp2_pe_encode_hd W (ngtcp2_ppe_init conn destlen) hd
  if h.1 ≠ 0 then some (h.1, conn, none)
  else
    let a := conn_send_pkt_encode_ack W conn hd h.2 ackfr pkt_empty
    if a.rv ≠ 0 then some (a.rv, conn, none)
    else
      match conn_send_pkt_loop W conn hd (frq_rounds conn.frq + 1) conn.frq a with
      | none => none
      | some l => some (conn_send_pkt_finish W conn hd ts l)

/-- The statements of `conn_send_pkt` after the ACK frame is built, for the
locals `a` as the statements before leave them. -/
def conn_send_pkt_queue (W : ngtcp2_wire) (a : send_pkt_state) (destlen ts : Nat) :
    Option (Int × ngtcp2_conn × Option ngtcp2_pkt) :=
  let b := conn_send_pkt_max_stream_id a
  if b.rv ≠ 0 then some (b.rv, b.conn, none)
  else
    let c := conn_send_pkt_max_data b
    if c.rv ≠ 0 then some (c.rv, c.conn, none)
    else
      let d := conn_send_pkt_fc_strms c.conn.fc_strms c.conn
      if d.1 ≠ 0 then some (d.1, d.2, none)
      else
        let pkt_empty := c.pkt_empty && decide (c.conn.fc_strms = [])
        if pkt_empty && decide (d.2.frq = []) then some (0, d.2, none)
        else conn_send_pkt_encode_pkt W d.2 c.ackfr pkt_empty destlen ts

/-- The function `conn_send_pkt`. -/
def conn_send_pkt (W : ngtcp2_wire) (conn : ngtcp2_conn) (destlen ts : Nat) :
    Option (Int × ngtcp2_conn × Option ngtcp2_pkt) :=
  let a := conn_send_pkt_ack conn ts
  if a.rv ≠ 0 then some (a.rv, a.conn, none) else conn_send_pkt_queue W a destlen ts

/-- The function `ngtcp2_conn_send`. -/
def ngtcp2_conn_send (W : ngtcp2_wire) (conn : ngtcp2_conn) (destlen ts : Nat) :
    Option (Int × ngtcp2_conn × Option ngtcp2_pkt) :=
  match conn_retransmit W conn destlen ts with
  | none => none
  | some r =>
    if r.1 ≠ 0 then some r
    else
      match r.2.1.state with
      | ngtcp2_conn_state.NGTCP2_CS_CLIENT_INITIAL =>
        let s := conn_send_client_initial W r.2.1 destlen ts
        if s.1 < 0 then some s
        else
          some (s.1,
            { s.2.1 with state := ngtcp2_conn_state.NGTCP2_CS_CLIENT_WAIT_HANDSHAKE }, s.2.2)
      | ngtcp2_conn_state.NGTCP2_CS_CLIENT_WAIT_HANDSHAKE =>
        some (conn_send_client_cleartext W r.2.1 destlen ts)
      | ngtcp2_conn_state.NGTCP2_CS_CLIENT_HANDSHAKE_ALMOST_FINISHED =>
        let s := conn_send_client_cleartext W r.2.1 destlen ts
        if s.1 < 0 then some s
        else if s.1 = 0 then
          some (s.1, { s.2.1 with state := ngtcp2_conn_state.NGTCP2_CS_POST_HANDSHAKE }, s.2.2)
        else some s
      | ngtcp2_conn_state.NGTCP2_CS_SERVER_INITIAL =>
        let s := conn_send_server_cleartext W r.2.1 destlen true ts
        if s.1 < 0 then some s
        else
          some (s.1,
            { s.2.1 with state := ngtcp2_conn_state.NGTCP2_CS_SERVER_WAIT_HANDSHAKE }, s.2.2)
      | ngtcp2_conn_state.NGTCP2_CS_SERVER_WAIT_HANDSHAKE =>
        some (conn_send_server_cleartext W r.2.1 destlen false ts)
      | ngtcp2_conn_state.NGTCP2_CS_POST_HANDSHAKE => conn_send_pkt W r.2.1 destlen ts
      | ngtcp2_conn_state.NGTCP2_CS_CLOSE_WAIT => conn_send_pkt W r.2.1 destlen ts

/-! ## Stream data, flow-control credit and buffered packets -/

/-- The number `ndatalen` of bytes that `ngtcp2_conn_write_stream` sends, for
`datalen` bytes offered and `left` bytes of room in the packet: the bytes are
capped by the credit of the stream and by the credit of the connection. All
differences are taken in 64 bits. -/
def conn_write_stream_ndatalen (conn : ngtcp2_conn) (strm : ngtcp2_strm) (datalen left : Nat) :
    Nat :=
  let ndatalen1 := min (min datalen left)
    ((strm.max_tx_offset + 2 ^ 64 - strm.tx_offset) % 2 ^ 64)
  let credit_high := (conn.max_tx_offset_high + 2 ^ 64 - conn.tx_offset_high) % 2 ^ 64
  if credit_high ≤ ((ndatalen1 + conn.tx_offset_low) % 2 ^ 64) / 1024 then
    min ndatalen1 ((credit_high * 1024 % 2 ^ 64 + 2 ^ 64 - conn.tx_offset_low) % 2 ^ 64)
  else ndatalen1

/-- The statements of `ngtcp2_conn_write_stream` after the entry of the
retransmission buffer is added: the offsets and the packet number move on,
`*pdatalen` is stored, and a stream that is shut in both directions is
closed. `nwrite` is the length of the packet and `frames` are its frames. -/
def conn_write_stream_commit (conn : ngtcp2_conn) (hd : ngtcp2_pkt_hd)
    (frames : List ngtcp2_frame) (strm : ngtcp2_strm) (fin : Bool) (ndatalen : Nat)
    (nwrite : Int) : Int × ngtcp2_conn × Option Nat × Option ngtcp2_pkt :=
  let strm1 : ngtcp2_strm := { strm with tx_offset := (strm.tx_offset + ndatalen) % 2 ^ 64 }
  let o := ngtcp2_increment_offset conn.tx_offset_high conn.tx_offset_low ndatalen
  let conn2 : ngtcp2_conn :=
    conn_store_strm
      { conn with
        tx_offset_high := o.1
        tx_offset_low := o.2
        next_tx_pkt_num := (conn.next_tx_pkt_num + 1) % 2 ^ 64 }
      strm1
  let pkt : ngtcp2_pkt := { hd := hd, frames := frames }
  if fin then
    let strm2 := ngtcp2_strm_shutdown strm1 NGTCP2_STRM_FLAG_SHUT_WR
    let c := ngtcp2_conn_close_stream_if_shut_rdwr (conn_store_strm conn2 strm2) strm2
    if c.1 ≠ 0 then (c.1, c.2, some ndatalen, none)
    else (nwrite, c.2, some ndatalen, some pkt)
  else (nwrite, conn2, some ndatalen, some pkt)

/-- The statements of `ngtcp2_conn_write_stream` from `conn_call_send_pkt` on,
for the header `hd` written into the encoder `pe` and the number `ndatalen` of
bytes to send. -/
def conn_write_stream_pkt (W : ngtcp2_wire) (conn : ngtcp2_conn) (hd : ngtcp2_pkt_hd)
    (pe : ngtcp2_pe) (strm : ngtcp2_strm) (stream_id : Nat) (fin : Bool) (data : List Nat)
    (ndatalen ts : Nat) : Int × ngtcp2_conn × Option Nat × Option ngtcp2_pkt :=
  let rv := conn_call_send_pkt conn hd
  if rv ≠ 0 then (rv, conn, none, none)
  else
    let m := ngtcp2_frame_chain_new conn.mem
    if m.1 ≠ 0 then (m.1, { conn with mem := m.2 }, none, none)
    else
      let conn1 : ngtcp2_conn := { conn with mem := m.2 }
      let fr := ngtcp2_frame.stream
        { stream_id := stream_id
          fin := fin && decide (ndatalen = data.length)
          offset := strm.tx_offset
          data := data.take ndatalen }
      let e := ngtcp2_pe_encode_frame W pe fr
      if e.1 ≠ 0 then (e.1, conn1, none, none)
      else
        let rv := conn_call_send_frame conn1 hd fr
        if rv ≠ 0 then (rv, conn1, none, none)
        else
          let nwrite := ngtcp2_ppe_final conn1 hd e.2
          if nwrite < 0 then (nwrite, conn1, none, none)
          else
            let n := ngtcp2_rtb_entry_new hd [fr]
              ((ts + W.NGTCP2_INITIAL_EXPIRY) % 2 ^ 64) conn1.mem
            if n.1 ≠ 0 then (n.1, { conn1 with mem := n.2.2 }, none, none)
            else
              let r := ngtcp2_rtb_add conn1.rtb n.2.1 n.2.2
              if r.1 ≠ 0 then (r.1, { conn1 with mem := r.2.2 }, none, none)
              else
                conn_write_stream_commit { conn1 with rtb := r.2.1, mem := r.2.2 } hd
                  e.2.frames strm fin ndatalen nwrite

/-- The function `ngtcp2_conn_write_stream`: result, connection, the length
stored through `pdatalen` when the call gets that far, and the packet
written when the result is the length of a packet. -/
def ngtcp2_conn_write_stream (W : ngtcp2_wire) (conn : ngtcp2_conn) (destlen stream_id : Nat)
    (fin : Bool) (data : List Nat) (ts : Nat) :
    Int × ngtcp2_conn × Option Nat × Option ngtcp2_pkt :=
  match ngtcp2_conn_find_stream conn stream_id with
  | none => (NGTCP2_ERR_INVALID_ARGUMENT, conn, none, none)
  | some strm =>
    let hd := ngtcp2_pkt_hd_init NGTCP2_PKT_FLAG_CONN_ID NGTCP2_PKT_03 conn.next_tx_pkt_num
    let h := ngtcp2_pe_encode_hd W (ngtcp2_ppe_init conn destlen) hd
    if h.1 ≠ 0 then (h.1, conn, none, none)
    else if ngtcp2_pe_left h.2 ≤ W.NGTCP2_STREAM_OVERHEAD then
      (NGTCP2_ERR_NOBUF, conn, none, none)
    else
      let ndatalen := conn_write_stream_ndatalen conn strm data.length
        (ngtcp2_pe_left h.2 - W.NGTCP2_STREAM_OVERHEAD)
      if data.length > 0 ∧ ndatalen = 0 then (NGTCP2_ERR_STREAM_DATA_BLOCKED, conn, none, none)
      else conn_write_stream_pkt W conn hd h.2 strm stream_id fin data ndatalen ts

/-- The function `ngtcp2_conn_extend_max_stream_offset`. A stream is linked
(`fc_pprev` is not `NULL`) when its id is in `fc_strms`; a stream that gets
linked becomes the head of the list. -/
def ngtcp2_conn_extend_max_stream_offset (conn : ngtcp2_conn) (stream_id datalen : Nat) :
    Int × ngtcp2_conn :=
  if stream_id = 0 then (NGTCP2_ERR_INVALID_ARGUMENT, conn)
  else
    match ngtcp2_conn_find_stream conn stream_id with
    | none => (NGTCP2_ERR_INVALID_ARGUMENT, conn)
    | some strm =>
      let strm1 : ngtcp2_strm :=
        if strm.unsent_max_rx_offset ≤ UINT64_MAX - datalen then
          { strm with unsent_max_rx_offset := strm.unsent_max_rx_offset + datalen }
        else strm
      let conn1 := conn_store_strm conn strm1
      if !decide (strm1.stream_id ∈ conn1.fc_strms) &&
          conn_should_send_max_stream_data conn1 strm1 then
        (0, { conn1 with fc_strms := strm1.stream_id :: conn1.fc_strms })
      else (0, conn1)

/-- The loop of `conn_buffer_protected_pkt` that walks the list of buffered
packets: the value of `i` when the loop is left, for the packets from `*ppc`
on and the present `i`. -/
def conn_buffer_protected_pkt_walk (NGTCP2_MAX_NUM_BUFFED_RX_PPKTS : Nat) :
    List ngtcp2_pkt_chain → Nat → Nat
  | [], i => i
  | _ :: pcs, i =>
    if i < NGTCP2_MAX_NUM_BUFFED_RX_PPKTS then
      conn_buffer_protected_pkt_walk NGTCP2_MAX_NUM_BUFFED_RX_PPKTS pcs (i + 1)
    else i

/-- The function `conn_buffer_protected_pkt`. The constant
`NGTCP2_MAX_NUM_BUFFED_RX_PPKTS` is defined in a header that is not among the
sources at hand and is a parameter. When the walk ends below the constant,
`ppc` points to the end of the list. -/
def conn_buffer_protected_pkt (NGTCP2_MAX_NUM_BUFFED_RX_PPKTS : Nat) (conn : ngtcp2_conn)
    (pkt : List Nat) (ts : Nat) : Int × ngtcp2_conn :=
  if conn_buffer_protected_pkt_walk NGTCP2_MAX_NUM_BUFFED_RX_PPKTS conn.buffed_rx_ppkts 0
      = NGTCP2_MAX_NUM_BUFFED_RX_PPKTS then (0, conn)
  else
    let a := ngtcp2_mem_malloc conn.mem
    if !a.1 then (NGTCP2_ERR_NOMEM, { conn with mem := a.2 })
    else
      (0, { conn with
            mem := a.2
            buffed_rx_ppkts := conn.buffed_rx_ppkts ++ [{ pkt := pkt, ts := ts }] })

/-! ## Packets received -/

/-- Modelled from the spec: the error kind BAD_PKT_HASH. -/
def NGTCP2_ERR_BAD_PKT_HASH : Int := -204

/-- Modelled from the spec: the bit of the first byte of a packet that selects
the long header form ("the top bit of byte 0"). -/
def NGTCP2_HEADER_FORM_BIT : Nat := 0x80

/-- Modelled from the spec: the bits of the first byte of a long header that
hold the packet type. -/
def NGTCP2_LONG_TYPE_MASK : Nat := 0x7f

/-- Modelled from the spec: the flag of a short header in the second key
phase. -/
def NGTCP2_PKT_FLAG_KEY_PHASE : Nat := 0x04

/-- Modelled from the spec: long header type of a version negotiation
packet. -/
def NGTCP2_PKT_VERSION_NEGOTIATION : Nat := 0x01

/-- Modelled from the spec: long header type of a stateless retry packet. -/
def NGTCP2_PKT_SERVER_STATELESS_RETRY : Nat := 0x03

/-- Modelled from the spec: long header type of a protected packet of the
first key phase. -/
def NGTCP2_PKT_1RTT_PROTECTED_K0 : Nat := 0x07

/-- Modelled from the spec: long header type of a public reset packet. -/
def NGTCP2_PKT_PUBLIC_RESET : Nat := 0x09

/-- Modelled from the spec: the type of a CONNECTION_CLOSE frame. -/
def NGTCP2_FRAME_CONNECTION_CLOSE : Nat := 0x02

/-- Modelled from the spec: the collaborators of the receive path that the
spec leaves out of scope ("wire-format codecs for packet headers and
individual frames") or describes by their interface, and the constants of
headers that are not among the sources at hand.

* `verify` is `ngtcp2_pkt_verify`, 0 when the trailing hash of an unprotected
  packet is right.
* `decode_hd_long`, `decode_hd_short` and `decode_frame` return the number
  `nread` of bytes read, negative for an error, and what they decoded; they
  are given the bytes from the pointer on and the length.
* `adjust_pkt_num` is `ngtcp2_pkt_adjust_pkt_num`.
* `validate_ack` is `ngtcp2_pkt_validate_ack` and `rtb_recv_ack` is
  `ngtcp2_rtb_recv_ack`, which "walks the ack frame's ranges and removes
  matching entries".
* `decode_version_negotiation` gives the versions that
  `ngtcp2_pkt_decode_version_negotiation` writes to its destination; their
  number is its result. -/
structure ngtcp2_codec where
  NGTCP2_PKT_MDLEN : Nat
  NGTCP2_MAX_NUM_BUFFED_RX_PPKTS : Nat
  NGTCP2_DELAYED_ACK_TIMEOUT : Nat
  verify : List Nat → Nat → Int
  decode_hd_long : List Nat → Nat → Int × ngtcp2_rx_hd
  decode_hd_short : List Nat → Nat → Int × ngtcp2_rx_hd
  decode_frame : List Nat → Nat → Nat → Int × ngtcp2_frame
  adjust_pkt_num : Nat → Nat → Nat → Nat
  validate_ack : ngtcp2_ack → Int
  rtb_recv_ack : ngtcp2_rtb → ngtcp2_ack → Int × ngtcp2_rtb
  decode_version_negotiation : List Nat → Nat → List Nat

/-- The function `conn_call_recv_pkt`. -/
def conn_call_recv_pkt (conn : ngtcp2_conn) (hd : ngtcp2_rx_hd) : Int :=
  match conn.recv_pkt with
  | none => 0
  | some cb => if cb hd ≠ 0 then NGTCP2_ERR_CALLBACK_FAILURE else 0

/-- The function `conn_call_recv_frame`. -/
def conn_call_recv_frame (conn : ngtcp2_conn) (hd : ngtcp2_rx_hd) (fr : ngtcp2_frame) : Int :=
  match conn.recv_frame with
  | none => 0
  | some cb => if cb hd fr ≠ 0 then NGTCP2_ERR_CALLBACK_FAILURE else 0

/-- The function `conn_call_handshake_completed`. -/
def conn_call_handshake_completed (conn : ngtcp2_conn) : Int :=
  match conn.callbacks_handshake_completed with
  | none => 0
  | some rv => if rv ≠ 0 then NGTCP2_ERR_CALLBACK_FAILURE else 0

/-- One invocation `conn->callbacks.recv_handshake_data(conn, data, datalen,
...)`: the result of the callback, and the connection with the invocation
recorded and with `handshake_completed` set when the application calls
`ngtcp2_conn_handshake_completed` from within the callback. -/
def conn_call_recv_handshake_data (conn : ngtcp2_conn) (data : List Nat) : Int × ngtcp2_conn :=
  ((conn.recv_handshake_data conn.recv_handshake_data_calls data).1,
   { conn with
     recv_handshake_data_calls := conn.recv_handshake_data_calls ++ [data]
     handshake_completed := conn.handshake_completed ||
       (conn.recv_handshake_data conn.recv_handshake_data_calls data).2 })

/-- The function `conn_on_version_negotiation`, for the payload `pkt` of
`pktlen` bytes: result, connection, and the array and the number that the
callback `recv_version_negotiation` is handed when it is invoked. The local
array `sv` has 16 elements, none of them written at first; the versions are
decoded into `p`, which is `sv` for a payload of at most `sizeof(sv)` = 64
bytes and a fresh allocation otherwise, and the callback is handed `sv`. -/
def conn_on_version_negotiation (R : ngtcp2_codec) (conn : ngtcp2_conn) (hd : ngtcp2_rx_hd)
    (pkt : List Nat) (pktlen : Nat) :
    Int × ngtcp2_conn × Option (List (Option Nat) × Nat) :=
  if pktlen % 4 ≠ 0 then (NGTCP2_ERR_PROTO, conn, none)
  else
    match conn.recv_version_negotiation with
    | none => (0, conn, none)
    | some cb =>
      let sv : List (Option Nat) := List.replicate 16 none
      let versions := R.decode_version_negotiation pkt pktlen
      if pktlen > 64 then
        let a := ngtcp2_mem_malloc conn.mem
        if !a.1 then (NGTCP2_ERR_NOMEM, { conn with mem := a.2 }, none)
        else
          ((if cb hd sv versions.length ≠ 0 then NGTCP2_ERR_CALLBACK_FAILURE else 0),
           { conn with mem := a.2 }, some (sv, versions.length))
      else
        let sv1 := versions.map some ++ sv.drop versions.length
        ((if cb hd sv1 versions.length ≠ 0 then NGTCP2_ERR_CALLBACK_FAILURE else 0),
         conn, some (sv1, versions.length))

/-- The function `conn_recv_ack`. -/
def conn_recv_ack (R : ngtcp2_codec) (conn : ngtcp2_conn) (fr : ngtcp2_ack) :
    Int × ngtcp2_conn :=
  if R.validate_ack fr ≠ 0 then (R.validate_ack fr, conn)
  else ((R.rtb_recv_ack conn.rtb fr).1, { conn with rtb := (R.rtb_recv_ack conn.rtb fr).2 })

/-- The test `fr.type != NGTCP2_FRAME_ACK && fr.type !=
NGTCP2_FRAME_CONNECTION_CLOSE` of the loops over the frames of a packet. -/
def frame_requires_ack : ngtcp2_frame → Bool
  | ngtcp2_frame.ack _ => false
  | ngtcp2_frame.other t =>
    decide (t ≠ NGTCP2_FRAME_ACK) && decide (t ≠ NGTCP2_FRAME_CONNECTION_CLOSE)
  | _ => true

/-- The loop of `ngtcp2_conn_emit_pending_recv_handshake`; `fuel` bounds the
number of its rounds and `none` means that it ran out. The result is the
return value, the connection and the stream. The `assert` of the C code has
no effect on the state and is left out. -/
def ngtcp2_conn_emit_pending_recv_handshake_loop :
    Nat → ngtcp2_conn → ngtcp2_strm → Nat → Option (Int × ngtcp2_conn × ngtcp2_strm)
  | 0, _, _, _ => none
  | fuel + 1, conn, strm, rx_offset =>
    let data := ngtcp2_rob_data_at strm.rob rx_offset
    let datalen := data.length
    if datalen = 0 then some (0, conn, strm)
    else
      let rx_offset1 := (rx_offset + datalen) % 2 ^ 64
      let r := conn_call_recv_handshake_data conn data
      if r.1 ≠ 0 then some (r.1, r.2, strm)
      else
        let strm1 : ngtcp2_strm :=
          { strm with
            unsent_max_rx_offset := (strm.unsent_max_rx_offset + datalen) % 2 ^ 64
            rob := ngtcp2_rob_pop strm.rob ((rx_offset1 + 2 ^ 64 - datalen) % 2 ^ 64) datalen }
        ngtcp2_conn_emit_pending_recv_handshake_loop fuel r.2 strm1 rx_offset1

/-- The function `ngtcp2_conn_emit_pending_recv_handshake`. Every round that
goes on drops at least one held byte, so the loop is given one round more
than the buffer can hold bytes. -/
def ngtcp2_conn_emit_pending_recv_handshake (conn : ngtcp2_conn) (strm : ngtcp2_strm)
    (rx_offset : Nat) : Option (Int × ngtcp2_conn × ngtcp2_strm) :=
  ngtcp2_conn_emit_pending_recv_handshake_loop (strm.rob.limit - strm.rob.base + 1) conn strm
    rx_offset

/-- The statements of the loop of `conn_recv_handshake_pkt` for a STREAM frame
of stream 0 that holds data, in a packet of the type `type`: result,
connection, and whether the loop goes on or the function returns the
result. -/
def conn_recv_handshake_strm0 (conn : ngtcp2_conn) (type : Nat) (fr : ngtcp2_stream) :
    Option (Int × ngtcp2_conn × loop_ctl) :=
  if type = NGTCP2_PKT_CLIENT_INITIAL ∧ fr.offset ≠ 0 then
    some (NGTCP2_ERR_PROTO, conn, loop_ctl.ret)
  else
    let strm0 := conn_strm0 conn
    let rx_offset := ngtcp2_strm_rx_offset strm0
    let fr_end_offset := (fr.offset + fr.datalen) % 2 ^ 64
    if rx_offset ≥ fr_end_offset then some (0, conn, loop_ctl.next)
    else if strm0.max_rx_offset < fr_end_offset then
      some (NGTCP2_ERR_FLOW_CONTROL, conn, loop_ctl.ret)
    else if fr.offset ≤ rx_offset then
      let ncut := rx_offset - fr.offset
      let data := fr.data.drop ncut
      let datalen := (fr.datalen + 2 ^ 64 - ncut) % 2 ^ 64
      let rx_offset1 := (rx_offset + datalen) % 2 ^ 64
      let strm1 : ngtcp2_strm :=
        { strm0 with rob := ngtcp2_rob_remove_prefix strm0.rob rx_offset1 }
      let r := conn_call_recv_handshake_data conn data
      if r.1 ≠ 0 then some (r.1, conn_store_strm r.2 strm1, loop_ctl.ret)
      else
        let strm2 : ngtcp2_strm :=
          { strm1 with
            unsent_max_rx_offset := (strm1.unsent_max_rx_offset + datalen) % 2 ^ 64 }
        match ngtcp2_conn_emit_pending_recv_handshake r.2 strm2 rx_offset1 with
        | none => none
        | some e =>
          if e.1 ≠ 0 then some (e.1, conn_store_strm e.2.1 e.2.2, loop_ctl.ret)
          else some (0, conn_store_strm e.2.1 e.2.2, loop_ctl.next)
    else
      let r := ngtcp2_strm_recv_reordering strm0 fr conn.mem
      if r.1 ≠ 0 then
        some (r.1, conn_store_strm { conn with mem := r.2.2 } r.2.1, loop_ctl.ret)
      else some (0, conn_store_strm { conn with mem := r.2.2 } r.2.1, loop_ctl.next)

/-- The statements of the loop of `conn_recv_handshake_pkt` that follow
`require_ack |= ...`, for the frame `fr`: result, connection, and whether the
loop goes on or the function returns the result. -/
def conn_recv_handshake_frame (R : ngtcp2_codec) (hd : ngtcp2_rx_hd) (conn : ngtcp2_conn) :
    ngtcp2_frame → Option (Int × ngtcp2_conn × loop_ctl)
  | ngtcp2_frame.ack a =>
    if (conn_recv_ack R conn a).1 ≠ 0 then
      some ((conn_recv_ack R conn a).1, (conn_recv_ack R conn a).2, loop_ctl.ret)
    else some (0, (conn_recv_ack R conn a).2, loop_ctl.next)
  | ngtcp2_frame.max_stream_data m =>
    if (conn_recv_max_stream_data conn m).1 ≠ 0 then
      some ((conn_recv_max_stream_data conn m).1, (conn_recv_max_stream_data conn m).2,
        loop_ctl.ret)
    else some (0, (conn_recv_max_stream_data conn m).2, loop_ctl.next)
  | ngtcp2_frame.stream s =>
    if s.stream_id ≠ 0 ∨ s.datalen = 0 then some (0, conn, loop_ctl.next)
    else conn_recv_handshake_strm0 conn hd.hd.type s
  | _ => some (0, conn, loop_ctl.next)

/-- The `switch` of the loop of `conn_recv_pkt`, for the frame `fr`: result,
connection, and whether the loop goes on or the function returns the
result. -/
def conn_recv_pkt_frame (R : ngtcp2_codec) (conn : ngtcp2_conn) :
    ngtcp2_frame → Option (Int × ngtcp2_conn × loop_ctl)
  | ngtcp2_frame.ack a =>
    if (conn_recv_ack R conn a).1 ≠ 0 then
      some ((conn_recv_ack R conn a).1, (conn_recv_ack R conn a).2, loop_ctl.ret)
    else some (0, (conn_recv_ack R conn a).2, loop_ctl.next)
  | ngtcp2_frame.stream s =>
    match conn_recv_stream conn s with
    | none => none
    | some r => if r.1 ≠ 0 then some (r.1, r.2, loop_ctl.ret) else some (0, r.2, loop_ctl.next)
  | ngtcp2_frame.max_stream_data m =>
    if (conn_recv_max_stream_data conn m).1 ≠ 0 then
      some ((conn_recv_max_stream_data conn m).1, (conn_recv_max_stream_data conn m).2,
        loop_ctl.ret)
    else some (0, (conn_recv_max_stream_data conn m).2, loop_ctl.next)
  | ngtcp2_frame.max_data m => some (0, conn_recv_max_data conn m, loop_ctl.next)
  | _ => some (0, conn, loop_ctl.next)

/-- The loop `for (; pktlen;)` over the frames of a packet, in
`conn_recv_handshake_pkt` and in `conn_recv_pkt`, which differ in the
statements `handle` for the frame decoded; `fuel` bounds the number of its
rounds and `none` means that it ran out. The arguments are the connection,
the bytes from `pkt` on, `pktlen` and `require_ack`; the result holds the
result of the function when it returns from the loop (and 0 otherwise), the
connection, `require_ack`, and how the loop was left. -/
def conn_recv_frames (R : ngtcp2_codec) (hd : ngtcp2_rx_hd)
    (handle : ngtcp2_conn → ngtcp2_frame → Option (Int × ngtcp2_conn × loop_ctl)) :
    Nat → ngtcp2_conn → List Nat → Nat → Bool → Option (Int × ngtcp2_conn × Bool × loop_ctl)
  | 0, _, _, _, _ => none
  | fuel + 1, conn, pkt, pktlen, require_ack =>
    if pktlen = 0 then some (0, conn, require_ack, loop_ctl.next)
    else
      let d := R.decode_frame pkt pktlen conn.max_rx_pkt_num
      if d.1 < 0 then some (d.1, conn, require_ack, loop_ctl.ret)
      else
        let rv := conn_call_recv_frame conn hd d.2
        if rv ≠ 0 then some (rv, conn, require_ack, loop_ctl.ret)
        else
          match handle conn d.2 with
          | none => none
          | some r =>
            if r.2.2 ≠ loop_ctl.next then
              some (r.1, r.2.1, require_ack || frame_requires_ack d.2, loop_ctl.ret)
            else
              conn_recv_frames R hd handle fuel r.2.1 (pkt.drop d.1.toNat)
                ((pktlen + 2 ^ 64 - d.1.toNat) % 2 ^ 64) (require_ack || frame_requires_ack d.2)

/-- The statements of `conn_recv_handshake_pkt` and of `conn_recv_pkt` after
the loop over the frames: the largest packet number received is raised to
`pkt_num`, and an acknowledgement is scheduled when `require_ack` is set. -/
def conn_recv_pkt_finish (R : ngtcp2_codec) (conn : ngtcp2_conn) (pkt_num : Nat)
    (require_ack : Bool) (ts : Nat) : Int × ngtcp2_conn :=
  let conn1 : ngtcp2_conn := { conn with max_rx_pkt_num := max conn.max_rx_pkt_num pkt_num }
  if require_ack then
    let r := ngtcp2_conn_sched_ack R.NGTCP2_DELAYED_ACK_TIMEOUT conn1 pkt_num ts
    if r.1 ≠ 0 then (r.1, r.2) else (0, r.2)
  else (0, conn1)

/-- The statements of `conn_recv_handshake_pkt` and of `conn_recv_pkt` from the
loop over the frames on, for the header `hd` with the packet number
adjusted and the payload `pkt` of `pktlen` bytes. -/
def conn_recv_payload (R : ngtcp2_codec) (hd : ngtcp2_rx_hd)
    (handle : ngtcp2_conn → ngtcp2_frame → Option (Int × ngtcp2_conn × loop_ctl))
    (conn : ngtcp2_conn) (pkt : List Nat) (pktlen ts : Nat) : Option (Int × ngtcp2_conn) :=
  match conn_recv_frames R hd handle (pktlen + 1) conn pkt pktlen false with
  | none => none
  | some l =>
    if l.2.2.2 = loop_ctl.ret then some (l.1, l.2.1)
    else some (conn_recv_pkt_finish R l.2.1 hd.hd.pkt_num l.2.2.1 ts)

/-- The statements of `conn_recv_handshake_pkt` from the `switch` on the type
of the packet on. -/
def conn_recv_handshake_payload (R : ngtcp2_codec) (conn : ngtcp2_conn) (hd : ngtcp2_rx_hd)
    (pkt : List Nat) (pktlen ts : Nat) : Option (Int × ngtcp2_conn) :=
  if conn.server then
    if hd.hd.type = NGTCP2_PKT_CLIENT_INITIAL ∨ hd.hd.type = NGTCP2_PKT_CLIENT_CLEARTEXT then
      conn_recv_payload R hd (conn_recv_handshake_frame R hd) conn pkt pktlen ts
    else some (NGTCP2_ERR_PROTO, conn)
  else if hd.hd.type = NGTCP2_PKT_SERVER_CLEARTEXT then
    conn_recv_payload R hd (conn_recv_handshake_frame R hd) { conn with conn_id := hd.conn_id }
      pkt pktlen ts
  else if hd.hd.type = NGTCP2_PKT_VERSION_NEGOTIATION then
    some ((conn_on_version_negotiation R { conn with conn_id := hd.conn_id } hd pkt pktlen).1,
      (conn_on_version_negotiation R { conn with conn_id := hd.conn_id } hd pkt pktlen).2.1)
  else some (NGTCP2_ERR_PROTO, { conn with conn_id := hd.conn_id })

/-- The function `conn_recv_handshake_pkt`, for the bytes from `pkt` on, of
which `pktlen` belong to the packet; `none` when a loop runs out of fuel. -/
def conn_recv_handshake_pkt (R : ngtcp2_codec) (conn : ngtcp2_conn) (pkt : List Nat)
    (pktlen ts : Nat) : Option (Int × ngtcp2_conn) :=
  if pkt.headD 0 &&& NGTCP2_HEADER_FORM_BIT = 0 then
    some (conn_buffer_protected_pkt R.NGTCP2_MAX_NUM_BUFFED_RX_PPKTS conn (pkt.take pktlen) ts)
  else
    let d := R.decode_hd_long pkt pktlen
    if d.1 < 0 then some (d.1, conn)
    else
      let hd : ngtcp2_rx_hd :=
        { d.2 with
          hd := { d.2.hd with
                  pkt_num := R.adjust_pkt_num conn.max_rx_pkt_num d.2.hd.pkt_num 32 } }
      if conn_call_recv_pkt conn hd ≠ 0 then some (conn_call_recv_pkt conn hd, conn)
      else if conn.version ≠ hd.version then some (NGTCP2_ERR_PROTO, conn)
      else
        conn_recv_handshake_payload R conn hd (pkt.drop d.1.toNat)
          ((pktlen + 2 ^ 64 - d.1.toNat) % 2 ^ 64) ts

/-- The statements of `conn_recv_pkt` that look at the flags and the type of
the header: `pkt_num_bits`, `encrypted` and the connection; `none` when the
`assert(0)` for a short header of an unknown type fails. -/
def conn_recv_pkt_class (conn : ngtcp2_conn) (hd : ngtcp2_rx_hd) :
    Option (Nat × Bool × ngtcp2_conn) :=
  if hd.hd.flags &&& NGTCP2_PKT_FLAG_LONG_FORM ≠ 0 then
    if hd.hd.type = NGTCP2_PKT_1RTT_PROTECTED_K0 then some (32, true, conn)
    else if hd.hd.type = NGTCP2_PKT_SERVER_CLEARTEXT then
      some (32, false, if !conn.server then { conn with conn_id := hd.conn_id } else conn)
    else some (32, false, conn)
  else if hd.hd.type = NGTCP2_PKT_01 then
    some (8, decide (hd.hd.flags &&& NGTCP2_PKT_FLAG_KEY_PHASE = 0), conn)
  else if hd.hd.type = NGTCP2_PKT_02 then
    some (16, decide (hd.hd.flags &&& NGTCP2_PKT_FLAG_KEY_PHASE = 0), conn)
  else if hd.hd.type = NGTCP2_PKT_03 then
    some (32, decide (hd.hd.flags &&& NGTCP2_PKT_FLAG_KEY_PHASE = 0), conn)
  else none

/-- The statements of `conn_recv_pkt` from `conn_call_recv_pkt` on, for the
header `hd` with the packet number adjusted, the bytes `hdpkt` of the encoded
header, and the payload `pkt` of `pktlen` bytes: the payload is decrypted in
place when `encrypted` is set, and its frames are handled. -/
def conn_recv_pkt_payload (R : ngtcp2_codec) (conn : ngtcp2_conn) (hd : ngtcp2_rx_hd)
    (encrypted : Bool) (hdpkt pkt : List Nat) (pktlen ts : Nat) :
    Option (Int × ngtcp2_conn) :=
  if conn_call_recv_pkt conn hd ≠ 0 then some (conn_call_recv_pkt conn hd, conn)
  else if encrypted then
    match conn.decrypt (pkt.take pktlen) hdpkt hd.hd.pkt_num with
    | none => some (NGTCP2_ERR_CALLBACK_FAILURE, conn)
    | some plain =>
      conn_recv_payload R hd (conn_recv_pkt_frame R) conn (plain ++ pkt.drop plain.length)
        plain.length ts
  else conn_recv_payload R hd (conn_recv_pkt_frame R) conn pkt pktlen ts

/-- The function `conn_recv_pkt`, for the bytes from `pkt` on, of which
`pktlen` belong to the packet; `none` when a loop runs out of fuel or an
`assert` fails. -/
def conn_recv_pkt (R : ngtcp2_codec) (conn : ngtcp2_conn) (pkt : List Nat) (pktlen ts : Nat) :
    Option (Int × ngtcp2_conn) :=
  let d :=
    if pkt.headD 0 &&& NGTCP2_HEADER_FORM_BIT ≠ 0 then R.decode_hd_long pkt pktlen
    else R.decode_hd_short pkt pktlen
  if d.1 < 0 then some (d.1, conn)
  else
    match conn_recv_pkt_class conn d.2 with
    | none => none
    | some c =>
      conn_recv_pkt_payload R c.2.2
        { d.2 with
          hd := { d.2.hd with
                  pkt_num := R.adjust_pkt_num c.2.2.max_rx_pkt_num d.2.hd.pkt_num c.1 } }
        c.2.1 (pkt.take d.1.toNat) (pkt.drop d.1.toNat)
        ((pktlen + 2 ^ 64 - d.1.toNat) % 2 ^ 64) ts

/-- The first loop of `conn_process_buffered_protected_pkt`, over the buffered
packets from `pc` on: the result of the first packet for which
`conn_recv_pkt` does not return 0, or 0, and the connection. -/
def conn_process_buffered_protected_pkt_loop (R : ngtcp2_codec) (ts : Nat) :
    List ngtcp2_pkt_chain → ngtcp2_conn → Option (Int × ngtcp2_conn)
  | [], conn => some (0, conn)
  | pc :: pcs, conn =>
    match conn_recv_pkt R conn pc.pkt pc.pkt.length ts with
    | none => none
    | some r =>
      if r.1 ≠ 0 then some r else conn_process_buffered_protected_pkt_loop R ts pcs r.2

/-- The function `conn_process_buffered_protected_pkt`. -/
def conn_process_buffered_protected_pkt (R : ngtcp2_codec) (conn : ngtcp2_conn) (ts : Nat) :
    Option (Int × ngtcp2_conn) :=
  match conn_process_buffered_protected_pkt_loop R ts conn.buffed_rx_ppkts conn with
  | none => none
  | some r => if r.1 ≠ 0 then some r else some (0, { r.2 with buffed_rx_ppkts := [] })

/-- The statements of `ngtcp2_conn_recv` before the `switch` on the state: the
hash of an unprotected packet is verified and taken off the length. The
result is 0 and the length that is left, or `NGTCP2_ERR_BAD_PKT_HASH`. -/
def conn_recv_verify (R : ngtcp2_codec) (pkt : List Nat) (pktlen : Nat) : Int × Nat :=
  if pkt.headD 0 &&& NGTCP2_HEADER_FORM_BIT ≠ 0 ∧
      (pkt.headD 0 &&& NGTCP2_LONG_TYPE_MASK = NGTCP2_PKT_CLIENT_INITIAL ∨
       pkt.headD 0 &&& NGTCP2_LONG_TYPE_MASK = NGTCP2_PKT_SERVER_STATELESS_RETRY ∨
       pkt.headD 0 &&& NGTCP2_LONG_TYPE_MASK = NGTCP2_PKT_SERVER_CLEARTEXT ∨
       pkt.headD 0 &&& NGTCP2_LONG_TYPE_MASK = NGTCP2_PKT_CLIENT_CLEARTEXT ∨
       pkt.headD 0 &&& NGTCP2_LONG_TYPE_MASK = NGTCP2_PKT_PUBLIC_RESET) then
    if R.verify pkt pktlen ≠ 0 then (NGTCP2_ERR_BAD_PKT_HASH, pktlen)
    else (0, (pktlen + 2 ^ 64 - R.NGTCP2_PKT_MDLEN) % 2 ^ 64)
  else (0, pktlen)

/-- The statements of `ngtcp2_conn_recv` in a handshake state after
`conn_recv_handshake_pkt` has returned `rv`, which is not negative: when the
handshake is completed, the callback is invoked, the state becomes `next` and
the buffered packets are processed. -/
def conn_recv_handshake_completed (R : ngtcp2_codec) (conn : ngtcp2_conn)
    (next : ngtcp2_conn_state) (rv : Int) (ts : Nat) : Option (Int × ngtcp2_conn) :=
  if conn.handshake_completed then
    if conn_call_handshake_completed conn ≠ 0 then
      some (conn_call_handshake_completed conn, conn)
    else conn_process_buffered_protected_pkt R { conn with state := next } ts
  else some (rv, conn)

/-- A `case` of `ngtcp2_conn_recv` for a handshake state, after which the
state is `next` once the handshake is completed. -/
def conn_recv_handshake (R : ngtcp2_codec) (conn : ngtcp2_conn) (next : ngtcp2_conn_state)
    (pkt : List Nat) (pktlen ts : Nat) : Option (Int × ngtcp2_conn) :=
  match conn_recv_handshake_pkt R conn pkt pktlen ts with
  | none => none
  | some r =>
    if r.1 < 0 then some r else conn_recv_handshake_completed R r.2 next r.1 ts

/-- The function `ngtcp2_conn_recv` for the datagram `pkt`; `none` when a loop
runs out of fuel or an `assert` fails. -/
def ngtcp2_conn_recv (R : ngtcp2_codec) (conn : ngtcp2_conn) (pkt : List Nat) (ts : Nat) :
    Option (Int × ngtcp2_conn) :=
  if pkt.length = 0 then some (NGTCP2_ERR_INVALID_ARGUMENT, conn)
  else if (conn_recv_verify R pkt pkt.length).1 ≠ 0 then
    some ((conn_recv_verify R pkt pkt.length).1, conn)
  else
    match conn.state with
    | ngtcp2_conn_state.NGTCP2_CS_CLIENT_WAIT_HANDSHAKE =>
      conn_recv_handshake R conn ngtcp2_conn_state.NGTCP2_CS_CLIENT_HANDSHAKE_ALMOST_FINISHED
        pkt (conn_recv_verify R pkt pkt.length).2 ts
    | ngtcp2_conn_state.NGTCP2_CS_SERVER_INITIAL =>
      conn_recv_handshake R conn ngtcp2_conn_state.NGTCP2_CS_POST_HANDSHAKE pkt
        (conn_recv_verify R pkt pkt.length).2 ts
    | ngtcp2_conn_state.NGTCP2_CS_SERVER_WAIT_HANDSHAKE =>
      conn_recv_handshake R conn ngtcp2_conn_state.NGTCP2_CS_POST_HANDSHAKE pkt
        (conn_recv_verify R pkt pkt.length).2 ts
    | ngtcp2_conn_state.NGTCP2_CS_POST_HANDSHAKE =>
      conn_recv_pkt R conn pkt (conn_recv_verify R pkt pkt.length).2 ts
    | ngtcp2_conn_state.NGTCP2_CS_CLOSE_WAIT =>
      conn_recv_pkt R conn pkt (conn_recv_verify R pkt pkt.length).2 ts
    | _ => some (0, conn)

/-! ## Notions used by the statements -/

/-- What `conn_emit_pending_stream_data` does when the buffer holds no byte at
or above `UINT64_MAX`: the contiguous bytes held at `rx_offset`, if any, go to
the callback in one invocation and are then dropped from the buffer. -/
def emit_pending_once (conn : ngtcp2_conn) (strm : ngtcp2_strm) (rx_offset : Nat) :
    Int × ngtcp2_conn × ngtcp2_strm :=
  let data := ngtcp2_rob_data_at strm.rob rx_offset
  if data.length = 0 then
    (0, conn, strm)
  else
    let r := conn_call_recv_stream_data conn strm
      (decide (strm.flags &&& NGTCP2_STRM_FLAG_SHUT_RD ≠ 0) &&
        decide (rx_offset + data.length = strm.last_rx_offset))
      data
    if r.1 ≠ 0 then
      (r.1, r.2, strm)
    else
      (0, r.2, { strm with rob := ngtcp2_rob_remove_prefix strm.rob (rx_offset + data.length) })

/-- The frame `fr` reaches the flow-control checks that `conn_recv_stream`
makes for the stream `strm` and passes them: it is not a frame of stream 0,
its stream id is within the limit, its end offset fits in 64 bits and lies
within the window of the stream, and the bytes beyond `last_rx_offset` lie
within the window of the connection. -/
def passes_flow_control (conn : ngtcp2_conn) (strm : ngtcp2_strm) (fr : ngtcp2_stream) : Prop :=
  fr.stream_id ≠ 0 ∧
  (conn_local_stream conn fr.stream_id = true ∨
    fr.stream_id ≤ conn.local_settings.max_stream_id) ∧
  fr.offset + fr.datalen ≤ UINT64_MAX ∧
  fr.offset + fr.datalen ≤ strm.max_rx_offset ∧
  (strm.last_rx_offset < fr.offset + fr.datalen →
    conn_max_data_violated conn (fr.offset + fr.datalen - strm.last_rx_offset) = false)

/-- The stream `strm` is the stream that `conn_recv_stream` uses for the frame
`fr`: the stream found in the map under the id of the frame, or, when there
is none, the stream created for the frame, provided that its id was not
opened before and that no allocation fails. -/
def stream_of_frame (conn : ngtcp2_conn) (fr : ngtcp2_stream) (strm : ngtcp2_strm) : Prop :=
  (ngtcp2_conn_find_stream conn fr.stream_id = some strm ∧ strm.stream_id = fr.stream_id) ∨
  (ngtcp2_conn_find_stream conn fr.stream_id = none ∧
    strm = ngtcp2_strm_init fr.stream_id NGTCP2_STRM_FLAG_NONE
      conn.local_settings.max_stream_data conn.remote_settings.max_stream_data ∧
    conn.mem = [] ∧
    (if conn_local_stream conn fr.stream_id = true then
      id_from_stream_id fr.stream_id ∉ conn.local_idtr.opened
    else id_from_stream_id fr.stream_id ∉ conn.remote_idtr.opened))

/-- The STREAM frames of a list received one after the other: the return
values in order and the connection after the last frame. Every frame is
processed, whatever the frames before it returned. -/
def conn_recv_streams : ngtcp2_conn → List ngtcp2_stream → Option (List Int × ngtcp2_conn)
  | conn, [] => some ([], conn)
  | conn, fr :: rest =>
    match conn_recv_stream conn fr with
    | none => none
    | some r =>
      match conn_recv_streams r.2 rest with
      | none => none
      | some q => some (r.1 :: q.1, q.2)

/-- What the statements on concrete connections look at: the return values,
the flags and `last_rx_offset` of the stream `stream_id` if it is in the
map, the recorded invocations of `recv_stream_data`, and the receive offset
of the connection. -/
def observe (r : Option (List Int × ngtcp2_conn)) (stream_id : Nat) :
    Option (List Int × Option (Nat × Nat) × List recv_stream_data_call × Nat × Nat) :=
  r.map fun q =>
    (q.1, (q.2.strms stream_id).map (fun s => (s.flags, s.last_rx_offset)),
      q.2.recv_stream_data_calls, q.2.rx_offset_high, q.2.rx_offset_low)

/-- The number of invocations of `recv_stream_data` with fin set for the
stream `stream_id`. -/
def fin_calls (calls : List recv_stream_data_call) (stream_id : Nat) : Nat :=
  (calls.filter (fun c => decide (c.stream_id = stream_id) && c.fin)).length

/-- The packet numbers held in the tracker, head first. -/
def ngtcp2_acktr.pkt_nums (acktr : ngtcp2_acktr) : List Nat :=
  acktr.ent.map (fun e => e.pkt_num)

/-- The run of `len` packet numbers `largest`, `largest - 1`, ...,
`largest - len + 1`. -/
def ack_run (largest len : Nat) : List Nat :=
  (List.range len).map (fun i => largest - i)

/-- The packet numbers covered by the `(gap, blklen)` pairs that follow a
block whose smallest packet number is `smallest`: a pair skips `gap` packet
numbers below `smallest` and covers the next `blklen` ones. -/
def ack_blks_covered : Nat → List ngtcp2_ack_blk → List Nat
  | _, [] => []
  | smallest, b :: bs =>
    ack_run (smallest - b.gap - 1) b.blklen ++
      ack_blks_covered (smallest - b.gap - 1 - (b.blklen - 1)) bs

/-- The smallest packet number covered once the pairs are decoded. -/
def ack_blks_smallest : Nat → List ngtcp2_ack_blk → Nat
  | smallest, [] => smallest
  | smallest, b :: bs => ack_blks_smallest (smallest - b.gap - 1 - (b.blklen - 1)) bs

/-- The decoded covered set of an ACK frame, largest packet number first:
`largest_ack` down through `first_ack_blklen` further packet numbers, then
each `(gap, blklen)` pair. -/
def ack_covered (ack : ngtcp2_ack) : List Nat :=
  ack_run ack.largest_ack (ack.first_ack_blklen + 1) ++
    ack_blks_covered (ack.largest_ack - ack.first_ack_blklen) ack.blks

/-- The smallest packet number covered by an ACK frame. -/
def ack_smallest (ack : ngtcp2_ack) : Nat :=
  ack_blks_smallest (ack.largest_ack - ack.first_ack_blklen) ack.blks

/-- The number of places of a list of packet numbers where the next number
is not the predecessor of the present one: the number of gaps between the
runs of the list. -/
def ack_gaps : List Nat → Nat
  | a :: b :: l => (if a = b + 1 then 0 else 1) + ack_gaps (b :: l)
  | _ => 0

/-- Whether the last two packet numbers of the list are consecutive, so that
the last run of the list has two packet numbers at least. -/
def ack_ends_in_pair : List Nat → Bool
  | [a, b] => decide (a = b + 1)
  | _ :: b :: c :: l => ack_ends_in_pair (b :: c :: l)
  | _ => false

/-- What a call that sends does to the packet number, for the number `next`
before the call, the result `rv`, the connection after the call and the packet
written, if any: a packet carries the number `next`, goes with a positive
result and moves the number on by one; without a packet the result is not
positive, the number stays or moves on by one, and it stays when the result
is 0. -/
def pkt_num_step (next : Nat) (rv : Int) (conn : ngtcp2_conn) (pkt : Option ngtcp2_pkt) : Prop :=
  match pkt with
  | some p => 0 < rv ∧ p.hd.pkt_num = next ∧ conn.next_tx_pkt_num = (next + 1) % 2 ^ 64
  | none =>
    rv ≤ 0 ∧ (rv = 0 → conn.next_tx_pkt_num = next) ∧
      (conn.next_tx_pkt_num = next ∨ conn.next_tx_pkt_num = (next + 1) % 2 ^ 64)

/-- The number of bytes that the frames `frs` take in a packet. -/
def frames_len (W : ngtcp2_wire) (frs : List ngtcp2_frame) : Nat :=
  (frs.map W.framelen).sum

/-- The MAX_STREAM_DATA frame that announces the receive window of the stream
`strm`. -/
def max_stream_data_frame (strm : ngtcp2_strm) : ngtcp2_frame :=
  ngtcp2_frame.max_stream_data
    { stream_id := strm.stream_id, max_stream_data := strm.unsent_max_rx_offset }

/-- The MAX_STREAM_DATA frames of the streams with the ids `ids`, one for
each id that is in the map, in the order of the ids. -/
def fc_strms_frames (conn : ngtcp2_conn) (ids : List Nat) : List ngtcp2_frame :=
  ids.filterMap (fun id => (conn.strms id).map max_stream_data_frame)

/-- The header under which `conn_retransmit` sends the frames of the entry
`ent` again: the header of the entry with the next packet number of the
connection. -/
def retransmit_hd (conn : ngtcp2_conn) (ent : ngtcp2_rtb_entry) : ngtcp2_pkt_hd :=
  { ent.hd with pkt_num := conn.next_tx_pkt_num }

/-- The bytes kept free at the end of the packet in which the entry `ent` is
sent again: the hash of an unprotected packet (long header) or the AEAD tag of
a protected one. -/
def retransmit_overhead (W : ngtcp2_wire) (conn : ngtcp2_conn) (ent : ngtcp2_rtb_entry) : Nat :=
  if ent.flags &&& NGTCP2_PKT_FLAG_LONG_FORM ≠ 0 then W.NGTCP2_PKT_MDLEN else conn.aead_overhead

/-- The test for a frame of the entry `ent` that is not sent again: the test
of `conn_retransmit_unprotected` for an entry with a long header, and the one
of `conn_retransmit_protected` otherwise. -/
def retransmit_stale (conn : ngtcp2_conn) (ent : ngtcp2_rtb_entry) (fr : ngtcp2_frame) : Bool :=
  if ent.flags &&& NGTCP2_PKT_FLAG_LONG_FORM ≠ 0 then conn_retransmit_unprotected_stale conn fr
  else conn_retransmit_protected_stale conn fr

/-- The frames of the entries that the retransmission buffer `new` holds
after the entries of `old`. -/
def rtb_new_frames (old new : ngtcp2_rtb) : List ngtcp2_frame :=
  ((new.ents.drop old.ents.length).map (fun e => e.frc)).flatten

/-- The room that the loop of `conn_send_pkt` wants in the packet to write
the frame `fr` whole: the bytes of the frame, and for a STREAM frame also the
overhead of a STREAM frame and its data, a byte of data at least. -/
def frame_room (W : ngtcp2_wire) : ngtcp2_frame → Nat
  | ngtcp2_frame.stream s =>
    max (W.framelen (ngtcp2_frame.stream s)) (W.NGTCP2_STREAM_OVERHEAD + max s.datalen 1)
  | fr => W.framelen fr

/-- Whether the frames `frs` all fit, whole, one after the other, in a packet
with `left` bytes left. -/
def frames_fit (W : ngtcp2_wire) : Nat → List ngtcp2_frame → Bool
  | _, [] => true
  | left, fr :: frs => decide (frame_room W fr ≤ left) && frames_fit W (left - W.framelen fr) frs

/-- The ACK frame of a packet of `conn_send_pkt` at the time `ts`: the frame
that `conn_create_ack_frame` builds, when the delayed-ack timer has expired
and there is something to acknowledge. -/
def send_pkt_ack_frames (conn : ngtcp2_conn) (ts : Nat) : List ngtcp2_frame :=
  if (conn_send_pkt_ack conn ts).pkt_empty then []
  else [ngtcp2_frame.ack (conn_send_pkt_ack conn ts).ackfr]

/-- The MAX_STREAM_ID frame of a packet of `conn_send_pkt`: there is one when
the highest stream id the peer may open has grown past the announced one. -/
def send_pkt_max_stream_id_frames (conn : ngtcp2_conn) : List ngtcp2_frame :=
  if conn.max_remote_stream_id > conn.local_settings.max_stream_id then
    [ngtcp2_frame.max_stream_id conn.max_remote_stream_id]
  else []

/-- The MAX_DATA frame of a packet of `conn_send_pkt` that holds the frames
`before` already: there is one when the connection window has grown past the
announced one and either the packet or the frame queue is not empty or half
of the window is used up. -/
def send_pkt_max_data_frames (conn : ngtcp2_conn) (before : List ngtcp2_frame) :
    List ngtcp2_frame :=
  if (before ≠ [] ∨ conn.frq ≠ [] ∨ conn_should_send_max_data conn = true) ∧
      conn.unsent_max_rx_offset_high > conn.max_rx_offset_high then
    [ngtcp2_frame.max_data { max_data := conn.unsent_max_rx_offset_high }]
  else []

/-- The frames of a packet of `conn_send_pkt` at the time `ts` in which all
frames fit, in their order in the packet: the ACK frame, the MAX_STREAM_DATA
frames of the streams of the flow-control list, the last stream of the list
first, the MAX_DATA frame, the MAX_STREAM_ID frame, and the frames that were
in the frame queue before the call. -/
def send_pkt_frames (conn : ngtcp2_conn) (ts : Nat) : List ngtcp2_frame :=
  send_pkt_ack_frames conn ts ++ ((fc_strms_frames conn conn.fc_strms).reverse ++
    (send_pkt_max_data_frames conn
        (send_pkt_ack_frames conn ts ++ send_pkt_max_stream_id_frames conn) ++
      (send_pkt_max_stream_id_frames conn ++ conn.frq)))

/-- A server after the handshake: only stream 0 is open, the peer may open
streams up to id 3, every stream has a receive window of 1024 bytes and the
connection one of 8 KiB; the `recv_stream_data` callback always succeeds and
no allocation fails. -/
def example_server : ngtcp2_conn :=
  { server := true
    strms := fun k => if k = 0 then some (ngtcp2_strm_init 0 NGTCP2_STRM_FLAG_NONE 65535 65535) else none
    local_idtr := ngtcp2_idtr_init
    remote_idtr := ngtcp2_idtr_init
    local_settings := { max_stream_data := 1024, max_data := 8, max_stream_id := 3 }
    remote_settings := { max_stream_data := 65536, max_data := 64, max_stream_id := 0 }
    max_remote_stream_id := 3
    rx_offset_high := 0
    rx_offset_low := 0
    max_rx_offset_high := 8
    fc_strms := []
    recv_stream_data := some (fun _ _ => 0)
    recv_stream_data_calls := []
    mem := []
    max_tx_offset_high := 64
    acktr := ngtcp2_acktr_init
    rtb := ngtcp2_rtb_init
    next_ack_expiry := 0
    state := ngtcp2_conn_state.NGTCP2_CS_POST_HANDSHAKE
    next_tx_pkt_num := 0
    frq := []
    tx_offset_high := 0
    tx_offset_low := 0
    unsent_max_rx_offset_high := 8
    aead_overhead := 16
    buffed_rx_ppkts := []
    send_pkt := none
    send_frame := none
    encrypt := fun _ _ => 0
    handshake_out := [] }

/-- A stream of the peer on `example_server` that has received, and delivered
in order, its first `last` bytes, with the receive window `max_rx`. -/
def example_strm (stream_id last max_rx : Nat) : ngtcp2_strm :=
  { ngtcp2_strm_init stream_id NGTCP2_STRM_FLAG_NONE max_rx 65536 with
    last_rx_offset := last
    rob := { base := last, limit := last, store := fun _ => none } }

/-- The connection `conn` with the stream `strm` of the peer open: the
stream is in the map and its id is recorded as opened. -/
def example_open (conn : ngtcp2_conn) (strm : ngtcp2_strm) : ngtcp2_conn :=
  conn_store_strm
    { conn with
      remote_idtr := { opened := id_from_stream_id strm.stream_id :: conn.remote_idtr.opened } }
    strm

/-- The example server with stream 1 open and untouched. -/
def example_server_strm1 : ngtcp2_conn :=
  example_open example_server (example_strm 1 0 1024)

/-- Stream 3 holding the reordered bytes 4..7 and nothing delivered. -/
def example_strm3_reordered : ngtcp2_strm :=
  { example_strm 3 0 1024 with
    last_rx_offset := 8
    rob := ngtcp2_rob_push ngtcp2_rob_init 4 [101, 102, 103, 104] }

/-- The example server with the stream `example_strm3_reordered`. -/
def example_server_strm3_reordered : ngtcp2_conn :=
  example_open { example_server with rx_offset_low := 8 } example_strm3_reordered

/-- A server whose connection window is 1 KiB, of which 1023 bytes were
received on stream 1, and whose stream 3 was granted the largest stream
window `UINT64_MAX` (by `ngtcp2_conn_extend_max_stream_offset` and the
MAX_STREAM_DATA frame that followed). -/
def example_server_wide_strm3 : ngtcp2_conn :=
  example_open
    (example_open { example_server with rx_offset_low := 1023, max_rx_offset_high := 1 }
      (example_strm 1 1023 1024))
    (example_strm 3 0 UINT64_MAX)

/-- The tracker that holds the packet numbers `nums`, all received at the
time `tstamp`. -/
def example_acktr (nums : List Nat) (tstamp : Nat) : ngtcp2_acktr :=
  { ent := nums.map (fun n => { pkt_num := n, tstamp := tstamp }) }

/-- The connection `example_server` with the packet numbers `nums` pending
acknowledgement, all received at the time 100, and the delayed-ack timer
armed to 125. -/
def example_server_acks (nums : List Nat) : ngtcp2_conn :=
  { example_server with acktr := example_acktr nums 100, next_ack_expiry := 125 }

/-- The frame handed to `conn_create_ack_frame` by its callers: a frame whose
type is not ACK. -/
def example_ack : ngtcp2_ack :=
  { type := 0, largest_ack := 0, ack_delay := 0, first_ack_blklen := 0, num_ts := 0, blks := [] }

/-- A tracker of 258 packet numbers in 257 runs: 255 runs of one packet
number two apart from one another, a run of two packet numbers, and one packet
number far below. -/
def example_many_runs : List Nat :=
  (List.range 255).map (fun j => 3000 - 2 * j) ++ [2490, 2489, 10]

/-- The connection `example_server` with stream 1 opened by the peer and
closed again: the id is marked in the tracker of remote ids and no stream is
in the map. -/
def example_server_closed1 : ngtcp2_conn :=
  { example_server with remote_idtr := { opened := [id_from_stream_id 1] } }

/-- A client whose peer permits the streams up to 5, with the stream 3 open. -/
def example_client : ngtcp2_conn :=
  { example_server with
    server := false
    strms := fun k =>
      if k = 0 then some (ngtcp2_strm_init 0 NGTCP2_STRM_FLAG_NONE 65535 65535)
      else if k = 3 then some (ngtcp2_strm_init 3 NGTCP2_STRM_FLAG_NONE 1024 65536)
      else none
    local_idtr := { opened := [id_from_stream_id 3] }
    remote_settings := { max_stream_data := 65536, max_data := 64, max_stream_id := 5 } }

/-- A wire format for the examples: every header takes 13 bytes, a STREAM
frame 15 bytes and its data, an ACK frame 11 bytes and 3 for each block, the
frame `other t` takes `t` bytes. -/
def example_wire : ngtcp2_wire :=
  { hdlen := fun _ => 13
    framelen := fun fr =>
      match fr with
      | ngtcp2_frame.stream s => 15 + s.datalen
      | ngtcp2_frame.ack a => 11 + 3 * a.num_blks
      | ngtcp2_frame.padding n => n
      | ngtcp2_frame.max_data _ => 9
      | ngtcp2_frame.max_stream_data _ => 13
      | ngtcp2_frame.max_stream_id _ => 5
      | ngtcp2_frame.other t => t
    NGTCP2_PKT_MDLEN := 8
    NGTCP2_STREAM_OVERHEAD := 15
    NGTCP2_INITIAL_EXPIRY := 1000 }

/-- The example server with a receive window of 4096 bytes for every stream
and stream 1 open and untouched. -/
def example_server_window4096 : ngtcp2_conn :=
  example_open
    { example_server with
      local_settings := { max_stream_data := 4096, max_data := 8, max_stream_id := 3 } }
    (example_strm 1 0 4096)

/-- A client before its first packet: the callback `send_client_initial` will
choose the packet number 1000 and hand over five bytes of handshake data. -/
def example_client_initial : ngtcp2_conn :=
  { example_client with
    state := ngtcp2_conn_state.NGTCP2_CS_CLIENT_INITIAL
    handshake_out := [{ failed := false, pkt_num := 1000, payload := [1, 2, 3, 4, 5] }] }

/-- The example server with the streams 1 and 3 open, their windows extended
to 2048 and 4096 bytes, and both linked into the flow-control list, stream 3
at its head. -/
def example_server_fc_pending : ngtcp2_conn :=
  { example_open
      (example_open example_server
        { example_strm 1 0 1024 with unsent_max_rx_offset := 2048 })
      { example_strm 3 0 1024 with unsent_max_rx_offset := 4096 } with
    fc_strms := [3, 1] }

/-- An entry of the retransmission buffer for a protected packet with three
frames of 900, 901 and 902 bytes, which expired at time 50. -/
def example_entry900 : ngtcp2_rtb_entry :=
  { pkt_num := 3
    expiry := 50
    flags := NGTCP2_PKT_FLAG_CONN_ID
    type := NGTCP2_PKT_03
    frc := [ngtcp2_frame.other 900, ngtcp2_frame.other 901, ngtcp2_frame.other 902] }

/-- The example server with `example_entry900` as the only entry of its
retransmission buffer and 7 as its next packet number. -/
def example_server_lost900 : ngtcp2_conn :=
  { example_server with
    rtb := { ents := [example_entry900] }
    next_tx_pkt_num := 7 }

/-- An entry of the retransmission buffer for a protected packet that carried
a MAX_STREAM_ID frame with the value 3 and a frame of 10 bytes, which expired
at time 50. -/
def example_entry_max_stream_id : ngtcp2_rtb_entry :=
  { pkt_num := 3
    expiry := 50
    flags := NGTCP2_PKT_FLAG_CONN_ID
    type := NGTCP2_PKT_03
    frc := [ngtcp2_frame.max_stream_id 3, ngtcp2_frame.other 10] }

/-- The example server after a stream of the peer was closed: the limit of
remote stream ids has grown to 5 and is not announced yet, the limit
announced is still 3, and `example_entry_max_stream_id` waits to be sent
again. -/
def example_server_stream_id_pending : ngtcp2_conn :=
  { example_server with
    max_remote_stream_id := 5
    rtb := { ents := [example_entry_max_stream_id] }
    next_tx_pkt_num := 7 }

/-- The example server with stream 1 open and without credit to send on it:
`max_tx_offset` equals `tx_offset`. -/
def example_server_strm1_blocked : ngtcp2_conn :=
  example_open example_server { example_strm 1 0 1024 with max_tx_offset := 0 }

/-- A server after the handshake with everything to announce at once: packets
12 and 11 to acknowledge with the delayed-ack timer set to 125, stream 1 in
the flow-control list with its window grown to 2048, the connection window
grown to 16 KiB, the highest stream id of the peer grown to 5, and a frame of
30 bytes in the frame queue. -/
def example_server_all_pending : ngtcp2_conn :=
  { example_open example_server { example_strm 1 0 1024 with unsent_max_rx_offset := 2048 } with
    fc_strms := [1]
    max_remote_stream_id := 5
    unsent_max_rx_offset_high := 16
    frq := [ngtcp2_frame.other 30]
    acktr := example_acktr [12, 11] 100
    next_ack_expiry := 125 }

/-- The example server with `example_entry900` to send again and, besides, the
packets 12 and 11 to acknowledge with the delayed-ack timer set to 125. -/
def example_server_lost900_ack_due : ngtcp2_conn :=
  { example_server_lost900 with
    acktr := example_acktr [12, 11] 100
    next_ack_expiry := 125 }

/-- The example server with stream 1 open and credit for two more bytes on
it. -/
def example_server_strm1_credit2 : ngtcp2_conn :=
  example_open example_server { example_strm 1 0 1024 with max_tx_offset := 2 }

/-- A STREAM frame of stream 1 with 1100 bytes at offset 0 that ends the
stream. -/
def example_fin_frame1100 : ngtcp2_stream :=
  { stream_id := 1, fin := true, offset := 0, data := List.replicate 1100 7 }

/-- A codec for the examples. A header takes two bytes: the first holds the
form bit and the type, the second the packet number; a long header has the
flag `NGTCP2_PKT_FLAG_LONG_FORM` and a short one no flag, and a header whose
second byte is 255 does not decode. A frame takes two bytes `[t, v]`: a
MAX_DATA frame with the value `v` for `t = 4`, a frame of the type `t`
otherwise. The hash of an unprotected packet takes 8 bytes and is always
right, at most two packets are buffered, and a version takes four bytes in
network byte order. -/
def example_codec : ngtcp2_codec :=
  { NGTCP2_PKT_MDLEN := 8
    NGTCP2_MAX_NUM_BUFFED_RX_PPKTS := 2
    NGTCP2_DELAYED_ACK_TIMEOUT := 25
    verify := fun _ _ => 0
    decode_hd_long := fun pkt _ =>
      (if pkt.getD 1 0 = 255 then -1 else 2,
       { hd := { flags := NGTCP2_PKT_FLAG_LONG_FORM
                 type := pkt.headD 0 &&& NGTCP2_LONG_TYPE_MASK
                 pkt_num := pkt.getD 1 0 }
         conn_id := 0
         version := 0 })
    decode_hd_short := fun pkt _ =>
      (if pkt.getD 1 0 = 255 then -1 else 2,
       { hd := { flags := 0, type := pkt.headD 0 &&& 0x1f, pkt_num := pkt.getD 1 0 }
         conn_id := 0
         version := 0 })
    decode_frame := fun pkt _ _ =>
      (2, if pkt.headD 0 = 4 then ngtcp2_frame.max_data { max_data := pkt.getD 1 0 }
          else ngtcp2_frame.other (pkt.headD 0))
    adjust_pkt_num := fun _ n _ => n
    validate_ack := fun _ => 0
    rtb_recv_ack := fun rtb _ => (0, rtb)
    decode_version_negotiation := fun pkt pktlen =>
      (List.range (pktlen / 4)).map (fun i =>
        ((pkt.getD (4 * i) 0 * 256 + pkt.getD (4 * i + 1) 0) * 256 + pkt.getD (4 * i + 2) 0) *
          256 + pkt.getD (4 * i + 3) 0) }

/-- The payload of a version negotiation packet that offers the versions 1 to
`n`. -/
def example_versions (n : Nat) : List Nat :=
  ((List.range n).map (fun i => [0, 0, 0, i + 1])).flatten

/-- The header of a version negotiation packet. -/
def example_hd_version_negotiation : ngtcp2_rx_hd :=
  { hd := { flags := NGTCP2_PKT_FLAG_LONG_FORM, type := NGTCP2_PKT_VERSION_NEGOTIATION,
            pkt_num := 1 }
    conn_id := 0
    version := 0 }

/-- The example client with the callback `recv_version_negotiation` set. -/
def example_client_versions : ngtcp2_conn :=
  { example_client with recv_version_negotiation := some (fun _ _ _ => 0) }

/-- A protected packet with a short header of the type `NGTCP2_PKT_01` and the
packet number 1, that holds a MAX_DATA frame with the limit 100. -/
def example_pkt_max_data : List Nat := [1, 1, 4, 100]

/-- The example client in the state `s`. -/
def example_client_in (s : ngtcp2_conn_state) : ngtcp2_conn :=
  { example_client with state := s }

/-- The example server during the handshake with the packets `pkts`
buffered. -/
def example_server_wait_handshake (pkts : List (List Nat)) : ngtcp2_conn :=
  { example_server with
    state := ngtcp2_conn_state.NGTCP2_CS_SERVER_WAIT_HANDSHAKE
    buffed_rx_ppkts := pkts.map (fun p => { pkt := p, ts := 90 }) }

/-- The mask `0x3ff` keeps the remainder modulo 1024. -/
theorem land_0x3ff (n : Nat) : n &&& 0x3ff = n % 1024 := by
  have h := Nat.and_pow_two_sub_one_eq_mod n 10
  simpa using h

/-- The offset decoded after `ngtcp2_increment_offset` is the exact sum, capped
at the largest split offset. -/
theorem increment_offset_decode (h l n : Nat) (hh : h ≤ UINT64_MAX) (hl : l ≤ 1023)
    (hn : n ≤ UINT64_MAX) :
    decode_offset (ngtcp2_increment_offset h l n) =
      min (UINT64_MAX * 1024 + 1023) (h * 1024 + l + n) := by
  unfold ngtcp2_increment_offset decode_offset UINT64_MAX at *
  simp only [land_0x3ff]
  split_ifs <;> simp only [] <;> omega

/-- After `ngtcp2_increment_offset` the low part is at most 1023 and the high
part is the kibibyte count of the exact sum, capped at `UINT64_MAX`. -/
theorem increment_offset_wellformed (h l n : Nat) (hh : h ≤ UINT64_MAX) (hl : l ≤ 1023)
    (hn : n ≤ UINT64_MAX) :
    (ngtcp2_increment_offset h l n).2 ≤ 1023 ∧
      (ngtcp2_increment_offset h l n).1 = min UINT64_MAX ((h * 1024 + l + n) / 1024) := by
  unfold ngtcp2_increment_offset UINT64_MAX at *
  simp only [land_0x3ff]
  split_ifs <;> simp only [] <;> omega

/-- Without wrap-around, `conn_max_data_violated` compares the exact sum with
the window. -/
theorem max_data_violated_iff (conn : ngtcp2_conn) (datalen : Nat)
    (hmax : conn.max_rx_offset_high ≤ UINT64_MAX)
    (hhigh : conn.rx_offset_high ≤ conn.max_rx_offset_high)
    (hsum : conn.rx_offset_low + datalen ≤ UINT64_MAX) :
    conn_max_data_violated conn datalen = true ↔
      conn.rx_offset_high * 1024 + conn.rx_offset_low + datalen >
        conn.max_rx_offset_high * 1024 := by
  unfold conn_max_data_violated UINT64_MAX at *
  simp only [land_0x3ff]
  split_ifs <;> simp only [decide_eq_true_eq] <;> omega

/-! ## The reassembly buffer and the delivery loop -/

/-- A run is no longer than its fuel. -/
theorem rob_run_length_le (rob : ngtcp2_rob) (f o : Nat) : (rob.run f o).length ≤ f := by
  induction f generalizing o with
  | zero => simp [ngtcp2_rob.run]
  | succ f ih =>
    unfold ngtcp2_rob.run
    cases rob.held o with
    | none => simp
    | some b => simpa using ih (o + 1)

/-- With enough fuel a run ends at an offset where no byte is held. -/
theorem rob_held_run_end (rob : ngtcp2_rob) (f o : Nat) (h : rob.limit ≤ o + f) :
    rob.held (o + (rob.run f o).length) = none := by
  induction f generalizing o with
  | zero =>
    have : ¬ (rob.base ≤ o ∧ o < rob.limit) := by omega
    simp [ngtcp2_rob.run, ngtcp2_rob.held, this]
  | succ f ih =>
    unfold ngtcp2_rob.run
    cases hh : rob.held o with
    | none => simpa using hh
    | some b =>
      have := ih (o + 1) (by omega)
      simpa [Nat.add_assoc, Nat.add_comm 1] using this

/-- A held byte lies between `base` and `limit`. -/
theorem rob_held_bounds (rob : ngtcp2_rob) (o b : Nat) (h : rob.held o = some b) :
    rob.base ≤ o ∧ o < rob.limit := by
  unfold ngtcp2_rob.held at h
  by_contra hc
  simp [hc] at h

/-- Bytes are only found between `base` and `limit`. -/
theorem rob_data_at_ne_nil (rob : ngtcp2_rob) (o : Nat) (h : ngtcp2_rob_data_at rob o ≠ []) :
    rob.base ≤ o ∧ o < rob.limit := by
  unfold ngtcp2_rob_data_at at h
  cases hf : rob.limit - o with
  | zero => simp [hf, ngtcp2_rob.run] at h
  | succ f =>
    rw [hf] at h
    unfold ngtcp2_rob.run at h
    cases hh : rob.held o with
    | none => simp [hh] at h
    | some b => exact rob_held_bounds rob o b hh

/-- The run of held bytes only depends on the bytes held from its start on. -/
theorem rob_run_congr (r1 r2 : ngtcp2_rob) (f o : Nat)
    (h : ∀ k, o ≤ k → r1.held k = r2.held k) : r1.run f o = r2.run f o := by
  induction f generalizing o with
  | zero => simp [ngtcp2_rob.run]
  | succ f ih =>
    unfold ngtcp2_rob.run
    rw [h o (Nat.le_refl o)]
    cases r2.held o with
    | none => rfl
    | some b =>
      simp only []
      rw [ih (o + 1) (fun k hk => h k (by omega))]

/-- Once the contiguous bytes at an offset are dropped, nothing is held at
their end. -/
theorem rob_data_at_after_pop (rob : ngtcp2_rob) (o : Nat) (hb : rob.base ≤ o) :
    ngtcp2_rob_data_at ( ngtcp2_rob_remove_prefix rob (o + (ngtcp2_rob_data_at rob o).length))
      (o + (ngtcp2_rob_data_at rob o).length) = [] := by
  have hend := rob_held_run_end rob (rob.limit - o) o (by omega)
  unfold ngtcp2_rob_data_at at *
  generalize (rob.run (rob.limit - o) o).length = len at *
  simp only [ ngtcp2_rob_remove_prefix]
  cases hf : rob.limit - (o + len) with
  | zero => simp [ngtcp2_rob.run]
  | succ f =>
    unfold ngtcp2_rob.run
    have : ngtcp2_rob.held { base := max rob.base (o + len), limit := rob.limit, store := rob.store }
        (o + len) = none := by
      unfold ngtcp2_rob.held at *
      simp only [] at *
      by_cases hc : rob.base ≤ o + len ∧ o + len < rob.limit
      · simp only [hc, and_self, if_true] at hend
        have h2 : max rob.base (o + len) ≤ o + len ∧ o + len < rob.limit := by
          constructor
          · exact Nat.max_le.mpr ⟨hc.1, Nat.le_refl _⟩
          · exact hc.2
        simp only [h2, and_self, if_true]
        exact hend
      · have h2 : ¬ (max rob.base (o + len) ≤ o + len ∧ o + len < rob.limit) := by
          intro h
          apply hc
          exact ⟨by omega, h.2⟩
        simp only [h2, if_false]
    rw [this]

/-- The loop of `conn_emit_pending_stream_data` does not run out of fuel: it
delivers the contiguous bytes in one invocation and stops. -/
theorem emit_pending_eq (conn : ngtcp2_conn) (strm : ngtcp2_strm) (rx_offset : Nat)
    (hlim : strm.rob.limit ≤ UINT64_MAX) :
    conn_emit_pending_stream_data conn strm rx_offset =
      some (emit_pending_once conn strm rx_offset) := by
  unfold conn_emit_pending_stream_data emit_pending_once
  by_cases hd : (ngtcp2_rob_data_at strm.rob rx_offset).length = 0
  · simp [conn_emit_pending_stream_data_loop, hd]
  · have hne : ngtcp2_rob_data_at strm.rob rx_offset ≠ [] := by
      intro h; apply hd; simp [h]
    have hb := rob_data_at_ne_nil strm.rob rx_offset hne
    have hlen : (ngtcp2_rob_data_at strm.rob rx_offset).length ≤ strm.rob.limit - rx_offset := by
      unfold ngtcp2_rob_data_at
      exact rob_run_length_le _ _ _
    have hfuel : strm.rob.limit - strm.rob.base + 1 = (strm.rob.limit - strm.rob.base - 1) + 1 + 1 := by
      omega
    have hmod : (rx_offset + (ngtcp2_rob_data_at strm.rob rx_offset).length) % 2 ^ 64 =
        rx_offset + (ngtcp2_rob_data_at strm.rob rx_offset).length := by
      apply Nat.mod_eq_of_lt
      unfold UINT64_MAX at hlim
      omega
    have hmod2 : (rx_offset + (ngtcp2_rob_data_at strm.rob rx_offset).length + 2 ^ 64 -
        (ngtcp2_rob_data_at strm.rob rx_offset).length) % 2 ^ 64 = rx_offset := by
      unfold UINT64_MAX at hlim
      omega
    have hpop := rob_data_at_after_pop strm.rob rx_offset hb.1
    rw [hfuel]
    simp only [conn_emit_pending_stream_data_loop, hd, if_false, hmod, hmod2, ngtcp2_rob_pop, hpop,
      List.length_nil, if_true]
    split_ifs <;> rfl

/-- Closing a stream that is in the map succeeds. -/
theorem close_if_rv (c : ngtcp2_conn) (s : ngtcp2_strm) (h : (c.strms s.stream_id).isSome) :
    (ngtcp2_conn_close_stream_if_shut_rdwr c s).1 = 0 := by
  unfold ngtcp2_conn_close_stream_if_shut_rdwr ngtcp2_conn_close_stream
  have h2 : ¬ (c.strms s.stream_id).isNone := by
    cases hc : c.strms s.stream_id <;> simp_all
  split_ifs <;> rfl

/-- After `ngtcp2_conn_close_stream_if_shut_rdwr` the stream is gone from the
map or is as it was stored. -/
theorem close_if_strms_self (c : ngtcp2_conn) (s s1 : ngtcp2_strm)
    (h : (ngtcp2_conn_close_stream_if_shut_rdwr (conn_store_strm c s) s).2.strms s.stream_id = some s1) :
    s1 = s := by
  unfold ngtcp2_conn_close_stream_if_shut_rdwr ngtcp2_conn_close_stream conn_store_strm at h
  split_ifs at h <;> simp_all

/-- Closing a stream touches neither the receive window of the connection nor
the recorded invocations. -/
theorem close_if_window (c : ngtcp2_conn) (s : ngtcp2_strm) :
    (ngtcp2_conn_close_stream_if_shut_rdwr c s).2.rx_offset_high = c.rx_offset_high ∧
    (ngtcp2_conn_close_stream_if_shut_rdwr c s).2.rx_offset_low = c.rx_offset_low ∧
    (ngtcp2_conn_close_stream_if_shut_rdwr c s).2.max_rx_offset_high = c.max_rx_offset_high ∧
    (ngtcp2_conn_close_stream_if_shut_rdwr c s).2.recv_stream_data_calls = c.recv_stream_data_calls := by
  unfold ngtcp2_conn_close_stream_if_shut_rdwr ngtcp2_conn_close_stream
  split_ifs <;> simp

/-- A stream with a gap before `last_rx_offset` is not closed. -/
theorem close_if_keep (c : ngtcp2_conn) (s : ngtcp2_strm)
    (h : ngtcp2_rob_first_gap_offset s.rob ≠ s.last_rx_offset) :
    ngtcp2_conn_close_stream_if_shut_rdwr c s = (0, c) := by
  unfold ngtcp2_conn_close_stream_if_shut_rdwr
  simp [h]

/-- The callback does not touch the receive window of the connection. -/
theorem call_window (c : ngtcp2_conn) (s : ngtcp2_strm) (fin : Bool) (data : List Nat) :
    (conn_call_recv_stream_data c s fin data).2.rx_offset_high = c.rx_offset_high ∧
    (conn_call_recv_stream_data c s fin data).2.rx_offset_low = c.rx_offset_low ∧
    (conn_call_recv_stream_data c s fin data).2.max_rx_offset_high = c.max_rx_offset_high := by
  unfold conn_call_recv_stream_data
  cases c.recv_stream_data with
  | none => simp
  | some cb => simp only []; split_ifs <;> simp

@[simp] theorem store_strm_rx_offset_high (c : ngtcp2_conn) (s : ngtcp2_strm) :
    (conn_store_strm c s).rx_offset_high = c.rx_offset_high := rfl

@[simp] theorem store_strm_rx_offset_low (c : ngtcp2_conn) (s : ngtcp2_strm) :
    (conn_store_strm c s).rx_offset_low = c.rx_offset_low := rfl

@[simp] theorem store_strm_max_rx_offset_high (c : ngtcp2_conn) (s : ngtcp2_strm) :
    (conn_store_strm c s).max_rx_offset_high = c.max_rx_offset_high := rfl

@[simp] theorem store_strm_calls (c : ngtcp2_conn) (s : ngtcp2_strm) :
    (conn_store_strm c s).recv_stream_data_calls = c.recv_stream_data_calls := rfl

@[simp] theorem store_strm_strms_self (c : ngtcp2_conn) (s : ngtcp2_strm) :
    (conn_store_strm c s).strms s.stream_id = some s := by
  simp [conn_store_strm]

@[simp] theorem call_rx_offset_high (c : ngtcp2_conn) (s : ngtcp2_strm) (fin : Bool)
    (data : List Nat) :
    (conn_call_recv_stream_data c s fin data).2.rx_offset_high = c.rx_offset_high :=
  (call_window c s fin data).1

@[simp] theorem call_rx_offset_low (c : ngtcp2_conn) (s : ngtcp2_strm) (fin : Bool)
    (data : List Nat) :
    (conn_call_recv_stream_data c s fin data).2.rx_offset_low = c.rx_offset_low :=
  (call_window c s fin data).2.1

@[simp] theorem call_max_rx_offset_high (c : ngtcp2_conn) (s : ngtcp2_strm) (fin : Bool)
    (data : List Nat) :
    (conn_call_recv_stream_data c s fin data).2.max_rx_offset_high = c.max_rx_offset_high :=
  (call_window c s fin data).2.2

@[simp] theorem close_if_rx_offset_high (c : ngtcp2_conn) (s : ngtcp2_strm) :
    (ngtcp2_conn_close_stream_if_shut_rdwr c s).2.rx_offset_high = c.rx_offset_high :=
  (close_if_window c s).1

@[simp] theorem close_if_rx_offset_low (c : ngtcp2_conn) (s : ngtcp2_strm) :
    (ngtcp2_conn_close_stream_if_shut_rdwr c s).2.rx_offset_low = c.rx_offset_low :=
  (close_if_window c s).2.1

@[simp] theorem close_if_max_rx_offset_high (c : ngtcp2_conn) (s : ngtcp2_strm) :
    (ngtcp2_conn_close_stream_if_shut_rdwr c s).2.max_rx_offset_high = c.max_rx_offset_high :=
  (close_if_window c s).2.2.1

@[simp] theorem close_if_calls (c : ngtcp2_conn) (s : ngtcp2_strm) :
    (ngtcp2_conn_close_stream_if_shut_rdwr c s).2.recv_stream_data_calls =
      c.recv_stream_data_calls :=
  (close_if_window c s).2.2.2

/-- The delivery part of `conn_recv_stream` returns; it keeps the receive
window of the connection and changes at most the buffer of the stream. -/
theorem deliver_spec (c : ngtcp2_conn) (s : ngtcp2_strm) (fr : ngtcp2_stream) (rx : Nat)
    (hlim : s.rob.limit ≤ UINT64_MAX) :
    ∃ r, conn_recv_stream_deliver c s fr rx = some r ∧
      r.2.rx_offset_high = c.rx_offset_high ∧ r.2.rx_offset_low = c.rx_offset_low ∧
      r.2.max_rx_offset_high = c.max_rx_offset_high ∧
      ∀ s1, r.2.strms s.stream_id = some s1 → ∃ rob1, s1 = { s with rob := rob1 } := by
  unfold conn_recv_stream_deliver
  split_ifs with h1
  · simp only []
    rw [emit_pending_eq _ _ _ (by simpa [ ngtcp2_rob_remove_prefix] using hlim)]
    unfold emit_pending_once
    simp only []
    split_ifs with h2 h3 h4 h5
    all_goals refine ⟨_, rfl, ?_⟩
    all_goals simp only [store_strm_rx_offset_high, store_strm_rx_offset_low,
      store_strm_max_rx_offset_high, call_rx_offset_high, call_rx_offset_low,
      call_max_rx_offset_high, close_if_rx_offset_high, close_if_rx_offset_low,
      close_if_max_rx_offset_high, true_and]
    all_goals intro s1 hs1
    all_goals first
      | exact ⟨_, close_if_strms_self _ _ s1 hs1⟩
      | (simp only [conn_store_strm, if_true] at hs1
         exact ⟨_, (Option.some.inj hs1).symm⟩)
  · simp only [ngtcp2_strm_recv_reordering]
    split_ifs with h2 h3 h4
    all_goals refine ⟨_, rfl, ?_⟩
    all_goals simp only [store_strm_rx_offset_high, store_strm_rx_offset_low,
      store_strm_max_rx_offset_high, close_if_rx_offset_high, close_if_rx_offset_low,
      close_if_max_rx_offset_high, true_and]
    all_goals intro s1 hs1
    all_goals first
      | exact ⟨_, close_if_strms_self _ _ s1 hs1⟩
      | (simp only [conn_store_strm, if_true] at hs1
         exact ⟨_, (Option.some.inj hs1).symm⟩)

/-- A frame that ends beyond the window of its stream is refused and nothing
changes. -/
theorem recv_stream_window_exceeded (conn : ngtcp2_conn) (fr : ngtcp2_stream) (strm : ngtcp2_strm)
    (hne : fr.stream_id ≠ 0)
    (hidok : conn_local_stream conn fr.stream_id = true ∨
      fr.stream_id ≤ conn.local_settings.max_stream_id)
    (hov : fr.offset + fr.datalen ≤ UINT64_MAX)
    (hfind : ngtcp2_conn_find_stream conn fr.stream_id = some strm)
    (hbig : strm.max_rx_offset < fr.offset + fr.datalen) :
    conn_recv_stream conn fr = some (NGTCP2_ERR_FLOW_CONTROL, conn) := by
  have hmod : (fr.offset + fr.datalen) % 2 ^ 64 = fr.offset + fr.datalen := by
    apply Nat.mod_eq_of_lt
    unfold UINT64_MAX at hov
    omega
  have h1 : (!conn_local_stream conn fr.stream_id &&
      decide (conn.local_settings.max_stream_id < fr.stream_id)) = false := by
    rcases hidok with h | h
    · simp [h]
    · simp [Nat.not_lt.mpr h]
  have h2 : ¬ (UINT64_MAX - fr.datalen < fr.offset) := by omega
  unfold conn_recv_stream
  simp only [hne, if_false, h1, h2, hfind, Bool.false_eq_true]
  unfold conn_recv_stream_strm
  simp only [hmod, hbig, if_true]

/-- The part of `conn_recv_stream` after the flow-control checks returns,
keeps the receive window of the connection and raises `last_rx_offset` to
the end of the frame. -/
theorem recv_stream_accept_last_rx (conn : ngtcp2_conn) (strm : ngtcp2_strm) (fr : ngtcp2_stream)
    (e : Nat) (hlim : strm.rob.limit ≤ UINT64_MAX) :
    ∃ r, conn_recv_stream_accept conn strm fr e = some r ∧
      r.2.rx_offset_high = conn.rx_offset_high ∧ r.2.rx_offset_low = conn.rx_offset_low ∧
      r.2.max_rx_offset_high = conn.max_rx_offset_high ∧
      ∀ s1, r.2.strms strm.stream_id = some s1 →
        s1.last_rx_offset = max strm.last_rx_offset e ∧
        s1.max_rx_offset = strm.max_rx_offset := by
  unfold conn_recv_stream_accept
  simp only []
  split_ifs with h1 h2 h3 h4 h5
  · refine ⟨_, rfl, rfl, rfl, rfl, fun s1 hs1 => ?_⟩
    simp only [conn_store_strm, ngtcp2_strm_shutdown, if_true] at hs1
    cases Option.some.inj hs1
    exact ⟨rfl, rfl⟩
  · refine ⟨_, rfl, by simp, by simp, by simp, fun s1 hs1 => ?_⟩
    simp only [conn_store_strm, ngtcp2_strm_shutdown, if_true] at hs1
    cases Option.some.inj hs1
    exact ⟨rfl, rfl⟩
  · refine ⟨_, rfl, by simp, by simp, by simp, fun s1 hs1 => ?_⟩
    cases close_if_strms_self _ _ s1 hs1
    exact ⟨rfl, rfl⟩
  · obtain ⟨r, hr, hw1, hw2, hw3, hs⟩ := deliver_spec conn
      (ngtcp2_strm_shutdown { strm with last_rx_offset := max strm.last_rx_offset e }
        NGTCP2_STRM_FLAG_SHUT_RD) fr
      (ngtcp2_strm_rx_offset (ngtcp2_strm_shutdown
        { strm with last_rx_offset := max strm.last_rx_offset e } NGTCP2_STRM_FLAG_SHUT_RD)) hlim
    refine ⟨r, hr, hw1, hw2, hw3, fun s1 hs1 => ?_⟩
    obtain ⟨rob1, rfl⟩ := hs s1 hs1
    exact ⟨rfl, rfl⟩
  · refine ⟨_, rfl, by simp, by simp, by simp, fun s1 hs1 => ?_⟩
    cases close_if_strms_self _ _ s1 hs1
    exact ⟨rfl, rfl⟩
  · obtain ⟨r, hr, hw1, hw2, hw3, hs⟩ := deliver_spec conn
      { strm with last_rx_offset := max strm.last_rx_offset e } fr
      (ngtcp2_strm_rx_offset { strm with last_rx_offset := max strm.last_rx_offset e }) hlim
    refine ⟨r, hr, hw1, hw2, hw3, fun s1 hs1 => ?_⟩
    obtain ⟨rob1, rfl⟩ := hs s1 hs1
    exact ⟨rfl, rfl⟩

/-- Two buffers that hold the same bytes along a run have the same run. -/
theorem rob_run_agree (r1 r2 : ngtcp2_rob) (f1 f2 o : Nat) (hl : r1.limit ≤ o + f1)
    (hf : (r1.run f1 o).length ≤ f2)
    (h : ∀ k, o ≤ k → k ≤ o + (r1.run f1 o).length → r2.held k = r1.held k) :
    r2.run f2 o = r1.run f1 o := by
  induction f1 generalizing f2 o with
  | zero =>
    have h1 : r1.held o = none := by
      have : ¬ (r1.base ≤ o ∧ o < r1.limit) := by omega
      simp [ngtcp2_rob.held, this]
    have h2 : r2.held o = none := by
      rw [h o (Nat.le_refl o) (by omega)]; exact h1
    cases f2 with
    | zero => simp [ngtcp2_rob.run]
    | succ f2 => simp [ngtcp2_rob.run, h2]
  | succ f1 ih =>
    cases h1 : r1.held o with
    | none =>
      have h2 : r2.held o = none := by
        rw [h o (Nat.le_refl o) (by omega)]; exact h1
      cases f2 with
      | zero => simp [ngtcp2_rob.run, h1]
      | succ f2 => simp [ngtcp2_rob.run, h1, h2]
    | some b =>
      have hrun : r1.run (f1 + 1) o = b :: r1.run f1 (o + 1) := by
        simp [ngtcp2_rob.run, h1]
      rw [hrun] at hf h
      simp only [List.length_cons] at hf h
      have h2 : r2.held o = some b := by
        rw [h o (Nat.le_refl o) (by omega)]; exact h1
      cases f2 with
      | zero => omega
      | succ f2 =>
        rw [hrun]
        have := ih f2 (o + 1) (by omega) (by omega) (fun k hk1 hk2 => h k (by omega) (by omega))
        simp [ngtcp2_rob.run, h2, this]

/-- Storing bytes at an offset leaves the bytes below that offset alone. -/
theorem rob_push_held_below (rob : ngtcp2_rob) (off : Nat) (data : List Nat) (k : Nat)
    (hk : k < off) : ( ngtcp2_rob_push rob off data).held k = rob.held k := by
  unfold ngtcp2_rob_push
  simp only [ngtcp2_rob.held]
  by_cases h1 : rob.base ≤ k ∧ k < rob.limit
  · have h2 : rob.base ≤ k ∧ k < max rob.limit (off + data.length) :=
      ⟨h1.1, Nat.lt_of_lt_of_le h1.2 (Nat.le_max_left _ _)⟩
    simp only [h1, h2, and_self, if_true]
    cases rob.store k with
    | none => simp [Nat.not_le.mpr hk]
    | some b => rfl
  · simp only [h1, if_false]
    split_ifs with h2 h3
    · exact absurd h3 (Nat.not_le.mpr hk)
    · rfl
    · rfl

/-- Storing bytes beyond the first gap leaves the first gap where it is. -/
theorem rob_first_gap_push (rob : ngtcp2_rob) (off : Nat) (data : List Nat)
    (h : ngtcp2_rob_first_gap_offset rob < off) :
    ngtcp2_rob_first_gap_offset ( ngtcp2_rob_push rob off data) =
      ngtcp2_rob_first_gap_offset rob := by
  unfold ngtcp2_rob_first_gap_offset ngtcp2_rob_data_at at *
  have hb : ( ngtcp2_rob_push rob off data).base = rob.base := rfl
  have hl : ( ngtcp2_rob_push rob off data).limit = max rob.limit (off + data.length) := rfl
  rw [hb, hl]
  have hlen := rob_run_length_le rob (rob.limit - rob.base) rob.base
  rw [rob_run_agree rob ( ngtcp2_rob_push rob off data) (rob.limit - rob.base)
    (max rob.limit (off + data.length) - rob.base) rob.base (by omega) (by omega)
    (fun k _ hk2 => rob_push_held_below rob off data k (by omega))]

/-- The function `conn_call_recv_stream_data` with the callback set: the
invocation is recorded and its result mapped to 0 or
`NGTCP2_ERR_CALLBACK_FAILURE`. -/
theorem call_eq (c : ngtcp2_conn) (s : ngtcp2_strm) (fin : Bool) (data : List Nat)
    (cb : List recv_stream_data_call → recv_stream_data_call → Int)
    (hcb : c.recv_stream_data = some cb) :
    conn_call_recv_stream_data c s fin data =
      (if cb c.recv_stream_data_calls ⟨s.stream_id, fin, data⟩ ≠ 0 then
          NGTCP2_ERR_CALLBACK_FAILURE else 0,
        { c with recv_stream_data_calls :=
            c.recv_stream_data_calls ++ [⟨s.stream_id, fin, data⟩] }) := by
  unfold conn_call_recv_stream_data
  rw [hcb]
  simp only []
  split_ifs <;> rfl

/-- Dropping the bytes below an offset keeps the bytes held at that offset. -/
theorem rob_data_at_remove (rob : ngtcp2_rob) (o : Nat) :
    ngtcp2_rob_data_at ( ngtcp2_rob_remove_prefix rob o) o = ngtcp2_rob_data_at rob o := by
  unfold ngtcp2_rob_data_at ngtcp2_rob_remove_prefix
  apply rob_run_congr
  intro k hk
  unfold ngtcp2_rob.held
  simp only []
  have : (max rob.base o ≤ k ∧ k < rob.limit) ↔ (rob.base ≤ k ∧ k < rob.limit) := by
    constructor
    · intro h; exact ⟨by omega, h.2⟩
    · intro h; exact ⟨by omega, h.2⟩
  simp only [this]

/-- Delivery of a frame that overlaps the receive offset: the frame's bytes
from the receive offset on, then the contiguous bytes held behind it. -/
theorem deliver_in_order (c : ngtcp2_conn) (s : ngtcp2_strm) (fr : ngtcp2_stream) (rx : Nat)
    (cb : List recv_stream_data_call → recv_stream_data_call → Int)
    (hcb : c.recv_stream_data = some cb)
    (hlim : s.rob.limit ≤ UINT64_MAX)
    (h1 : fr.offset ≤ rx) (h2 : rx < fr.offset + fr.datalen)
    (hov : fr.offset + fr.datalen ≤ UINT64_MAX) :
    ∃ r fin2, conn_recv_stream_deliver c s fr rx = some r ∧
      r.2.recv_stream_data_calls = c.recv_stream_data_calls ++
        ⟨s.stream_id, fr.fin, fr.data.drop (rx - fr.offset)⟩ ::
        (if cb c.recv_stream_data_calls ⟨s.stream_id, fr.fin, fr.data.drop (rx - fr.offset)⟩ ≠ 0 ∨
            ngtcp2_rob_data_at s.rob (fr.offset + fr.datalen) = [] then []
          else [⟨s.stream_id, fin2, ngtcp2_rob_data_at s.rob (fr.offset + fr.datalen)⟩]) := by
  have hd : (fr.datalen + 2 ^ 64 - (rx - fr.offset)) % 2 ^ 64 = fr.datalen - (rx - fr.offset) := by
    unfold UINT64_MAX at hov
    omega
  have hrx1 : (rx + (fr.datalen - (rx - fr.offset))) % 2 ^ 64 = fr.offset + fr.datalen := by
    unfold UINT64_MAX at hov
    omega
  unfold conn_recv_stream_deliver
  simp only [h1, if_true, hd, hrx1]
  rw [emit_pending_eq _ _ _ (by simpa [ ngtcp2_rob_remove_prefix] using hlim)]
  unfold emit_pending_once
  simp only [rob_data_at_remove]
  rw [call_eq c _ fr.fin _ cb hcb]
  simp only []
  by_cases hc : cb c.recv_stream_data_calls ⟨s.stream_id, fr.fin, fr.data.drop (rx - fr.offset)⟩ = 0
  · by_cases hp : ngtcp2_rob_data_at s.rob (fr.offset + fr.datalen) = []
    · simp only [hc, hp, ne_eq, not_true_eq_false, if_false, List.length_nil, if_true, or_true]
      exact ⟨_, false, rfl, by simp⟩
    · have hlen : ¬ (ngtcp2_rob_data_at s.rob (fr.offset + fr.datalen)).length = 0 := by
        intro h; exact hp (List.length_eq_zero.mp h)
      simp only [hc, hp, hlen, ne_eq, not_true_eq_false, if_false, or_self]
      have hcb2 : ({ c with recv_stream_data_calls := c.recv_stream_data_calls ++
          [⟨s.stream_id, fr.fin, fr.data.drop (rx - fr.offset)⟩] } : ngtcp2_conn).recv_stream_data =
          some cb := hcb
      rw [call_eq _ _ _ _ cb hcb2]
      simp only []
      split_ifs
      all_goals exact ⟨_, (decide (s.flags &&& NGTCP2_STRM_FLAG_SHUT_RD ≠ 0) &&
        decide (fr.offset + fr.datalen +
          (ngtcp2_rob_data_at s.rob (fr.offset + fr.datalen)).length = s.last_rx_offset)), rfl,
        by simp⟩
  · simp only [hc, ne_eq, not_false_eq_true, if_true, true_or]
    exact ⟨_, false, rfl, by simp⟩

/-- A non-fin frame that overlaps the receive offset, after the flow-control
checks. -/
theorem accept_in_order (c : ngtcp2_conn) (strm : ngtcp2_strm) (fr : ngtcp2_stream)
    (cb : List recv_stream_data_call → recv_stream_data_call → Int)
    (hcb : c.recv_stream_data = some cb)
    (hlim : strm.rob.limit ≤ UINT64_MAX)
    (hfin : fr.fin = false)
    (h1 : fr.offset ≤ ngtcp2_strm_rx_offset strm)
    (h2 : ngtcp2_strm_rx_offset strm < fr.offset + fr.datalen)
    (hov : fr.offset + fr.datalen ≤ UINT64_MAX) :
    ∃ r fin2, conn_recv_stream_accept c strm fr (fr.offset + fr.datalen) = some r ∧
      r.2.recv_stream_data_calls = c.recv_stream_data_calls ++
        ⟨strm.stream_id, false, fr.data.drop (ngtcp2_strm_rx_offset strm - fr.offset)⟩ ::
        (if cb c.recv_stream_data_calls
              ⟨strm.stream_id, false, fr.data.drop (ngtcp2_strm_rx_offset strm - fr.offset)⟩ ≠ 0 ∨
            ngtcp2_rob_data_at strm.rob (fr.offset + fr.datalen) = [] then []
          else [⟨strm.stream_id, fin2, ngtcp2_rob_data_at strm.rob (fr.offset + fr.datalen)⟩]) := by
  unfold conn_recv_stream_accept
  have hrx : ngtcp2_strm_rx_offset
      { strm with last_rx_offset := max strm.last_rx_offset (fr.offset + fr.datalen) } =
      ngtcp2_strm_rx_offset strm := rfl
  simp only [hfin, Bool.false_eq_true, if_false, hrx, Nat.not_le.mpr h2]
  have := deliver_in_order c
    { strm with last_rx_offset := max strm.last_rx_offset (fr.offset + fr.datalen) } fr
    (ngtcp2_strm_rx_offset strm) cb hcb hlim h1 h2 hov
  rw [hfin] at this
  exact this

/-- A frame beyond the receive offset, after the flow-control checks: no
callback, and the frame is stored unless the allocation fails. -/
theorem accept_reorder (c : ngtcp2_conn) (strm : ngtcp2_strm) (fr : ngtcp2_stream)
    (h : ngtcp2_strm_rx_offset strm < fr.offset)
    (hf : fr.fin = true → strm.last_rx_offset ≤ fr.offset + fr.datalen) :
    ∃ r, conn_recv_stream_accept c strm fr (fr.offset + fr.datalen) = some r ∧
      r.2.recv_stream_data_calls = c.recv_stream_data_calls ∧
      ((ngtcp2_mem_malloc c.mem).1 = true →
        r.1 = 0 ∧ ∃ s1, r.2.strms strm.stream_id = some s1 ∧
          s1.rob = ngtcp2_rob_push strm.rob fr.offset fr.data) := by
  unfold ngtcp2_strm_rx_offset at h
  have hgap := rob_first_gap_push strm.rob fr.offset fr.data h
  unfold conn_recv_stream_accept
  simp only [ngtcp2_strm_rx_offset, ngtcp2_strm_shutdown]
  have hne : ¬ (fr.offset + fr.datalen = ngtcp2_rob_first_gap_offset strm.rob) := by omega
  have hnle : ¬ (fr.offset + fr.datalen ≤ ngtcp2_rob_first_gap_offset strm.rob) := by omega
  have hno : ¬ (fr.offset ≤ ngtcp2_rob_first_gap_offset strm.rob) := by omega
  cases hfin : fr.fin with
  | true =>
    have hmax : max strm.last_rx_offset (fr.offset + fr.datalen) = fr.offset + fr.datalen :=
      Nat.max_eq_right (hf hfin)
    simp only [if_true, hmax, ne_eq, not_true_eq_false, if_false, hne, conn_recv_stream_deliver,
      hno, ngtcp2_strm_recv_reordering]
    cases hm : (ngtcp2_mem_malloc c.mem).1 with
    | false =>
      have : NGTCP2_ERR_NOMEM ≠ 0 := by decide
      simp only [Bool.false_eq_true, if_false, this, ne_eq, not_false_eq_true, if_true]
      exact ⟨_, rfl, rfl, fun h => absurd h (by simp)⟩
    | true =>
      simp only [if_true, not_true_eq_false, if_false]
      rw [close_if_keep _ _ (by simp only [hgap]; omega)]
      exact ⟨_, rfl, rfl, fun _ => ⟨rfl, _, store_strm_strms_self _ _, rfl⟩⟩
  | false =>
    simp only [Bool.false_eq_true, if_false, hnle, conn_recv_stream_deliver,
      hno, ngtcp2_strm_recv_reordering]
    cases hm : (ngtcp2_mem_malloc c.mem).1 with
    | false =>
      have : NGTCP2_ERR_NOMEM ≠ 0 := by decide
      simp only [Bool.false_eq_true, if_false, this, ne_eq, not_false_eq_true, if_true]
      exact ⟨_, rfl, rfl, fun h => absurd h (by simp)⟩
    | true =>
      simp only [if_true, not_true_eq_false, if_false]
      rw [close_if_keep _ _ (by
        simp only [hgap]
        have := Nat.le_max_right strm.last_rx_offset (fr.offset + fr.datalen)
        omega)]
      exact ⟨_, rfl, rfl, fun _ => ⟨rfl, _, store_strm_strms_self _ _, rfl⟩⟩

/-- A frame that passes the flow-control checks is charged to the connection
and handed to the rest of `conn_recv_stream`. -/
theorem recv_stream_reaches_accept (conn : ngtcp2_conn) (fr : ngtcp2_stream) (strm : ngtcp2_strm)
    (hfind : ngtcp2_conn_find_stream conn fr.stream_id = some strm)
    (hpass : passes_flow_control conn strm fr) :
    conn_recv_stream conn fr =
      conn_recv_stream_accept
        (if strm.last_rx_offset < fr.offset + fr.datalen then
          conn_increment_rx_offset conn (fr.offset + fr.datalen - strm.last_rx_offset)
        else conn) strm fr (fr.offset + fr.datalen) := by
  obtain ⟨hne, hidok, hov, hwin, hconn⟩ := hpass
  have hmod : (fr.offset + fr.datalen) % 2 ^ 64 = fr.offset + fr.datalen := by
    apply Nat.mod_eq_of_lt
    unfold UINT64_MAX at hov
    omega
  have h1 : (!conn_local_stream conn fr.stream_id &&
      decide (conn.local_settings.max_stream_id < fr.stream_id)) = false := by
    rcases hidok with h | h
    · simp [h]
    · simp [Nat.not_lt.mpr h]
  have h2 : ¬ (UINT64_MAX - fr.datalen < fr.offset) := by omega
  unfold conn_recv_stream
  simp only [hne, if_false, h1, h2, hfind, Bool.false_eq_true]
  unfold conn_recv_stream_strm
  simp only [hmod, Nat.not_lt.mpr hwin, if_false]
  split_ifs with h3 h4
  · rw [hconn h3] at h4
    exact absurd h4 (by simp)
  · rfl
  · rfl

/-! ## The receive window of the connection -/

/-- The function `ngtcp2_conn_init_stream` keeps the receive window of the
connection and initialises the stream with the local and remote
`max_stream_data`. -/
theorem init_stream_window (c : ngtcp2_conn) (id : Nat) :
    (ngtcp2_conn_init_stream c id).2.1.rx_offset_high = c.rx_offset_high ∧
    (ngtcp2_conn_init_stream c id).2.1.rx_offset_low = c.rx_offset_low ∧
    (ngtcp2_conn_init_stream c id).2.1.max_rx_offset_high = c.max_rx_offset_high ∧
    (ngtcp2_conn_init_stream c id).2.2 =
      ngtcp2_strm_init id NGTCP2_STRM_FLAG_NONE c.local_settings.max_stream_data
        c.remote_settings.max_stream_data := by
  unfold ngtcp2_conn_init_stream
  simp only []
  split_ifs <;> exact ⟨rfl, rfl, rfl, rfl⟩

/-- The window of the connection is kept by the part of `conn_recv_stream`
that follows the lookup of the stream, as long as the window of the stream
leaves room for the low part of the offset, so that
`rx_offset_low + datalen` cannot wrap around. -/
theorem recv_stream_strm_window (conn : ngtcp2_conn) (strm : ngtcp2_strm) (fr : ngtcp2_stream)
    (hwin : conn.rx_offset_high * 1024 + conn.rx_offset_low ≤ conn.max_rx_offset_high * 1024)
    (hlow : conn.rx_offset_low ≤ 1023)
    (hmax : conn.max_rx_offset_high ≤ UINT64_MAX)
    (hs : strm.max_rx_offset + 1023 ≤ UINT64_MAX)
    (hlim : strm.rob.limit ≤ UINT64_MAX)
    (hov : fr.offset + fr.datalen ≤ UINT64_MAX) :
    ∃ r, conn_recv_stream_strm conn strm fr = some r ∧
      r.2.rx_offset_high * 1024 + r.2.rx_offset_low ≤ r.2.max_rx_offset_high * 1024 ∧
      r.2.rx_offset_low ≤ 1023 ∧ r.2.max_rx_offset_high = conn.max_rx_offset_high := by
  have hmod : (fr.offset + fr.datalen) % 2 ^ 64 = fr.offset + fr.datalen := by
    apply Nat.mod_eq_of_lt
    unfold UINT64_MAX at hov
    omega
  unfold conn_recv_stream_strm
  simp only [hmod]
  split_ifs with h1 h2 h3
  · exact ⟨_, rfl, hwin, hlow, rfl⟩
  · exact ⟨_, rfl, hwin, hlow, rfl⟩
  · obtain ⟨r, hr, e1, e2, e3, -⟩ := recv_stream_accept_last_rx
      (conn_increment_rx_offset conn (fr.offset + fr.datalen - strm.last_rx_offset)) strm fr
      (fr.offset + fr.datalen) hlim
    refine ⟨r, hr, ?_, ?_, ?_⟩
    · rw [e1, e2, e3]
      have hv := (max_data_violated_iff conn (fr.offset + fr.datalen - strm.last_rx_offset) hmax
        (by omega) (by omega)).not.mp h3
      have hd := increment_offset_decode conn.rx_offset_high conn.rx_offset_low
        (fr.offset + fr.datalen - strm.last_rx_offset) (by omega) hlow (by omega)
      unfold decode_offset at hd
      simp only [conn_increment_rx_offset]
      unfold UINT64_MAX at *
      omega
    · rw [e2]
      exact (increment_offset_wellformed conn.rx_offset_high conn.rx_offset_low
        (fr.offset + fr.datalen - strm.last_rx_offset) (by omega) hlow (by omega)).1
    · rw [e3]; rfl
  · obtain ⟨r, hr, e1, e2, e3, -⟩ := recv_stream_accept_last_rx conn strm fr
      (fr.offset + fr.datalen) hlim
    exact ⟨r, hr, by rw [e1, e2, e3]; exact hwin, by rw [e2]; exact hlow, e3⟩

/-- The receive window of the connection is kept by `conn_recv_stream` for
every frame and every return value, as long as the windows of the streams
leave room for the low part of the offset (`max_rx_offset + 1023` fits in 64
bits), so that `rx_offset_low + datalen` cannot wrap around in
`conn_max_data_violated`. -/
theorem recv_stream_window_preserved (conn : ngtcp2_conn) (fr : ngtcp2_stream)
    (hwin : conn.rx_offset_high * 1024 + conn.rx_offset_low ≤ conn.max_rx_offset_high * 1024)
    (hlow : conn.rx_offset_low ≤ 1023)
    (hmax : conn.max_rx_offset_high ≤ UINT64_MAX)
    (hstrm : ∀ s, ngtcp2_conn_find_stream conn fr.stream_id = some s →
      s.max_rx_offset + 1023 ≤ UINT64_MAX ∧ s.rob.limit ≤ UINT64_MAX)
    (hnew : conn.local_settings.max_stream_data + 1023 ≤ UINT64_MAX)
    (hdl : fr.datalen ≤ UINT64_MAX) :
    ∃ r, conn_recv_stream conn fr = some r ∧
      r.2.rx_offset_high * 1024 + r.2.rx_offset_low ≤ r.2.max_rx_offset_high * 1024 ∧
      r.2.rx_offset_low ≤ 1023 ∧ r.2.max_rx_offset_high = conn.max_rx_offset_high := by
  unfold conn_recv_stream
  by_cases h0 : fr.stream_id = 0
  · exact ⟨(0, conn), by simp only [h0, if_true], hwin, hlow, rfl⟩
  simp only [h0, if_false]
  by_cases h1 : (!conn_local_stream conn fr.stream_id &&
      decide (conn.local_settings.max_stream_id < fr.stream_id)) = true
  · exact ⟨(NGTCP2_ERR_PROTO, conn), by simp only [h1, if_true], hwin, hlow, rfl⟩
  simp only [h1, if_false, Bool.false_eq_true]
  by_cases h2 : UINT64_MAX - fr.datalen < fr.offset
  · exact ⟨(NGTCP2_ERR_PROTO, conn), by simp only [h2, if_true], hwin, hlow, rfl⟩
  simp only [h2, if_false]
  have hov : fr.offset + fr.datalen ≤ UINT64_MAX := by omega
  cases hfind : ngtcp2_conn_find_stream conn fr.stream_id with
  | some strm =>
    obtain ⟨hs, hlim⟩ := hstrm strm hfind
    exact recv_stream_strm_window conn strm fr hwin hlow hmax hs hlim hov
  | none =>
    simp only []
    generalize ho : (if conn_local_stream conn fr.stream_id = true then
        (ngtcp2_idtr_is_open conn.local_idtr (id_from_stream_id fr.stream_id), conn)
      else
        ((ngtcp2_idtr_open conn.remote_idtr (id_from_stream_id fr.stream_id) conn.mem).1,
          { conn with
            remote_idtr :=
              (ngtcp2_idtr_open conn.remote_idtr (id_from_stream_id fr.stream_id) conn.mem).2.1
            mem :=
              (ngtcp2_idtr_open conn.remote_idtr (id_from_stream_id fr.stream_id) conn.mem).2.2 })) = o
    have hoc : o.2.rx_offset_high = conn.rx_offset_high ∧ o.2.rx_offset_low = conn.rx_offset_low ∧
        o.2.max_rx_offset_high = conn.max_rx_offset_high ∧
        o.2.local_settings = conn.local_settings := by
      rw [← ho]
      split_ifs <;> exact ⟨rfl, rfl, rfl, rfl⟩
    obtain ⟨o1, o2, o3, o4⟩ := hoc
    by_cases h3 : o.1 ≠ 0
    · rw [if_pos h3]
      by_cases h4 : o.1 = NGTCP2_ERR_STREAM_IN_USE
      · exact ⟨(0, o.2), by simp only [h4, if_true], by rw [o1, o2, o3]; exact hwin,
          by rw [o2]; exact hlow, o3⟩
      · exact ⟨(o.1, o.2), by simp only [h4, if_false], by rw [o1, o2, o3]; exact hwin,
          by rw [o2]; exact hlow, o3⟩
    · rw [if_neg h3]
      by_cases h5 : (!(ngtcp2_mem_malloc o.2.mem).1) = true
      · exact ⟨(NGTCP2_ERR_NOMEM, { o.2 with mem := (ngtcp2_mem_malloc o.2.mem).2 }),
          by simp only [h5, if_true], by
            show o.2.rx_offset_high * 1024 + o.2.rx_offset_low ≤ o.2.max_rx_offset_high * 1024
            rw [o1, o2, o3]; exact hwin,
          by show o.2.rx_offset_low ≤ 1023; rw [o2]; exact hlow, o3⟩
      · simp only [h5, if_false, Bool.false_eq_true]
        have hi := init_stream_window { o.2 with mem := (ngtcp2_mem_malloc o.2.mem).2 } fr.stream_id
        obtain ⟨i1, i2, i3, i4⟩ := hi
        by_cases h6 : (ngtcp2_conn_init_stream
            { o.2 with mem := (ngtcp2_mem_malloc o.2.mem).2 } fr.stream_id).1 ≠ 0
        · refine ⟨_, by rw [if_pos h6], ?_, ?_, ?_⟩
          · simp only [i1, i2, i3]; rw [o1, o2, o3]; exact hwin
          · simp only [i2]; rw [o2]; exact hlow
          · simp only [i3]; exact o3
        · rw [if_neg h6]
          obtain ⟨r, hr, w1, w2, w3⟩ := recv_stream_strm_window
            (ngtcp2_conn_init_stream
              { o.2 with mem := (ngtcp2_mem_malloc o.2.mem).2 } fr.stream_id).2.1
            (ngtcp2_conn_init_stream
              { o.2 with mem := (ngtcp2_mem_malloc o.2.mem).2 } fr.stream_id).2.2 fr
            (by simp only [i1, i2, i3]; rw [o1, o2, o3]; exact hwin)
            (by simp only [i2]; rw [o2]; exact hlow)
            (by simp only [i3]; rw [o3]; exact hmax)
            (by rw [i4]; simp only [ngtcp2_strm_init]; rw [o4]; exact hnew)
            (by rw [i4]; simp only [ngtcp2_strm_init, ngtcp2_rob_init]; exact Nat.zero_le _)
            hov
          refine ⟨r, hr, w1, w2, ?_⟩
          rw [w3]
          simp only [i3]
          exact o3

/-! ## Streams other than the stream of the frame -/

theorem store_strm_strms_other (c : ngtcp2_conn) (s : ngtcp2_strm) (k : Nat)
    (hk : k ≠ s.stream_id) : (conn_store_strm c s).strms k = c.strms k := by
  simp [conn_store_strm, hk]

theorem recv_stream_reaches_accept_new (conn : ngtcp2_conn) (fr : ngtcp2_stream)
    (strm : ngtcp2_strm)
    (hfind : ngtcp2_conn_find_stream conn fr.stream_id = none)
    (hstrm : strm = ngtcp2_strm_init fr.stream_id NGTCP2_STRM_FLAG_NONE
      conn.local_settings.max_stream_data conn.remote_settings.max_stream_data)
    (hmem : conn.mem = [])
    (hq : if conn_local_stream conn fr.stream_id = true then
        id_from_stream_id fr.stream_id ∉ conn.local_idtr.opened
      else id_from_stream_id fr.stream_id ∉ conn.remote_idtr.opened)
    (hpass : passes_flow_control conn strm fr) :
    ∃ c1, conn_recv_stream conn fr =
        conn_recv_stream_accept c1 strm fr (fr.offset + fr.datalen) ∧
      c1.recv_stream_data = conn.recv_stream_data ∧
      c1.recv_stream_data_calls = conn.recv_stream_data_calls ∧
      c1.mem = conn.mem := by
  obtain ⟨hne, hidok, hov, hwin, hconn⟩ := hpass
  have hmod : (fr.offset + fr.datalen) % 2 ^ 64 = fr.offset + fr.datalen := by
    apply Nat.mod_eq_of_lt
    unfold UINT64_MAX at hov
    omega
  have h1 : (!conn_local_stream conn fr.stream_id &&
      decide (conn.local_settings.max_stream_id < fr.stream_id)) = false := by
    rcases hidok with h | h
    · simp [h]
    · simp [Nat.not_lt.mpr h]
  have h2 : ¬ (UINT64_MAX - fr.datalen < fr.offset) := by omega
  have hnone : conn.strms fr.stream_id = none := hfind
  unfold conn_recv_stream
  simp only [hne, if_false, h1, h2, hfind, Bool.false_eq_true]
  cases hl : conn_local_stream conn fr.stream_id with
  | true =>
    simp only [hl, if_true] at hq
    simp only [if_true, ngtcp2_idtr_is_open, hq, if_false, ne_eq, not_true_eq_false, hmem,
      ngtcp2_mem_malloc, Bool.not_true, Bool.false_eq_true, ngtcp2_conn_init_stream, hnone,
      Option.isSome_none, ← hstrm]
    unfold conn_recv_stream_strm
    simp only [hmod, Nat.not_lt.mpr hwin, if_false]
    by_cases h3 : strm.last_rx_offset < fr.offset + fr.datalen
    · have hv := hconn h3
      simp only [conn_max_data_violated] at hv
      simp only [h3, if_true, conn_max_data_violated, conn_store_strm, hv, Bool.false_eq_true,
        if_false]
      exact ⟨_, rfl, rfl, rfl, rfl⟩
    · simp only [h3, if_false]
      exact ⟨_, rfl, rfl, rfl, rfl⟩
  | false =>
    simp only [hl, Bool.false_eq_true, if_false] at hq
    simp only [Bool.false_eq_true, if_false, ngtcp2_idtr_open, hq, ne_eq, not_true_eq_false,
      hmem, ngtcp2_mem_malloc, Bool.not_true, if_true, ngtcp2_conn_init_stream, hnone,
      Option.isSome_none, ← hstrm]
    unfold conn_recv_stream_strm
    simp only [hmod, Nat.not_lt.mpr hwin, if_false]
    by_cases h3 : strm.last_rx_offset < fr.offset + fr.datalen
    · have hv := hconn h3
      simp only [conn_max_data_violated] at hv
      simp only [h3, if_true, conn_max_data_violated, conn_store_strm, hv, Bool.false_eq_true,
        if_false]
      exact ⟨_, rfl, rfl, rfl, rfl⟩
    · simp only [h3, if_false]
      exact ⟨_, rfl, rfl, rfl, rfl⟩

/-- A frame that passes the flow-control checks is charged to the connection
and handed to the rest of `conn_recv_stream`, with the stream found or
created for it. -/
theorem recv_stream_reaches_accept_any (conn : ngtcp2_conn) (fr : ngtcp2_stream)
    (strm : ngtcp2_strm) (hs : stream_of_frame conn fr strm)
    (hpass : passes_flow_control conn strm fr) :
    strm.stream_id = fr.stream_id ∧
    ∃ c1, conn_recv_stream conn fr =
        conn_recv_stream_accept c1 strm fr (fr.offset + fr.datalen) ∧
      c1.recv_stream_data = conn.recv_stream_data ∧
      c1.recv_stream_data_calls = conn.recv_stream_data_calls ∧
      c1.mem = conn.mem := by
  rcases hs with ⟨hfind, hkey⟩ | ⟨hfind, hstrm, hmem, hq⟩
  · refine ⟨hkey, _, recv_stream_reaches_accept conn fr strm hfind hpass, ?_, ?_, ?_⟩
    all_goals split_ifs <;> rfl
  · exact ⟨by rw [hstrm]; rfl,
      recv_stream_reaches_accept_new conn fr strm hfind hstrm hmem hq hpass⟩

/-- A non-fin frame that overlaps the receive offset of its stream, found or
created. -/
theorem recv_stream_in_order_any (conn : ngtcp2_conn) (fr : ngtcp2_stream) (strm : ngtcp2_strm)
    (cb : List recv_stream_data_call → recv_stream_data_call → Int)
    (hs : stream_of_frame conn fr strm)
    (hpass : passes_flow_control conn strm fr)
    (hcb : conn.recv_stream_data = some cb)
    (hlim : strm.rob.limit ≤ UINT64_MAX)
    (hfin : fr.fin = false)
    (h1 : fr.offset ≤ ngtcp2_strm_rx_offset strm)
    (h2 : ngtcp2_strm_rx_offset strm < fr.offset + fr.datalen) :
    ∃ r fin2, conn_recv_stream conn fr = some r ∧
      r.2.recv_stream_data_calls = conn.recv_stream_data_calls ++
        ⟨fr.stream_id, false, fr.data.drop (ngtcp2_strm_rx_offset strm - fr.offset)⟩ ::
        (if cb conn.recv_stream_data_calls
              ⟨fr.stream_id, false, fr.data.drop (ngtcp2_strm_rx_offset strm - fr.offset)⟩ ≠ 0 ∨
            ngtcp2_rob_data_at strm.rob (fr.offset + fr.datalen) = [] then []
          else [⟨fr.stream_id, fin2, ngtcp2_rob_data_at strm.rob (fr.offset + fr.datalen)⟩]) ∧
      (fr.data.drop (ngtcp2_strm_rx_offset strm - fr.offset)).length =
        fr.offset + fr.datalen - ngtcp2_strm_rx_offset strm := by
  obtain ⟨hkey, c1, hc1, e1, e2, -⟩ := recv_stream_reaches_accept_any conn fr strm hs hpass
  have hlen : (fr.data.drop (ngtcp2_strm_rx_offset strm - fr.offset)).length =
      fr.offset + fr.datalen - ngtcp2_strm_rx_offset strm := by
    rw [List.length_drop]
    unfold ngtcp2_stream.datalen
    omega
  obtain ⟨r, fin2, hr, hc⟩ := accept_in_order c1 strm fr cb (by rw [e1]; exact hcb) hlim hfin h1 h2
    hpass.2.2.1
  rw [e2, hkey] at hc
  exact ⟨r, fin2, by rw [hc1]; exact hr, hc, hlen⟩

/-- A frame beyond the receive offset of its stream, found or created. -/
theorem recv_stream_reorder_any (conn : ngtcp2_conn) (fr : ngtcp2_stream) (strm : ngtcp2_strm)
    (hs : stream_of_frame conn fr strm)
    (hpass : passes_flow_control conn strm fr)
    (hf : fr.fin = true → strm.last_rx_offset ≤ fr.offset + fr.datalen)
    (h : ngtcp2_strm_rx_offset strm < fr.offset) :
    ∃ r, conn_recv_stream conn fr = some r ∧
      r.2.recv_stream_data_calls = conn.recv_stream_data_calls ∧
      ((ngtcp2_mem_malloc conn.mem).1 = true →
        r.1 = 0 ∧ ∃ s1, ngtcp2_conn_find_stream r.2 fr.stream_id = some s1 ∧
          s1.rob = ngtcp2_rob_push strm.rob fr.offset fr.data) := by
  obtain ⟨hkey, c1, hc1, -, e2, e3⟩ := recv_stream_reaches_accept_any conn fr strm hs hpass
  obtain ⟨r, hr, hc, hst⟩ := accept_reorder c1 strm fr h hf
  rw [e2] at hc
  rw [e3, hkey] at hst
  exact ⟨r, by rw [hc1]; exact hr, hc, hst⟩

/-! ## The retransmission buffer and the opening of streams -/

/-- A stream that `ngtcp2_conn_init_stream` has inserted is found under its
id. -/
theorem init_stream_findable (conn : ngtcp2_conn) (stream_id : Nat)
    (h : (ngtcp2_conn_init_stream conn stream_id).1 = 0) :
    ∃ strm, ngtcp2_conn_find_stream (ngtcp2_conn_init_stream conn stream_id).2.1 stream_id
        = some strm ∧ strm.stream_id = stream_id := by
  unfold ngtcp2_conn_init_stream at h ⊢
  simp only at h ⊢
  split_ifs at h ⊢ with g1 g2 g3
  · exact absurd h (by simp [NGTCP2_ERR_NOMEM])
  · exact absurd h (by simp [NGTCP2_ERR_INVALID_ARGUMENT])
  · exact absurd h (by simp [NGTCP2_ERR_NOMEM])
  · exact ⟨ngtcp2_strm_init stream_id NGTCP2_STRM_FLAG_NONE conn.local_settings.max_stream_data
        conn.remote_settings.max_stream_data,
      by simp [ngtcp2_conn_find_stream, conn_store_strm, ngtcp2_strm_init], rfl⟩

/-! ## The loop of `conn_create_ack_frame` -/

theorem create_ack_frame_nil (conn : ngtcp2_conn) (ack : ngtcp2_ack) (ts : Nat)
    (h : conn.acktr.ent = []) :
    conn_create_ack_frame conn ack ts = (0, { conn with next_ack_expiry := 0 }, ack) := by
  unfold conn_create_ack_frame ngtcp2_acktr_get
  rw [h]
  rfl

theorem create_ack_frame_cons (conn : ngtcp2_conn) (ack : ngtcp2_ack) (ts : Nat)
    (e : ngtcp2_acktr_entry) (rest : List ngtcp2_acktr_entry) (h : conn.acktr.ent = e :: rest) :
    conn_create_ack_frame conn ack ts =
      (0,
       if (conn_create_ack_frame_loop rest (ack_frame_init e ack ts)).2 = [] then
         { conn with
           acktr := { ent := (conn_create_ack_frame_loop rest (ack_frame_init e ack ts)).2 }
           next_ack_expiry := 0 }
       else
         { conn with
           acktr := { ent := (conn_create_ack_frame_loop rest (ack_frame_init e ack ts)).2 } },
       ack_frame_finish (conn_create_ack_frame_loop rest (ack_frame_init e ack ts)).1) := by
  unfold conn_create_ack_frame ngtcp2_acktr_get ngtcp2_acktr_remove
  rw [h]
  simp only [List.head?_cons, List.erase_cons_head]
  cases hr : (conn_create_ack_frame_loop rest (ack_frame_init e ack ts)).2 with
  | nil => simp [conn_invalidate_next_ack_expiry]
  | cons x xs => simp

theorem ack_loop_consecutive (e : ngtcp2_acktr_entry) (rest : List ngtcp2_acktr_entry)
    (st : ack_frame_state) (h : (e.pkt_num + 1) % 2 ^ 64 = st.last_pkt_num) :
    conn_create_ack_frame_loop (e :: rest) st =
      conn_create_ack_frame_loop rest { st with last_pkt_num := e.pkt_num } := by
  rw [conn_create_ack_frame_loop, if_pos h]

theorem ack_loop_step (e : ngtcp2_acktr_entry) (rest : List ngtcp2_acktr_entry)
    (st : ack_frame_state) (h : ¬ (e.pkt_num + 1) % 2 ^ 64 = st.last_pkt_num) :
    conn_create_ack_frame_loop (e :: rest) st =
      if (ack_loop_gap st e).gap > 255 then (ack_loop_gap st e, e :: rest)
      else if (ack_loop_start_run (ack_loop_gap st e) e).ack.num_blks = 255 then
        (ack_loop_start_run (ack_loop_gap st e) e, rest)
      else conn_create_ack_frame_loop rest (ack_loop_start_run (ack_loop_gap st e) e) := by
  rw [conn_create_ack_frame_loop, if_neg h]

@[simp] theorem ack_loop_gap_first (st : ack_frame_state) (e : ngtcp2_acktr_entry) :
    (ack_loop_gap st e).first_pkt_num = st.first_pkt_num := by
  unfold ack_loop_gap; split_ifs <;> rfl

@[simp] theorem ack_loop_gap_last (st : ack_frame_state) (e : ngtcp2_acktr_entry) :
    (ack_loop_gap st e).last_pkt_num = st.last_pkt_num := by
  unfold ack_loop_gap; split_ifs <;> rfl

@[simp] theorem ack_loop_gap_ack_delay (st : ack_frame_state) (e : ngtcp2_acktr_entry) :
    (ack_loop_gap st e).ack_delay = st.ack_delay := by
  unfold ack_loop_gap; split_ifs <;> rfl

@[simp] theorem ack_loop_gap_initial (st : ack_frame_state) (e : ngtcp2_acktr_entry) :
    (ack_loop_gap st e).initial = false := by
  unfold ack_loop_gap; split_ifs with h
  · rfl
  · simpa using h

@[simp] theorem ack_loop_gap_gap (st : ack_frame_state) (e : ngtcp2_acktr_entry) :
    (ack_loop_gap st e).gap = (st.last_pkt_num + 2 ^ 64 - e.pkt_num - 1) % 2 ^ 64 := by
  unfold ack_loop_gap; split_ifs <;> rfl

theorem ack_loop_gap_ack (st : ack_frame_state) (e : ngtcp2_acktr_entry) :
    (ack_loop_gap st e).ack = if st.initial then ack_set_first_blk st else ack_add_blk st := by
  unfold ack_loop_gap; split_ifs <;> rfl

@[simp] theorem ack_loop_start_run_first (st : ack_frame_state) (e : ngtcp2_acktr_entry) :
    (ack_loop_start_run st e).first_pkt_num = e.pkt_num := rfl

@[simp] theorem ack_loop_start_run_last (st : ack_frame_state) (e : ngtcp2_acktr_entry) :
    (ack_loop_start_run st e).last_pkt_num = e.pkt_num := rfl

@[simp] theorem ack_loop_start_run_ack_delay (st : ack_frame_state) (e : ngtcp2_acktr_entry) :
    (ack_loop_start_run st e).ack_delay = st.ack_delay := rfl

@[simp] theorem ack_loop_start_run_initial (st : ack_frame_state) (e : ngtcp2_acktr_entry) :
    (ack_loop_start_run st e).initial = st.initial := rfl

@[simp] theorem ack_loop_start_run_gap (st : ack_frame_state) (e : ngtcp2_acktr_entry) :
    (ack_loop_start_run st e).gap = st.gap := rfl

@[simp] theorem ack_loop_start_run_ack (st : ack_frame_state) (e : ngtcp2_acktr_entry) :
    (ack_loop_start_run st e).ack = st.ack := rfl

theorem ack_finish_ack_delay (st : ack_frame_state) :
    (ack_frame_finish st).ack_delay =
      if st.initial then st.ack_delay % 2 ^ 16 else st.ack.ack_delay := by
  unfold ack_frame_finish
  split_ifs <;> rfl

/-- The field `ack_delay` of the frame is written once, with the local
`ack_delay` cut to 16 bits, when the first block is set. -/
theorem ack_loop_ack_delay (ents : List ngtcp2_acktr_entry) (st : ack_frame_state) :
    (ack_frame_finish (conn_create_ack_frame_loop ents st).1).ack_delay =
      if st.initial then st.ack_delay % 2 ^ 16 else st.ack.ack_delay := by
  induction ents generalizing st with
  | nil => exact ack_finish_ack_delay st
  | cons e rest ih =>
    by_cases hc : (e.pkt_num + 1) % 2 ^ 64 = st.last_pkt_num
    · rw [ack_loop_consecutive e rest st hc, ih]
    · have hd : (ack_loop_gap st e).ack.ack_delay =
          if st.initial then st.ack_delay % 2 ^ 16 else st.ack.ack_delay := by
        rw [ack_loop_gap_ack]
        split_ifs <;> rfl
      rw [ack_loop_step e rest st hc]
      generalize (if st.initial then st.ack_delay % 2 ^ 16 else st.ack.ack_delay) = d at hd ⊢
      split_ifs with h1 h2
      · rw [ack_finish_ack_delay]
        simpa using hd
      · rw [ack_finish_ack_delay]
        simpa using hd
      · rw [ih]
        simpa using hd

theorem ack_finish_type (st : ack_frame_state) :
    (ack_frame_finish st).type = st.ack.type := by
  unfold ack_frame_finish
  split_ifs <;> rfl

theorem ack_run_zero (a : Nat) : ack_run a 0 = [] := rfl

theorem ack_run_succ (a n : Nat) : ack_run a (n + 1) = a :: ack_run (a - 1) n := by
  unfold ack_run
  rw [List.range_succ_eq_map, List.map_cons, List.map_map]
  refine congrArg₂ _ rfl (List.map_congr_left fun i _ => ?_)
  simp only [Function.comp, Nat.succ_eq_add_one]
  omega

theorem ack_run_snoc (a n : Nat) : ack_run a (n + 1) = ack_run a n ++ [a - n] := by
  unfold ack_run
  rw [List.range_succ, List.map_append]
  rfl

theorem ack_run_length (a n : Nat) : (ack_run a n).length = n := by
  simp [ack_run]

/-- The loop of `conn_create_ack_frame` over the records of one run that
continues the present run: the records are consumed and `last_pkt_num` goes
down to the end of the run. -/
theorem ack_loop_run (ents : List ngtcp2_acktr_entry) (len : Nat) (st : ack_frame_state)
    (hrun : ents.map (fun e => e.pkt_num) = ack_run (st.last_pkt_num - 1) len)
    (hlen : len ≤ st.last_pkt_num) (hlast : st.last_pkt_num < 2 ^ 64) :
    conn_create_ack_frame_loop ents st =
      ({ st with last_pkt_num := st.last_pkt_num - len }, []) := by
  induction ents generalizing len st with
  | nil =>
    have h0 : len = 0 := by
      have := congrArg List.length hrun
      rw [ack_run_length] at this
      simpa using this.symm
    subst h0
    rfl
  | cons e rest ih =>
    cases len with
    | zero => exact absurd hrun (by simp [ack_run_zero])
    | succ l =>
      rw [ack_run_succ, List.map_cons, List.cons.injEq] at hrun
      have he : e.pkt_num = st.last_pkt_num - 1 := hrun.1
      have hc : (e.pkt_num + 1) % 2 ^ 64 = st.last_pkt_num := by omega
      rw [ack_loop_consecutive e rest st hc]
      have h := ih l { st with last_pkt_num := e.pkt_num }
        (by rw [hrun.2, he]) (by simp only; omega) (by simp only; omega)
      rw [h]
      simp only [Prod.mk.injEq, and_true]
      have : e.pkt_num - l = st.last_pkt_num - (l + 1) := by omega
      rw [this]

theorem acktr_insert_ne_nil (l : List ngtcp2_acktr_entry) (e : ngtcp2_acktr_entry) :
    ngtcp2_acktr_insert l e ≠ [] := by
  cases l with
  | nil => simp [ngtcp2_acktr_insert]
  | cons x xs =>
    simp only [ngtcp2_acktr_insert]
    split_ifs <;> simp

theorem ack_blks_covered_append (bs cs : List ngtcp2_ack_blk) (s : Nat) :
    ack_blks_covered s (bs ++ cs) =
      ack_blks_covered s bs ++ ack_blks_covered (ack_blks_smallest s bs) cs := by
  induction bs generalizing s with
  | nil => rfl
  | cons b bs ih =>
    rw [List.cons_append]
    simp only [ack_blks_covered, ack_blks_smallest, ih, List.append_assoc]

theorem ack_blks_smallest_append (bs cs : List ngtcp2_ack_blk) (s : Nat) :
    ack_blks_smallest s (bs ++ cs) = ack_blks_smallest (ack_blks_smallest s bs) cs := by
  induction bs generalizing s with
  | nil => rfl
  | cons b bs ih =>
    rw [List.cons_append]
    simp only [ack_blks_smallest, ih]

/-- The first block, written for the run from `first_pkt_num` down to
`last_pkt_num`, covers that run. -/
theorem ack_covered_set_first_blk (st : ack_frame_state)
    (hfl : st.last_pkt_num ≤ st.first_pkt_num) (hfb : st.first_pkt_num < 2 ^ 64)
    (hblks : st.ack.blks = []) :
    ack_covered (ack_set_first_blk st) =
        ack_run st.first_pkt_num (st.first_pkt_num - st.last_pkt_num + 1) ∧
      ack_smallest (ack_set_first_blk st) = st.last_pkt_num := by
  have h : (st.first_pkt_num + 2 ^ 64 - st.last_pkt_num) % 2 ^ 64
      = st.first_pkt_num - st.last_pkt_num := by omega
  simp only [ack_covered, ack_smallest, ack_set_first_blk, hblks, ack_blks_covered,
    ack_blks_smallest, List.append_nil, h]
  exact ⟨trivial, by omega⟩

/-- A further block, written for the run from `first_pkt_num` down to
`last_pkt_num` that lies `gap` packet numbers below the blocks written
before, adds that run to the covered set. -/
theorem ack_covered_add_blk (st : ack_frame_state)
    (hfl : st.last_pkt_num ≤ st.first_pkt_num) (hfb : st.first_pkt_num + 1 < 2 ^ 64)
    (hsm : ack_smallest st.ack = st.first_pkt_num + st.gap + 1) (hgap : st.gap ≤ 255) :
    ack_covered (ack_add_blk st) =
        ack_covered st.ack ++ ack_run st.first_pkt_num (st.first_pkt_num - st.last_pkt_num + 1) ∧
      ack_smallest (ack_add_blk st) = st.last_pkt_num := by
  have h : (st.first_pkt_num + 2 ^ 64 - st.last_pkt_num + 1) % 2 ^ 64
      = st.first_pkt_num - st.last_pkt_num + 1 := by omega
  have hg : st.gap % 2 ^ 8 = st.gap := by omega
  unfold ack_smallest at hsm
  simp only [ack_covered, ack_smallest, ack_add_blk, ack_blks_covered_append,
    ack_blks_smallest_append, ack_blks_covered, ack_blks_smallest, List.append_nil, h, hg, hsm,
    List.append_assoc]
  have h1 : st.first_pkt_num + st.gap + 1 - st.gap - 1 = st.first_pkt_num := by omega
  rw [h1]
  exact ⟨rfl, by omega⟩

theorem ack_gaps_cons_consecutive (a b : Nat) (l : List Nat) (h : a = b + 1) :
    ack_gaps (a :: b :: l) = ack_gaps (b :: l) := by
  simp [ack_gaps, h]

theorem ack_gaps_cons_gap (a b : Nat) (l : List Nat) (h : a ≠ b + 1) :
    ack_gaps (a :: b :: l) = 1 + ack_gaps (b :: l) := by
  simp [ack_gaps, h]

/-- The loop of `conn_create_ack_frame` and the statements after it, started
in a state whose frame covers `cov` and whose present run goes from
`first_pkt_num` down to `last_pkt_num`: when the records left in the tracker
go on in descending order with gaps of at most 255, few enough of them, and
the last run is not a single packet number below a gap, the tracker is
drained and the frame covers `cov`, the present run and the records left. -/
theorem ack_loop_covers (ents : List ngtcp2_acktr_entry) (st : ack_frame_state) (cov : List Nat)
    (hfl : st.last_pkt_num ≤ st.first_pkt_num) (hfb : st.first_pkt_num < 2 ^ 64)
    (hch : List.Chain (fun a b => b < a ∧ a - b ≤ 256) st.last_pkt_num
      (ents.map (fun e => e.pkt_num)))
    (hinit : st.initial = true → cov = [] ∧ st.ack.blks = [])
    (hinv : st.initial = false → ack_covered st.ack = cov ∧
      ack_smallest st.ack = st.first_pkt_num + st.gap + 1 ∧ st.gap ≤ 255 ∧
      st.first_pkt_num + 1 < 2 ^ 64)
    (hcnt1 : st.initial = true →
      ack_gaps (st.last_pkt_num :: ents.map (fun e => e.pkt_num)) ≤ 255)
    (hcnt2 : st.initial = false →
      st.ack.blks.length + ack_gaps (st.last_pkt_num :: ents.map (fun e => e.pkt_num)) ≤ 254)
    (hfin : (st.initial = true ∧
        ack_gaps (st.last_pkt_num :: ents.map (fun e => e.pkt_num)) = 0) ∨
      ack_ends_in_pair (st.last_pkt_num :: ents.map (fun e => e.pkt_num)) = true ∨
      (ents = [] ∧ st.first_pkt_num ≠ st.last_pkt_num)) :
    (conn_create_ack_frame_loop ents st).2 = [] ∧
    ack_covered (ack_frame_finish (conn_create_ack_frame_loop ents st).1) =
      cov ++ ack_run st.first_pkt_num (st.first_pkt_num - st.last_pkt_num + 1) ++
        ents.map (fun e => e.pkt_num) ∧
    (ack_frame_finish (conn_create_ack_frame_loop ents st).1).num_blks =
      (if st.initial then 0 else st.ack.blks.length + 1) +
        ack_gaps (st.last_pkt_num :: ents.map (fun e => e.pkt_num)) := by
  induction ents generalizing st cov with
  | nil =>
    simp only [conn_create_ack_frame_loop, List.map_nil, List.append_nil, ack_gaps, Nat.add_zero]
    refine ⟨trivial, ?_⟩
    cases hi : st.initial
    · obtain ⟨hcov, hsm, hgap, hfb2⟩ := hinv hi
      have hne : st.first_pkt_num ≠ st.last_pkt_num := by
        rcases hfin with h | h | h
        · rw [hi] at h; exact absurd h.1 (by simp)
        · simp [ack_ends_in_pair] at h
        · exact h.2
      have hf : ack_frame_finish st = ack_add_blk st := by
        unfold ack_frame_finish
        rw [hi]
        simp only [Bool.false_eq_true, if_false, if_pos hne]
      rw [hf, (ack_covered_add_blk st hfl hfb2 hsm hgap).1, hcov]
      exact ⟨rfl, by simp [ack_add_blk, ngtcp2_ack.num_blks]⟩
    · obtain ⟨hcov, hblks⟩ := hinit hi
      have hf : ack_frame_finish st = ack_set_first_blk st := by
        unfold ack_frame_finish
        rw [hi]
        simp only [if_true]
      rw [hf, (ack_covered_set_first_blk st hfl hfb hblks).1, hcov]
      exact ⟨rfl, by simp [ack_set_first_blk, ngtcp2_ack.num_blks, hblks]⟩
  | cons e rest ih =>
    simp only [List.map_cons] at hch hcnt1 hcnt2 hfin ⊢
    rw [List.chain_cons] at hch
    obtain ⟨⟨hlt, hd⟩, hch2⟩ := hch
    by_cases hc : st.last_pkt_num = e.pkt_num + 1
    · have hc2 : (e.pkt_num + 1) % 2 ^ 64 = st.last_pkt_num := by omega
      have hg := ack_gaps_cons_consecutive st.last_pkt_num e.pkt_num
        (rest.map (fun e => e.pkt_num)) hc
      rw [ack_loop_consecutive e rest st hc2]
      rw [hg] at hcnt1 hcnt2 hfin ⊢
      have hfin2 : (st.initial = true ∧
            ack_gaps (e.pkt_num :: rest.map (fun e => e.pkt_num)) = 0) ∨
          ack_ends_in_pair (e.pkt_num :: rest.map (fun e => e.pkt_num)) = true ∨
          (rest = [] ∧ st.first_pkt_num ≠ e.pkt_num) := by
        rcases hfin with h | h | h
        · exact Or.inl h
        · cases rest with
          | nil => exact Or.inr (Or.inr ⟨rfl, by omega⟩)
          | cons x xs => exact Or.inr (Or.inl h)
        · exact absurd h.1 (by simp)
      have h := ih { st with last_pkt_num := e.pkt_num } cov (by simp only; omega) hfb hch2
        hinit hinv hcnt1 hcnt2 hfin2
      refine ⟨h.1, ?_, h.2.2⟩
      rw [h.2.1]
      simp only
      have hk : st.first_pkt_num - e.pkt_num + 1 = (st.first_pkt_num - st.last_pkt_num + 1) + 1 := by
        omega
      have hk2 : st.first_pkt_num - (st.first_pkt_num - st.last_pkt_num + 1) = e.pkt_num := by
        omega
      rw [hk, ack_run_snoc, hk2]
      simp
    · have hc2 : ¬ (e.pkt_num + 1) % 2 ^ 64 = st.last_pkt_num := by omega
      have hgg := ack_gaps_cons_gap st.last_pkt_num e.pkt_num
        (rest.map (fun e => e.pkt_num)) hc
      rw [hgg] at hcnt1 hcnt2 hfin ⊢
      have hgapv : (ack_loop_gap st e).gap = st.last_pkt_num - e.pkt_num - 1 := by
        rw [ack_loop_gap_gap]; omega
      have h1 : ¬ (ack_loop_gap st e).gap > 255 := by omega
      have hack : ack_covered (ack_loop_gap st e).ack =
            cov ++ ack_run st.first_pkt_num (st.first_pkt_num - st.last_pkt_num + 1) ∧
          ack_smallest (ack_loop_gap st e).ack = st.last_pkt_num ∧
          (ack_loop_gap st e).ack.blks.length =
            if st.initial then 0 else st.ack.blks.length + 1 := by
        rw [ack_loop_gap_ack]
        cases hi : st.initial
        · obtain ⟨hcov, hsm, hgap, hfb2⟩ := hinv hi
          simp only [Bool.false_eq_true, if_false]
          have h := ack_covered_add_blk st hfl hfb2 hsm hgap
          exact ⟨by rw [h.1, hcov], h.2, by simp [ack_add_blk]⟩
        · obtain ⟨hcov, hblks⟩ := hinit hi
          simp only [if_true]
          have h := ack_covered_set_first_blk st hfl hfb hblks
          exact ⟨by rw [h.1, hcov]; rfl, h.2, by simp [ack_set_first_blk, hblks]⟩
      have hlen : (ack_loop_gap st e).ack.blks.length +
          ack_gaps (e.pkt_num :: rest.map (fun e => e.pkt_num)) ≤ 254 := by
        rw [hack.2.2]
        cases hi : st.initial
        · have := hcnt2 hi
          simp only [Bool.false_eq_true, if_false]
          omega
        · have := hcnt1 hi
          simp only [if_true]
          omega
      have hnb : ¬ (ack_loop_start_run (ack_loop_gap st e) e).ack.num_blks = 255 := by
        rw [ack_loop_start_run_ack]
        unfold ngtcp2_ack.num_blks
        omega
      rw [ack_loop_step e rest st hc2, if_neg h1, if_neg hnb]
      have hfin2 : ((ack_loop_start_run (ack_loop_gap st e) e).initial = true ∧
            ack_gaps (e.pkt_num :: rest.map (fun e => e.pkt_num)) = 0) ∨
          ack_ends_in_pair (e.pkt_num :: rest.map (fun e => e.pkt_num)) = true ∨
          (rest = [] ∧ e.pkt_num ≠ e.pkt_num) := by
        rcases hfin with h | h | h
        · omega
        · cases rest with
          | nil =>
            simp only [List.map_nil, ack_ends_in_pair, decide_eq_true_eq] at h
            exact absurd h hc
          | cons x xs => exact Or.inr (Or.inl h)
        · exact absurd h.1 (by simp)
      have h := ih (ack_loop_start_run (ack_loop_gap st e) e)
        (cov ++ ack_run st.first_pkt_num (st.first_pkt_num - st.last_pkt_num + 1))
        (le_refl _) (by simp only [ack_loop_start_run_first]; omega) hch2
        (fun h => absurd h (by simp))
        (fun _ => ⟨hack.1, by
          rw [ack_loop_start_run_ack, hack.2.1, ack_loop_start_run_first,
            ack_loop_start_run_gap, hgapv]
          omega, by rw [ack_loop_start_run_gap]; omega,
          by rw [ack_loop_start_run_first]; omega⟩)
        (fun h => absurd h (by simp))
        (fun _ => hlen) hfin2
      refine ⟨h.1, ?_, ?_⟩
      · rw [h.2.1]
        simp only [ack_loop_start_run_first, ack_loop_start_run_last, Nat.sub_self, Nat.zero_add]
        have h1r : ack_run e.pkt_num 1 = [e.pkt_num] := rfl
        rw [h1r]
        simp
      · rw [h.2.2]
        simp only [ack_loop_start_run_initial, ack_loop_gap_initial, Bool.false_eq_true, if_false,
          ack_loop_start_run_ack, hack.2.2, ack_loop_start_run_last]
        cases hi : st.initial
        · simp only [Bool.false_eq_true, if_false]; omega
        · simp only [if_true]; omega

/-- The type of the frame is not written by the loop of
`conn_create_ack_frame` nor by the statements after it. -/
theorem ack_loop_type (ents : List ngtcp2_acktr_entry) (st : ack_frame_state) :
    (ack_frame_finish (conn_create_ack_frame_loop ents st).1).type = st.ack.type := by
  induction ents generalizing st with
  | nil => exact ack_finish_type st
  | cons e rest ih =>
    by_cases hc : (e.pkt_num + 1) % 2 ^ 64 = st.last_pkt_num
    · rw [ack_loop_consecutive e rest st hc, ih]
    · have hd : (ack_loop_gap st e).ack.type = st.ack.type := by
        rw [ack_loop_gap_ack]
        split_ifs <;> rfl
      rw [ack_loop_step e rest st hc]
      split_ifs with h1 h2
      · rw [ack_finish_type]
        exact hd
      · rw [ack_finish_type]
        exact hd
      · rw [ih]
        exact hd

/-- The tracker 12, 10: the run of the single packet number 10 below the gap
is removed from the tracker and is not covered by the frame. -/
theorem ack_single_last_run_example :
    ack_covered (conn_create_ack_frame (example_server_acks [12, 10]) example_ack 130).2.2
      = [12] ∧
    (conn_create_ack_frame (example_server_acks [12, 10]) example_ack 130).2.2.num_blks = 0 ∧
    (conn_create_ack_frame (example_server_acks [12, 10]) example_ack 130).2.1.acktr.ent = [] := by
  refine ⟨by decide, by decide, by decide⟩

/-! ## Callbacks, encoders and allocations of the send path -/

theorem call_send_pkt_cases (conn : ngtcp2_conn) (hd : ngtcp2_pkt_hd) :
    conn_call_send_pkt conn hd = 0 ∨ conn_call_send_pkt conn hd = NGTCP2_ERR_CALLBACK_FAILURE := by
  unfold conn_call_send_pkt
  cases conn.send_pkt with
  | none => exact Or.inl rfl
  | some cb =>
    simp only
    split_ifs
    · exact Or.inr rfl
    · exact Or.inl rfl

theorem call_send_frame_cases (conn : ngtcp2_conn) (hd : ngtcp2_pkt_hd) (fr : ngtcp2_frame) :
    conn_call_send_frame conn hd fr = 0 ∨
      conn_call_send_frame conn hd fr = NGTCP2_ERR_CALLBACK_FAILURE := by
  unfold conn_call_send_frame
  cases conn.send_frame with
  | none => exact Or.inl rfl
  | some cb =>
    simp only
    split_ifs
    · exact Or.inr rfl
    · exact Or.inl rfl

theorem call_send_pkt_le (conn : ngtcp2_conn) (hd : ngtcp2_pkt_hd) :
    conn_call_send_pkt conn hd ≤ 0 := by
  rcases call_send_pkt_cases conn hd with h | h
  · rw [h]
  · rw [h]; decide

theorem call_send_frame_le (conn : ngtcp2_conn) (hd : ngtcp2_pkt_hd) (fr : ngtcp2_frame) :
    conn_call_send_frame conn hd fr ≤ 0 := by
  rcases call_send_frame_cases conn hd fr with h | h
  · rw [h]
  · rw [h]; decide

theorem pe_encode_frame_cases (W : ngtcp2_wire) (pe : ngtcp2_pe) (fr : ngtcp2_frame) :
    (pe.len + W.framelen fr + pe.overhead ≤ pe.destlen ∧
        ngtcp2_pe_encode_frame W pe fr =
          (0, { pe with len := pe.len + W.framelen fr, frames := pe.frames ++ [fr] })) ∨
      (¬ pe.len + W.framelen fr + pe.overhead ≤ pe.destlen ∧
        ngtcp2_pe_encode_frame W pe fr = (NGTCP2_ERR_NOBUF, pe)) := by
  unfold ngtcp2_pe_encode_frame
  split_ifs with h
  · exact Or.inl ⟨h, rfl⟩
  · exact Or.inr ⟨h, rfl⟩

theorem pe_encode_hd_cases (W : ngtcp2_wire) (pe : ngtcp2_pe) (hd : ngtcp2_pkt_hd) :
    (pe.len + W.hdlen hd + pe.overhead ≤ pe.destlen ∧
        ngtcp2_pe_encode_hd W pe hd = (0, { pe with len := pe.len + W.hdlen hd })) ∨
      (¬ pe.len + W.hdlen hd + pe.overhead ≤ pe.destlen ∧
        ngtcp2_pe_encode_hd W pe hd = (NGTCP2_ERR_NOBUF, pe)) := by
  unfold ngtcp2_pe_encode_hd
  split_ifs with h
  · exact Or.inl ⟨h, rfl⟩
  · exact Or.inr ⟨h, rfl⟩

theorem pe_encode_hd_le (W : ngtcp2_wire) (pe : ngtcp2_pe) (hd : ngtcp2_pkt_hd) :
    (ngtcp2_pe_encode_hd W pe hd).1 ≤ 0 := by
  rcases pe_encode_hd_cases W pe hd with h | h
  · rw [h.2]
  · rw [h.2]; exact le_of_lt (by decide : NGTCP2_ERR_NOBUF < 0)

theorem pe_encode_frame_le (W : ngtcp2_wire) (pe : ngtcp2_pe) (fr : ngtcp2_frame) :
    (ngtcp2_pe_encode_frame W pe fr).1 ≤ 0 := by
  rcases pe_encode_frame_cases W pe fr with h | h
  · rw [h.2]
  · rw [h.2]; exact le_of_lt (by decide : NGTCP2_ERR_NOBUF < 0)

theorem nobuf_neg : NGTCP2_ERR_NOBUF < 0 := by decide

theorem nomem_neg : NGTCP2_ERR_NOMEM < 0 := by decide

theorem callback_failure_neg : NGTCP2_ERR_CALLBACK_FAILURE < 0 := by decide

theorem frame_chain_new_cases (mem : ngtcp2_mem) :
    (ngtcp2_frame_chain_new mem).1 = 0 ∨ (ngtcp2_frame_chain_new mem).1 = NGTCP2_ERR_NOMEM := by
  unfold ngtcp2_frame_chain_new
  simp only
  split_ifs
  · exact Or.inr rfl
  · exact Or.inl rfl

theorem frame_chain_new_le (mem : ngtcp2_mem) : (ngtcp2_frame_chain_new mem).1 ≤ 0 := by
  rcases frame_chain_new_cases mem with h | h
  · rw [h]
  · rw [h]; decide

theorem rtb_entry_new_cases (hd : ngtcp2_pkt_hd) (frc : List ngtcp2_frame) (expiry : Nat)
    (mem : ngtcp2_mem) :
    ((ngtcp2_rtb_entry_new hd frc expiry mem).1 = 0 ∨
      (ngtcp2_rtb_entry_new hd frc expiry mem).1 = NGTCP2_ERR_NOMEM) ∧
    (ngtcp2_rtb_entry_new hd frc expiry mem).2.1 =
      { pkt_num := hd.pkt_num, expiry := expiry, flags := hd.flags, type := hd.type,
        frc := frc } := by
  refine ⟨?_, rfl⟩
  unfold ngtcp2_rtb_entry_new
  simp only
  split_ifs
  · exact Or.inr rfl
  · exact Or.inl rfl

theorem rtb_entry_new_le (hd : ngtcp2_pkt_hd) (frc : List ngtcp2_frame) (expiry : Nat)
    (mem : ngtcp2_mem) : (ngtcp2_rtb_entry_new hd frc expiry mem).1 ≤ 0 := by
  rcases (rtb_entry_new_cases hd frc expiry mem).1 with h | h
  · rw [h]
  · rw [h]; decide

theorem rtb_add_cases (rtb : ngtcp2_rtb) (ent : ngtcp2_rtb_entry) (mem : ngtcp2_mem) :
    ((ngtcp2_rtb_add rtb ent mem).1 = 0 ∧
        (ngtcp2_rtb_add rtb ent mem).2.1 = { ents := rtb.ents ++ [ent] }) ∨
      ((ngtcp2_rtb_add rtb ent mem).1 = NGTCP2_ERR_NOMEM ∧
        (ngtcp2_rtb_add rtb ent mem).2.1 = rtb) := by
  unfold ngtcp2_rtb_add
  simp only
  split_ifs
  · exact Or.inr ⟨rfl, rfl⟩
  · exact Or.inl ⟨rfl, rfl⟩

theorem rtb_add_le (rtb : ngtcp2_rtb) (ent : ngtcp2_rtb_entry) (mem : ngtcp2_mem) :
    (ngtcp2_rtb_add rtb ent mem).1 ≤ 0 := by
  rcases rtb_add_cases rtb ent mem with h | h
  · rw [h.1]
  · rw [h.1]; decide

theorem frame_chain_new_nil : ngtcp2_frame_chain_new [] = (0, []) := rfl

theorem rtb_add_nil (rtb : ngtcp2_rtb) (ent : ngtcp2_rtb_entry) :
    ngtcp2_rtb_add rtb ent [] = (0, { ents := rtb.ents ++ [ent] }, []) := rfl

theorem rtb_entry_new_nil (hd : ngtcp2_pkt_hd) (frc : List ngtcp2_frame) (expiry : Nat) :
    ngtcp2_rtb_entry_new hd frc expiry [] =
      (0, { pkt_num := hd.pkt_num, expiry := expiry, flags := hd.flags, type := hd.type,
            frc := frc }, []) := rfl

/-- The connection after `conn_create_ack_frame` differs from the one before
in the ACK tracker and in the delayed-ack timer alone, and the result is 0. -/
theorem create_ack_frame_conn (conn : ngtcp2_conn) (ack : ngtcp2_ack) (ts : Nat) :
    (conn_create_ack_frame conn ack ts).1 = 0 ∧
    ∃ acktr nae, (conn_create_ack_frame conn ack ts).2.1 =
      { conn with acktr := acktr, next_ack_expiry := nae } := by
  cases hent : conn.acktr.ent with
  | nil =>
    rw [create_ack_frame_nil conn ack ts hent]
    exact ⟨rfl, conn.acktr, 0, rfl⟩
  | cons e rest =>
    rw [create_ack_frame_cons conn ack ts e rest hent]
    refine ⟨rfl, ?_⟩
    split_ifs
    · exact ⟨_, _, rfl⟩
    · exact ⟨_, conn.next_ack_expiry, rfl⟩

/-! ## The loop over the frame chain of a retransmitted entry -/

/-- The three ways in which the statements after the test for a stale frame
end: the frame does not fit and the loop is left, a callback fails, or the
frame is written. -/
theorem retransmit_encode_cases (W : ngtcp2_wire) (conn : ngtcp2_conn) (hd : ngtcp2_pkt_hd)
    (st : pkt_loop_state) (fr : ngtcp2_frame) :
    (¬ st.pe.len + W.framelen fr + st.pe.overhead ≤ st.pe.destlen ∧
        conn_retransmit_encode W conn hd st fr =
          ({ st with rv := NGTCP2_ERR_NOBUF }, loop_ctl.brk)) ∨
      (st.pe.len + W.framelen fr + st.pe.overhead ≤ st.pe.destlen ∧
        (conn_retransmit_encode W conn hd st fr).2 = loop_ctl.ret ∧
        (conn_retransmit_encode W conn hd st fr).1.rv = NGTCP2_ERR_CALLBACK_FAILURE ∧
        (conn_retransmit_encode W conn hd st fr).1.sent = st.sent ∧
        (conn_retransmit_encode W conn hd st fr).1.mem = st.mem ∧
        (conn_call_send_pkt conn hd ≠ 0 ∨ conn_call_send_frame conn hd fr ≠ 0)) ∨
      (st.pe.len + W.framelen fr + st.pe.overhead ≤ st.pe.destlen ∧
        conn_retransmit_encode W conn hd st fr =
          ({ st with
             rv := 0
             pe := { st.pe with
                     len := st.pe.len + W.framelen fr, frames := st.pe.frames ++ [fr] }
             pkt_empty := false
             send_pkt_cb_called := true
             sent := st.sent ++ [fr] }, loop_ctl.next)) := by
  unfold conn_retransmit_encode
  rcases pe_encode_frame_cases W st.pe fr with ⟨hfit, he⟩ | ⟨hfit, he⟩
  · right
    rw [he]
    rcases call_send_frame_cases conn hd fr with hf | hf
    · cases hcb : st.send_pkt_cb_called with
      | true =>
        right
        refine ⟨hfit, ?_⟩
        simp [hf]
      | false =>
        rcases call_send_pkt_cases conn hd with hp | hp
        · right
          refine ⟨hfit, ?_⟩
          simp [hf, hp]
        · left
          refine ⟨hfit, ?_⟩
          simp [hp, NGTCP2_ERR_CALLBACK_FAILURE]
    · left
      refine ⟨hfit, ?_⟩
      cases hcb : st.send_pkt_cb_called with
      | true => simp [hf, NGTCP2_ERR_CALLBACK_FAILURE]
      | false =>
        rcases call_send_pkt_cases conn hd with hp | hp
        · simp [hf, hp, NGTCP2_ERR_CALLBACK_FAILURE]
        · simp [hp, NGTCP2_ERR_CALLBACK_FAILURE]
  · left
    rw [he]
    refine ⟨hfit, ?_⟩
    simp [NGTCP2_ERR_NOBUF]

theorem retransmit_encode_len (W : ngtcp2_wire) (conn : ngtcp2_conn) (hd : ngtcp2_pkt_hd)
    (st : pkt_loop_state) (fr : ngtcp2_frame) :
    st.pe.len ≤ (conn_retransmit_encode W conn hd st fr).1.pe.len := by
  unfold conn_retransmit_encode
  rcases pe_encode_frame_cases W st.pe fr with ⟨_, he⟩ | ⟨_, he⟩
  · rw [he]
    simp only []
    split_ifs <;> simp
  · rw [he]
    simp only []
    split_ifs <;> simp

theorem retransmit_frc_loop_stale (W : ngtcp2_wire) (conn : ngtcp2_conn) (hd : ngtcp2_pkt_hd)
    (stale : ngtcp2_frame → Bool) (fr : ngtcp2_frame) (frc : List ngtcp2_frame)
    (st : pkt_loop_state) (h : stale fr = true) :
    conn_retransmit_frc_loop W conn hd stale (fr :: frc) st =
      conn_retransmit_frc_loop W conn hd stale frc st := by
  rw [conn_retransmit_frc_loop, if_pos h]

theorem retransmit_frc_loop_fresh (W : ngtcp2_wire) (conn : ngtcp2_conn) (hd : ngtcp2_pkt_hd)
    (stale : ngtcp2_frame → Bool) (fr : ngtcp2_frame) (frc : List ngtcp2_frame)
    (st : pkt_loop_state) (h : stale fr = false) :
    conn_retransmit_frc_loop W conn hd stale (fr :: frc) st =
      if (conn_retransmit_encode W conn hd st fr).2 ≠ loop_ctl.next then
        ((conn_retransmit_encode W conn hd st fr).1, fr :: frc,
          (conn_retransmit_encode W conn hd st fr).2)
      else
        conn_retransmit_frc_loop W conn hd stale frc (conn_retransmit_encode W conn hd st fr).1 := by
  rw [conn_retransmit_frc_loop, if_neg (by simp [h])]

/-- What the loop over the frame chain of a retransmitted entry keeps: `rv`
is not positive, the encoder does not shrink, no allocation is made, the
frames written are the frames passed that are not stale, and the frame at
which the loop stops is not stale. -/
theorem retransmit_frc_loop_inv (W : ngtcp2_wire) (conn : ngtcp2_conn) (hd : ngtcp2_pkt_hd)
    (stale : ngtcp2_frame → Bool) (frc : List ngtcp2_frame) (st : pkt_loop_state)
    (h : st.rv ≤ 0) :
    (conn_retransmit_frc_loop W conn hd stale frc st).1.rv ≤ 0 ∧
    st.pe.len ≤ (conn_retransmit_frc_loop W conn hd stale frc st).1.pe.len ∧
    (conn_retransmit_frc_loop W conn hd stale frc st).1.mem = st.mem ∧
    (∃ visited, frc = visited ++ (conn_retransmit_frc_loop W conn hd stale frc st).2.1 ∧
      (conn_retransmit_frc_loop W conn hd stale frc st).1.sent =
        st.sent ++ visited.filter (fun f => !stale f)) ∧
    (∀ f, (conn_retransmit_frc_loop W conn hd stale frc st).2.1.head? = some f →
      stale f = false) := by
  induction frc generalizing st with
  | nil =>
    rw [conn_retransmit_frc_loop]
    exact ⟨h, le_refl _, rfl, ⟨[], rfl, by simp⟩, by simp⟩
  | cons fr frc ih =>
    cases hs : stale fr with
    | true =>
      rw [retransmit_frc_loop_stale W conn hd stale fr frc st hs]
      obtain ⟨h1, h2, h3, ⟨v, hv1, hv2⟩, h5⟩ := ih st h
      refine ⟨h1, h2, h3, ⟨fr :: v, ?_, ?_⟩, h5⟩
      · rw [List.cons_append, ← hv1]
      · rw [hv2]; simp [hs]
    | false =>
      rw [retransmit_frc_loop_fresh W conn hd stale fr frc st hs]
      rcases retransmit_encode_cases W conn hd st fr with ⟨_, he⟩ | ⟨_, he1, he2, he3, he4, _⟩ |
        ⟨_, he⟩
      · rw [he, if_pos (by simp)]
        exact ⟨le_of_lt nobuf_neg, le_refl _, rfl, ⟨[], rfl, by simp⟩, by simp [hs]⟩
      · rw [if_pos (by rw [he1]; decide)]
        refine ⟨by rw [he2]; exact le_of_lt callback_failure_neg, ?_, he4, ⟨[], rfl, ?_⟩,
          by simp [hs]⟩
        · exact retransmit_encode_len W conn hd st fr
        · simp [he3]
      · rw [he, if_neg (by simp)]
        obtain ⟨h1, h2, h3, ⟨v, hv1, hv2⟩, h5⟩ := ih
          { st with
            rv := 0
            pe := { st.pe with
                    len := st.pe.len + W.framelen fr, frames := st.pe.frames ++ [fr] }
            pkt_empty := false
            send_pkt_cb_called := true
            sent := st.sent ++ [fr] } (le_refl _)
        refine ⟨h1, le_trans (Nat.le_add_right _ _) h2, h3, ⟨fr :: v, ?_, ?_⟩, h5⟩
        · rw [List.cons_append, ← hv1]
        · rw [hv2]; simp [hs]

theorem pkt_num_step_none (next : Nat) (rv : Int) (conn : ngtcp2_conn) (h : rv ≤ 0)
    (hn : conn.next_tx_pkt_num = next) : pkt_num_step next rv conn none :=
  ⟨h, fun _ => hn, Or.inl hn⟩

theorem pkt_num_step_none_succ (next : Nat) (rv : Int) (conn : ngtcp2_conn) (h : rv < 0)
    (hn : conn.next_tx_pkt_num = (next + 1) % 2 ^ 64) : pkt_num_step next rv conn none :=
  ⟨le_of_lt h, fun h0 => absurd h0 (ne_of_lt h), Or.inr hn⟩

theorem upe_final_pos (pe : ngtcp2_pe) (hlen : 0 < pe.len) : 0 < ngtcp2_upe_final pe := by
  unfold ngtcp2_upe_final
  omega

/-- The statements of `conn_retransmit_protected` that put an ACK frame first
change the ACK tracker and the delayed-ack timer of the connection alone, and
leave the locals fit for the loop. -/
theorem retransmit_protected_ack_inv (W : ngtcp2_wire) (conn : ngtcp2_conn) (hd : ngtcp2_pkt_hd)
    (pe : ngtcp2_pe) (ts : Nat) :
    (conn_retransmit_protected_ack W conn hd pe ts).1 ≤ 0 ∧
    (∃ acktr nae, (conn_retransmit_protected_ack W conn hd pe ts).2.1 =
      { conn with acktr := acktr, next_ack_expiry := nae }) ∧
    (conn_retransmit_protected_ack W conn hd pe ts).2.2.rv = 0 ∧
    pe.len ≤ (conn_retransmit_protected_ack W conn hd pe ts).2.2.pe.len ∧
    (conn_retransmit_protected_ack W conn hd pe ts).2.2.sent = [] := by
  obtain ⟨hc1, acktr, nae, hc2⟩ := create_ack_frame_conn conn ack_frame_unset ts
  unfold conn_retransmit_protected_ack
  simp only []
  split_ifs with h1 h2 h3 h4 h5 h6
  · exact absurd hc1 h2
  · refine ⟨?_, ⟨acktr, nae, hc2⟩, rfl, le_refl _, rfl⟩
    dsimp only
    exact pe_encode_frame_le _ _ _
  · refine ⟨?_, ⟨acktr, nae, hc2⟩, rfl, le_refl _, rfl⟩
    dsimp only
    exact call_send_pkt_le _ _
  · refine ⟨?_, ⟨acktr, nae, hc2⟩, rfl, le_refl _, rfl⟩
    dsimp only
    exact call_send_frame_le _ _ _
  · refine ⟨le_refl _, ⟨acktr, nae, hc2⟩, rfl, ?_, rfl⟩
    dsimp only
    rcases pe_encode_frame_cases W pe (ngtcp2_frame.ack
      (conn_create_ack_frame conn ack_frame_unset ts).2.2) with ⟨_, he⟩ | ⟨_, he⟩
    · rw [he]
      exact Nat.le_add_right _ _
    · rw [he]
  · exact ⟨le_refl _, ⟨acktr, nae, hc2⟩, rfl, le_refl _, rfl⟩
  · exact ⟨le_refl _, ⟨conn.acktr, conn.next_ack_expiry, rfl⟩, rfl, le_refl _, rfl⟩

theorem create_ack_frame_fields (conn : ngtcp2_conn) (ack : ngtcp2_ack) (ts : Nat) :
    (conn_create_ack_frame conn ack ts).2.1.state = conn.state ∧
    (conn_create_ack_frame conn ack ts).2.1.next_tx_pkt_num = conn.next_tx_pkt_num ∧
    (conn_create_ack_frame conn ack ts).2.1.strms = conn.strms ∧
    (conn_create_ack_frame conn ack ts).2.1.fc_strms = conn.fc_strms ∧
    (conn_create_ack_frame conn ack ts).2.1.mem = conn.mem ∧
    (conn_create_ack_frame conn ack ts).2.1.frq = conn.frq := by
  obtain ⟨_, acktr, nae, h⟩ := create_ack_frame_conn conn ack ts
  rw [h]
  exact ⟨rfl, rfl, rfl, rfl, rfl, rfl⟩

theorem pe_encode_frame_len (W : ngtcp2_wire) (pe : ngtcp2_pe) (fr : ngtcp2_frame) :
    pe.len ≤ (ngtcp2_pe_encode_frame W pe fr).2.len := by
  rcases pe_encode_frame_cases W pe fr with ⟨_, he⟩ | ⟨_, he⟩
  · rw [he]
    exact Nat.le_add_right _ _
  · rw [he]

theorem handshake_ack_inv (W : ngtcp2_wire) (conn : ngtcp2_conn) (hd : ngtcp2_pkt_hd)
    (pe : ngtcp2_pe) (ts : Nat) :
    (conn_encode_handshake_pkt_ack W conn hd pe ts).rv ≤ 0 ∧
    (conn_encode_handshake_pkt_ack W conn hd pe ts).conn.state = conn.state ∧
    (conn_encode_handshake_pkt_ack W conn hd pe ts).conn.next_tx_pkt_num =
      conn.next_tx_pkt_num ∧
    pe.len ≤ (conn_encode_handshake_pkt_ack W conn hd pe ts).pe.len := by
  obtain ⟨hs, hn, _⟩ := create_ack_frame_fields conn ack_frame_unset ts
  have hc := (create_ack_frame_conn conn ack_frame_unset ts).1
  unfold conn_encode_handshake_pkt_ack
  simp only []
  split_ifs <;> refine ⟨?_, hs, hn, ?_⟩ <;> dsimp only <;>
    first
    | exact le_refl _
    | exact pe_encode_frame_le _ _ _
    | exact call_send_frame_le _ _ _
    | exact le_of_eq hc
    | exact pe_encode_frame_len _ _ _

theorem handshake_max_stream_data_inv (W : ngtcp2_wire) (hd : ngtcp2_pkt_hd)
    (a : handshake_pkt_state) (ha : a.rv ≤ 0) :
    (conn_encode_handshake_pkt_max_stream_data W hd a).rv ≤ 0 ∧
    (conn_encode_handshake_pkt_max_stream_data W hd a).conn.state = a.conn.state ∧
    (conn_encode_handshake_pkt_max_stream_data W hd a).conn.next_tx_pkt_num =
      a.conn.next_tx_pkt_num ∧
    a.pe.len ≤ (conn_encode_handshake_pkt_max_stream_data W hd a).pe.len := by
  unfold conn_encode_handshake_pkt_max_stream_data
  simp only []
  split_ifs <;> refine ⟨?_, ?_, ?_, ?_⟩ <;> dsimp only [conn_store_strm] <;>
    first
    | exact ha
    | exact le_refl _
    | exact pe_encode_frame_le _ _ _
    | exact call_send_frame_le _ _ _
    | exact frame_chain_new_le _
    | exact pe_encode_frame_len _ _ _

theorem handshake_ctrl_inv (W : ngtcp2_wire) (conn : ngtcp2_conn) (hd : ngtcp2_pkt_hd)
    (pe : ngtcp2_pe) (type ts : Nat) :
    (conn_encode_handshake_pkt_ctrl W conn hd pe type ts).rv ≤ 0 ∧
    (conn_encode_handshake_pkt_ctrl W conn hd pe type ts).conn.state = conn.state ∧
    (conn_encode_handshake_pkt_ctrl W conn hd pe type ts).conn.next_tx_pkt_num =
      conn.next_tx_pkt_num ∧
    pe.len ≤ (conn_encode_handshake_pkt_ctrl W conn hd pe type ts).pe.len := by
  obtain ⟨h1, h2, h3, h4⟩ := handshake_ack_inv W conn hd pe ts
  obtain ⟨k1, k2, k3, k4⟩ := handshake_max_stream_data_inv W hd
    (conn_encode_handshake_pkt_ack W conn hd pe ts) h1
  unfold conn_encode_handshake_pkt_ctrl
  simp only []
  split_ifs
  · exact ⟨h1, h2, h3, h4⟩
  · exact ⟨k1, k2.trans h2, k3.trans h3, le_trans h4 k4⟩
  · exact ⟨le_refl _, rfl, rfl, le_refl _⟩

theorem handshake_stream_inv (W : ngtcp2_wire) (hd : ngtcp2_pkt_hd) (a : handshake_pkt_state) :
    (conn_encode_handshake_pkt_stream W hd a).rv ≤ 0 ∧
    (conn_encode_handshake_pkt_stream W hd a).conn.state = a.conn.state ∧
    (conn_encode_handshake_pkt_stream W hd a).conn.next_tx_pkt_num = a.conn.next_tx_pkt_num ∧
    a.pe.len ≤ (conn_encode_handshake_pkt_stream W hd a).pe.len := by
  unfold conn_encode_handshake_pkt_stream
  simp only []
  split_ifs <;> refine ⟨?_, ?_, ?_, ?_⟩ <;> dsimp only [conn_store_strm] <;>
    first
    | exact le_refl _
    | exact pe_encode_frame_le _ _ _
    | exact call_send_frame_le _ _ _
    | exact frame_chain_new_le _
    | exact pe_encode_frame_len _ _ _

theorem upe_padding_len (pe : ngtcp2_pe) : pe.len ≤ (ngtcp2_upe_padding pe).2.len := by
  unfold ngtcp2_upe_padding
  exact Nat.le_add_right _ _

theorem encode_handshake_pkt_finish_step (W : ngtcp2_wire) (hd : ngtcp2_pkt_hd) (type ts : Nat)
    (b : handshake_pkt_state) (hrv : b.rv ≤ 0) (hb : 0 < b.pe.len)
    (hnum : hd.pkt_num = b.conn.next_tx_pkt_num) :
    (conn_encode_handshake_pkt_finish W hd type ts b).2.1.state = b.conn.state ∧
    pkt_num_step b.conn.next_tx_pkt_num (conn_encode_handshake_pkt_finish W hd type ts b).1
      (conn_encode_handshake_pkt_finish W hd type ts b).2.1
      (conn_encode_handshake_pkt_finish W hd type ts b).2.2 := by
  have hbp : 0 < (ngtcp2_upe_padding b.pe).2.len := lt_of_lt_of_le hb (upe_padding_len _)
  unfold conn_encode_handshake_pkt_finish
  by_cases ht : type = NGTCP2_PKT_CLIENT_INITIAL
  · simp only [ht, if_true, true_and]
    split_ifs
    all_goals first
      | exact ⟨rfl, pkt_num_step_none _ _ _ hrv rfl⟩
      | exact ⟨rfl, pkt_num_step_none _ _ _ (by dsimp only; exact call_send_frame_le _ _ _) rfl⟩
      | exact ⟨rfl, pkt_num_step_none_succ _ _ _
          (lt_of_le_of_ne (by dsimp only; exact rtb_entry_new_le _ _ _ _) (by assumption)) rfl⟩
      | exact ⟨rfl, pkt_num_step_none_succ _ _ _
          (lt_of_le_of_ne (by dsimp only; exact rtb_add_le _ _ _) (by assumption)) rfl⟩
      | exact ⟨rfl, ⟨upe_final_pos _ hbp, hnum, rfl⟩⟩
  · simp only [ht, if_false, false_and]
    split_ifs
    all_goals first
      | exact ⟨rfl, pkt_num_step_none _ _ _ hrv rfl⟩
      | exact ⟨rfl, pkt_num_step_none_succ _ _ _
          (lt_of_le_of_ne (by dsimp only; exact rtb_entry_new_le _ _ _ _) (by assumption)) rfl⟩
      | exact ⟨rfl, pkt_num_step_none_succ _ _ _
          (lt_of_le_of_ne (by dsimp only; exact rtb_add_le _ _ _) (by assumption)) rfl⟩
      | exact ⟨rfl, ⟨upe_final_pos _ hb, hnum, rfl⟩⟩

theorem encode_handshake_pkt_step (W : ngtcp2_wire) (hW : ∀ hd, 0 < W.hdlen hd)
    (conn : ngtcp2_conn) (destlen type ts : Nat) :
    (conn_encode_handshake_pkt W conn destlen type ts).2.1.state = conn.state ∧
    pkt_num_step conn.next_tx_pkt_num (conn_encode_handshake_pkt W conn destlen type ts).1
      (conn_encode_handshake_pkt W conn destlen type ts).2.1
      (conn_encode_handshake_pkt W conn destlen type ts).2.2 := by
  unfold conn_encode_handshake_pkt
  simp only []
  rcases pe_encode_hd_cases W (ngtcp2_upe_init W destlen)
    (ngtcp2_pkt_hd_init NGTCP2_PKT_FLAG_LONG_FORM type conn.next_tx_pkt_num) with
    ⟨_, he⟩ | ⟨_, he⟩
  · rw [he, if_neg (by simp)]
    simp only []
    have hpos : 0 < (ngtcp2_upe_init W destlen).len +
        W.hdlen (ngtcp2_pkt_hd_init NGTCP2_PKT_FLAG_LONG_FORM type conn.next_tx_pkt_num) :=
      Nat.add_pos_right _ (hW _)
    obtain ⟨a1, a2, a3, a4⟩ := handshake_ctrl_inv W conn
      (ngtcp2_pkt_hd_init NGTCP2_PKT_FLAG_LONG_FORM type conn.next_tx_pkt_num)
      { ngtcp2_upe_init W destlen with
        len := (ngtcp2_upe_init W destlen).len +
          W.hdlen (ngtcp2_pkt_hd_init NGTCP2_PKT_FLAG_LONG_FORM type conn.next_tx_pkt_num) }
      type ts
    generalize conn_encode_handshake_pkt_ctrl W conn
      (ngtcp2_pkt_hd_init NGTCP2_PKT_FLAG_LONG_FORM type conn.next_tx_pkt_num)
      { ngtcp2_upe_init W destlen with
        len := (ngtcp2_upe_init W destlen).len +
          W.hdlen (ngtcp2_pkt_hd_init NGTCP2_PKT_FLAG_LONG_FORM type conn.next_tx_pkt_num) }
      type ts = a at a1 a2 a3 a4 ⊢
    obtain ⟨b1, b2, b3, b4⟩ := handshake_stream_inv W
      (ngtcp2_pkt_hd_init NGTCP2_PKT_FLAG_LONG_FORM type conn.next_tx_pkt_num) a
    have ha : 0 < a.pe.len := lt_of_lt_of_le hpos a4
    have hfin := encode_handshake_pkt_finish_step W
      (ngtcp2_pkt_hd_init NGTCP2_PKT_FLAG_LONG_FORM type conn.next_tx_pkt_num) type ts
      (conn_encode_handshake_pkt_stream W
        (ngtcp2_pkt_hd_init NGTCP2_PKT_FLAG_LONG_FORM type conn.next_tx_pkt_num) a) b1
      (lt_of_lt_of_le ha b4) (by rw [b3, a3]; rfl)
    generalize conn_encode_handshake_pkt_stream W
      (ngtcp2_pkt_hd_init NGTCP2_PKT_FLAG_LONG_FORM type conn.next_tx_pkt_num) a = b
      at b1 b2 b3 b4 hfin ⊢
    have hs : b.conn.state = conn.state := b2.trans a2
    have hn : b.conn.next_tx_pkt_num = conn.next_tx_pkt_num := b3.trans a3
    rw [hs, hn] at hfin
    split_ifs
    · exact ⟨rfl, pkt_num_step_none _ _ _ (by dsimp only; exact call_send_pkt_le _ _) rfl⟩
    · exact ⟨a2, pkt_num_step_none _ _ _ a1 a3⟩
    · exact ⟨a2, ⟨upe_final_pos _ ha, rfl, by dsimp only; rw [a3]⟩⟩
    · exact ⟨a2, pkt_num_step_none _ _ _ (le_of_lt nobuf_neg) a3⟩
    · exact ⟨hs, pkt_num_step_none _ _ _ b1 hn⟩
    · exact hfin
  · rw [he, if_pos (by simp [NGTCP2_ERR_NOBUF])]
    exact ⟨rfl, pkt_num_step_none _ _ _ (le_of_lt nobuf_neg) rfl⟩

theorem call_handshake_fields (conn : ngtcp2_conn) :
    (conn_call_handshake conn).2.state = conn.state ∧
    (conn_call_handshake conn).2.next_tx_pkt_num = conn.next_tx_pkt_num := by
  unfold conn_call_handshake
  cases conn.handshake_out with
  | nil => exact ⟨rfl, rfl⟩
  | cons o rest => exact ⟨rfl, rfl⟩

/-- The first packet of a server: the state is kept, and no result is 0. -/
theorem send_server_initial_state (W : ngtcp2_wire) (hW : ∀ hd, 0 < W.hdlen hd)
    (conn : ngtcp2_conn) (destlen ts : Nat) :
    (conn_send_server_cleartext W conn destlen true ts).2.1.state = conn.state := by
  obtain ⟨hs, hn⟩ := call_handshake_fields conn
  unfold conn_send_server_cleartext
  simp only [if_true]
  split_ifs
  · exact hs
  · exact hs
  · exact ((encode_handshake_pkt_step W hW _ _ _ _).1).trans hs
  · exact (encode_handshake_pkt_step W hW _ _ _ _).1

theorem send_pkt_ack_fields (conn : ngtcp2_conn) (ts : Nat) :
    (conn_send_pkt_ack conn ts).rv = 0 ∧
    (conn_send_pkt_ack conn ts).conn.state = conn.state ∧
    (conn_send_pkt_ack conn ts).conn.next_tx_pkt_num = conn.next_tx_pkt_num ∧
    (conn_send_pkt_ack conn ts).conn.strms = conn.strms ∧
    (conn_send_pkt_ack conn ts).conn.fc_strms = conn.fc_strms ∧
    (conn_send_pkt_ack conn ts).conn.mem = conn.mem ∧
    (conn_send_pkt_ack conn ts).conn.frq = conn.frq := by
  have hc := (create_ack_frame_conn conn ack_frame_unset ts).1
  have hf := create_ack_frame_fields conn ack_frame_unset ts
  unfold conn_send_pkt_ack
  split_ifs
  · exact ⟨hc, hf⟩
  · exact ⟨rfl, rfl, rfl, rfl, rfl, rfl, rfl⟩

theorem send_pkt_max_stream_id_fields (a : send_pkt_state) (ha : a.rv ≤ 0) :
    (conn_send_pkt_max_stream_id a).rv ≤ 0 ∧
    (conn_send_pkt_max_stream_id a).conn.state = a.conn.state ∧
    (conn_send_pkt_max_stream_id a).conn.next_tx_pkt_num = a.conn.next_tx_pkt_num ∧
    (conn_send_pkt_max_stream_id a).conn.strms = a.conn.strms ∧
    (conn_send_pkt_max_stream_id a).conn.fc_strms = a.conn.fc_strms := by
  unfold conn_send_pkt_max_stream_id
  simp only []
  split_ifs
  · exact ⟨frame_chain_new_le _, rfl, rfl, rfl, rfl⟩
  · exact ⟨frame_chain_new_le _, rfl, rfl, rfl, rfl⟩
  · exact ⟨ha, rfl, rfl, rfl, rfl⟩

theorem send_pkt_max_data_fields (a : send_pkt_state) (ha : a.rv ≤ 0) :
    (conn_send_pkt_max_data a).rv ≤ 0 ∧
    (conn_send_pkt_max_data a).conn.state = a.conn.state ∧
    (conn_send_pkt_max_data a).conn.next_tx_pkt_num = a.conn.next_tx_pkt_num ∧
    (conn_send_pkt_max_data a).conn.strms = a.conn.strms ∧
    (conn_send_pkt_max_data a).conn.fc_strms = a.conn.fc_strms := by
  unfold conn_send_pkt_max_data
  simp only []
  split_ifs
  · exact ⟨frame_chain_new_le _, rfl, rfl, rfl, rfl⟩
  · exact ⟨frame_chain_new_le _, rfl, rfl, rfl, rfl⟩
  · exact ⟨ha, rfl, rfl, rfl, rfl⟩

theorem send_pkt_fc_strms_fields (ids : List Nat) (conn : ngtcp2_conn) :
    (conn_send_pkt_fc_strms ids conn).1 ≤ 0 ∧
    (conn_send_pkt_fc_strms ids conn).2.state = conn.state ∧
    (conn_send_pkt_fc_strms ids conn).2.next_tx_pkt_num = conn.next_tx_pkt_num := by
  induction ids generalizing conn with
  | nil => exact ⟨le_refl _, rfl, rfl⟩
  | cons id rest ih =>
    rw [conn_send_pkt_fc_strms]
    split_ifs
    · exact ⟨frame_chain_new_le _, rfl, rfl⟩
    · cases conn.strms id with
      | none => exact ih _
      | some strm => exact ih _

theorem send_pkt_split_inv (W : ngtcp2_wire) (st : pkt_loop_state) (fr : ngtcp2_frame)
    (frq : List ngtcp2_frame) (h : st.rv ≤ 0) :
    (conn_send_pkt_split W st fr).1.rv ≤ 0 ∧
    (conn_send_pkt_split W st fr).1.pe = st.pe ∧
    ((conn_send_pkt_split W st fr).2.1 = loop_ctl.next →
      frq_rounds (match (conn_send_pkt_split W st fr).2.2.2 with
        | none => frq
        | some tail => tail :: frq) < frq_rounds (fr :: frq)) := by
  cases fr with
  | stream s =>
    unfold conn_send_pkt_split
    simp only []
    split_ifs with h1 h2 h3 h4
    · exact ⟨h, rfl, fun hh => absurd hh (by simp)⟩
    · exact ⟨h, rfl, fun hh => absurd hh (by simp)⟩
    · exact ⟨frame_chain_new_le _, rfl, fun hh => absurd hh (by simp)⟩
    · refine ⟨frame_chain_new_le _, rfl, fun _ => ?_⟩
      simp only [frq_rounds, ngtcp2_stream.datalen, List.length_drop]
      simp only [ngtcp2_stream.datalen] at h2
      omega
    · refine ⟨h, rfl, fun _ => ?_⟩
      simp only [frq_rounds]
      omega
  | ack a => exact ⟨h, rfl, fun _ => by simp [conn_send_pkt_split, frq_rounds]⟩
  | padding n => exact ⟨h, rfl, fun _ => by simp [conn_send_pkt_split, frq_rounds]⟩
  | max_data a => exact ⟨h, rfl, fun _ => by simp [conn_send_pkt_split, frq_rounds]⟩
  | max_stream_data a => exact ⟨h, rfl, fun _ => by simp [conn_send_pkt_split, frq_rounds]⟩
  | max_stream_id a => exact ⟨h, rfl, fun _ => by simp [conn_send_pkt_split, frq_rounds]⟩
  | other a => exact ⟨h, rfl, fun _ => by simp [conn_send_pkt_split, frq_rounds]⟩

theorem send_pkt_encode_inv (W : ngtcp2_wire) (conn : ngtcp2_conn) (hd : ngtcp2_pkt_hd)
    (st : pkt_loop_state) (fr : ngtcp2_frame) :
    (conn_send_pkt_encode W conn hd st fr).1.rv ≤ 0 ∧
    st.pe.len ≤ (conn_send_pkt_encode W conn hd st fr).1.pe.len := by
  unfold conn_send_pkt_encode
  simp only []
  split_ifs <;> refine ⟨?_, ?_⟩ <;> dsimp only <;>
    first
    | exact le_refl _
    | exact pe_encode_frame_len _ _ _
    | exact pe_encode_frame_le _ _ _
    | exact call_send_pkt_le _ _
    | exact call_send_frame_le _ _ _

/-- The loop of `conn_send_pkt` comes to an end within the rounds that
`frq_rounds` counts, with `rv` not positive and an encoder that has not
shrunk. -/
theorem send_pkt_loop_inv (W : ngtcp2_wire) (conn : ngtcp2_conn) (hd : ngtcp2_pkt_hd)
    (fuel : Nat) (frq : List ngtcp2_frame) (st : pkt_loop_state) (hfuel : frq_rounds frq < fuel)
    (h : st.rv ≤ 0) :
    ∃ l, conn_send_pkt_loop W conn hd fuel frq st = some l ∧ l.1.rv ≤ 0 ∧
      st.pe.len ≤ l.1.pe.len := by
  induction fuel generalizing frq st with
  | zero => exact absurd hfuel (Nat.not_lt_zero _)
  | succ fuel ih =>
    cases frq with
    | nil => exact ⟨_, rfl, h, le_refl _⟩
    | cons fr frq =>
      rw [conn_send_pkt_loop]
      simp only []
      obtain ⟨s1, s2, s3⟩ := send_pkt_split_inv W st fr frq h
      obtain ⟨e1, e2⟩ := send_pkt_encode_inv W conn hd (conn_send_pkt_split W st fr).1
        (conn_send_pkt_split W st fr).2.2.1
      rw [s2] at e2
      split_ifs with h1 h2
      · exact ⟨_, rfl, s1, le_of_eq (congrArg ngtcp2_pe.len s2.symm)⟩
      · exact ⟨_, rfl, e1, e2⟩
      · obtain ⟨l, hl1, hl2, hl3⟩ := ih _ (conn_send_pkt_encode W conn hd
          (conn_send_pkt_split W st fr).1 (conn_send_pkt_split W st fr).2.2.1).1
          (Nat.lt_of_lt_of_le (s3 (not_not.1 h1)) (Nat.lt_succ_iff.1 hfuel)) e1
        exact ⟨l, hl1, hl2, le_trans e2 hl3⟩

theorem send_pkt_encode_ack_inv (W : ngtcp2_wire) (conn : ngtcp2_conn) (hd : ngtcp2_pkt_hd)
    (pe : ngtcp2_pe) (ackfr : ngtcp2_ack) (pkt_empty : Bool) :
    (conn_send_pkt_encode_ack W conn hd pe ackfr pkt_empty).rv ≤ 0 ∧
    pe.len ≤ (conn_send_pkt_encode_ack W conn hd pe ackfr pkt_empty).pe.len := by
  unfold conn_send_pkt_encode_ack
  simp only []
  split_ifs <;> refine ⟨?_, ?_⟩ <;> dsimp only <;>
    first
    | exact le_refl _
    | exact pe_encode_frame_len _ _ _
    | exact pe_encode_frame_le _ _ _
    | exact call_send_pkt_le _ _
    | exact call_send_frame_le _ _ _

theorem close_if_send_fields (c : ngtcp2_conn) (s : ngtcp2_strm) :
    (ngtcp2_conn_close_stream_if_shut_rdwr c s).1 ≤ 0 ∧
    (ngtcp2_conn_close_stream_if_shut_rdwr c s).2.state = c.state ∧
    (ngtcp2_conn_close_stream_if_shut_rdwr c s).2.next_tx_pkt_num = c.next_tx_pkt_num := by
  unfold ngtcp2_conn_close_stream_if_shut_rdwr ngtcp2_conn_close_stream
  split_ifs
  all_goals first
    | exact ⟨(by decide : NGTCP2_ERR_INVALID_ARGUMENT ≤ 0), rfl, rfl⟩
    | exact ⟨le_refl _, rfl, rfl⟩

theorem encode_handshake_pkt_finish_state (W : ngtcp2_wire) (hd : ngtcp2_pkt_hd) (type ts : Nat)
    (b : handshake_pkt_state) :
    (conn_encode_handshake_pkt_finish W hd type ts b).2.1.state = b.conn.state := by
  unfold conn_encode_handshake_pkt_finish
  simp only []
  split_ifs <;> rfl

theorem encode_handshake_pkt_state (W : ngtcp2_wire) (conn : ngtcp2_conn)
    (destlen type ts : Nat) :
    (conn_encode_handshake_pkt W conn destlen type ts).2.1.state = conn.state := by
  unfold conn_encode_handshake_pkt
  simp only []
  have a2 := fun pe => (handshake_ctrl_inv W conn
    (ngtcp2_pkt_hd_init NGTCP2_PKT_FLAG_LONG_FORM type conn.next_tx_pkt_num) pe type ts).2.1
  have b2 := fun a => (handshake_stream_inv W
    (ngtcp2_pkt_hd_init NGTCP2_PKT_FLAG_LONG_FORM type conn.next_tx_pkt_num) a).2.1
  split_ifs
  · rfl
  · rfl
  · exact a2 _
  · exact a2 _
  · exact a2 _
  · exact (b2 _).trans (a2 _)
  · exact (encode_handshake_pkt_finish_state W _ type ts _).trans ((b2 _).trans (a2 _))

theorem unprotected_ack_state (W : ngtcp2_wire) (conn : ngtcp2_conn) (destlen type ts : Nat) :
    (conn_encode_unprotected_ack_if_any W conn destlen type ts).2.1.state = conn.state := by
  obtain ⟨hs, _⟩ := create_ack_frame_fields conn ack_frame_unset ts
  unfold conn_encode_unprotected_ack_if_any
  simp only []
  split_ifs
  · rfl
  all_goals exact hs

theorem send_client_initial_state (W : ngtcp2_wire) (conn : ngtcp2_conn) (destlen ts : Nat) :
    (conn_send_client_initial W conn destlen ts).2.1.state = conn.state := by
  obtain ⟨hs, _⟩ := call_handshake_fields conn
  unfold conn_send_client_initial
  simp only []
  split_ifs
  · exact hs
  · exact (encode_handshake_pkt_state W _ _ _ _).trans hs

theorem send_client_cleartext_state (W : ngtcp2_wire) (conn : ngtcp2_conn) (destlen ts : Nat) :
    (conn_send_client_cleartext W conn destlen ts).2.1.state = conn.state := by
  obtain ⟨hs, _⟩ := call_handshake_fields conn
  unfold conn_send_client_cleartext
  simp only []
  split_ifs
  · exact hs
  · exact (unprotected_ack_state W _ _ _ _).trans hs
  · exact (encode_handshake_pkt_state W _ _ _ _).trans hs
  · exact encode_handshake_pkt_state W _ _ _ _

theorem send_server_cleartext_state (W : ngtcp2_wire) (conn : ngtcp2_conn) (destlen : Nat)
    (initial : Bool) (ts : Nat) :
    (conn_send_server_cleartext W conn destlen initial ts).2.1.state = conn.state := by
  obtain ⟨hs, _⟩ := call_handshake_fields conn
  unfold conn_send_server_cleartext
  simp only []
  cases initial with
  | false =>
    simp only [Bool.false_eq_true, if_false]
    split_ifs
    · exact hs
    · exact (unprotected_ack_state W _ _ _ _).trans hs
    · exact (encode_handshake_pkt_state W _ _ _ _).trans hs
    · exact encode_handshake_pkt_state W _ _ _ _
  | true =>
    simp only [if_true]
    split_ifs
    · exact hs
    · exact hs
    · exact (encode_handshake_pkt_state W _ _ _ _).trans hs
    · exact encode_handshake_pkt_state W _ _ _ _

theorem send_pkt_finish_fields (W : ngtcp2_wire) (conn : ngtcp2_conn) (hd : ngtcp2_pkt_hd)
    (ts : Nat) (l : pkt_loop_state × List ngtcp2_frame × loop_ctl) :
    (conn_send_pkt_finish W conn hd ts l).2.1.state = conn.state ∧
    (conn_send_pkt_finish W conn hd ts l).2.1.strms = conn.strms ∧
    (conn_send_pkt_finish W conn hd ts l).2.1.fc_strms = conn.fc_strms := by
  unfold conn_send_pkt_finish
  simp only []
  split_ifs <;> exact ⟨rfl, rfl, rfl⟩

theorem send_pkt_encode_pkt_fields (W : ngtcp2_wire) (conn : ngtcp2_conn) (ackfr : ngtcp2_ack)
    (pkt_empty : Bool) (destlen ts : Nat) :
    ∃ r, conn_send_pkt_encode_pkt W conn ackfr pkt_empty destlen ts = some r ∧
      r.2.1.state = conn.state ∧ r.2.1.strms = conn.strms ∧ r.2.1.fc_strms = conn.fc_strms := by
  unfold conn_send_pkt_encode_pkt
  simp only []
  split_ifs with h1 h2
  · exact ⟨_, rfl, rfl, rfl, rfl⟩
  · exact ⟨_, rfl, rfl, rfl, rfl⟩
  · obtain ⟨a1, _⟩ := send_pkt_encode_ack_inv W conn
      (ngtcp2_pkt_hd_init NGTCP2_PKT_FLAG_CONN_ID NGTCP2_PKT_03 conn.next_tx_pkt_num)
      (ngtcp2_pe_encode_hd W (ngtcp2_ppe_init conn destlen)
        (ngtcp2_pkt_hd_init NGTCP2_PKT_FLAG_CONN_ID NGTCP2_PKT_03 conn.next_tx_pkt_num)).2
      ackfr pkt_empty
    obtain ⟨l, hl1, _, _⟩ := send_pkt_loop_inv W conn
      (ngtcp2_pkt_hd_init NGTCP2_PKT_FLAG_CONN_ID NGTCP2_PKT_03 conn.next_tx_pkt_num)
      (frq_rounds conn.frq + 1) conn.frq _ (Nat.lt_succ_self _) a1
    rw [hl1]
    exact ⟨_, rfl, send_pkt_finish_fields W conn _ ts l⟩

theorem send_pkt_fc_strms_state (ids : List Nat) (conn : ngtcp2_conn) :
    (conn_send_pkt_fc_strms ids conn).2.state = conn.state :=
  (send_pkt_fc_strms_fields ids conn).2.1

/-- The function `conn_send_pkt` returns, and keeps the state. -/
theorem conn_send_pkt_returns (W : ngtcp2_wire) (conn : ngtcp2_conn) (destlen ts : Nat) :
    ∃ r, conn_send_pkt W conn destlen ts = some r ∧ r.2.1.state = conn.state := by
  obtain ⟨a1, a2, _⟩ := send_pkt_ack_fields conn ts
  obtain ⟨b1, b2, _⟩ := send_pkt_max_stream_id_fields (conn_send_pkt_ack conn ts) (le_of_eq a1)
  obtain ⟨_, c2, _⟩ := send_pkt_max_data_fields
    (conn_send_pkt_max_stream_id (conn_send_pkt_ack conn ts)) b1
  have d2 := send_pkt_fc_strms_state
    (conn_send_pkt_max_data (conn_send_pkt_max_stream_id (conn_send_pkt_ack conn ts))).conn.fc_strms
    (conn_send_pkt_max_data (conn_send_pkt_max_stream_id (conn_send_pkt_ack conn ts))).conn
  have hs1 := b2.trans a2
  have hs2 := c2.trans hs1
  have hs3 := d2.trans hs2
  unfold conn_send_pkt conn_send_pkt_queue
  simp only []
  split_ifs
  · exact ⟨_, rfl, a2⟩
  · exact ⟨_, rfl, hs1⟩
  · exact ⟨_, rfl, hs2⟩
  · exact ⟨_, rfl, hs3⟩
  · exact ⟨_, rfl, hs3⟩
  · obtain ⟨r, hr1, hr2, _⟩ := send_pkt_encode_pkt_fields W
      (conn_send_pkt_fc_strms
        (conn_send_pkt_max_data
          (conn_send_pkt_max_stream_id (conn_send_pkt_ack conn ts))).conn.fc_strms
        (conn_send_pkt_max_data (conn_send_pkt_max_stream_id (conn_send_pkt_ack conn ts))).conn).2
      (conn_send_pkt_max_data (conn_send_pkt_max_stream_id (conn_send_pkt_ack conn ts))).ackfr
      ((conn_send_pkt_max_data
          (conn_send_pkt_max_stream_id (conn_send_pkt_ack conn ts))).pkt_empty &&
        decide ((conn_send_pkt_max_data
          (conn_send_pkt_max_stream_id (conn_send_pkt_ack conn ts))).conn.fc_strms = []))
      destlen ts
    exact ⟨r, hr1, hr2.trans hs3⟩

/-- When no entry of the retransmission buffer has expired, `conn_retransmit`
returns 0 at once. -/
theorem retransmit_not_due (W : ngtcp2_wire) (conn : ngtcp2_conn) (destlen ts : Nat)
    (hdue : ∀ ent, ngtcp2_rtb_top conn.rtb = some ent → ts < ent.expiry) :
    conn_retransmit W conn destlen ts = some (0, conn, none) := by
  unfold conn_retransmit
  rw [conn_retransmit_loop]
  cases htop : ngtcp2_rtb_top conn.rtb with
  | none => rfl
  | some ent =>
    simp only []
    rw [if_pos (hdue ent htop)]

theorem buffer_protected_pkt_walk_eq (MAX : Nat) (l : List ngtcp2_pkt_chain) (i : Nat)
    (h : i ≤ MAX) : conn_buffer_protected_pkt_walk MAX l i = min (i + l.length) MAX := by
  induction l generalizing i with
  | nil =>
    simp only [conn_buffer_protected_pkt_walk, List.length_nil]
    omega
  | cons pc pcs ih =>
    rw [conn_buffer_protected_pkt_walk]
    split_ifs with h1
    · rw [ih (i + 1) h1, List.length_cons]
      omega
    · rw [List.length_cons]
      omega

/-! ## The drain of the flow-control list -/

theorem fc_strms_frames_congr (c1 c2 : ngtcp2_conn) (ids : List Nat)
    (h : ∀ id ∈ ids, (c1.strms id).map max_stream_data_frame =
      (c2.strms id).map max_stream_data_frame) :
    fc_strms_frames c1 ids = fc_strms_frames c2 ids := by
  induction ids with
  | nil => rfl
  | cons id rest ih =>
    unfold fc_strms_frames at ih ⊢
    rw [List.filterMap_cons, List.filterMap_cons, h id (List.mem_cons_self _ _),
      ih (fun i hi => h i (List.mem_cons_of_mem _ hi))]

/-- The loop `while (conn->fc_strms)` of `conn_send_pkt`, when no allocation
fails and every linked stream is in the map under its id: a MAX_STREAM_DATA
frame for each stream is put before the frame queue, the last stream of the
list first, every stream of the list has its `max_rx_offset` raised to
`unsent_max_rx_offset`, and the list is left empty. -/
theorem send_pkt_fc_strms_drain (ids : List Nat) (conn : ngtcp2_conn) (hmem : conn.mem = [])
    (hin : ∀ id ∈ ids, ∃ s, conn.strms id = some s ∧ s.stream_id = id) :
    ∃ strms, conn_send_pkt_fc_strms ids conn =
        (0, { conn with
              mem := []
              strms := strms
              frq := (fc_strms_frames conn ids).reverse ++ conn.frq
              fc_strms := [] }) ∧
      (∀ id ∈ ids, ∀ s, conn.strms id = some s →
        strms id = some { s with max_rx_offset := s.unsent_max_rx_offset }) ∧
      (∀ id, id ∉ ids → strms id = conn.strms id) := by
  induction ids generalizing conn with
  | nil =>
    refine ⟨conn.strms, ?_, fun id h => absurd h (List.not_mem_nil _), fun _ _ => rfl⟩
    rw [conn_send_pkt_fc_strms, ← hmem]
    rfl
  | cons id rest ih =>
    obtain ⟨s, hs, hsid⟩ := hin id (List.mem_cons_self _ _)
    rw [conn_send_pkt_fc_strms, hmem, frame_chain_new_nil]
    simp only [ne_eq, not_true_eq_false, if_false, hs]
    have hin2 : ∀ i ∈ rest, ∃ t,
        (conn_store_strm
          { conn with
            mem := []
            frq := ngtcp2_frame.max_stream_data
              { stream_id := s.stream_id, max_stream_data := s.unsent_max_rx_offset } :: conn.frq
            fc_strms := rest }
          { s with max_rx_offset := s.unsent_max_rx_offset }).strms i = some t ∧
          t.stream_id = i := by
      intro i hi
      obtain ⟨t, ht, htid⟩ := hin i (List.mem_cons_of_mem _ hi)
      by_cases hii : i = s.stream_id
      · exact ⟨{ s with max_rx_offset := s.unsent_max_rx_offset },
          by simp [conn_store_strm, hii], by rw [hii]⟩
      · exact ⟨t, by simp [conn_store_strm, hii, ht], htid⟩
    obtain ⟨strms, h1, h2, h3⟩ := ih _ rfl hin2
    have hfr : fc_strms_frames
        (conn_store_strm
          { conn with
            mem := []
            frq := ngtcp2_frame.max_stream_data
              { stream_id := s.stream_id, max_stream_data := s.unsent_max_rx_offset } :: conn.frq
            fc_strms := rest }
          { s with max_rx_offset := s.unsent_max_rx_offset }) rest =
        fc_strms_frames conn rest := by
      apply fc_strms_frames_congr
      intro i _
      by_cases hii : i = s.stream_id
      · subst hii
        simp [conn_store_strm, max_stream_data_frame, hsid, hs]
      · simp [conn_store_strm, hii]
    refine ⟨strms, ?_, ?_, ?_⟩
    · rw [h1, hfr]
      have hhead : fc_strms_frames conn (id :: rest) =
          max_stream_data_frame s :: fc_strms_frames conn rest := by
        unfold fc_strms_frames
        rw [List.filterMap_cons, hs]
        rfl
      rw [hhead, List.reverse_cons, List.append_assoc]
      rfl
    · intro i hi t ht
      by_cases hir : i ∈ rest
      · by_cases hii : i = s.stream_id
        · have hts : t = s := by
            rw [hii, hsid, hs] at ht
            exact (Option.some.inj ht).symm
          rw [h2 i hir { s with max_rx_offset := s.unsent_max_rx_offset }
            (by simp [conn_store_strm, hii]), hts]
        · rw [h2 i hir t (by simp [conn_store_strm, hii, ht])]
      · have hii : i = id := by
          rcases List.mem_cons.1 hi with h | h
          · exact h
          · exact absurd h hir
        have hts : t = s := by
          rw [hii, hs] at ht
          exact (Option.some.inj ht).symm
        rw [h3 i hir, hts]
        simp [conn_store_strm, hii, hsid]
    · intro i hi
      have hne : i ≠ s.stream_id := by
        rw [hsid]
        exact fun h => hi (h ▸ List.mem_cons_self _ _)
      rw [h3 i (fun h => hi (List.mem_cons_of_mem _ h))]
      simp [conn_store_strm, hne]

theorem send_pkt_max_stream_id_nil (a : send_pkt_state) (hm : a.conn.mem = [])
    (ha : a.rv = 0) :
    (conn_send_pkt_max_stream_id a).rv = 0 ∧ (conn_send_pkt_max_stream_id a).conn.mem = [] ∧
    (conn_send_pkt_max_stream_id a).conn.strms = a.conn.strms ∧
    (conn_send_pkt_max_stream_id a).conn.fc_strms = a.conn.fc_strms := by
  unfold conn_send_pkt_max_stream_id
  rw [hm, frame_chain_new_nil]
  simp only [ne_eq, not_true_eq_false, if_false]
  split_ifs
  · exact ⟨rfl, rfl, rfl, rfl⟩
  · exact ⟨ha, hm, rfl, rfl⟩

theorem send_pkt_max_data_nil (a : send_pkt_state) (hm : a.conn.mem = []) (ha : a.rv = 0) :
    (conn_send_pkt_max_data a).rv = 0 ∧ (conn_send_pkt_max_data a).conn.mem = [] ∧
    (conn_send_pkt_max_data a).conn.strms = a.conn.strms ∧
    (conn_send_pkt_max_data a).conn.fc_strms = a.conn.fc_strms := by
  unfold conn_send_pkt_max_data
  rw [hm, frame_chain_new_nil]
  simp only [ne_eq, not_true_eq_false, if_false]
  split_ifs
  · exact ⟨rfl, rfl, rfl, rfl⟩
  · exact ⟨ha, hm, rfl, rfl⟩

/-! ## Frames that do not fit when an entry is sent again -/

theorem retransmit_frc_loop_nobuf (W : ngtcp2_wire) (conn : ngtcp2_conn) (hd : ngtcp2_pkt_hd)
    (stale : ngtcp2_frame → Bool) (pre : List ngtcp2_frame) (fr : ngtcp2_frame)
    (tail : List ngtcp2_frame) (st : pkt_loop_state) (hpre : ∀ f ∈ pre, stale f = true)
    (hfr : stale fr = false)
    (hno : ¬ st.pe.len + W.framelen fr + st.pe.overhead ≤ st.pe.destlen) :
    conn_retransmit_frc_loop W conn hd stale (pre ++ fr :: tail) st =
      ({ st with rv := NGTCP2_ERR_NOBUF }, fr :: tail, loop_ctl.brk) := by
  induction pre with
  | nil =>
    rw [List.nil_append, retransmit_frc_loop_fresh W conn hd stale fr tail st hfr]
    rcases retransmit_encode_cases W conn hd st fr with ⟨_, he⟩ | ⟨h, _⟩ | ⟨h, _⟩
    · rw [he, if_pos (by simp)]
    · exact absurd h hno
    · exact absurd h hno
  | cons p pre ih =>
    rw [List.cons_append, retransmit_frc_loop_stale W conn hd stale p _ st
      (hpre p (List.mem_cons_self _ _))]
    exact ih (fun f hf => hpre f (List.mem_cons_of_mem _ hf))

theorem frames_len_cons (W : ngtcp2_wire) (fr : ngtcp2_frame) (frs : List ngtcp2_frame) :
    frames_len W (fr :: frs) = W.framelen fr + frames_len W frs := by
  simp [frames_len]

theorem frames_len_nil (W : ngtcp2_wire) : frames_len W [] = 0 := rfl

/-- The loop over the frame chain of a retransmitted entry when the frames
`visited` are passed, those of them that are not stale fit, and the frame
`fr` after them is not stale and does not fit: the loop is left at `fr` with
the frames that are not stale written. -/
theorem retransmit_frc_loop_part (W : ngtcp2_wire) (conn : ngtcp2_conn) (hd : ngtcp2_pkt_hd)
    (stale : ngtcp2_frame → Bool) (hp : conn_call_send_pkt conn hd = 0)
    (hf : ∀ f, conn_call_send_frame conn hd f = 0) (visited : List ngtcp2_frame)
    (fr : ngtcp2_frame) (tail : List ngtcp2_frame) (st : pkt_loop_state)
    (hfit : st.pe.len + frames_len W (visited.filter (fun f => !stale f)) + st.pe.overhead ≤
      st.pe.destlen)
    (hfr : stale fr = false)
    (hno : ¬ st.pe.len + frames_len W (visited.filter (fun f => !stale f)) + W.framelen fr +
      st.pe.overhead ≤ st.pe.destlen) :
    conn_retransmit_frc_loop W conn hd stale (visited ++ fr :: tail) st =
      ({ rv := NGTCP2_ERR_NOBUF
         mem := st.mem
         pe := { st.pe with
                 len := st.pe.len + frames_len W (visited.filter (fun f => !stale f))
                 frames := st.pe.frames ++ visited.filter (fun f => !stale f) }
         pkt_empty := st.pkt_empty && (visited.filter (fun f => !stale f)).isEmpty
         send_pkt_cb_called :=
           st.send_pkt_cb_called || !(visited.filter (fun f => !stale f)).isEmpty
         sent := st.sent ++ visited.filter (fun f => !stale f) }, fr :: tail, loop_ctl.brk) := by
  induction visited generalizing st with
  | nil =>
    simp only [List.filter_nil, frames_len_nil, Nat.add_zero] at hno
    have h := retransmit_frc_loop_nobuf W conn hd stale [] fr tail st
      (fun f h => absurd h (List.not_mem_nil _)) hfr hno
    rw [List.nil_append] at h
    rw [List.nil_append, h]
    simp [frames_len_nil]
  | cons v vs ih =>
    cases hv : stale v with
    | true =>
      have hfl : (v :: vs).filter (fun f => !stale f) = vs.filter (fun f => !stale f) := by
        simp [hv]
      rw [hfl] at hfit hno ⊢
      rw [List.cons_append, retransmit_frc_loop_stale W conn hd stale v _ st hv]
      exact ih st hfit hno
    | false =>
      have hfl : (v :: vs).filter (fun f => !stale f) = v :: vs.filter (fun f => !stale f) := by
        simp [hv]
      rw [hfl, frames_len_cons] at hfit hno
      rw [hfl, List.cons_append, retransmit_frc_loop_fresh W conn hd stale v _ st hv]
      rcases retransmit_encode_cases W conn hd st v with ⟨h, _⟩ | ⟨_, _, _, _, _, h⟩ | ⟨_, he⟩
      · exact absurd (by omega) h
      · rcases h with h | h
        · exact absurd hp h
        · exact absurd (hf v) h
      · rw [he, if_neg (by simp)]
        rw [ih _ (by simp only []; omega) (by simp only []; omega)]
        simp [frames_len_cons, Nat.add_assoc]

theorem pe_encode_hd_fits (W : ngtcp2_wire) (pe : ngtcp2_pe) (hd : ngtcp2_pkt_hd)
    (h : pe.len + W.hdlen hd + pe.overhead ≤ pe.destlen) :
    ngtcp2_pe_encode_hd W pe hd = (0, { pe with len := pe.len + W.hdlen hd }) := by
  unfold ngtcp2_pe_encode_hd
  rw [if_pos h]

theorem retransmit_protected_ack_not_due (W : ngtcp2_wire) (conn : ngtcp2_conn)
    (hd : ngtcp2_pkt_hd) (pe : ngtcp2_pe) (ts : Nat)
    (hack : conn.next_ack_expiry = 0 ∨ ts < conn.next_ack_expiry) :
    conn_retransmit_protected_ack W conn hd pe ts =
      (0, conn, { rv := 0, mem := conn.mem, pe := pe, pkt_empty := true,
                  send_pkt_cb_called := false, sent := [] }) := by
  unfold conn_retransmit_protected_ack
  simp only []
  rw [if_neg (by omega)]

/-- A call of `conn_retransmit_unprotected` or `conn_retransmit_protected` in
which the header fits, no ACK frame is due, and the first frame of the chain
that is not stale does not fit: the call returns `NGTCP2_ERR_NOBUF` and
leaves the entry with the chain from that frame on. -/
theorem retransmit_entry_nobuf (W : ngtcp2_wire) (conn : ngtcp2_conn) (destlen ts : Nat)
    (ent : ngtcp2_rtb_entry) (pre : List ngtcp2_frame) (fr : ngtcp2_frame)
    (tail : List ngtcp2_frame)
    (hack : ent.flags &&& NGTCP2_PKT_FLAG_LONG_FORM = 0 →
      conn.next_ack_expiry = 0 ∨ ts < conn.next_ack_expiry)
    (hchain : ent.frc = pre ++ fr :: tail)
    (hpre : ∀ f ∈ pre, retransmit_stale conn ent f = true)
    (hfr : retransmit_stale conn ent fr = false)
    (hhd : W.hdlen (retransmit_hd conn ent) + retransmit_overhead W conn ent ≤ destlen)
    (hno : destlen <
      W.hdlen (retransmit_hd conn ent) + W.framelen fr + retransmit_overhead W conn ent) :
    conn_retransmit_entry W conn destlen ent ts =
      (NGTCP2_ERR_NOBUF, conn, { ent with frc := fr :: tail }, none) := by
  unfold retransmit_hd at hhd hno
  unfold conn_retransmit_entry
  by_cases hl : ent.flags &&& NGTCP2_PKT_FLAG_LONG_FORM ≠ 0
  · simp only [retransmit_overhead, retransmit_stale, if_pos hl] at hhd hno hpre hfr
    rw [if_pos hl]
    unfold conn_retransmit_unprotected
    simp only []
    rw [pe_encode_hd_fits W (ngtcp2_upe_init W destlen) _
      (by simp only [ngtcp2_upe_init]; omega), if_neg (by simp)]
    simp only []
    rw [hchain, retransmit_frc_loop_nobuf W conn _ _ pre fr tail _ hpre hfr
      (by simp only [ngtcp2_upe_init]; omega)]
    unfold conn_retransmit_unprotected_finish
    simp
  · simp only [retransmit_overhead, retransmit_stale, if_neg hl] at hhd hno hpre hfr
    rw [if_neg hl]
    unfold conn_retransmit_protected
    simp only []
    rw [pe_encode_hd_fits W (ngtcp2_ppe_init conn destlen) _
      (by simp only [ngtcp2_ppe_init]; omega), if_neg (by simp)]
    simp only []
    rw [retransmit_protected_ack_not_due W conn _ _ ts (hack (not_not.1 hl)),
      if_neg (by simp)]
    simp only []
    rw [hchain, retransmit_frc_loop_nobuf W conn _ _ pre fr tail _ hpre hfr
      (by simp only [ngtcp2_ppe_init]; omega)]
    unfold conn_retransmit_protected_finish
    simp

theorem retransmit_stale_rtb (conn : ngtcp2_conn) (rtb : ngtcp2_rtb) (ent : ngtcp2_rtb_entry)
    (f : ngtcp2_frame) :
    retransmit_stale { conn with rtb := rtb } ent f = retransmit_stale conn ent f := by
  unfold retransmit_stale
  split_ifs
  · cases f <;> rfl
  · cases f <;> rfl

theorem rtb_pop_top (rtb : ngtcp2_rtb) (ent : ngtcp2_rtb_entry)
    (h : ngtcp2_rtb_top rtb = some ent) :
    ngtcp2_rtb_pop rtb = { ents := rtb.ents.erase ent } := by
  unfold ngtcp2_rtb_pop
  rw [h]

theorem rtb_add_ok (rtb : ngtcp2_rtb) (ent : ngtcp2_rtb_entry) (mem : ngtcp2_mem)
    (h : (ngtcp2_mem_malloc mem).1 = true) :
    ngtcp2_rtb_add rtb ent mem = (0, { ents := rtb.ents ++ [ent] }, (ngtcp2_mem_malloc mem).2) := by
  unfold ngtcp2_rtb_add
  simp [h]

/-- The first round of the loop of `conn_retransmit` for an entry that has
expired and that the function knows how to send again. -/
theorem retransmit_first_round (W : ngtcp2_wire) (conn : ngtcp2_conn) (destlen ts : Nat)
    (ent : ngtcp2_rtb_entry) (htop : ngtcp2_rtb_top conn.rtb = some ent)
    (hexp : ent.expiry ≤ ts) (hsup : conn_retransmit_supported ent = true)
    (h0 : (conn_retransmit_entry W { conn with rtb := { ents := conn.rtb.ents.erase ent } }
      destlen ent ts).1 ≠ 0) :
    conn_retransmit W conn destlen ts =
      some (conn_retransmit_done
        (conn_retransmit_entry W { conn with rtb := { ents := conn.rtb.ents.erase ent } }
          destlen ent ts)) := by
  unfold conn_retransmit
  rw [conn_retransmit_loop, htop]
  simp only []
  rw [if_neg (not_lt.2 hexp), rtb_pop_top conn.rtb ent htop, hsup]
  simp only [Bool.not_true, Bool.false_eq_true, if_false]
  rw [if_neg h0]

theorem retransmit_done_nobuf (c : ngtcp2_conn) (ent : ngtcp2_rtb_entry)
    (halloc : (ngtcp2_mem_malloc c.mem).1 = true) :
    conn_retransmit_done (NGTCP2_ERR_NOBUF, c, ent, none) =
      (NGTCP2_ERR_NOBUF,
        { c with rtb := { ents := c.rtb.ents ++ [ent] }, mem := (ngtcp2_mem_malloc c.mem).2 },
        none) := by
  unfold conn_retransmit_done
  simp only []
  rw [if_pos (le_of_lt nobuf_neg), if_pos trivial, rtb_add_ok _ _ _ halloc, if_neg (by simp)]

/-- A call of `conn_retransmit_unprotected` or `conn_retransmit_protected` in
which the frames `visited` are passed, those of them that are not stale fit
and are at least one, and the next frame is not stale and does not fit: the
frames written go to a new entry of the retransmission buffer and the entry
keeps the chain from the next frame on. -/
theorem retransmit_entry_part (W : ngtcp2_wire) (conn : ngtcp2_conn) (destlen ts : Nat)
    (ent : ngtcp2_rtb_entry) (visited : List ngtcp2_frame) (fr : ngtcp2_frame)
    (tail : List ngtcp2_frame) (hmem : conn.mem = [])
    (hp : ∀ hd, conn_call_send_pkt conn hd = 0)
    (hf : ∀ hd f, conn_call_send_frame conn hd f = 0)
    (henc : ∀ hd frs, conn.encrypt hd frs = 0)
    (hack : ent.flags &&& NGTCP2_PKT_FLAG_LONG_FORM = 0 →
      conn.next_ack_expiry = 0 ∨ ts < conn.next_ack_expiry)
    (hchain : ent.frc = visited ++ fr :: tail)
    (hk : visited.filter (fun f => !retransmit_stale conn ent f) ≠ [])
    (hfr : retransmit_stale conn ent fr = false)
    (hfit : W.hdlen (retransmit_hd conn ent) +
      frames_len W (visited.filter (fun f => !retransmit_stale conn ent f)) +
      retransmit_overhead W conn ent ≤ destlen)
    (hno : destlen < W.hdlen (retransmit_hd conn ent) +
      frames_len W (visited.filter (fun f => !retransmit_stale conn ent f)) + W.framelen fr +
      retransmit_overhead W conn ent) :
    conn_retransmit_entry W conn destlen ent ts =
      (((W.hdlen (retransmit_hd conn ent) +
          frames_len W (visited.filter (fun f => !retransmit_stale conn ent f)) +
          retransmit_overhead W conn ent : Nat) : Int),
        { conn with
          rtb := { ents := conn.rtb.ents ++
            [{ pkt_num := conn.next_tx_pkt_num
               expiry := (ts + W.NGTCP2_INITIAL_EXPIRY) % 2 ^ 64
               flags := ent.flags
               type := ent.type
               frc := visited.filter (fun f => !retransmit_stale conn ent f) }] }
          mem := []
          next_tx_pkt_num := (conn.next_tx_pkt_num + 1) % 2 ^ 64 },
        { ent with frc := fr :: tail },
        some { hd := retransmit_hd conn ent
               frames := visited.filter (fun f => !retransmit_stale conn ent f) }) := by
  unfold retransmit_hd at hfit hno ⊢
  unfold conn_retransmit_entry
  by_cases hl : ent.flags &&& NGTCP2_PKT_FLAG_LONG_FORM ≠ 0
  · simp only [retransmit_overhead, retransmit_stale, if_pos hl] at hfit hno hk hfr ⊢
    unfold conn_retransmit_unprotected
    simp only []
    rw [pe_encode_hd_fits W (ngtcp2_upe_init W destlen) _
      (by simp only [ngtcp2_upe_init]; omega), if_neg (by simp)]
    simp only []
    rw [hchain, retransmit_frc_loop_part W conn _ _ (hp _) (hf _) visited fr tail _
      (by simp only [ngtcp2_upe_init]; omega) hfr (by simp only [ngtcp2_upe_init]; omega)]
    unfold conn_retransmit_unprotected_finish
    simp [hk, hmem, rtb_entry_new_nil, rtb_add_nil, frame_chain_split, ngtcp2_upe_final,
      ngtcp2_upe_init, ngtcp2_rtb_entry.hd]
  · simp only [retransmit_overhead, retransmit_stale, if_neg hl] at hfit hno hk hfr ⊢
    unfold conn_retransmit_protected
    simp only []
    rw [pe_encode_hd_fits W (ngtcp2_ppe_init conn destlen) _
      (by simp only [ngtcp2_ppe_init]; omega), if_neg (by simp)]
    simp only []
    rw [retransmit_protected_ack_not_due W conn _ _ ts (hack (not_not.1 hl)),
      if_neg (by simp)]
    simp only []
    rw [hchain, retransmit_frc_loop_part W conn _ _ (hp _) (hf _) visited fr tail _
      (by simp only [ngtcp2_ppe_init]; omega) hfr (by simp only [ngtcp2_ppe_init]; omega)]
    unfold conn_retransmit_protected_finish
    simp [hk, hmem, rtb_entry_new_nil, rtb_add_nil, frame_chain_split, ngtcp2_ppe_final,
      ngtcp2_ppe_init, ngtcp2_rtb_entry.hd, henc]
    omega

theorem retransmit_done_sent (rv : Int) (c : ngtcp2_conn) (ent : ngtcp2_rtb_entry)
    (pkt : Option ngtcp2_pkt) (hpos : 0 < rv) (hmem : c.mem = []) :
    conn_retransmit_done (rv, c, ent, pkt) =
      (rv, { c with rtb := { ents := c.rtb.ents ++ [ent] }, mem := [] }, pkt) := by
  unfold conn_retransmit_done
  simp only []
  rw [if_neg (not_le.2 hpos), hmem, rtb_add_nil, if_neg (by simp)]

/-! ## Stale frames of an entry that is sent again -/

theorem rtb_new_frames_self (rtb : ngtcp2_rtb) : rtb_new_frames rtb rtb = [] := by
  simp [rtb_new_frames]

theorem rtb_new_frames_add (rtb : ngtcp2_rtb) (ent : ngtcp2_rtb_entry) :
    rtb_new_frames rtb { ents := rtb.ents ++ [ent] } = ent.frc := by
  simp [rtb_new_frames]

theorem frame_chain_split_append (sent rest : List ngtcp2_frame) :
    (frame_chain_split sent rest).1 ++ (frame_chain_split sent rest).2 = sent ++ rest := by
  unfold frame_chain_split
  split_ifs with h
  · rw [h]
    simp
  · rfl

/-- The statements of `conn_retransmit_protected` after the loop lose no
frame when no allocation fails: the chains of the new entry, if there is one,
and of the entry hold the frames written and the frames from `*pfrc` on. -/
theorem retransmit_protected_finish_kept (W : ngtcp2_wire) (conn : ngtcp2_conn)
    (hd : ngtcp2_pkt_hd) (ent : ngtcp2_rtb_entry) (ts : Nat)
    (l : pkt_loop_state × List ngtcp2_frame × loop_ctl) (hmem : conn.mem = []) :
    rtb_new_frames conn.rtb (conn_retransmit_protected_finish W conn hd ent ts l).2.1.rtb ++
      (conn_retransmit_protected_finish W conn hd ent ts l).2.2.1.frc = l.1.sent ++ l.2.1 := by
  unfold conn_retransmit_protected_finish
  simp only []
  rw [hmem, rtb_entry_new_nil, rtb_add_nil]
  simp only [ne_eq, not_true_eq_false, if_false]
  split_ifs with h1 h2 h3 h4 h5
  · simp [rtb_new_frames_self]
  · simp [rtb_new_frames_self]
  · simp [rtb_new_frames_self, h3]
  · simp [rtb_new_frames_self, h3]
  · simp only [rtb_new_frames_add]
    exact frame_chain_split_append _ _
  · simp only [rtb_new_frames_add]
    exact frame_chain_split_append _ _

theorem retransmit_protected_stale_ack (conn : ngtcp2_conn) (acktr : ngtcp2_acktr) (nae : Nat) :
    conn_retransmit_protected_stale { conn with acktr := acktr, next_ack_expiry := nae } =
      conn_retransmit_protected_stale conn := by
  funext f
  cases f <;> rfl

theorem retransmit_protected_kept_aux (W : ngtcp2_wire) (conn : ngtcp2_conn)
    (ent : ngtcp2_rtb_entry) (ts : Nat) (hd : ngtcp2_pkt_hd)
    (a : Int × ngtcp2_conn × pkt_loop_state) (ha1 : a.1 ≤ 0) (hrtb : a.2.1.rtb = conn.rtb)
    (hmem : a.2.1.mem = [])
    (hst : conn_retransmit_protected_stale a.2.1 = conn_retransmit_protected_stale conn)
    (hrv : a.2.2.rv = 0) (hsent : a.2.2.sent = [])
    (r : Int × ngtcp2_conn × ngtcp2_rtb_entry × Option ngtcp2_pkt)
    (hr : r = if a.1 ≠ 0 then (a.1, a.2.1, ent, none)
      else conn_retransmit_protected_finish W a.2.1 hd ent ts
        (conn_retransmit_frc_loop W a.2.1 hd (conn_retransmit_protected_stale a.2.1) ent.frc
          a.2.2)) :
    (r.1 < 0 ∧ r.2.2.1 = ent ∧ r.2.1.rtb = conn.rtb) ∨
    ∃ visited rest, ent.frc = visited ++ rest ∧
      (∀ f, rest.head? = some f → conn_retransmit_protected_stale conn f = false) ∧
      rtb_new_frames conn.rtb r.2.1.rtb ++ r.2.2.1.frc =
        visited.filter (fun f => !conn_retransmit_protected_stale conn f) ++ rest := by
  by_cases h1 : a.1 ≠ 0
  · rw [if_pos h1] at hr
    rw [hr]
    exact Or.inl ⟨lt_of_le_of_ne ha1 h1, rfl, hrtb⟩
  · rw [if_neg h1] at hr
    obtain ⟨_, _, _, ⟨visited, hv1, hv2⟩, hhead⟩ := retransmit_frc_loop_inv W a.2.1 hd
      (conn_retransmit_protected_stale a.2.1) ent.frc a.2.2 (le_of_eq hrv)
    have hk := retransmit_protected_finish_kept W a.2.1 hd ent ts
      (conn_retransmit_frc_loop W a.2.1 hd (conn_retransmit_protected_stale a.2.1) ent.frc
        a.2.2) hmem
    rw [← hr, hv2, hsent, List.nil_append, hrtb, hst] at hk
    rw [hst] at hhead hv1
    exact Or.inr ⟨visited, _, hv1, hhead, hk⟩

/-! ## The STREAM frame of `ngtcp2_conn_write_stream` -/

theorem write_stream_ndatalen_le (conn : ngtcp2_conn) (strm : ngtcp2_strm) (datalen left : Nat) :
    conn_write_stream_ndatalen conn strm datalen left ≤ datalen ∧
    conn_write_stream_ndatalen conn strm datalen left ≤
      (strm.max_tx_offset + 2 ^ 64 - strm.tx_offset) % 2 ^ 64 := by
  unfold conn_write_stream_ndatalen
  simp only []
  split_ifs <;> omega

theorem write_stream_commit_spec (conn : ngtcp2_conn) (hd : ngtcp2_pkt_hd)
    (frames : List ngtcp2_frame) (strm : ngtcp2_strm) (fin : Bool) (ndatalen : Nat)
    (nwrite : Int) :
    (conn_write_stream_commit conn hd frames strm fin ndatalen nwrite).2.2.1 = some ndatalen ∧
    (∀ p, (conn_write_stream_commit conn hd frames strm fin ndatalen nwrite).2.2.2 = some p →
      p.frames = frames) ∧
    (∀ s1, (conn_write_stream_commit conn hd frames strm fin ndatalen nwrite).2.1.strms
        strm.stream_id = some s1 →
      s1.tx_offset = (strm.tx_offset + ndatalen) % 2 ^ 64 ∧
      s1.max_tx_offset = strm.max_tx_offset) ∧
    (fin = false →
      (conn_write_stream_commit conn hd frames strm fin ndatalen nwrite).2.1.strms
        strm.stream_id = some { strm with tx_offset := (strm.tx_offset + ndatalen) % 2 ^ 64 }) ∧
    ((conn_write_stream_commit conn hd frames strm fin ndatalen nwrite).2.2.2 = none →
      (conn_write_stream_commit conn hd frames strm fin ndatalen nwrite).1 < 0) := by
  cases fin with
  | false =>
    unfold conn_write_stream_commit
    simp only [Bool.false_eq_true, if_false]
    refine ⟨trivial, fun p hp => ?_, fun s1 hs1 => ?_, fun _ => ?_, fun h => absurd h (by simp)⟩
    · rw [← Option.some.inj hp]
    · simp only [conn_store_strm, if_true] at hs1
      rw [← Option.some.inj hs1]
      exact ⟨rfl, rfl⟩
    · simp [conn_store_strm]
  | true =>
    have hself := close_if_strms_self
      (conn_store_strm
        { conn with
          tx_offset_high := (ngtcp2_increment_offset conn.tx_offset_high conn.tx_offset_low
            ndatalen).1
          tx_offset_low := (ngtcp2_increment_offset conn.tx_offset_high conn.tx_offset_low
            ndatalen).2
          next_tx_pkt_num := (conn.next_tx_pkt_num + 1) % 2 ^ 64 }
        { strm with tx_offset := (strm.tx_offset + ndatalen) % 2 ^ 64 })
      (ngtcp2_strm_shutdown { strm with tx_offset := (strm.tx_offset + ndatalen) % 2 ^ 64 }
        NGTCP2_STRM_FLAG_SHUT_WR)
    have hle := (close_if_send_fields
      (conn_store_strm
        (conn_store_strm
          { conn with
            tx_offset_high := (ngtcp2_increment_offset conn.tx_offset_high conn.tx_offset_low
              ndatalen).1
            tx_offset_low := (ngtcp2_increment_offset conn.tx_offset_high conn.tx_offset_low
              ndatalen).2
            next_tx_pkt_num := (conn.next_tx_pkt_num + 1) % 2 ^ 64 }
          { strm with tx_offset := (strm.tx_offset + ndatalen) % 2 ^ 64 })
        (ngtcp2_strm_shutdown { strm with tx_offset := (strm.tx_offset + ndatalen) % 2 ^ 64 }
          NGTCP2_STRM_FLAG_SHUT_WR))
      (ngtcp2_strm_shutdown { strm with tx_offset := (strm.tx_offset + ndatalen) % 2 ^ 64 }
        NGTCP2_STRM_FLAG_SHUT_WR)).1
    unfold conn_write_stream_commit
    simp only [if_true]
    split_ifs with h1
    · refine ⟨rfl, fun p hp => absurd hp (by simp), fun s1 hs1 => ?_,
        fun h => absurd h (by simp), fun _ => lt_of_le_of_ne hle h1⟩
      have := hself s1 hs1
      rw [this]
      exact ⟨rfl, rfl⟩
    · refine ⟨rfl, fun p hp => ?_, fun s1 hs1 => ?_, fun h => absurd h (by simp),
        fun h => absurd h (by simp)⟩
      · rw [← Option.some.inj hp]
      · have := hself s1 hs1
        rw [this]
        exact ⟨rfl, rfl⟩

theorem write_stream_pkt_spec (W : ngtcp2_wire) (conn : ngtcp2_conn) (hd : ngtcp2_pkt_hd)
    (pe : ngtcp2_pe) (strm : ngtcp2_strm) (stream_id : Nat) (fin : Bool) (data : List Nat)
    (ndatalen ts : Nat) (r : Int × ngtcp2_conn × Option Nat × Option ngtcp2_pkt)
    (hr : r = conn_write_stream_pkt W conn hd pe strm stream_id fin data ndatalen ts) :
    (r.2.2.2 = none → r.1 < 0) ∧
    ∀ p, r.2.2.2 = some p →
      r.2.2.1 = some ndatalen ∧
      p.frames = pe.frames ++ [ngtcp2_frame.stream
        { stream_id := stream_id
          fin := fin && decide (ndatalen = data.length)
          offset := strm.tx_offset
          data := data.take ndatalen }] ∧
      (∀ s1, r.2.1.strms strm.stream_id = some s1 →
        s1.tx_offset = (strm.tx_offset + ndatalen) % 2 ^ 64 ∧
        s1.max_tx_offset = strm.max_tx_offset) ∧
      (fin = false →
        r.2.1.strms strm.stream_id =
          some { strm with tx_offset := (strm.tx_offset + ndatalen) % 2 ^ 64 }) := by
  unfold conn_write_stream_pkt at hr
  simp only [] at hr
  split_ifs at hr with h1 h2 h3 h4 h5 h6 h7
  · rw [hr]
    exact ⟨fun _ => by dsimp only; exact Ne.lt_of_le h1 (call_send_pkt_le _ _), fun p hp => absurd hp (by simp)⟩
  · rw [hr]
    exact ⟨fun _ => by dsimp only; exact Ne.lt_of_le h2 (frame_chain_new_le _), fun p hp => absurd hp (by simp)⟩
  · rw [hr]
    exact ⟨fun _ => by dsimp only; exact Ne.lt_of_le h3 (pe_encode_frame_le _ _ _),
      fun p hp => absurd hp (by simp)⟩
  · rw [hr]
    exact ⟨fun _ => by dsimp only; exact Ne.lt_of_le h4 (call_send_frame_le _ _ _),
      fun p hp => absurd hp (by simp)⟩
  · rw [hr]
    exact ⟨fun _ => h5, fun p hp => absurd hp (by simp)⟩
  · rw [hr]
    exact ⟨fun _ => by dsimp only; exact Ne.lt_of_le h6 (rtb_entry_new_le _ _ _ _),
      fun p hp => absurd hp (by simp)⟩
  · rw [hr]
    exact ⟨fun _ => by dsimp only; exact Ne.lt_of_le h7 (rtb_add_le _ _ _), fun p hp => absurd hp (by simp)⟩
  · have hfr : (ngtcp2_pe_encode_frame W pe (ngtcp2_frame.stream
          { stream_id := stream_id
            fin := fin && decide (ndatalen = data.length)
            offset := strm.tx_offset
            data := data.take ndatalen })).2.frames =
        pe.frames ++ [ngtcp2_frame.stream
          { stream_id := stream_id
            fin := fin && decide (ndatalen = data.length)
            offset := strm.tx_offset
            data := data.take ndatalen }] := by
      rcases pe_encode_frame_cases W pe (ngtcp2_frame.stream
        { stream_id := stream_id
          fin := fin && decide (ndatalen = data.length)
          offset := strm.tx_offset
          data := data.take ndatalen }) with ⟨_, he⟩ | ⟨_, he⟩
      · rw [he]
      · rw [he] at h3
        exact absurd (by decide : NGTCP2_ERR_NOBUF ≠ 0) h3
    rw [hr]
    obtain ⟨c1, c2, c3, c4, c5⟩ := write_stream_commit_spec
      { conn with
        mem := (ngtcp2_rtb_add conn.rtb
          (ngtcp2_rtb_entry_new hd
            [ngtcp2_frame.stream
              { stream_id := stream_id
                fin := fin && decide (ndatalen = data.length)
                offset := strm.tx_offset
                data := data.take ndatalen }]
            ((ts + W.NGTCP2_INITIAL_EXPIRY) % 2 ^ 64) (ngtcp2_frame_chain_new conn.mem).2).2.1
          (ngtcp2_rtb_entry_new hd
            [ngtcp2_frame.stream
              { stream_id := stream_id
                fin := fin && decide (ndatalen = data.length)
                offset := strm.tx_offset
                data := data.take ndatalen }]
            ((ts + W.NGTCP2_INITIAL_EXPIRY) % 2 ^ 64)
            (ngtcp2_frame_chain_new conn.mem).2).2.2).2.2
        rtb := (ngtcp2_rtb_add conn.rtb
          (ngtcp2_rtb_entry_new hd
            [ngtcp2_frame.stream
              { stream_id := stream_id
                fin := fin && decide (ndatalen = data.length)
                offset := strm.tx_offset
                data := data.take ndatalen }]
            ((ts + W.NGTCP2_INITIAL_EXPIRY) % 2 ^ 64) (ngtcp2_frame_chain_new conn.mem).2).2.1
          (ngtcp2_rtb_entry_new hd
            [ngtcp2_frame.stream
              { stream_id := stream_id
                fin := fin && decide (ndatalen = data.length)
                offset := strm.tx_offset
                data := data.take ndatalen }]
            ((ts + W.NGTCP2_INITIAL_EXPIRY) % 2 ^ 64)
            (ngtcp2_frame_chain_new conn.mem).2).2.2).2.1 }
      hd
      (ngtcp2_pe_encode_frame W pe (ngtcp2_frame.stream
        { stream_id := stream_id
          fin := fin && decide (ndatalen = data.length)
          offset := strm.tx_offset
          data := data.take ndatalen })).2.frames
      strm fin ndatalen
      (ngtcp2_ppe_final { conn with mem := (ngtcp2_frame_chain_new conn.mem).2 } hd
        (ngtcp2_pe_encode_frame W pe (ngtcp2_frame.stream
          { stream_id := stream_id
            fin := fin && decide (ndatalen = data.length)
            offset := strm.tx_offset
            data := data.take ndatalen })).2)
    exact ⟨c5, fun p hp => ⟨c1, (c2 p hp).trans hfr, c3, c4⟩⟩

theorem pe_encode_hd_frames (W : ngtcp2_wire) (pe : ngtcp2_pe) (hd : ngtcp2_pkt_hd) :
    (ngtcp2_pe_encode_hd W pe hd).2.frames = pe.frames := by
  rcases pe_encode_hd_cases W pe hd with ⟨_, he⟩ | ⟨_, he⟩
  · rw [he]
  · rw [he]

/-! ## Packet numbers across a sequence of calls -/

theorem call_send_pkt_congr (c1 c2 : ngtcp2_conn) (hd : ngtcp2_pkt_hd)
    (h : c1.send_pkt = c2.send_pkt) : conn_call_send_pkt c1 hd = conn_call_send_pkt c2 hd := by
  unfold conn_call_send_pkt
  rw [h]

theorem call_send_frame_congr (c1 c2 : ngtcp2_conn) (hd : ngtcp2_pkt_hd) (fr : ngtcp2_frame)
    (h : c1.send_frame = c2.send_frame) :
    conn_call_send_frame c1 hd fr = conn_call_send_frame c2 hd fr := by
  unfold conn_call_send_frame
  rw [h]

theorem frame_room_ge (W : ngtcp2_wire) (fr : ngtcp2_frame) : W.framelen fr ≤ frame_room W fr := by
  cases fr <;> simp [frame_room]

theorem frq_rounds_ge (frq : List ngtcp2_frame) : frq.length ≤ frq_rounds frq := by
  induction frq with
  | nil => exact le_refl _
  | cons fr frq ih =>
    cases fr <;> simp only [frq_rounds, List.length_cons] <;> omega

/-- A frame for which there is room passes the block for STREAM frames as it
is. -/
theorem send_pkt_split_fit (W : ngtcp2_wire) (st : pkt_loop_state) (fr : ngtcp2_frame)
    (h : frame_room W fr ≤ ngtcp2_pe_left st.pe) :
    conn_send_pkt_split W st fr = (st, loop_ctl.next, fr, none) := by
  cases fr with
  | stream s =>
    simp only [frame_room] at h
    unfold conn_send_pkt_split
    simp only []
    rw [if_neg (by omega), if_neg (by omega)]
  | _ => rfl

/-- A frame that fits is encoded and goes to the frames sent, when the
callbacks succeed. -/
theorem send_pkt_encode_fit (W : ngtcp2_wire) (conn : ngtcp2_conn) (hd : ngtcp2_pkt_hd)
    (st : pkt_loop_state) (fr : ngtcp2_frame)
    (hp : conn_call_send_pkt conn hd = 0) (hf : conn_call_send_frame conn hd fr = 0)
    (h : st.pe.len + W.framelen fr + st.pe.overhead ≤ st.pe.destlen) :
    conn_send_pkt_encode W conn hd st fr =
      ({ st with
         rv := 0
         pe := { st.pe with len := st.pe.len + W.framelen fr, frames := st.pe.frames ++ [fr] }
         pkt_empty := false
         send_pkt_cb_called := true
         sent := st.sent ++ [fr] }, loop_ctl.next) := by
  unfold conn_send_pkt_encode ngtcp2_pe_encode_frame
  rw [if_pos h]
  simp only [ne_eq, not_true_eq_false, if_false, hp, hf, ite_self]

/-- The loop of `conn_send_pkt` over a frame queue whose frames all fit, when
the callbacks succeed: every frame is encoded, in the order of the queue. -/
theorem send_pkt_loop_all_fit (W : ngtcp2_wire) (conn : ngtcp2_conn) (hd : ngtcp2_pkt_hd)
    (hp : conn_call_send_pkt conn hd = 0) (hf : ∀ fr, conn_call_send_frame conn hd fr = 0)
    (frq : List ngtcp2_frame) (fuel : Nat) (st : pkt_loop_state) (hfuel : frq.length < fuel)
    (hroom : st.pe.len + st.pe.overhead ≤ st.pe.destlen)
    (hfit : frames_fit W (ngtcp2_pe_left st.pe) frq = true) :
    ∃ l, conn_send_pkt_loop W conn hd fuel frq st = some (l, [], loop_ctl.next) ∧
      l.sent = st.sent ++ frq ∧ l.pe.frames = st.pe.frames ++ frq ∧ l.mem = st.mem ∧
      l.pkt_empty = (st.pkt_empty && frq.isEmpty) := by
  induction frq generalizing fuel st with
  | nil =>
    cases fuel with
    | zero => exact absurd hfuel (Nat.not_lt_zero _)
    | succ fuel =>
      exact ⟨st, rfl, (List.append_nil _).symm, (List.append_nil _).symm, rfl, by simp⟩
  | cons fr frq ih =>
    cases fuel with
    | zero => exact absurd hfuel (Nat.not_lt_zero _)
    | succ fuel =>
      simp only [frames_fit, Bool.and_eq_true, decide_eq_true_eq] at hfit
      have hlen := frame_room_ge W fr
      have hleft : ngtcp2_pe_left st.pe = st.pe.destlen - st.pe.len - st.pe.overhead := rfl
      have henc : st.pe.len + W.framelen fr + st.pe.overhead ≤ st.pe.destlen := by omega
      rw [conn_send_pkt_loop]
      simp only []
      rw [send_pkt_split_fit W st fr hfit.1]
      simp only [ne_eq, not_true_eq_false, if_false]
      rw [send_pkt_encode_fit W conn hd st fr hp (hf fr) henc]
      simp only [ne_eq, not_true_eq_false, if_false]
      obtain ⟨l, h1, h2, h3, h4, h5⟩ := ih fuel
        { st with
          rv := 0
          pe := { st.pe with len := st.pe.len + W.framelen fr, frames := st.pe.frames ++ [fr] }
          pkt_empty := false
          send_pkt_cb_called := true
          sent := st.sent ++ [fr] }
        (by rw [List.length_cons] at hfuel; omega)
        (by dsimp only; omega)
        (by
          have : ngtcp2_pe_left
              { st.pe with len := st.pe.len + W.framelen fr, frames := st.pe.frames ++ [fr] } =
              ngtcp2_pe_left st.pe - W.framelen fr := by
            simp only [ngtcp2_pe_left]
            omega
          rw [this]
          exact hfit.2)
      refine ⟨l, h1, ?_, ?_, h4, ?_⟩
      · rw [h2, List.append_assoc, List.singleton_append]
      · rw [h3, List.append_assoc, List.singleton_append]
      · rw [h5]
        simp

/-- The statements of `conn_send_pkt` that write the ACK frame, when the frame
fits and the callbacks succeed. -/
theorem send_pkt_encode_ack_fit (W : ngtcp2_wire) (conn : ngtcp2_conn) (hd : ngtcp2_pkt_hd)
    (pe : ngtcp2_pe) (ackfr : ngtcp2_ack) (pkt_empty : Bool) (frq : List ngtcp2_frame)
    (hp : conn_call_send_pkt conn hd = 0) (hf : ∀ fr, conn_call_send_frame conn hd fr = 0)
    (hroom : pe.len + pe.overhead ≤ pe.destlen)
    (hfit : frames_fit W (ngtcp2_pe_left pe)
      ((if ackfr.type = NGTCP2_FRAME_ACK then [ngtcp2_frame.ack ackfr] else []) ++ frq) = true) :
    (conn_send_pkt_encode_ack W conn hd pe ackfr pkt_empty).rv = 0 ∧
    (conn_send_pkt_encode_ack W conn hd pe ackfr pkt_empty).mem = conn.mem ∧
    (conn_send_pkt_encode_ack W conn hd pe ackfr pkt_empty).pkt_empty = pkt_empty ∧
    (conn_send_pkt_encode_ack W conn hd pe ackfr pkt_empty).sent = [] ∧
    (conn_send_pkt_encode_ack W conn hd pe ackfr pkt_empty).pe.frames = pe.frames ++
      (if ackfr.type = NGTCP2_FRAME_ACK then [ngtcp2_frame.ack ackfr] else []) ∧
    (conn_send_pkt_encode_ack W conn hd pe ackfr pkt_empty).pe.len +
        (conn_send_pkt_encode_ack W conn hd pe ackfr pkt_empty).pe.overhead ≤
      (conn_send_pkt_encode_ack W conn hd pe ackfr pkt_empty).pe.destlen ∧
    frames_fit W (ngtcp2_pe_left (conn_send_pkt_encode_ack W conn hd pe ackfr pkt_empty).pe) frq
      = true := by
  unfold conn_send_pkt_encode_ack
  simp only []
  by_cases hack : ackfr.type = NGTCP2_FRAME_ACK
  · rw [if_pos hack] at hfit ⊢
    rw [List.singleton_append] at hfit
    simp only [frames_fit, frame_room, Bool.and_eq_true, decide_eq_true_eq] at hfit
    have hleft : ngtcp2_pe_left pe = pe.destlen - pe.len - pe.overhead := rfl
    have henc : pe.len + W.framelen (ngtcp2_frame.ack ackfr) + pe.overhead ≤ pe.destlen := by
      omega
    unfold ngtcp2_pe_encode_frame
    rw [if_pos henc]
    simp only [ne_eq, not_true_eq_false, if_false, hp, hf, if_pos hack]
    refine ⟨trivial, trivial, trivial, trivial, trivial, henc, ?_⟩
    have : ngtcp2_pe_left
        { pe with len := pe.len + W.framelen (ngtcp2_frame.ack ackfr),
                  frames := pe.frames ++ [ngtcp2_frame.ack ackfr] } =
        ngtcp2_pe_left pe - W.framelen (ngtcp2_frame.ack ackfr) := by
      simp only [ngtcp2_pe_left]
      omega
    rw [this]
    exact hfit.2
  · rw [if_neg hack] at hfit ⊢
    rw [List.nil_append] at hfit
    rw [if_neg hack, List.append_nil]
    exact ⟨rfl, rfl, rfl, rfl, rfl, hroom, hfit⟩

/-- The statements of `conn_send_pkt` after the loop, when the loop has run
off the frame queue, the packet is not empty, and neither the encryption nor
an allocation fails: the packet holds the frames encoded. -/
theorem send_pkt_finish_all_fit (W : ngtcp2_wire) (conn : ngtcp2_conn) (hd : ngtcp2_pkt_hd)
    (ts : Nat) (l : pkt_loop_state) (hempty : l.pkt_empty = false) (hmem : l.mem = [])
    (henc : conn.encrypt hd l.pe.frames = 0) :
    (conn_send_pkt_finish W conn hd ts (l, [], loop_ctl.next)).2.2 =
      some { hd := hd, frames := l.pe.frames } := by
  unfold conn_send_pkt_finish ngtcp2_ppe_final
  simp only [hempty, hmem, henc, rtb_entry_new_nil, rtb_add_nil]
  simp
  split_ifs with h1 h2
  · omega
  all_goals rfl

/-- The statements of `conn_send_pkt` from `ngtcp2_pkt_hd_init` on, when the
header, the ACK frame and the frames of the queue all fit and neither a
callback nor an allocation fails: the packet holds the ACK frame and then the
frames of the queue. -/
theorem send_pkt_encode_pkt_all_fit (W : ngtcp2_wire) (conn : ngtcp2_conn) (ackfr : ngtcp2_ack)
    (pkt_empty : Bool) (destlen ts : Nat) (hmem : conn.mem = [])
    (hp : ∀ hd, conn_call_send_pkt conn hd = 0)
    (hf : ∀ hd fr, conn_call_send_frame conn hd fr = 0)
    (henc : ∀ hd frs, conn.encrypt hd frs = 0)
    (hne : pkt_empty = false ∨ conn.frq ≠ [])
    (hhd : W.hdlen (ngtcp2_pkt_hd_init NGTCP2_PKT_FLAG_CONN_ID NGTCP2_PKT_03
      conn.next_tx_pkt_num) + conn.aead_overhead ≤ destlen)
    (hfit : frames_fit W
      (destlen - W.hdlen (ngtcp2_pkt_hd_init NGTCP2_PKT_FLAG_CONN_ID NGTCP2_PKT_03
        conn.next_tx_pkt_num) - conn.aead_overhead)
      ((if ackfr.type = NGTCP2_FRAME_ACK then [ngtcp2_frame.ack ackfr] else []) ++ conn.frq)
        = true) :
    ∃ r, conn_send_pkt_encode_pkt W conn ackfr pkt_empty destlen ts = some r ∧
      r.2.2 = some
        { hd := ngtcp2_pkt_hd_init NGTCP2_PKT_FLAG_CONN_ID NGTCP2_PKT_03 conn.next_tx_pkt_num
          frames := (if ackfr.type = NGTCP2_FRAME_ACK then [ngtcp2_frame.ack ackfr] else []) ++
            conn.frq } := by
  unfold conn_send_pkt_encode_pkt
  simp only []
  rw [pe_encode_hd_fits W (ngtcp2_ppe_init conn destlen) _
    (by simp only [ngtcp2_ppe_init]; omega), if_neg (by simp)]
  simp only []
  obtain ⟨a1, a2, a3, a4, a5, a6, a7⟩ := send_pkt_encode_ack_fit W conn
    (ngtcp2_pkt_hd_init NGTCP2_PKT_FLAG_CONN_ID NGTCP2_PKT_03 conn.next_tx_pkt_num)
    { ngtcp2_ppe_init conn destlen with
      len := (ngtcp2_ppe_init conn destlen).len +
        W.hdlen (ngtcp2_pkt_hd_init NGTCP2_PKT_FLAG_CONN_ID NGTCP2_PKT_03 conn.next_tx_pkt_num) }
    ackfr pkt_empty conn.frq (hp _) (hf _)
    (by simp only [ngtcp2_ppe_init]; omega)
    (by
      have : ngtcp2_pe_left
          { ngtcp2_ppe_init conn destlen with
            len := (ngtcp2_ppe_init conn destlen).len +
              W.hdlen (ngtcp2_pkt_hd_init NGTCP2_PKT_FLAG_CONN_ID NGTCP2_PKT_03
                conn.next_tx_pkt_num) } =
          destlen - W.hdlen (ngtcp2_pkt_hd_init NGTCP2_PKT_FLAG_CONN_ID NGTCP2_PKT_03
            conn.next_tx_pkt_num) - conn.aead_overhead := by
        simp only [ngtcp2_pe_left, ngtcp2_ppe_init]
        omega
      rw [this]
      exact hfit)
  rw [if_neg (by rw [a1]; simp)]
  obtain ⟨l, h1, h2, h3, h4, h5⟩ := send_pkt_loop_all_fit W conn
    (ngtcp2_pkt_hd_init NGTCP2_PKT_FLAG_CONN_ID NGTCP2_PKT_03 conn.next_tx_pkt_num)
    (hp _) (hf _) conn.frq (frq_rounds conn.frq + 1) _
    (Nat.lt_succ_of_le (frq_rounds_ge _)) a6 a7
  rw [h1]
  refine ⟨_, rfl, ?_⟩
  dsimp only
  rw [send_pkt_finish_all_fit W conn _ ts l ?_ (by rw [h4, a2, hmem]) (henc _ _), h3, a5]
  · rfl
  · rw [h5, a3]
    rcases hne with hne | hne
    · rw [hne]
      rfl
    · cases hq : conn.frq with
      | nil => exact absurd hq hne
      | cons x xs => simp

/-- The statements of `conn_send_pkt` that put the MAX_STREAM_ID frame before
the frame queue, when no allocation fails. -/
theorem send_pkt_max_stream_id_frq (a : send_pkt_state) (hm : a.conn.mem = []) (ha : a.rv = 0) :
    (conn_send_pkt_max_stream_id a).rv = 0 ∧
    (conn_send_pkt_max_stream_id a).ackfr = a.ackfr ∧
    (conn_send_pkt_max_stream_id a).pkt_empty =
      (a.pkt_empty && (send_pkt_max_stream_id_frames a.conn).isEmpty) ∧
    (conn_send_pkt_max_stream_id a).conn.frq =
      send_pkt_max_stream_id_frames a.conn ++ a.conn.frq ∧
    (conn_send_pkt_max_stream_id a).conn.mem = [] ∧
    (conn_send_pkt_max_stream_id a).conn.strms = a.conn.strms ∧
    (conn_send_pkt_max_stream_id a).conn.fc_strms = a.conn.fc_strms ∧
    (conn_send_pkt_max_stream_id a).conn.send_pkt = a.conn.send_pkt ∧
    (conn_send_pkt_max_stream_id a).conn.send_frame = a.conn.send_frame ∧
    (conn_send_pkt_max_stream_id a).conn.encrypt = a.conn.encrypt ∧
    (conn_send_pkt_max_stream_id a).conn.next_tx_pkt_num = a.conn.next_tx_pkt_num ∧
    (conn_send_pkt_max_stream_id a).conn.aead_overhead = a.conn.aead_overhead ∧
    (conn_send_pkt_max_stream_id a).conn.unsent_max_rx_offset_high =
      a.conn.unsent_max_rx_offset_high ∧
    (conn_send_pkt_max_stream_id a).conn.max_rx_offset_high = a.conn.max_rx_offset_high ∧
    conn_should_send_max_data (conn_send_pkt_max_stream_id a).conn =
      conn_should_send_max_data a.conn := by
  unfold conn_send_pkt_max_stream_id send_pkt_max_stream_id_frames
  rw [hm, frame_chain_new_nil]
  simp only [ne_eq, not_true_eq_false, if_false]
  split_ifs
  · exact ⟨rfl, rfl, by simp, rfl, rfl, rfl, rfl, rfl, rfl, rfl, rfl, rfl, rfl, rfl, rfl⟩
  · exact ⟨ha, rfl, by simp, rfl, hm, rfl, rfl, rfl, rfl, rfl, rfl, rfl, rfl, rfl, rfl⟩

theorem send_pkt_max_data_frames_congr (c1 c2 : ngtcp2_conn) (before : List ngtcp2_frame)
    (hu : c1.unsent_max_rx_offset_high = c2.unsent_max_rx_offset_high)
    (hx : c1.max_rx_offset_high = c2.max_rx_offset_high)
    (hs : conn_should_send_max_data c1 = conn_should_send_max_data c2)
    (hq : before ≠ [] ∨ c1.frq ≠ [] ↔ before ≠ [] ∨ c2.frq ≠ []) :
    send_pkt_max_data_frames c1 before = send_pkt_max_data_frames c2 before := by
  unfold send_pkt_max_data_frames
  rw [hu, hx, hs]
  have h : (before ≠ [] ∨ c1.frq ≠ [] ∨ conn_should_send_max_data c2 = true) ↔
      (before ≠ [] ∨ c2.frq ≠ [] ∨ conn_should_send_max_data c2 = true) := by
    rw [← or_assoc, ← or_assoc, hq]
  simp only [h]

/-- The statements of `conn_send_pkt` that put the MAX_DATA frame before the
frame queue, when no allocation fails; `before` are the frames that make the
packet not empty. -/
theorem send_pkt_max_data_frq (a : send_pkt_state) (before : List ngtcp2_frame)
    (hm : a.conn.mem = []) (ha : a.rv = 0) (hb : a.pkt_empty = before.isEmpty) :
    (conn_send_pkt_max_data a).rv = 0 ∧
    (conn_send_pkt_max_data a).ackfr = a.ackfr ∧
    (conn_send_pkt_max_data a).pkt_empty =
      (a.pkt_empty && (send_pkt_max_data_frames a.conn before).isEmpty) ∧
    (conn_send_pkt_max_data a).conn.frq = send_pkt_max_data_frames a.conn before ++ a.conn.frq ∧
    (conn_send_pkt_max_data a).conn.mem = [] ∧
    (conn_send_pkt_max_data a).conn.strms = a.conn.strms ∧
    (conn_send_pkt_max_data a).conn.fc_strms = a.conn.fc_strms ∧
    (conn_send_pkt_max_data a).conn.send_pkt = a.conn.send_pkt ∧
    (conn_send_pkt_max_data a).conn.send_frame = a.conn.send_frame ∧
    (conn_send_pkt_max_data a).conn.encrypt = a.conn.encrypt ∧
    (conn_send_pkt_max_data a).conn.next_tx_pkt_num = a.conn.next_tx_pkt_num ∧
    (conn_send_pkt_max_data a).conn.aead_overhead = a.conn.aead_overhead := by
  have hcond : ((!a.pkt_empty || decide (a.conn.frq ≠ []) || conn_should_send_max_data a.conn) &&
      decide (a.conn.unsent_max_rx_offset_high > a.conn.max_rx_offset_high)) = true ↔
      (before ≠ [] ∨ a.conn.frq ≠ [] ∨ conn_should_send_max_data a.conn = true) ∧
        a.conn.unsent_max_rx_offset_high > a.conn.max_rx_offset_high := by
    rw [hb]
    cases before <;> simp [or_assoc]
  unfold conn_send_pkt_max_data send_pkt_max_data_frames
  rw [hm, frame_chain_new_nil]
  simp only [ne_eq, not_true_eq_false, if_false]
  by_cases hc : ((!a.pkt_empty || decide (a.conn.frq ≠ []) ||
      conn_should_send_max_data a.conn) &&
      decide (a.conn.unsent_max_rx_offset_high > a.conn.max_rx_offset_high)) = true
  · have hn := hcond.1 hc
    simp only [ne_eq] at hc hn
    rw [if_pos hc, if_pos hn]
    exact ⟨rfl, rfl, by simp, rfl, rfl, rfl, rfl, rfl, rfl, rfl, rfl, rfl⟩
  · have hn := mt hcond.2 hc
    simp only [ne_eq] at hc hn
    rw [if_neg hc, if_neg hn]
    exact ⟨ha, rfl, by simp, rfl, hm, rfl, rfl, rfl, rfl, rfl, rfl, rfl⟩

/-- The statements of `conn_send_pkt` after the ACK frame is built, when all
frames fit and neither a callback nor an allocation fails: the packet holds
the ACK frame, the MAX_STREAM_DATA frames of the flow-control list, the last
stream of the list first, the MAX_DATA frame, the MAX_STREAM_ID frame, and the
frames that were in the frame queue. -/
theorem send_pkt_queue_all_fit (W : ngtcp2_wire) (a : send_pkt_state) (destlen ts : Nat)
    (ha : a.rv = 0) (hpe : a.pkt_empty = !decide (a.ackfr.type = NGTCP2_FRAME_ACK))
    (hmem : a.conn.mem = [])
    (hin : ∀ id ∈ a.conn.fc_strms, ∃ s, a.conn.strms id = some s ∧ s.stream_id = id)
    (hp : ∀ hd, conn_call_send_pkt a.conn hd = 0)
    (hf : ∀ hd fr, conn_call_send_frame a.conn hd fr = 0)
    (henc : ∀ hd frs, a.conn.encrypt hd frs = 0)
    (frames : List ngtcp2_frame)
    (hfr : frames = (if a.pkt_empty then [] else [ngtcp2_frame.ack a.ackfr]) ++
      ((fc_strms_frames a.conn a.conn.fc_strms).reverse ++
        (send_pkt_max_data_frames a.conn
            ((if a.pkt_empty then [] else [ngtcp2_frame.ack a.ackfr]) ++
              send_pkt_max_stream_id_frames a.conn) ++
          (send_pkt_max_stream_id_frames a.conn ++ a.conn.frq))))
    (hne : frames ≠ [])
    (hhd : W.hdlen (ngtcp2_pkt_hd_init NGTCP2_PKT_FLAG_CONN_ID NGTCP2_PKT_03
      a.conn.next_tx_pkt_num) + a.conn.aead_overhead ≤ destlen)
    (hfit : frames_fit W
      (destlen - W.hdlen (ngtcp2_pkt_hd_init NGTCP2_PKT_FLAG_CONN_ID NGTCP2_PKT_03
        a.conn.next_tx_pkt_num) - a.conn.aead_overhead) frames = true) :
    ∃ r, conn_send_pkt_queue W a destlen ts = some r ∧
      r.2.2 = some
        { hd := ngtcp2_pkt_hd_init NGTCP2_PKT_FLAG_CONN_ID NGTCP2_PKT_03 a.conn.next_tx_pkt_num
          frames := frames } := by
  obtain ⟨b1, b2, b3, b4, b5, b6, b7, b8, b9, b10, b11, b12, b13, b14, b15⟩ :=
    send_pkt_max_stream_id_frq a hmem ha
  have hbefore : (conn_send_pkt_max_stream_id a).pkt_empty =
      ((if a.pkt_empty then [] else [ngtcp2_frame.ack a.ackfr]) ++
        send_pkt_max_stream_id_frames a.conn).isEmpty := by
    rw [b3]
    cases a.pkt_empty <;> simp
  obtain ⟨c1, c2, c3, c4, c5, c6, c7, c8, c9, c10, c11, c12⟩ :=
    send_pkt_max_data_frq (conn_send_pkt_max_stream_id a) _ b5 b1 hbefore
  have hmd : send_pkt_max_data_frames (conn_send_pkt_max_stream_id a).conn
      ((if a.pkt_empty then [] else [ngtcp2_frame.ack a.ackfr]) ++
        send_pkt_max_stream_id_frames a.conn) =
      send_pkt_max_data_frames a.conn
        ((if a.pkt_empty then [] else [ngtcp2_frame.ack a.ackfr]) ++
          send_pkt_max_stream_id_frames a.conn) := by
    apply send_pkt_max_data_frames_congr _ _ _ b13 b14 b15
    rw [b4]
    cases a.pkt_empty <;> cases send_pkt_max_stream_id_frames a.conn <;> simp
  rw [hmd] at c3 c4
  rw [b4] at c4
  rw [b3] at c3
  obtain ⟨strms, d1, _, _⟩ := send_pkt_fc_strms_drain
    (conn_send_pkt_max_data (conn_send_pkt_max_stream_id a)).conn.fc_strms
    (conn_send_pkt_max_data (conn_send_pkt_max_stream_id a)).conn c5
    (by rw [c7, b7, c6, b6]; exact hin)
  have hfc : fc_strms_frames (conn_send_pkt_max_data (conn_send_pkt_max_stream_id a)).conn
      (conn_send_pkt_max_data (conn_send_pkt_max_stream_id a)).conn.fc_strms =
      fc_strms_frames a.conn a.conn.fc_strms := by
    rw [c7, b7]
    exact fc_strms_frames_congr _ _ _ (fun id _ => by rw [c6, b6])
  rw [hfc, c4] at d1
  have hack : (if a.ackfr.type = NGTCP2_FRAME_ACK then [ngtcp2_frame.ack a.ackfr] else []) =
      (if a.pkt_empty then [] else [ngtcp2_frame.ack a.ackfr]) := by
    rw [hpe]
    by_cases h : a.ackfr.type = NGTCP2_FRAME_ACK <;> simp [h]
  unfold conn_send_pkt_queue
  simp only []
  rw [if_neg (by rw [b1]; simp), if_neg (by rw [c1]; simp), d1]
  simp only [ne_eq, not_true_eq_false, if_false]
  have hne2 : ((conn_send_pkt_max_data (conn_send_pkt_max_stream_id a)).pkt_empty &&
        decide ((conn_send_pkt_max_data (conn_send_pkt_max_stream_id a)).conn.fc_strms = []))
        = false ∨
      (fc_strms_frames a.conn a.conn.fc_strms).reverse ++
        (send_pkt_max_data_frames a.conn
            ((if a.pkt_empty then [] else [ngtcp2_frame.ack a.ackfr]) ++
              send_pkt_max_stream_id_frames a.conn) ++
          (send_pkt_max_stream_id_frames a.conn ++ a.conn.frq)) ≠ [] := by
    rw [c3]
    rw [hfr] at hne
    cases hp : a.pkt_empty
    · left
      rfl
    · right
      rw [hp] at hne
      exact hne
  rw [if_neg (by
    rcases hne2 with h | h
    · rw [h]
      simp
    · simp only [Bool.and_eq_true, decide_eq_true_eq, not_and]
      exact fun _ => h)]
  rw [c2, b2]
  obtain ⟨r, hr1, hr2⟩ := send_pkt_encode_pkt_all_fit W
    { (conn_send_pkt_max_data (conn_send_pkt_max_stream_id a)).conn with
      mem := []
      strms := strms
      frq := (fc_strms_frames a.conn a.conn.fc_strms).reverse ++
        (send_pkt_max_data_frames a.conn
            ((if a.pkt_empty then [] else [ngtcp2_frame.ack a.ackfr]) ++
              send_pkt_max_stream_id_frames a.conn) ++
          (send_pkt_max_stream_id_frames a.conn ++ a.conn.frq))
      fc_strms := [] }
    a.ackfr
    ((conn_send_pkt_max_data (conn_send_pkt_max_stream_id a)).pkt_empty &&
      decide ((conn_send_pkt_max_data (conn_send_pkt_max_stream_id a)).conn.fc_strms = []))
    destlen ts rfl
    (fun hd => by
      rw [call_send_pkt_congr _ a.conn hd (by dsimp only; rw [c8, b8])]
      exact hp hd)
    (fun hd fr => by
      rw [call_send_frame_congr _ a.conn hd fr (by dsimp only; rw [c9, b9])]
      exact hf hd fr)
    (fun hd frs => by
      dsimp only
      rw [c10, b10]
      exact henc hd frs)
    hne2
    (by dsimp only; rw [c11, b11, c12, b12]; exact hhd)
    (by dsimp only; rw [c11, b11, c12, b12, hack, ← hfr]; exact hfit)
  refine ⟨r, hr1, ?_⟩
  rw [hr2]
  dsimp only
  rw [c11, b11, hack, ← hfr]

theorem send_pkt_ack_conn (conn : ngtcp2_conn) (ts : Nat) :
    (conn_send_pkt_ack conn ts).rv = 0 ∧
    (conn_send_pkt_ack conn ts).pkt_empty =
      (!decide ((conn_send_pkt_ack conn ts).ackfr.type = NGTCP2_FRAME_ACK)) ∧
    ∃ acktr nae, (conn_send_pkt_ack conn ts).conn =
      { conn with acktr := acktr, next_ack_expiry := nae } := by
  obtain ⟨h1, acktr, nae, h2⟩ := create_ack_frame_conn conn ack_frame_unset ts
  unfold conn_send_pkt_ack
  split_ifs
  · exact ⟨h1, rfl, acktr, nae, h2⟩
  · exact ⟨rfl, (by decide : true = !decide (ack_frame_unset.type = NGTCP2_FRAME_ACK)),
      conn.acktr, conn.next_ack_expiry, rfl⟩

/-! ## STREAM frames that are split in `conn_send_pkt` -/

/-- The block for STREAM frames of the loop of `conn_send_pkt`, when the room
after the overhead is below the length of the frame and at least 1024 bytes
and the allocation succeeds: the frame is split at that room. -/
theorem send_pkt_split_at (W : ngtcp2_wire) (st : pkt_loop_state) (s : ngtcp2_stream)
    (hmem : (ngtcp2_mem_malloc st.mem).1 = true)
    (hlt : ngtcp2_pe_left st.pe - W.NGTCP2_STREAM_OVERHEAD < s.datalen)
    (hge : 1024 ≤ ngtcp2_pe_left st.pe - W.NGTCP2_STREAM_OVERHEAD) :
    conn_send_pkt_split W st (ngtcp2_frame.stream s) =
      ({ st with rv := 0, mem := (ngtcp2_mem_malloc st.mem).2 }, loop_ctl.next,
       ngtcp2_frame.stream
         { s with data := s.data.take (ngtcp2_pe_left st.pe - W.NGTCP2_STREAM_OVERHEAD) },
       some (ngtcp2_frame.stream
         { s with
           offset := (s.offset + (ngtcp2_pe_left st.pe - W.NGTCP2_STREAM_OVERHEAD)) % 2 ^ 64
           data := s.data.drop (ngtcp2_pe_left st.pe - W.NGTCP2_STREAM_OVERHEAD) })) := by
  unfold conn_send_pkt_split ngtcp2_frame_chain_new
  simp only [hmem]
  rw [if_neg (by omega), if_pos hlt, if_neg (by omega)]
  simp

/-- The block for STREAM frames of the loop of `conn_send_pkt`, when the room
after the overhead is below the length of the frame and below 1024 bytes: the
loop is left with the frame as it is. -/
theorem send_pkt_split_short (W : ngtcp2_wire) (st : pkt_loop_state) (s : ngtcp2_stream)
    (hlt : ngtcp2_pe_left st.pe - W.NGTCP2_STREAM_OVERHEAD < s.datalen)
    (hsm : ngtcp2_pe_left st.pe - W.NGTCP2_STREAM_OVERHEAD < 1024) :
    conn_send_pkt_split W st (ngtcp2_frame.stream s) =
      (st, loop_ctl.brk, ngtcp2_frame.stream s, none) := by
  unfold conn_send_pkt_split
  simp only []
  split_ifs
  all_goals rfl

/-! ## The send window of the connection -/

/-- The bytes that `ngtcp2_conn_write_stream` sends stay within the credit of
the connection. -/
theorem write_stream_ndatalen_credit (conn : ngtcp2_conn) (strm : ngtcp2_strm)
    (datalen left : Nat)
    (hinv : conn.tx_offset_high * 1024 + conn.tx_offset_low ≤ conn.max_tx_offset_high * 1024)
    (hmax : conn.max_tx_offset_high ≤ UINT64_MAX) (hlen : datalen + 1023 ≤ UINT64_MAX)
    (hlow : conn.tx_offset_low ≤ 1023) :
    conn.tx_offset_high * 1024 + conn.tx_offset_low +
      conn_write_stream_ndatalen conn strm datalen left ≤ conn.max_tx_offset_high * 1024 := by
  unfold conn_write_stream_ndatalen
  unfold UINT64_MAX at hmax hlen
  simp only []
  split_ifs <;> omega

theorem close_if_tx_fields (c : ngtcp2_conn) (s : ngtcp2_strm) :
    (ngtcp2_conn_close_stream_if_shut_rdwr c s).2.tx_offset_high = c.tx_offset_high ∧
    (ngtcp2_conn_close_stream_if_shut_rdwr c s).2.tx_offset_low = c.tx_offset_low ∧
    (ngtcp2_conn_close_stream_if_shut_rdwr c s).2.max_tx_offset_high = c.max_tx_offset_high := by
  unfold ngtcp2_conn_close_stream_if_shut_rdwr ngtcp2_conn_close_stream
  split_ifs
  all_goals exact ⟨rfl, rfl, rfl⟩

theorem write_stream_commit_window (conn : ngtcp2_conn) (hd : ngtcp2_pkt_hd)
    (frames : List ngtcp2_frame) (strm : ngtcp2_strm) (fin : Bool) (ndatalen : Nat)
    (nwrite : Int) :
    (conn_write_stream_commit conn hd frames strm fin ndatalen nwrite).2.1.tx_offset_high =
      (ngtcp2_increment_offset conn.tx_offset_high conn.tx_offset_low ndatalen).1 ∧
    (conn_write_stream_commit conn hd frames strm fin ndatalen nwrite).2.1.tx_offset_low =
      (ngtcp2_increment_offset conn.tx_offset_high conn.tx_offset_low ndatalen).2 ∧
    (conn_write_stream_commit conn hd frames strm fin ndatalen nwrite).2.1.max_tx_offset_high =
      conn.max_tx_offset_high ∧
    (conn_write_stream_commit conn hd frames strm fin ndatalen nwrite).2.2.1 = some ndatalen := by
  unfold conn_write_stream_commit
  simp only []
  obtain ⟨c1, c2, c3⟩ := close_if_tx_fields
    (conn_store_strm
      (conn_store_strm
        { conn with
          tx_offset_high := (ngtcp2_increment_offset conn.tx_offset_high conn.tx_offset_low
            ndatalen).1
          tx_offset_low := (ngtcp2_increment_offset conn.tx_offset_high conn.tx_offset_low
            ndatalen).2
          next_tx_pkt_num := (conn.next_tx_pkt_num + 1) % 2 ^ 64 }
        { strm with tx_offset := (strm.tx_offset + ndatalen) % 2 ^ 64 })
      (ngtcp2_strm_shutdown { strm with tx_offset := (strm.tx_offset + ndatalen) % 2 ^ 64 }
        NGTCP2_STRM_FLAG_SHUT_WR))
    (ngtcp2_strm_shutdown { strm with tx_offset := (strm.tx_offset + ndatalen) % 2 ^ 64 }
      NGTCP2_STRM_FLAG_SHUT_WR)
  split_ifs
  · exact ⟨c1, c2, c3, rfl⟩
  · exact ⟨c1, c2, c3, rfl⟩
  · exact ⟨rfl, rfl, rfl, rfl⟩

/-- The offsets of the connection after `conn_write_stream_pkt`: they are as
before when no length is stored through `pdatalen`, and moved on by
`ndatalen` otherwise. -/
theorem write_stream_pkt_window (W : ngtcp2_wire) (conn : ngtcp2_conn) (hd : ngtcp2_pkt_hd)
    (pe : ngtcp2_pe) (strm : ngtcp2_strm) (stream_id : Nat) (fin : Bool) (data : List Nat)
    (ndatalen ts : Nat) (r : Int × ngtcp2_conn × Option Nat × Option ngtcp2_pkt)
    (hr : r = conn_write_stream_pkt W conn hd pe strm stream_id fin data ndatalen ts) :
    r.2.1.max_tx_offset_high = conn.max_tx_offset_high ∧
    ((r.2.2.1 = none ∧ r.2.1.tx_offset_high = conn.tx_offset_high ∧
        r.2.1.tx_offset_low = conn.tx_offset_low) ∨
      (r.2.2.1 = some ndatalen ∧
        r.2.1.tx_offset_high =
          (ngtcp2_increment_offset conn.tx_offset_high conn.tx_offset_low ndatalen).1 ∧
        r.2.1.tx_offset_low =
          (ngtcp2_increment_offset conn.tx_offset_high conn.tx_offset_low ndatalen).2)) := by
  unfold conn_write_stream_pkt at hr
  simp only [] at hr
  split_ifs at hr
  all_goals first
    | (rw [hr]; exact ⟨rfl, Or.inl ⟨rfl, rfl, rfl⟩⟩)
    | (rw [hr]
       exact ⟨(write_stream_commit_window _ _ _ _ _ _ _).2.2.1,
         Or.inr ⟨(write_stream_commit_window _ _ _ _ _ _ _).2.2.2,
           (write_stream_commit_window _ _ _ _ _ _ _).1,
           (write_stream_commit_window _ _ _ _ _ _ _).2.1⟩⟩)

/-! ## What the handling of a received frame leaves as it is -/

/-- In a handshake state `ngtcp2_conn_recv` runs the `case` of that state for a
datagram that is not empty and passes the check of its hash. -/
theorem recv_in_handshake_state (R : ngtcp2_codec) (conn : ngtcp2_conn)
    (next : ngtcp2_conn_state) (pkt : List Nat) (ts : Nat)
    (hst : (conn.state = ngtcp2_conn_state.NGTCP2_CS_CLIENT_WAIT_HANDSHAKE ∧
        next = ngtcp2_conn_state.NGTCP2_CS_CLIENT_HANDSHAKE_ALMOST_FINISHED) ∨
      ((conn.state = ngtcp2_conn_state.NGTCP2_CS_SERVER_INITIAL ∨
        conn.state = ngtcp2_conn_state.NGTCP2_CS_SERVER_WAIT_HANDSHAKE) ∧
        next = ngtcp2_conn_state.NGTCP2_CS_POST_HANDSHAKE))
    (hne : pkt ≠ []) (hver : (conn_recv_verify R pkt pkt.length).1 = 0) :
    ngtcp2_conn_recv R conn pkt ts =
      conn_recv_handshake R conn next pkt (conn_recv_verify R pkt pkt.length).2 ts := by
  have hlen : ¬ pkt.length = 0 := fun h => hne (List.length_eq_zero.mp h)
  unfold ngtcp2_conn_recv
  rw [if_neg hlen, if_neg (not_not.mpr hver)]
  rcases hst with ⟨hs, hn⟩ | ⟨hs | hs, hn⟩
  all_goals rw [hs, hn]

/-! ## The datagram received, by the state of the connection -/

theorem recv_verify_short (R : ngtcp2_codec) (pkt : List Nat) (pktlen : Nat)
    (hshort : pkt.headD 0 &&& NGTCP2_HEADER_FORM_BIT = 0) :
    conn_recv_verify R pkt pktlen = (0, pktlen) := by
  unfold conn_recv_verify
  rw [if_neg (fun h => h.1 hshort)]

theorem recv_handshake_short (R : ngtcp2_codec) (conn : ngtcp2_conn)
    (next : ngtcp2_conn_state) (pkt : List Nat) (ts : Nat)
    (hshort : pkt.headD 0 &&& NGTCP2_HEADER_FORM_BIT = 0)
    (hflag : conn.handshake_completed = false) :
    conn_recv_handshake R conn next pkt pkt.length ts =
      some (conn_buffer_protected_pkt R.NGTCP2_MAX_NUM_BUFFED_RX_PPKTS conn pkt ts) := by
  have hf : (conn_buffer_protected_pkt R.NGTCP2_MAX_NUM_BUFFED_RX_PPKTS conn pkt
      ts).2.handshake_completed = false := by
    rw [← hflag]
    unfold conn_buffer_protected_pkt
    simp only []
    split_ifs
    all_goals rfl
  unfold conn_recv_handshake conn_recv_handshake_pkt
  rw [if_pos hshort, List.take_length]
  simp only []
  split_ifs
  · rfl
  · unfold conn_recv_handshake_completed
    rw [hf]
    simp only [Bool.false_eq_true, if_false]

theorem buffer_protected_pkt_at_cap (n : Nat) (c : ngtcp2_conn) (pkt : List Nat) (ts : Nat)
    (h : n ≤ c.buffed_rx_ppkts.length) : conn_buffer_protected_pkt n c pkt ts = (0, c) := by
  unfold conn_buffer_protected_pkt
  rw [buffer_protected_pkt_walk_eq n c.buffed_rx_ppkts 0 (Nat.zero_le _), if_pos (by omega)]

/-! ## The frame queue holds control frames -/

/-- The loop of `conn_create_ack_frame` over records in descending order:
while the gaps are at most 255 and fewer than 255 blocks are in use the loop
goes on, and at the first record that lies more than 255 packet numbers below
its predecessor the loop is left with that record and all records after it
still in the tracker. -/
theorem ack_loop_stops_at_gap (pre : List ngtcp2_acktr_entry) :
    ∀ (st : ack_frame_state) (b : ngtcp2_acktr_entry) (below : List ngtcp2_acktr_entry),
      st.last_pkt_num < 2 ^ 64 →
      List.Chain (fun a b => b < a ∧ a - b ≤ 256) st.last_pkt_num
        (pre.map (fun e => e.pkt_num)) →
      (st.initial = true → st.ack.blks = []) →
      (if st.initial then 0 else st.ack.blks.length + 1) +
        ack_gaps (st.last_pkt_num :: pre.map (fun e => e.pkt_num)) ≤ 254 →
      b.pkt_num + 256 < (pre.map (fun e => e.pkt_num)).getLastD st.last_pkt_num →
      (conn_create_ack_frame_loop (pre ++ b :: below) st).2 = b :: below := by
  induction pre with
  | nil =>
    intro st b below hlast _ _ _ hgap
    simp only [List.map_nil, List.getLastD_nil] at hgap
    have hc : ¬ (b.pkt_num + 1) % 2 ^ 64 = st.last_pkt_num := by omega
    rw [List.nil_append, ack_loop_step b below st hc]
    have hg : (ack_loop_gap st b).gap > 255 := by
      rw [ack_loop_gap_gap]
      omega
    rw [if_pos hg]
  | cons e rest ih =>
    intro st b below hlast hch hinit hcnt hgap
    simp only [List.map_cons, List.getLastD_cons] at hgap
    simp only [List.map_cons, List.chain_cons] at hch
    obtain ⟨⟨hlt, hle⟩, hch2⟩ := hch
    simp only [List.map_cons, ack_gaps] at hcnt
    rw [List.cons_append]
    by_cases hc : (e.pkt_num + 1) % 2 ^ 64 = st.last_pkt_num
    · rw [ack_loop_consecutive e (rest ++ b :: below) st hc]
      have he : st.last_pkt_num = e.pkt_num + 1 := by omega
      rw [if_pos he] at hcnt
      exact ih { st with last_pkt_num := e.pkt_num } b below (by simp only; omega) hch2 hinit
        (by simpa using hcnt) hgap
    · rw [ack_loop_step e (rest ++ b :: below) st hc]
      have he : ¬ st.last_pkt_num = e.pkt_num + 1 := by omega
      rw [if_neg he] at hcnt
      have hg : ¬ (ack_loop_gap st e).gap > 255 := by
        rw [ack_loop_gap_gap]
        omega
      rw [if_neg hg]
      have hblks : (ack_loop_gap st e).ack.blks.length + 1 =
          (if st.initial then 0 else st.ack.blks.length + 1) + 1 := by
        rw [ack_loop_gap_ack]
        cases hi : st.initial
        · simp [ack_add_blk]
        · simp [ack_set_first_blk, hinit hi]
      have hn : ¬ (ack_loop_start_run (ack_loop_gap st e) e).ack.num_blks = 255 := by
        rw [ack_loop_start_run_ack]
        unfold ngtcp2_ack.num_blks
        omega
      rw [if_neg hn]
      exact ih (ack_loop_start_run (ack_loop_gap st e) e) b below
        (by rw [ack_loop_start_run_last]; omega)
        (by rw [ack_loop_start_run_last]; exact hch2)
        (fun h => absurd h (by simp))
        (by
          rw [ack_loop_start_run_initial, ack_loop_gap_initial, ack_loop_start_run_ack,
            ack_loop_start_run_last]
          simp only [Bool.false_eq_true, if_false]
          omega)
        (by rw [ack_loop_start_run_last]; exact hgap)

/-- A gap of more than 255 packet numbers ends the assembly in
`conn_create_ack_frame`: in a tracker in descending order whose runs are at
most 255 packet numbers apart, with at most 254 gaps, down to a record `b`
that lies more than 255 packet numbers below its predecessor, the record `b`
and all records after it stay in the tracker. -/
theorem create_ack_frame_stops_at_gap (conn : ngtcp2_conn) (ack : ngtcp2_ack) (ts : Nat)
    (e : ngtcp2_acktr_entry) (pre : List ngtcp2_acktr_entry) (b : ngtcp2_acktr_entry)
    (below : List ngtcp2_acktr_entry)
    (hent : conn.acktr.ent = e :: (pre ++ b :: below))
    (hmax : e.pkt_num < 2 ^ 64)
    (hch : List.Chain (fun a b => b < a ∧ a - b ≤ 256) e.pkt_num
      (pre.map (fun e => e.pkt_num)))
    (hcnt : ack_gaps (e.pkt_num :: pre.map (fun e => e.pkt_num)) ≤ 254)
    (hgap : b.pkt_num + 256 < (pre.map (fun e => e.pkt_num)).getLastD e.pkt_num) :
    (conn_create_ack_frame conn ack ts).2.1.acktr.ent = b :: below := by
  have h := ack_loop_stops_at_gap pre (ack_frame_init e ack ts) b below hmax hch
    (fun _ => rfl) (by simpa [ack_frame_init] using hcnt) hgap
  rw [create_ack_frame_cons conn ack ts e (pre ++ b :: below) hent, h]
  simp

/-! ## Claims on the split-offset arithmetic -/

/-- C1 (as stated, refuted): from the saturated high part `UINT64_MAX`, adding
1024 bytes gives the pair `(UINT64_MAX, 0x3ff)`, whose decoded value is
`UINT64_MAX * 1024 + 1023` and not `min (UINT64_MAX * 1024) (...)`. -/
theorem C1_counterexample :
    decode_offset (ngtcp2_increment_offset UINT64_MAX 0 1024) ≠
      min (UINT64_MAX * 1024) (UINT64_MAX * 1024 + 0 + 1024) := by
  decide

/-- C1 (amended): for every 64-bit `h`, every `l ≤ 1023` and every 64-bit
`n`, the offset decoded after `ngtcp2_increment_offset(h, l, n)` equals
`min (UINT64_MAX * 1024 + 1023) (h * 1024 + l + n)`: the cap is the largest
split offset, with the low part at `0x3ff`. -/
theorem C1_increment_offset_decode (h l n : Nat) (hh : h ≤ UINT64_MAX) (hl : l ≤ 1023)
    (hn : n ≤ UINT64_MAX) :
    decode_offset (ngtcp2_increment_offset h l n) =
      min (UINT64_MAX * 1024 + 1023) (h * 1024 + l + n) :=
  increment_offset_decode h l n hh hl hn

/-- C1 (amended), at `h = 7`, `l = 1000`, `n = 2100`: the low parts carry
into the high part. -/
theorem C1_increment_offset_decode_witness :
    decode_offset (ngtcp2_increment_offset 7 1000 2100) =
      min (UINT64_MAX * 1024 + 1023) (7 * 1024 + 1000 + 2100) :=
  C1_increment_offset_decode 7 1000 2100 (by decide) (by decide) (by decide)

/-- C2: `ngtcp2_increment_offset` keeps the split representation well-formed
and never wraps: for 64-bit `h` and `n` and `l ≤ 1023`, the new low part is
at most 1023, the new high part is at least `h` and at most `UINT64_MAX`, and
it is the kibibyte count of the exact sum capped at `UINT64_MAX`. -/
theorem C2_increment_offset_wellformed (h l n : Nat) (hh : h ≤ UINT64_MAX) (hl : l ≤ 1023)
    (hn : n ≤ UINT64_MAX) :
    (ngtcp2_increment_offset h l n).2 ≤ 1023 ∧
      h ≤ (ngtcp2_increment_offset h l n).1 ∧
      (ngtcp2_increment_offset h l n).1 ≤ UINT64_MAX ∧
      (ngtcp2_increment_offset h l n).1 = min UINT64_MAX ((h * 1024 + l + n) / 1024) := by
  obtain ⟨h1, h2⟩ := increment_offset_wellformed h l n hh hl hn
  refine ⟨h1, ?_, ?_, h2⟩ <;> rw [h2] <;> omega

/-- C2, at the largest inputs `h = UINT64_MAX`, `l = 1023`, `n = UINT64_MAX`. -/
theorem C2_increment_offset_wellformed_witness :
    (ngtcp2_increment_offset UINT64_MAX 1023 UINT64_MAX).2 ≤ 1023 ∧
      UINT64_MAX ≤ (ngtcp2_increment_offset UINT64_MAX 1023 UINT64_MAX).1 ∧
      (ngtcp2_increment_offset UINT64_MAX 1023 UINT64_MAX).1 ≤ UINT64_MAX ∧
      (ngtcp2_increment_offset UINT64_MAX 1023 UINT64_MAX).1 =
        min UINT64_MAX ((UINT64_MAX * 1024 + 1023 + UINT64_MAX) / 1024) :=
  C2_increment_offset_wellformed UINT64_MAX 1023 UINT64_MAX (by decide) (by decide) (by decide)

/-- C3: for a connection with `rx_offset_high ≤ max_rx_offset_high` and a
`datalen` for which `rx_offset_low + datalen` does not overflow 64 bits,
`conn_max_data_violated` is nonzero if and only if
`rx_offset_high * 1024 + rx_offset_low + datalen > max_rx_offset_high * 1024`.
The bound `rx_offset_low ≤ 1023` of the claim is not needed. -/
theorem C3_max_data_violated_iff (conn : ngtcp2_conn) (datalen : Nat)
    (hmax : conn.max_rx_offset_high ≤ UINT64_MAX)
    (hhigh : conn.rx_offset_high ≤ conn.max_rx_offset_high)
    (hsum : conn.rx_offset_low + datalen ≤ UINT64_MAX) :
    conn_max_data_violated conn datalen = true ↔
      conn.rx_offset_high * 1024 + conn.rx_offset_low + datalen >
        conn.max_rx_offset_high * 1024 :=
  max_data_violated_iff conn datalen hmax hhigh hsum

/-- C3, on the example server with 1000 bytes received and 5000 bytes more
to come: the 8 KiB window is not exceeded. -/
theorem C3_max_data_violated_iff_witness :
    conn_max_data_violated { example_server with rx_offset_low := 1000 } 5000 = true ↔
      0 * 1024 + 1000 + 5000 > 8 * 1024 :=
  C3_max_data_violated_iff { example_server with rx_offset_low := 1000 } 5000
    (by decide) (by decide) (by decide)

/-! ## Claims on the ingestion of STREAM frames -/

/-- C4 (failing input): on `example_server_wide_strm3` the receive window
holds, `0 * 1024 + 1023 ≤ 1 * 1024`. A one-byte frame at offset
`UINT64_MAX - 1` of stream 3 makes `rx_offset_low + datalen` wrap around in
`conn_max_data_violated`, which returns 0; `conn_recv_stream` returns 0 and
charges `UINT64_MAX` bytes: the receive offset becomes `(2 ^ 54, 1022)`, far
beyond the window of 1 KiB. Where that sum cannot wrap around, the window is
kept: see `recv_stream_window_preserved`. -/
theorem C4_window_overrun :
    example_server_wide_strm3.rx_offset_high * 1024 + example_server_wide_strm3.rx_offset_low ≤
        example_server_wide_strm3.max_rx_offset_high * 1024 ∧
      conn_max_data_violated example_server_wide_strm3 UINT64_MAX = false ∧
      observe (conn_recv_streams example_server_wide_strm3
          [{ stream_id := 3, fin := false, offset := UINT64_MAX - 1, data := [97] }]) 3 =
        some ([0], some (NGTCP2_STRM_FLAG_NONE, UINT64_MAX), [], 2 ^ 54, 1022) ∧
      ¬ (2 ^ 54 * 1024 + 1022 ≤ example_server_wide_strm3.max_rx_offset_high * 1024) := by
  decide

/-- C5 (as stated, refuted): on `example_server_strm1`, whose stream 1 has
`max_rx_offset = 1024`, a one-byte frame at offset `UINT64_MAX` ends beyond
the window, but its end offset overflows and `conn_recv_stream` returns
`NGTCP2_ERR_PROTO`; and a frame of stream 0 that ends beyond the window
65535 of stream 0 is dropped with return value 0. -/
theorem C5_counterexample :
    ((example_strm 1 0 1024).max_rx_offset < UINT64_MAX + 1 ∧
      observe (conn_recv_streams example_server_strm1
          [{ stream_id := 1, fin := false, offset := UINT64_MAX, data := [97] }]) 1 =
        some ([NGTCP2_ERR_PROTO], some (NGTCP2_STRM_FLAG_NONE, 0), [], 0, 0)) ∧
    ((ngtcp2_strm_init 0 NGTCP2_STRM_FLAG_NONE 65535 65535).max_rx_offset < 65535 + 1 ∧
      observe (conn_recv_streams example_server_strm1
          [{ stream_id := 0, fin := false, offset := 65535, data := [97] }]) 0 =
        some ([0], some (NGTCP2_STRM_FLAG_NONE, 0), [], 0, 0)) := by
  refine ⟨⟨by decide, by decide⟩, ⟨by decide, by decide⟩⟩

/-- C5 (amended): for every existing stream with a non-zero id that is local
or within `local_settings.max_stream_id`, and every STREAM frame whose end
offset `offset + datalen` fits in 64 bits and exceeds `strm.max_rx_offset`,
`conn_recv_stream` returns `NGTCP2_ERR_FLOW_CONTROL` and leaves the whole
connection as it was: no callback is invoked, and `rx_offset_high`,
`rx_offset_low` and the stream's `last_rx_offset` are unchanged. -/
theorem C5_stream_window_exceeded (conn : ngtcp2_conn) (fr : ngtcp2_stream) (strm : ngtcp2_strm)
    (hne : fr.stream_id ≠ 0)
    (hidok : conn_local_stream conn fr.stream_id = true ∨
      fr.stream_id ≤ conn.local_settings.max_stream_id)
    (hov : fr.offset + fr.datalen ≤ UINT64_MAX)
    (hfind : ngtcp2_conn_find_stream conn fr.stream_id = some strm)
    (hbig : strm.max_rx_offset < fr.offset + fr.datalen) :
    conn_recv_stream conn fr = some (NGTCP2_ERR_FLOW_CONTROL, conn) :=
  recv_stream_window_exceeded conn fr strm hne hidok hov hfind hbig

/-- C5 (amended), on the witness of the specification: `max_rx_offset = 1024`,
`offset = 1020`, `datalen = 8`. -/
theorem C5_stream_window_exceeded_witness :
    conn_recv_stream example_server_strm1
        { stream_id := 1, fin := false, offset := 1020, data := [1, 2, 3, 4, 5, 6, 7, 8] } =
      some (NGTCP2_ERR_FLOW_CONTROL, example_server_strm1) :=
  C5_stream_window_exceeded example_server_strm1
    { stream_id := 1, fin := false, offset := 1020, data := [1, 2, 3, 4, 5, 6, 7, 8] }
    (example_strm 1 0 1024) (by decide) (by decide) (by decide) rfl (by decide)

/-- C8 (failing input): on the example server, the fin frame `(offset 0,
4 bytes)` of stream 1 is accepted, sets `SHUT_RD` and leaves
`last_rx_offset = 4`. The later frame `(offset 4, 4 bytes)` of the same
stream ends beyond `last_rx_offset`, yet `conn_recv_stream` returns 0, hands
its bytes to the application and raises `last_rx_offset` to 8. -/
theorem C8_data_after_fin_accepted :
    observe (conn_recv_streams example_server
        [{ stream_id := 1, fin := true, offset := 0, data := [1, 2, 3, 4] }]) 1 =
      some ([0], some (NGTCP2_STRM_FLAG_SHUT_RD, 4),
        [{ stream_id := 1, fin := true, data := [1, 2, 3, 4] }], 0, 4) ∧
    observe (conn_recv_streams example_server
        [{ stream_id := 1, fin := true, offset := 0, data := [1, 2, 3, 4] },
         { stream_id := 1, fin := false, offset := 4, data := [5, 6, 7, 8] }]) 1 =
      some ([0, 0], some (NGTCP2_STRM_FLAG_SHUT_RD, 8),
        [{ stream_id := 1, fin := true, data := [1, 2, 3, 4] },
         { stream_id := 1, fin := false, data := [5, 6, 7, 8] }], 0, 8) := by
  refine ⟨by decide, by decide⟩

/-- C9: stream delivery. Let `strm` be the stream of the frame, found in the
map (under its id) or created for the frame, holding no byte at or beyond
`UINT64_MAX`; let the frame reach and pass the flow-control checks, and let
the `recv_stream_data` callback `cb` be set. `rx_offset` is
`ngtcp2_strm_rx_offset` of the stream before the frame is processed.

* A non-fin frame with `offset ≤ rx_offset < offset + datalen`: the call
  returns, and it has added to the recorded invocations first the bytes
  `data[rx_offset - offset ..]`, which are `offset + datalen - rx_offset`
  bytes, and then, if that invocation succeeded and the reassembly buffer
  holds bytes at the end of the frame, the contiguous bytes held there.
* A frame with `offset > rx_offset` that is not a fin frame ending before
  `last_rx_offset`: the call returns and has invoked no callback, and unless
  the allocation fails it returns 0 with the frame stored in the reassembly
  buffer of the stream. -/
theorem C9_stream_delivery (conn : ngtcp2_conn) (fr : ngtcp2_stream) (strm : ngtcp2_strm)
    (cb : List recv_stream_data_call → recv_stream_data_call → Int)
    (hs : stream_of_frame conn fr strm)
    (hpass : passes_flow_control conn strm fr)
    (hcb : conn.recv_stream_data = some cb)
    (hlim : strm.rob.limit ≤ UINT64_MAX) :
    (fr.fin = false → fr.offset ≤ ngtcp2_strm_rx_offset strm →
      ngtcp2_strm_rx_offset strm < fr.offset + fr.datalen →
      ∃ r fin2, conn_recv_stream conn fr = some r ∧
        r.2.recv_stream_data_calls = conn.recv_stream_data_calls ++
          ⟨fr.stream_id, false, fr.data.drop (ngtcp2_strm_rx_offset strm - fr.offset)⟩ ::
          (if cb conn.recv_stream_data_calls
                ⟨fr.stream_id, false, fr.data.drop (ngtcp2_strm_rx_offset strm - fr.offset)⟩ ≠ 0 ∨
              ngtcp2_rob_data_at strm.rob (fr.offset + fr.datalen) = [] then []
            else [⟨fr.stream_id, fin2, ngtcp2_rob_data_at strm.rob (fr.offset + fr.datalen)⟩]) ∧
        (fr.data.drop (ngtcp2_strm_rx_offset strm - fr.offset)).length =
          fr.offset + fr.datalen - ngtcp2_strm_rx_offset strm) ∧
    ((fr.fin = true → strm.last_rx_offset ≤ fr.offset + fr.datalen) →
      ngtcp2_strm_rx_offset strm < fr.offset →
      ∃ r, conn_recv_stream conn fr = some r ∧
        r.2.recv_stream_data_calls = conn.recv_stream_data_calls ∧
        ((ngtcp2_mem_malloc conn.mem).1 = true →
          r.1 = 0 ∧ ∃ s1, ngtcp2_conn_find_stream r.2 fr.stream_id = some s1 ∧
            s1.rob = ngtcp2_rob_push strm.rob fr.offset fr.data)) :=
  ⟨fun hfin h1 h2 => recv_stream_in_order_any conn fr strm cb hs hpass hcb hlim hfin h1 h2,
    fun hf h => recv_stream_reorder_any conn fr strm hs hpass hf h⟩

/-- C9, on the witness of the specification: on the example server the frame
`(offset 4, 4 bytes)` creates stream 3 and is stored without any callback,
and on the connection that holds these bytes the frame `(offset 0, 4 bytes)`
is delivered, followed by the four bytes that were held. The last part runs
both frames one after the other. -/
theorem C9_stream_delivery_witness :
    (∃ r, conn_recv_stream example_server
        { stream_id := 3, fin := false, offset := 4, data := [101, 102, 103, 104] } = some r ∧
      r.2.recv_stream_data_calls = [] ∧
      r.1 = 0 ∧ ∃ s1, ngtcp2_conn_find_stream r.2 3 = some s1 ∧
        s1.rob = ngtcp2_rob_push ngtcp2_rob_init 4 [101, 102, 103, 104]) ∧
    (∃ r fin2, conn_recv_stream example_server_strm3_reordered
        { stream_id := 3, fin := false, offset := 0, data := [97, 98, 99, 100] } = some r ∧
      r.2.recv_stream_data_calls =
        [{ stream_id := 3, fin := false, data := [97, 98, 99, 100] },
         { stream_id := 3, fin := fin2, data := [101, 102, 103, 104] }]) ∧
    observe (conn_recv_streams example_server
        [{ stream_id := 3, fin := false, offset := 4, data := [101, 102, 103, 104] },
         { stream_id := 3, fin := false, offset := 0, data := [97, 98, 99, 100] }]) 3 =
      some ([0, 0], some (NGTCP2_STRM_FLAG_NONE, 8),
        [{ stream_id := 3, fin := false, data := [97, 98, 99, 100] },
         { stream_id := 3, fin := false, data := [101, 102, 103, 104] }], 0, 8) := by
  refine ⟨?_, ?_, by decide⟩
  · obtain ⟨r, hr, hc, hst⟩ := (C9_stream_delivery example_server
      { stream_id := 3, fin := false, offset := 4, data := [101, 102, 103, 104] }
      (ngtcp2_strm_init 3 NGTCP2_STRM_FLAG_NONE 1024 65536) (fun _ _ => 0)
      (Or.inr ⟨rfl, rfl, rfl, by decide⟩)
      (by unfold passes_flow_control; decide) rfl (by decide)).2
      (by decide) (by decide)
    exact ⟨r, hr, hc, hst rfl⟩
  · obtain ⟨r, fin2, hr, hc, -⟩ := (C9_stream_delivery example_server_strm3_reordered
      { stream_id := 3, fin := false, offset := 0, data := [97, 98, 99, 100] }
      example_strm3_reordered (fun _ _ => 0) (Or.inl ⟨rfl, rfl⟩)
      (by unfold passes_flow_control; decide) rfl (by decide)).1
      rfl (by decide) (by decide)
    refine ⟨r, fin2, hr, ?_⟩
    rw [hc]
    cases fin2 <;> decide

/-- C10 (failing input): on the example server, the fin frame `(offset 0,
4 bytes)` of stream 1 received twice. Both frames are accepted; the first is
delivered with fin set, and the duplicate, which ends at the receive offset,
invokes `recv_stream_data` once more with fin set and no data: two
invocations with fin set on stream 1. -/
theorem C10_duplicate_fin_delivered_twice :
    observe (conn_recv_streams example_server
        [{ stream_id := 1, fin := true, offset := 0, data := [1, 2, 3, 4] },
         { stream_id := 1, fin := true, offset := 0, data := [1, 2, 3, 4] }]) 1 =
      some ([0, 0], some (NGTCP2_STRM_FLAG_SHUT_RD, 4),
        [{ stream_id := 1, fin := true, data := [1, 2, 3, 4] },
         { stream_id := 1, fin := true, data := [] }], 0, 4) ∧
    fin_calls
        [{ stream_id := 1, fin := true, data := [1, 2, 3, 4] },
         { stream_id := 1, fin := true, data := [] }] 1 = 2 := by
  refine ⟨by decide, by decide⟩

/-! ## Claims on closed streams and on the acknowledgement frame -/

/-- Claim C11, the frame it fails on: stream 1 of the peer is within the
limit of the server, is not in the map and was opened before, and the frame
ends beyond the 64-bit offset space; `conn_recv_stream` returns
`NGTCP2_ERR_PROTO`, not 0. -/
theorem C11_counterexample :
    conn_local_stream example_server_closed1 1 = false ∧
    1 ≤ example_server_closed1.local_settings.max_stream_id ∧
    (ngtcp2_conn_find_stream example_server_closed1 1).isNone = true ∧
    id_from_stream_id 1 ∈ example_server_closed1.remote_idtr.opened ∧
    (conn_recv_stream example_server_closed1
      { stream_id := 1, fin := false, offset := UINT64_MAX, data := [7] }).map (fun r => r.1)
      = some NGTCP2_ERR_PROTO := by
  refine ⟨by decide, by decide, by decide, by decide, by decide⟩

/-- Claim C11, amended: a STREAM frame whose end offset does not overflow 64
bits, on a stream id of the peer that is within `local_settings.max_stream_id`,
is not in the stream map and whose translated id was opened in `remote_idtr`
before, makes `conn_recv_stream` return 0 and leaves the connection as it
was: no stream is created, no callback is invoked and the receive offsets
keep their values. -/
theorem C11_closed_stream_ignored (conn : ngtcp2_conn) (fr : ngtcp2_stream)
    (hpeer : conn_local_stream conn fr.stream_id = false)
    (hlim : fr.stream_id ≤ conn.local_settings.max_stream_id)
    (hnone : ngtcp2_conn_find_stream conn fr.stream_id = none)
    (hopen : id_from_stream_id fr.stream_id ∈ conn.remote_idtr.opened)
    (hov : fr.offset + fr.datalen ≤ UINT64_MAX) :
    conn_recv_stream conn fr = some (0, conn) := by
  unfold conn_recv_stream
  by_cases h0 : fr.stream_id = 0
  · rw [if_pos h0]
  · rw [if_neg h0]
    have h1 : ¬ ((!conn_local_stream conn fr.stream_id &&
        decide (conn.local_settings.max_stream_id < fr.stream_id)) = true) := by
      simp [hpeer]; omega
    have h2 : ¬ (UINT64_MAX - fr.datalen < fr.offset) := by omega
    rw [if_neg h1, if_neg h2]
    simp only [hnone, hpeer, ngtcp2_idtr_open, if_pos hopen, Bool.false_eq_true, if_false]
    rw [if_pos (by decide), if_pos trivial]

/-- Claim C11, witness: the frame of four bytes at offset 0 on the closed
stream 1 of `example_server_closed1`. -/
theorem C11_closed_stream_ignored_witness :
    conn_recv_stream example_server_closed1
      { stream_id := 1, fin := false, offset := 0, data := [1, 2, 3, 4] }
      = some (0, example_server_closed1) :=
  C11_closed_stream_ignored example_server_closed1
    { stream_id := 1, fin := false, offset := 0, data := [1, 2, 3, 4] }
    (by decide) (by decide) rfl (by decide) (by decide)

/-- Claim C12, the tracker it fails on: the packet numbers 1000 and 10 are
988 packet numbers apart, above the cap 255 of a gap; the frame covers the
packet number 1000 alone and the packet number 10 stays in the tracker. -/
theorem C12_counterexample :
    (example_server_acks [1000, 10]).acktr.pkt_nums = [1000, 10] ∧
    ack_covered (conn_create_ack_frame (example_server_acks [1000, 10]) example_ack 130).2.2
      = [1000] ∧
    (conn_create_ack_frame (example_server_acks [1000, 10]) example_ack 130).2.1.acktr.pkt_nums
      = [10] := by
  refine ⟨by decide, by decide, by decide⟩

/-- Claim C12, amended: for every non-empty tracker of 64-bit packet numbers
in descending order in which the runs of consecutive packet numbers are at
most 255 packet numbers apart, in which there are at most 255 gaps between
the runs, and in which the last run has two packet numbers at least unless
there is a single run, `conn_create_ack_frame` returns 0 and emits a frame of
type ACK with one `(gap, blklen)` pair for each gap, whose decoded covered set
is the list of the packet numbers of the tracker, and leaves the tracker
empty. -/
theorem C12_ack_frame_covers (conn : ngtcp2_conn) (ack : ngtcp2_ack) (ts : Nat)
    (hne : conn.acktr.pkt_nums ≠ [])
    (hdesc : List.Chain' (fun a b => b < a ∧ a - b - 1 ≤ 255) conn.acktr.pkt_nums)
    (hmax : ∀ n ∈ conn.acktr.pkt_nums, n ≤ UINT64_MAX)
    (hcount : ack_gaps conn.acktr.pkt_nums ≤ 255)
    (hlast : ack_gaps conn.acktr.pkt_nums = 0 ∨ ack_ends_in_pair conn.acktr.pkt_nums = true) :
    (conn_create_ack_frame conn ack ts).1 = 0 ∧
    (conn_create_ack_frame conn ack ts).2.2.type = NGTCP2_FRAME_ACK ∧
    ack_covered (conn_create_ack_frame conn ack ts).2.2 = conn.acktr.pkt_nums ∧
    (conn_create_ack_frame conn ack ts).2.2.num_blks = ack_gaps conn.acktr.pkt_nums ∧
    (conn_create_ack_frame conn ack ts).2.1.acktr.ent = [] := by
  unfold ngtcp2_acktr.pkt_nums at hne hdesc hmax hcount hlast ⊢
  cases hent : conn.acktr.ent with
  | nil => rw [hent] at hne; exact absurd rfl hne
  | cons e rest =>
    rw [hent] at hdesc hmax hcount hlast
    simp only [List.map_cons] at hdesc hmax hcount hlast ⊢
    have hb : e.pkt_num < 2 ^ 64 := by
      have := hmax e.pkt_num (List.mem_cons_self _ _)
      simp only [UINT64_MAX] at this
      omega
    have hch : List.Chain (fun a b => b < a ∧ a - b ≤ 256) e.pkt_num
        (rest.map (fun e => e.pkt_num)) :=
      List.Chain.imp (fun a b h => ⟨h.1, by omega⟩) hdesc
    have h := ack_loop_covers rest (ack_frame_init e ack ts) [] (le_refl _) hb hch
      (fun _ => ⟨rfl, rfl⟩) (fun h => absurd h (by simp [ack_frame_init]))
      (fun _ => hcount) (fun h => absurd h (by simp [ack_frame_init]))
      (by
        rcases hlast with h | h
        · exact Or.inl ⟨rfl, h⟩
        · exact Or.inr (Or.inl h))
    rw [create_ack_frame_cons conn ack ts e rest hent]
    refine ⟨rfl, ?_, ?_, ?_, ?_⟩
    · simp only [ack_loop_type]
      rfl
    · rw [h.2.1]
      have h1r : ack_run (ack_frame_init e ack ts).first_pkt_num
          ((ack_frame_init e ack ts).first_pkt_num - (ack_frame_init e ack ts).last_pkt_num + 1)
          = [e.pkt_num] := by
        simp only [ack_frame_init, Nat.sub_self, Nat.zero_add]
        rfl
      rw [h1r]
      rfl
    · rw [h.2.2]
      simp [ack_frame_init]
    · rw [if_pos h.1]
      exact h.1

/-- Claim C12, witness: the tracker 20, 19, 15, 14, 13, 9, 8 has three runs
and two gaps of 3; the frame has `largest_ack = 20`, `first_ack_blklen = 1`
and the pairs (3, 3) and (3, 2). -/
theorem C12_ack_frame_covers_witness :
    (conn_create_ack_frame (example_server_acks [20, 19, 15, 14, 13, 9, 8]) example_ack 130).1
      = 0 ∧
    (conn_create_ack_frame (example_server_acks [20, 19, 15, 14, 13, 9, 8]) example_ack 130).2.2.type
      = NGTCP2_FRAME_ACK ∧
    ack_covered
      (conn_create_ack_frame (example_server_acks [20, 19, 15, 14, 13, 9, 8]) example_ack 130).2.2
      = (example_server_acks [20, 19, 15, 14, 13, 9, 8]).acktr.pkt_nums ∧
    (conn_create_ack_frame (example_server_acks [20, 19, 15, 14, 13, 9, 8])
      example_ack 130).2.2.num_blks
      = ack_gaps (example_server_acks [20, 19, 15, 14, 13, 9, 8]).acktr.pkt_nums ∧
    (conn_create_ack_frame (example_server_acks [20, 19, 15, 14, 13, 9, 8])
      example_ack 130).2.1.acktr.ent = [] :=
  C12_ack_frame_covers (example_server_acks [20, 19, 15, 14, 13, 9, 8]) example_ack 130
    (by decide)
    (by simp [ngtcp2_acktr.pkt_nums, example_server_acks, example_acktr])
    (by decide) (by decide) (by decide)

/-- Claim C13: for a tracker that holds exactly the run of consecutive packet
numbers `n`, `n + 1`, ..., `n + k`, `conn_create_ack_frame` returns 0 and
produces a frame of type ACK with `largest_ack = n + k`,
`first_ack_blklen = k` and `num_blks = 0`; the `k + 1` records are removed and
`next_ack_expiry` is reset to 0. -/
theorem C13_single_run (conn : ngtcp2_conn) (ack : ngtcp2_ack) (ts n k : Nat)
    (hrun : conn.acktr.pkt_nums = ack_run (n + k) (k + 1))
    (hmax : n + k ≤ UINT64_MAX) :
    (conn_create_ack_frame conn ack ts).1 = 0 ∧
    (conn_create_ack_frame conn ack ts).2.2.type = NGTCP2_FRAME_ACK ∧
    (conn_create_ack_frame conn ack ts).2.2.largest_ack = n + k ∧
    (conn_create_ack_frame conn ack ts).2.2.first_ack_blklen = k ∧
    (conn_create_ack_frame conn ack ts).2.2.num_blks = 0 ∧
    conn.acktr.ent.length = k + 1 ∧
    (conn_create_ack_frame conn ack ts).2.1.acktr.ent = [] ∧
    (conn_create_ack_frame conn ack ts).2.1.next_ack_expiry = 0 := by
  have hlen : conn.acktr.ent.length = k + 1 := by
    have := congrArg List.length hrun
    rw [ack_run_length] at this
    simpa [ngtcp2_acktr.pkt_nums] using this
  unfold ngtcp2_acktr.pkt_nums at hrun
  cases hent : conn.acktr.ent with
  | nil => rw [hent] at hlen; exact absurd hlen (by simp)
  | cons e rest =>
    rw [hent, ack_run_succ, List.map_cons, List.cons.injEq] at hrun
    have hloop := ack_loop_run rest k (ack_frame_init e ack ts)
      (by rw [hrun.2]; simp [ack_frame_init, hrun.1])
      (by simp only [ack_frame_init]; omega)
      (by simp only [ack_frame_init, UINT64_MAX] at hmax ⊢; omega)
    rw [create_ack_frame_cons conn ack ts e rest hent, hloop]
    simp only [UINT64_MAX] at hmax
    refine ⟨rfl, ?_, ?_, ?_, ?_, by rw [← hent]; exact hlen, ?_, ?_⟩
    · simp [ack_frame_finish, ack_frame_init, ack_set_first_blk]
    · simp [ack_frame_finish, ack_frame_init, ack_set_first_blk, hrun.1]
    · simp only [ack_frame_finish, ack_frame_init, ack_set_first_blk, if_true, hrun.1]
      omega
    · simp [ack_frame_finish, ack_frame_init, ack_set_first_blk, ngtcp2_ack.num_blks]
    · simp
    · simp

/-- Claim C13, witness: the packets 10, 11 and 12 give `largest_ack = 12`
and `first_ack_blklen = 2`. -/
theorem C13_single_run_witness :
    (conn_create_ack_frame (example_server_acks [12, 11, 10]) example_ack 130).1 = 0 ∧
    (conn_create_ack_frame (example_server_acks [12, 11, 10]) example_ack 130).2.2.type
      = NGTCP2_FRAME_ACK ∧
    (conn_create_ack_frame (example_server_acks [12, 11, 10]) example_ack 130).2.2.largest_ack
      = 10 + 2 ∧
    (conn_create_ack_frame (example_server_acks [12, 11, 10]) example_ack 130).2.2.first_ack_blklen
      = 2 ∧
    (conn_create_ack_frame (example_server_acks [12, 11, 10]) example_ack 130).2.2.num_blks = 0 ∧
    (example_server_acks [12, 11, 10]).acktr.ent.length = 2 + 1 ∧
    (conn_create_ack_frame (example_server_acks [12, 11, 10]) example_ack 130).2.1.acktr.ent = [] ∧
    (conn_create_ack_frame (example_server_acks [12, 11, 10]) example_ack 130).2.1.next_ack_expiry
      = 0 :=
  C13_single_run (example_server_acks [12, 11, 10]) example_ack 130 10 2 (by decide) (by decide)

set_option maxRecDepth 100000 in
/-- Claim C14: the tracker 1000, 999, 10. The gap between 999 and 10 is 988,
above the cap 255, and the loop stops; the statements after the loop then
write a block for the run 1000, 999, which the first block covers already,
with the gap cut to 8 bits: `gap = 220` is not the distance between two runs
of the tracker, and the frame covers the packet numbers 778 and 777, which
were never received. With 255 blocks written when the loop stops on a gap
above 255 (the tracker `example_many_runs`), the same statements write
`blks[255]` and leave `num_blks = 256`. -/
theorem C14_block_after_gap_cap :
    (conn_create_ack_frame (example_server_acks [1000, 999, 10]) example_ack 130).2.2
      = { type := NGTCP2_FRAME_ACK, largest_ack := 1000, ack_delay := 30, first_ack_blklen := 1,
          num_ts := 0, blks := [{ gap := 220, blklen := 2 }] } ∧
    (conn_create_ack_frame (example_server_acks [1000, 999, 10]) example_ack 130).2.1.acktr.pkt_nums
      = [10] ∧
    ack_covered (conn_create_ack_frame (example_server_acks [1000, 999, 10]) example_ack 130).2.2
      = [1000, 999, 778, 777] ∧
    example_many_runs.length = 258 ∧
    (conn_create_ack_frame (example_server_acks example_many_runs) example_ack 130).2.2.num_blks
      = 256 ∧
    (conn_create_ack_frame (example_server_acks example_many_runs) example_ack 130).2.2.blks.getLast?
      = some { gap := 174, blklen := 2 } := by
  refine ⟨by decide, by decide, by decide, by decide, by decide, by decide⟩

/-- Claim C15, the call it fails on: the packet 12 was received at the time
100 and the frame is built at the time 65636; the difference is 65536 and the
frame carries `ack_delay = 0`. -/
theorem C15_counterexample :
    (example_server_acks [12]).acktr.ent = [{ pkt_num := 12, tstamp := 100 }] ∧
    (100 : Nat) ≤ 65636 ∧
    (conn_create_ack_frame (example_server_acks [12]) example_ack 65636).2.2.ack_delay = 0 ∧
    (conn_create_ack_frame (example_server_acks [12]) example_ack 65636).2.2.ack_delay
      ≠ 65636 - 100 := by
  refine ⟨by decide, by decide, by decide, by decide⟩

/-- Claim C15, amended: for every non-empty tracker in descending order and
every 64-bit timestamp `ts` not earlier than the receive timestamp of the
record `e` with the largest packet number, the frame built by
`conn_create_ack_frame` has `ack_delay` equal to `ts - e.tstamp` cut to 16
bits, which is `ts - e.tstamp` when that difference is below 65536. -/
theorem C15_ack_delay (conn : ngtcp2_conn) (ack : ngtcp2_ack) (ts : Nat)
    (e : ngtcp2_acktr_entry)
    (hsorted : conn.acktr.ent.Pairwise (fun a b => b.pkt_num < a.pkt_num))
    (he : e ∈ conn.acktr.ent)
    (hlargest : ∀ x ∈ conn.acktr.ent, x.pkt_num ≤ e.pkt_num)
    (hts : e.tstamp ≤ ts) (hts64 : ts ≤ UINT64_MAX) :
    (conn_create_ack_frame conn ack ts).2.2.ack_delay = (ts - e.tstamp) % 2 ^ 16 ∧
    (ts - e.tstamp < 2 ^ 16 →
      (conn_create_ack_frame conn ack ts).2.2.ack_delay = ts - e.tstamp) := by
  cases hent : conn.acktr.ent with
  | nil => rw [hent] at he; exact absurd he (List.not_mem_nil e)
  | cons x rest =>
    rw [hent] at hsorted he hlargest
    have hx : e = x := by
      rcases List.mem_cons.1 he with h | h
      · exact h
      · have h1 := (List.pairwise_cons.1 hsorted).1 e h
        have h2 := hlargest x (List.mem_cons_self _ _)
        omega
    subst hx
    have hd : (conn_create_ack_frame conn ack ts).2.2.ack_delay = (ts - e.tstamp) % 2 ^ 16 := by
      rw [create_ack_frame_cons conn ack ts e rest hent]
      simp only [ack_loop_ack_delay, ack_frame_init, if_true]
      simp only [UINT64_MAX] at hts64
      have : (ts + 2 ^ 64 - e.tstamp) % 2 ^ 64 = ts - e.tstamp := by omega
      rw [this]
    exact ⟨hd, fun hlt => by rw [hd, Nat.mod_eq_of_lt hlt]⟩

/-- Claim C15, witness: the packets 12 and 10, received at the time 100, and
a frame built at the time 130 with `ack_delay = 30`. -/
theorem C15_ack_delay_witness :
    (conn_create_ack_frame (example_server_acks [12, 10]) example_ack 130).2.2.ack_delay
      = (130 - 100) % 2 ^ 16 ∧
    (130 - 100 < 2 ^ 16 →
      (conn_create_ack_frame (example_server_acks [12, 10]) example_ack 130).2.2.ack_delay
        = 130 - 100) :=
  C15_ack_delay (example_server_acks [12, 10]) example_ack 130 { pkt_num := 12, tstamp := 100 }
    (by decide) (by decide) (by decide) (by decide) (by decide)

/-! ## Claims on the timers, the stream ids and the send credit -/

/-- Claim C16: the delayed-ack timer. A call of `ngtcp2_conn_sched_ack` that
returns 0 with the timer not armed (0) arms it to
`ts + NGTCP2_DELAYED_ACK_TIMEOUT`, taken in 64 bits, and leaves a record in
the tracker; a timer that is armed keeps its value, and so does the timer of
a call that fails. After `conn_create_ack_frame`, on a connection whose timer
was armed whenever the tracker was not empty, `next_ack_expiry` is 0 if and
only if the tracker is empty. -/
theorem C16_delayed_ack_timer (NGTCP2_DELAYED_ACK_TIMEOUT : Nat) (conn : ngtcp2_conn)
    (pkt_num ts : Nat) (ack : ngtcp2_ack) (ts2 : Nat)
    (harmed : conn.acktr.ent ≠ [] → conn.next_ack_expiry ≠ 0) :
    ((ngtcp2_conn_sched_ack NGTCP2_DELAYED_ACK_TIMEOUT conn pkt_num ts).1 = 0 →
      conn.next_ack_expiry = 0 →
      (ngtcp2_conn_sched_ack NGTCP2_DELAYED_ACK_TIMEOUT conn pkt_num ts).2.next_ack_expiry
        = (ts + NGTCP2_DELAYED_ACK_TIMEOUT) % 2 ^ 64) ∧
    ((ngtcp2_conn_sched_ack NGTCP2_DELAYED_ACK_TIMEOUT conn pkt_num ts).1 = 0 →
      (ngtcp2_conn_sched_ack NGTCP2_DELAYED_ACK_TIMEOUT conn pkt_num ts).2.acktr.ent ≠ []) ∧
    (conn.next_ack_expiry ≠ 0 →
      (ngtcp2_conn_sched_ack NGTCP2_DELAYED_ACK_TIMEOUT conn pkt_num ts).2.next_ack_expiry
        = conn.next_ack_expiry) ∧
    ((ngtcp2_conn_sched_ack NGTCP2_DELAYED_ACK_TIMEOUT conn pkt_num ts).1 ≠ 0 →
      (ngtcp2_conn_sched_ack NGTCP2_DELAYED_ACK_TIMEOUT conn pkt_num ts).2.next_ack_expiry
        = conn.next_ack_expiry) ∧
    ((conn_create_ack_frame conn ack ts2).2.1.next_ack_expiry = 0 ↔
      (conn_create_ack_frame conn ack ts2).2.1.acktr.ent = []) := by
  refine ⟨?_, ?_, ?_, ?_, ?_⟩
  · intro h0 hun
    unfold ngtcp2_conn_sched_ack at h0 ⊢
    simp only [ngtcp2_acktr_add, ne_eq, not_true_eq_false, if_false] at h0 ⊢
    split_ifs at h0 ⊢ with h1
    · exact absurd h0 (by simp [NGTCP2_ERR_NOMEM])
    · rfl
  · intro h0
    unfold ngtcp2_conn_sched_ack at h0 ⊢
    simp only [ngtcp2_acktr_add, ne_eq, not_true_eq_false, if_false] at h0 ⊢
    split_ifs at h0 ⊢ with h1 h2
    · exact absurd h0 (by simp [NGTCP2_ERR_NOMEM])
    · exact acktr_insert_ne_nil _ _
    · exact acktr_insert_ne_nil _ _
  · intro hne
    unfold ngtcp2_conn_sched_ack
    simp only [ngtcp2_acktr_add, ne_eq, not_true_eq_false, if_false]
    split_ifs with h1
    · rfl
    · rfl
  · intro hfail
    unfold ngtcp2_conn_sched_ack at hfail ⊢
    simp only [ngtcp2_acktr_add, ne_eq, not_true_eq_false, if_false] at hfail ⊢
    split_ifs at hfail ⊢ with h1 h2
    · rfl
    · exact absurd rfl hfail
    · rfl
  · cases hent : conn.acktr.ent with
    | nil =>
      rw [create_ack_frame_nil conn ack ts2 hent]
      simp [hent]
    | cons e rest =>
      rw [create_ack_frame_cons conn ack ts2 e rest hent]
      have hne : conn.next_ack_expiry ≠ 0 := harmed (by rw [hent]; simp)
      by_cases hr : (conn_create_ack_frame_loop rest (ack_frame_init e ack ts2)).2 = []
      · rw [if_pos hr]
        simp [hr]
      · rw [if_neg hr]
        simp [hr, hne]

/-- Claim C16, witness: on `example_server` the timer is not armed and the
tracker is empty; scheduling the ack of packet 7 at the time 100 with a
timeout of 25 arms the timer to 125. On the tracker 1000, 10 with the timer
armed, the frame leaves the packet 10 in the tracker and the timer armed. -/
theorem C16_delayed_ack_timer_witness :
    (ngtcp2_conn_sched_ack 25 example_server 7 100).1 = 0 ∧
    (ngtcp2_conn_sched_ack 25 example_server 7 100).2.next_ack_expiry = (100 + 25) % 2 ^ 64 ∧
    ((conn_create_ack_frame (example_server_acks [1000, 10]) example_ack 130).2.1.next_ack_expiry
        = 0 ↔
      (conn_create_ack_frame (example_server_acks [1000, 10]) example_ack 130).2.1.acktr.ent
        = []) :=
  ⟨by decide,
   (C16_delayed_ack_timer 25 example_server 7 100 example_ack 130 (by decide)).1
     (by decide) (by decide),
   (C16_delayed_ack_timer 25 (example_server_acks [1000, 10]) 7 100 example_ack 130
     (by decide)).2.2.2.2⟩

/-- Claim C17, the state it fails on: the delayed-ack timer is not armed and
the top entry of the retransmission buffer expires at 100;
`ngtcp2_conn_earliest_expiry` returns 100, which is not the minimum of 0 and
100. -/
theorem C17_counterexample :
    ngtcp2_conn_earliest_expiry
      { example_server with rtb := { ents := [{ pkt_num := 1, expiry := 100 }] } } = 100 ∧
    ngtcp2_rtb_top { ents := [{ pkt_num := 1, expiry := 100 }] }
      = some { pkt_num := 1, expiry := 100 } ∧
    example_server.next_ack_expiry = 0 ∧
    min example_server.next_ack_expiry 100 ≠ 100 := by
  refine ⟨by decide, by decide, by decide, by decide⟩

/-- Claim C17, amended: `ngtcp2_conn_earliest_expiry` returns `next_ack_expiry`
when the retransmission buffer is empty; otherwise, with `ent` the top entry
of the buffer, it returns `ent.expiry` when the delayed-ack timer is not armed
(`next_ack_expiry` is 0), and the minimum of `next_ack_expiry` and `ent.expiry`
when the timer is armed. -/
theorem C17_earliest_expiry (conn : ngtcp2_conn) :
    (ngtcp2_rtb_top conn.rtb = none →
      ngtcp2_conn_earliest_expiry conn = conn.next_ack_expiry) ∧
    (∀ ent, ngtcp2_rtb_top conn.rtb = some ent → conn.next_ack_expiry = 0 →
      ngtcp2_conn_earliest_expiry conn = ent.expiry) ∧
    (∀ ent, ngtcp2_rtb_top conn.rtb = some ent → 0 < conn.next_ack_expiry →
      ngtcp2_conn_earliest_expiry conn = min conn.next_ack_expiry ent.expiry) := by
  unfold ngtcp2_conn_earliest_expiry
  refine ⟨fun h => by rw [h], fun ent h h0 => ?_, fun ent h h0 => ?_⟩
  · rw [h]
    simp only
    rw [if_neg (by omega)]
  · rw [h]
    simp only
    rw [if_pos h0]

/-- Claim C17, witness: with the timer armed to 125 and entries that expire
at 300 and 200 the result is 125; with the timer armed to 250 it is 200; with
the timer not armed it is 200; with an empty buffer it is the timer. -/
theorem C17_earliest_expiry_witness :
    ngtcp2_conn_earliest_expiry
      { example_server with
        rtb := { ents := [{ pkt_num := 1, expiry := 300 }, { pkt_num := 2, expiry := 200 }] }
        next_ack_expiry := 125 } = min 125 200 ∧
    ngtcp2_conn_earliest_expiry
      { example_server with
        rtb := { ents := [{ pkt_num := 1, expiry := 300 }, { pkt_num := 2, expiry := 200 }] } }
      = 200 ∧
    ngtcp2_conn_earliest_expiry { example_server with next_ack_expiry := 125 } = 125 :=
  ⟨(C17_earliest_expiry _).2.2 { pkt_num := 2, expiry := 200 } (by decide) (by decide),
   (C17_earliest_expiry _).2.1 { pkt_num := 2, expiry := 200 } (by decide) (by decide),
   (C17_earliest_expiry _).1 (by decide)⟩

/-- Claim C18: the outcome of `ngtcp2_conn_open_stream`. An id that is not
locally initiated gives `NGTCP2_ERR_INVALID_ARGUMENT`; otherwise an id above
`remote_settings.max_stream_id` gives `NGTCP2_ERR_STREAM_ID_BLOCKED`; otherwise
an id found in the stream map gives `NGTCP2_ERR_STREAM_IN_USE`; in these three
cases the connection, with its stream map and `local_idtr`, is unchanged. A
return of 0 implies that the id is local, that it is within the limit of the
peer and that the stream is found afterwards. -/
theorem C18_open_stream (conn : ngtcp2_conn) (stream_id : Nat) :
    (conn_local_stream conn stream_id = false →
      ngtcp2_conn_open_stream conn stream_id = (NGTCP2_ERR_INVALID_ARGUMENT, conn)) ∧
    (conn_local_stream conn stream_id = true →
      conn.remote_settings.max_stream_id < stream_id →
      ngtcp2_conn_open_stream conn stream_id = (NGTCP2_ERR_STREAM_ID_BLOCKED, conn)) ∧
    (conn_local_stream conn stream_id = true →
      stream_id ≤ conn.remote_settings.max_stream_id →
      (ngtcp2_conn_find_stream conn stream_id).isSome = true →
      ngtcp2_conn_open_stream conn stream_id = (NGTCP2_ERR_STREAM_IN_USE, conn)) ∧
    ((ngtcp2_conn_open_stream conn stream_id).1 = 0 →
      conn_local_stream conn stream_id = true ∧
      stream_id ≤ conn.remote_settings.max_stream_id ∧
      ngtcp2_conn_find_stream conn stream_id = none ∧
      ∃ strm, ngtcp2_conn_find_stream (ngtcp2_conn_open_stream conn stream_id).2 stream_id
          = some strm ∧ strm.stream_id = stream_id) := by
  refine ⟨?_, ?_, ?_, ?_⟩
  · intro hl
    simp [ngtcp2_conn_open_stream, hl]
  · intro hl hgt
    simp [ngtcp2_conn_open_stream, hl, hgt]
  · intro hl hle hf
    have hgt : ¬ (stream_id > conn.remote_settings.max_stream_id) := by omega
    cases hfs : ngtcp2_conn_find_stream conn stream_id with
    | none => rw [hfs] at hf; exact absurd hf (by simp)
    | some s => simp [ngtcp2_conn_open_stream, hl, hgt, hfs]
  · intro h0
    unfold ngtcp2_conn_open_stream at h0 ⊢
    cases hl : conn_local_stream conn stream_id
    · rw [hl] at h0
      exact absurd h0 (by simp [NGTCP2_ERR_INVALID_ARGUMENT])
    · rw [hl] at h0
      by_cases hgt : stream_id > conn.remote_settings.max_stream_id
      · simp only [Bool.not_true, Bool.false_eq_true, if_false, if_pos hgt] at h0
        exact absurd h0 (by simp [NGTCP2_ERR_STREAM_ID_BLOCKED])
      · simp only [Bool.not_true, Bool.false_eq_true, if_false, if_neg hgt] at h0 ⊢
        cases hfs : ngtcp2_conn_find_stream conn stream_id with
        | some s =>
          rw [hfs] at h0
          exact absurd h0 (by simp [NGTCP2_ERR_STREAM_IN_USE])
        | none =>
          rw [hfs] at h0
          refine ⟨trivial, by omega, rfl, ?_⟩
          simp only at h0 ⊢
          split_ifs at h0 ⊢ with h1 h2 h3
          · exact absurd h0 h1
          · exact absurd h0 (by simp [NGTCP2_ERR_NOMEM])
          · exact absurd h0 h3
          · exact init_stream_findable _ _ (not_not.1 h3)

/-- Claim C18, witness: on `example_client` the even id 2 is refused as not
local, the id 7 is above the limit 5 of the peer, the id 3 is in use, and the
id 1 is opened and found afterwards. -/
theorem C18_open_stream_witness :
    ngtcp2_conn_open_stream example_client 2 = (NGTCP2_ERR_INVALID_ARGUMENT, example_client) ∧
    ngtcp2_conn_open_stream example_client 7 = (NGTCP2_ERR_STREAM_ID_BLOCKED, example_client) ∧
    ngtcp2_conn_open_stream example_client 3 = (NGTCP2_ERR_STREAM_IN_USE, example_client) ∧
    (ngtcp2_conn_open_stream example_client 1).1 = 0 ∧
    ∃ strm, ngtcp2_conn_find_stream (ngtcp2_conn_open_stream example_client 1).2 1 = some strm ∧
      strm.stream_id = 1 :=
  ⟨(C18_open_stream example_client 2).1 (by decide),
   (C18_open_stream example_client 7).2.1 (by decide) (by decide),
   (C18_open_stream example_client 3).2.2.1 (by decide) (by decide) (by decide),
   by decide,
   ((C18_open_stream example_client 1).2.2.2 (by decide)).2.2.2⟩

/-- Claim C19, the id it fails on: a server classifies stream 0 as locally
initiated. -/
theorem C19_counterexample :
    example_server.server = true ∧ conn_local_stream example_server 0 = true := by
  decide

/-- Claim C19, amended: `conn_local_stream` classifies the ids by parity and
role alone: on a server it is true exactly for the even ids, stream 0
included, and on a client exactly for the odd ids; so stream 0 is locally
initiated on a server and not locally initiated on a client. -/
theorem C19_local_stream_parity (conn : ngtcp2_conn) (stream_id : Nat) :
    (conn_local_stream conn stream_id = true ↔
      (conn.server = true ∧ stream_id % 2 = 0) ∨ (conn.server = false ∧ stream_id % 2 = 1)) ∧
    (conn_local_stream conn 0 = true ↔ conn.server = true) := by
  unfold conn_local_stream
  cases hs : conn.server
  · simp
  · simp

/-- Claim C20: send credit only grows on the updates of the peer.
`conn_recv_max_stream_data` returns 0; it sets `max_tx_offset` of the stream
found under the id of the frame to the larger of the old value and
`fr.max_stream_data` and changes nothing for an unknown stream; no stream of
the map ends with less credit than before, and `max_tx_offset_high` is not
touched. `conn_recv_max_data` sets `max_tx_offset_high` to the larger of the
old value and `fd.max_data`, which is not below the old value, and leaves the
streams alone. -/
theorem C20_send_credit (conn : ngtcp2_conn) (fr : ngtcp2_max_stream_data)
    (fd : ngtcp2_max_data)
    (hkey : ∀ s, ngtcp2_conn_find_stream conn fr.stream_id = some s →
      s.stream_id = fr.stream_id) :
    (conn_recv_max_stream_data conn fr).1 = 0 ∧
    (∀ strm, ngtcp2_conn_find_stream conn fr.stream_id = some strm →
      ngtcp2_conn_find_stream (conn_recv_max_stream_data conn fr).2 fr.stream_id =
        some { strm with max_tx_offset := max strm.max_tx_offset fr.max_stream_data }) ∧
    (ngtcp2_conn_find_stream conn fr.stream_id = none →
      conn_recv_max_stream_data conn fr = (0, conn)) ∧
    (∀ k s, ngtcp2_conn_find_stream conn k = some s →
      ∃ s2, ngtcp2_conn_find_stream (conn_recv_max_stream_data conn fr).2 k = some s2 ∧
        s.max_tx_offset ≤ s2.max_tx_offset) ∧
    (conn_recv_max_stream_data conn fr).2.max_tx_offset_high = conn.max_tx_offset_high ∧
    (conn_recv_max_data conn fd).max_tx_offset_high = max conn.max_tx_offset_high fd.max_data ∧
    conn.max_tx_offset_high ≤ (conn_recv_max_data conn fd).max_tx_offset_high ∧
    (conn_recv_max_data conn fd).strms = conn.strms := by
  unfold conn_recv_max_stream_data conn_recv_max_data
  cases hf : ngtcp2_conn_find_stream conn fr.stream_id with
  | none =>
    refine ⟨rfl, fun strm h => absurd h (by simp), fun _ => rfl,
      fun k s hs => ⟨s, hs, le_refl _⟩, rfl, rfl, le_max_left _ _, rfl⟩
  | some strm =>
    have hid := hkey strm hf
    refine ⟨rfl, ?_, fun h => absurd h (by simp), ?_, rfl, rfl, le_max_left _ _, rfl⟩
    · intro s hs
      simp only [Option.some.injEq] at hs
      subst hs
      simp [ngtcp2_conn_find_stream, conn_store_strm, hid]
    · intro k s hs
      by_cases hk : k = fr.stream_id
      · subst hk
        have hs2 : strm = s := by rw [hf] at hs; exact Option.some.inj hs
        subst hs2
        exact ⟨{ strm with max_tx_offset := max strm.max_tx_offset fr.max_stream_data },
          by simp [ngtcp2_conn_find_stream, conn_store_strm, hid], le_max_left _ _⟩
      · refine ⟨s, ?_, le_refl _⟩
        simp only [ngtcp2_conn_find_stream, conn_store_strm]
        rw [if_neg (by rw [hid]; exact hk)]
        exact hs

/-- Claim C20, witness: on `example_client` the stream 3 has the credit
65536; MAX_STREAM_DATA with 70000 raises it to 70000, and MAX_DATA with 100
raises the credit 64 of the connection to 100. -/
theorem C20_send_credit_witness :
    (ngtcp2_conn_find_stream
      (conn_recv_max_stream_data example_client { stream_id := 3, max_stream_data := 70000 }).2 3
      = some { ngtcp2_strm_init 3 NGTCP2_STRM_FLAG_NONE 1024 65536 with max_tx_offset := 70000 }) ∧
    (conn_recv_max_data example_client { max_data := 100 }).max_tx_offset_high = 100 :=
  have h := C20_send_credit example_client { stream_id := 3, max_stream_data := 70000 }
    { max_data := 100 }
    (fun s hs => by
      have h2 : some (ngtcp2_strm_init 3 NGTCP2_STRM_FLAG_NONE 1024 65536) = some s := hs
      simp only [Option.some.injEq] at h2
      rw [← h2]
      rfl)
  ⟨h.2.1 _ rfl, h.2.2.2.2.2.1⟩

/-! ## Claims on the announcements of flow-control credit -/

/-- Claim C21: after `ngtcp2_conn_extend_max_stream_offset(id, n)`, with `n` in the
range of `size_t`, on a stream other than stream 0 that is in the map and
whose offsets are in order, the call returns 0 and the stream holds the
extended `unsent_max_rx_offset`; a stream that was not linked is linked, at
the head of the flow-control list, if and only if
`unsent_max_rx_offset - max_rx_offset` exceeds half of
`local_settings.max_stream_data`, and a stream that was linked leaves the list
as it is. -/
theorem C21_extend_links_stream (conn : ngtcp2_conn) (stream_id n : Nat) (strm : ngtcp2_strm)
    (hid : stream_id ≠ 0) (hfind : ngtcp2_conn_find_stream conn stream_id = some strm)
    (hsid : strm.stream_id = stream_id)
    (hle : strm.max_rx_offset ≤ strm.unsent_max_rx_offset)
    (hmax : strm.unsent_max_rx_offset ≤ UINT64_MAX) (hn : n ≤ UINT64_MAX) :
    (ngtcp2_conn_extend_max_stream_offset conn stream_id n).1 = 0 ∧
    ngtcp2_conn_find_stream (ngtcp2_conn_extend_max_stream_offset conn stream_id n).2 stream_id =
      some { strm with
        unsent_max_rx_offset :=
          if strm.unsent_max_rx_offset ≤ UINT64_MAX - n then strm.unsent_max_rx_offset + n
          else strm.unsent_max_rx_offset } ∧
    (stream_id ∉ conn.fc_strms →
      (stream_id ∈ (ngtcp2_conn_extend_max_stream_offset conn stream_id n).2.fc_strms ↔
        conn.local_settings.max_stream_data / 2 <
          (if strm.unsent_max_rx_offset ≤ UINT64_MAX - n then strm.unsent_max_rx_offset + n
            else strm.unsent_max_rx_offset) - strm.max_rx_offset) ∧
      (ngtcp2_conn_extend_max_stream_offset conn stream_id n).2.fc_strms =
        if stream_id ∈ (ngtcp2_conn_extend_max_stream_offset conn stream_id n).2.fc_strms then
          stream_id :: conn.fc_strms
        else conn.fc_strms) ∧
    (stream_id ∈ conn.fc_strms →
      (ngtcp2_conn_extend_max_stream_offset conn stream_id n).2.fc_strms = conn.fc_strms) := by
  unfold ngtcp2_conn_extend_max_stream_offset
  rw [if_neg hid, hfind]
  simp only []
  have hs1 : (if strm.unsent_max_rx_offset ≤ UINT64_MAX - n then
        { strm with unsent_max_rx_offset := strm.unsent_max_rx_offset + n }
      else strm) =
      { strm with
        unsent_max_rx_offset :=
          if strm.unsent_max_rx_offset ≤ UINT64_MAX - n then strm.unsent_max_rx_offset + n
          else strm.unsent_max_rx_offset } := by
    split_ifs <;> rfl
  simp only [hs1]
  have hu : strm.unsent_max_rx_offset ≤
        (if strm.unsent_max_rx_offset ≤ UINT64_MAX - n then strm.unsent_max_rx_offset + n
          else strm.unsent_max_rx_offset) ∧
      (if strm.unsent_max_rx_offset ≤ UINT64_MAX - n then strm.unsent_max_rx_offset + n
          else strm.unsent_max_rx_offset) ≤ UINT64_MAX := by
    unfold UINT64_MAX at hmax hn ⊢
    split_ifs <;> omega
  generalize (if strm.unsent_max_rx_offset ≤ UINT64_MAX - n then strm.unsent_max_rx_offset + n
    else strm.unsent_max_rx_offset) = u at hu ⊢
  have hdiff : (u + 2 ^ 64 - strm.max_rx_offset) % 2 ^ 64 = u - strm.max_rx_offset := by
    unfold UINT64_MAX at hu
    omega
  simp only [conn_should_send_max_stream_data, conn_store_strm, hsid, hdiff,
    ngtcp2_conn_find_stream]
  by_cases hl : stream_id ∈ conn.fc_strms
  · simp [hl]
  · by_cases hc : conn.local_settings.max_stream_data / 2 < u - strm.max_rx_offset
    · simp [hl, hc]
    · simp [hl, hc]

/-- Claim C21, witness: with `max_stream_data` 4096, extending the window of the
untouched stream 1 by 2049 bytes links the stream. -/
theorem C21_extend_links_stream_witness :
    (1 : Nat) ≠ 0 ∧
    (ngtcp2_conn_extend_max_stream_offset example_server_window4096 1 2049).1 = 0 ∧
    (ngtcp2_conn_extend_max_stream_offset example_server_window4096 1 2049).2.fc_strms = [1] ∧
    (ngtcp2_conn_extend_max_stream_offset example_server_window4096 1 2048).2.fc_strms = [] ∧
    (1 ∉ example_server_window4096.fc_strms →
      (1 ∈ (ngtcp2_conn_extend_max_stream_offset example_server_window4096 1 2049).2.fc_strms ↔
        example_server_window4096.local_settings.max_stream_data / 2 <
          (if (example_strm 1 0 4096).unsent_max_rx_offset ≤ UINT64_MAX - 2049 then
            (example_strm 1 0 4096).unsent_max_rx_offset + 2049
            else (example_strm 1 0 4096).unsent_max_rx_offset) -
            (example_strm 1 0 4096).max_rx_offset)) :=
  ⟨by decide, by decide, by decide, by decide,
   fun h => ((C21_extend_links_stream example_server_window4096 1 2049 (example_strm 1 0 4096)
     (by decide) rfl rfl (by decide) (by decide) (by decide)).2.2.1 h).1⟩

/-- Claim C22: when no allocation fails and every stream of the flow-control list
is in the map under its id, the loop of `conn_send_pkt` over the list returns
0, puts one MAX_STREAM_DATA frame for each listed stream, carrying its
`unsent_max_rx_offset`, before the frame queue, raises the `max_rx_offset` of
each listed stream to its `unsent_max_rx_offset`, leaves the other streams as
they are and leaves the list empty; and `conn_send_pkt` returns with the list
empty and the listed streams so raised. -/
theorem C22_fc_strms_drained (W : ngtcp2_wire) (conn : ngtcp2_conn) (destlen ts : Nat)
    (hmem : conn.mem = [])
    (hin : ∀ id ∈ conn.fc_strms, ∃ s, conn.strms id = some s ∧ s.stream_id = id) :
    (conn_send_pkt_fc_strms conn.fc_strms conn).1 = 0 ∧
    (conn_send_pkt_fc_strms conn.fc_strms conn).2.fc_strms = [] ∧
    (conn_send_pkt_fc_strms conn.fc_strms conn).2.frq =
      (fc_strms_frames conn conn.fc_strms).reverse ++ conn.frq ∧
    (fc_strms_frames conn conn.fc_strms).length = conn.fc_strms.length ∧
    (∀ id ∈ conn.fc_strms, ∀ s, conn.strms id = some s →
      max_stream_data_frame s ∈ fc_strms_frames conn conn.fc_strms ∧
      (conn_send_pkt_fc_strms conn.fc_strms conn).2.strms id =
        some { s with max_rx_offset := s.unsent_max_rx_offset }) ∧
    (∀ id, id ∉ conn.fc_strms →
      (conn_send_pkt_fc_strms conn.fc_strms conn).2.strms id = conn.strms id) ∧
    ∃ r, conn_send_pkt W conn destlen ts = some r ∧ r.2.1.fc_strms = [] ∧
      (∀ id ∈ conn.fc_strms, ∀ s, conn.strms id = some s →
        r.2.1.strms id = some { s with max_rx_offset := s.unsent_max_rx_offset }) ∧
      (∀ id, id ∉ conn.fc_strms → r.2.1.strms id = conn.strms id) := by
  obtain ⟨strms, h1, h2, h3⟩ := send_pkt_fc_strms_drain conn.fc_strms conn hmem hin
  have hlen : ∀ ids : List Nat, (∀ id ∈ ids, ∃ s, conn.strms id = some s ∧ s.stream_id = id) →
      (fc_strms_frames conn ids).length = ids.length := by
    intro ids
    induction ids with
    | nil => intro _; rfl
    | cons i rest ih =>
      intro hi
      obtain ⟨s, hs, _⟩ := hi i (List.mem_cons_self _ _)
      unfold fc_strms_frames at ih ⊢
      rw [List.filterMap_cons, hs]
      simp only [Option.map_some', List.length_cons]
      rw [ih (fun j hj => hi j (List.mem_cons_of_mem _ hj))]
  refine ⟨by rw [h1], by rw [h1], by rw [h1], hlen _ hin, fun id hid s hs => ⟨?_, ?_⟩,
    fun id hid => by rw [h1]; exact h3 id hid, ?_⟩
  · unfold fc_strms_frames
    exact List.mem_filterMap.2 ⟨id, hid, by rw [hs]; rfl⟩
  · rw [h1]
    exact h2 id hid s hs
  · obtain ⟨a1, _, _, a4, a5, a6, _⟩ := send_pkt_ack_fields conn ts
    obtain ⟨b1, b2, b3, b4⟩ := send_pkt_max_stream_id_nil (conn_send_pkt_ack conn ts)
      (a6.trans hmem) a1
    obtain ⟨c1, c2, c3, c4⟩ := send_pkt_max_data_nil
      (conn_send_pkt_max_stream_id (conn_send_pkt_ack conn ts)) b2 b1
    have hstrms := c3.trans (b3.trans a4)
    have hfc := c4.trans (b4.trans a5)
    obtain ⟨strms2, k1, k2, k3⟩ := send_pkt_fc_strms_drain
      (conn_send_pkt_max_data
        (conn_send_pkt_max_stream_id (conn_send_pkt_ack conn ts))).conn.fc_strms
      (conn_send_pkt_max_data (conn_send_pkt_max_stream_id (conn_send_pkt_ack conn ts))).conn
      c2 (by rw [hfc, hstrms]; exact hin)
    rw [hstrms] at k2 k3
    rw [hfc] at k2 k3
    unfold conn_send_pkt conn_send_pkt_queue
    simp only []
    rw [if_neg (by rw [a1]; simp), if_neg (by rw [b1]; simp), if_neg (by rw [c1]; simp),
      if_neg (by rw [k1]; simp)]
    split_ifs
    · refine ⟨_, rfl, ?_, ?_, ?_⟩
      · rw [k1]
      · intro id hid s hs
        rw [k1]
        exact k2 id hid s hs
      · intro id hid
        rw [k1]
        exact k3 id hid
    · obtain ⟨r, hr1, _, hr3, hr4⟩ := send_pkt_encode_pkt_fields W
        (conn_send_pkt_fc_strms
          (conn_send_pkt_max_data
            (conn_send_pkt_max_stream_id (conn_send_pkt_ack conn ts))).conn.fc_strms
          (conn_send_pkt_max_data
            (conn_send_pkt_max_stream_id (conn_send_pkt_ack conn ts))).conn).2
        (conn_send_pkt_max_data (conn_send_pkt_max_stream_id (conn_send_pkt_ack conn ts))).ackfr
        ((conn_send_pkt_max_data
            (conn_send_pkt_max_stream_id (conn_send_pkt_ack conn ts))).pkt_empty &&
          decide ((conn_send_pkt_max_data
            (conn_send_pkt_max_stream_id (conn_send_pkt_ack conn ts))).conn.fc_strms = []))
        destlen ts
      refine ⟨r, hr1, ?_, ?_, ?_⟩
      · rw [hr4, k1]
      · intro id hid s hs
        rw [hr3, k1]
        exact k2 id hid s hs
      · intro id hid
        rw [hr3, k1]
        exact k3 id hid

/-- Claim C22, witness: with the streams 3 and 1 linked, the loop puts the frames of
stream 1 and of stream 3 before the queue, raises both windows and empties
the list. -/
theorem C22_fc_strms_drained_witness :
    example_server_fc_pending.mem = [] ∧
    (conn_send_pkt_fc_strms example_server_fc_pending.fc_strms example_server_fc_pending).2.frq =
      [ngtcp2_frame.max_stream_data { stream_id := 1, max_stream_data := 2048 },
       ngtcp2_frame.max_stream_data { stream_id := 3, max_stream_data := 4096 }] ∧
    (conn_send_pkt_fc_strms example_server_fc_pending.fc_strms
      example_server_fc_pending).2.fc_strms = [] := by
  have hin : ∀ id ∈ example_server_fc_pending.fc_strms,
      ∃ s, example_server_fc_pending.strms id = some s ∧ s.stream_id = id := by
    intro id hid
    have h31 : id = 3 ∨ id = 1 := by
      simpa [example_server_fc_pending] using hid
    rcases h31 with h | h
    · subst h
      exact ⟨_, rfl, rfl⟩
    · subst h
      exact ⟨_, rfl, rfl⟩
  have h := C22_fc_strms_drained example_wire example_server_fc_pending 1200 100 rfl hin
  refine ⟨rfl, ?_, h.2.1⟩
  rw [h.2.2.1]
  decide

/-- Claim C23, counterexample: with an ACK frame due, stream 1 in the flow-control
list, the connection window and the highest stream id of the peer grown, and a
frame of 30 bytes in the frame queue, all frames fit in a packet of 1200
bytes, and the packet holds the MAX_STREAM_DATA frame before the MAX_DATA
frame and the MAX_DATA frame before the MAX_STREAM_ID frame. -/
theorem C23_counterexample :
    (conn_send_pkt example_wire example_server_all_pending 1200 150).map
        (fun r => r.2.2.map (fun p => p.frames)) =
      some (some
        [ngtcp2_frame.ack
           { type := NGTCP2_FRAME_ACK, largest_ack := 12, ack_delay := 50,
             first_ack_blklen := 1, num_ts := 0, blks := [] },
         ngtcp2_frame.max_stream_data { stream_id := 1, max_stream_data := 2048 },
         ngtcp2_frame.max_data { max_data := 16 },
         ngtcp2_frame.max_stream_id 5,
         ngtcp2_frame.other 30]) := by
  decide

/-- Claim C23, amended: when neither a callback nor an allocation fails, every
stream of the flow-control list is in the map under its id, there is a frame
to send, and the header and all frames fit, `conn_send_pkt` writes a packet
with the next packet number that holds, in this order: the ACK frame (if
due), the MAX_STREAM_DATA frames of the streams of the flow-control list, the
last stream of the list first, the MAX_DATA frame, the MAX_STREAM_ID frame,
and the frames that were in the frame queue, in the order of the queue. -/
theorem C23_frame_order (W : ngtcp2_wire) (conn : ngtcp2_conn) (destlen ts : Nat)
    (hmem : conn.mem = [])
    (hin : ∀ id ∈ conn.fc_strms, ∃ s, conn.strms id = some s ∧ s.stream_id = id)
    (hp : ∀ hd, conn_call_send_pkt conn hd = 0)
    (hf : ∀ hd fr, conn_call_send_frame conn hd fr = 0)
    (henc : ∀ hd frs, conn.encrypt hd frs = 0)
    (hne : send_pkt_frames conn ts ≠ [])
    (hhd : W.hdlen (ngtcp2_pkt_hd_init NGTCP2_PKT_FLAG_CONN_ID NGTCP2_PKT_03
      conn.next_tx_pkt_num) + conn.aead_overhead ≤ destlen)
    (hfit : frames_fit W
      (destlen - W.hdlen (ngtcp2_pkt_hd_init NGTCP2_PKT_FLAG_CONN_ID NGTCP2_PKT_03
        conn.next_tx_pkt_num) - conn.aead_overhead) (send_pkt_frames conn ts) = true) :
    ∃ r, conn_send_pkt W conn destlen ts = some r ∧
      r.2.2 = some
        { hd := ngtcp2_pkt_hd_init NGTCP2_PKT_FLAG_CONN_ID NGTCP2_PKT_03 conn.next_tx_pkt_num
          frames := send_pkt_frames conn ts } := by
  obtain ⟨a1, a2, acktr, nae, a3⟩ := send_pkt_ack_conn conn ts
  have hfr : send_pkt_frames conn ts =
      (if (conn_send_pkt_ack conn ts).pkt_empty then []
        else [ngtcp2_frame.ack (conn_send_pkt_ack conn ts).ackfr]) ++
      ((fc_strms_frames (conn_send_pkt_ack conn ts).conn
          (conn_send_pkt_ack conn ts).conn.fc_strms).reverse ++
        (send_pkt_max_data_frames (conn_send_pkt_ack conn ts).conn
            ((if (conn_send_pkt_ack conn ts).pkt_empty then []
              else [ngtcp2_frame.ack (conn_send_pkt_ack conn ts).ackfr]) ++
              send_pkt_max_stream_id_frames (conn_send_pkt_ack conn ts).conn) ++
          (send_pkt_max_stream_id_frames (conn_send_pkt_ack conn ts).conn ++
            (conn_send_pkt_ack conn ts).conn.frq))) := by
    rw [a3]
    rfl
  obtain ⟨r, h1, h2⟩ := send_pkt_queue_all_fit W (conn_send_pkt_ack conn ts) destlen ts a1 a2
    (by rw [a3]; exact hmem) (by rw [a3]; exact hin)
    (fun hd => by
      rw [call_send_pkt_congr _ conn hd (by rw [a3])]
      exact hp hd)
    (fun hd fr => by
      rw [call_send_frame_congr _ conn hd fr (by rw [a3])]
      exact hf hd fr)
    (by rw [a3]; exact henc) (send_pkt_frames conn ts) hfr hne
    (by rw [a3]; exact hhd) (by rw [a3]; exact hfit)
  refine ⟨r, ?_, ?_⟩
  · unfold conn_send_pkt
    simp only []
    rw [if_neg (by rw [a1]; simp)]
    exact h1
  · rw [h2, a3]

/-- Claim C23, witness: the packet of the server with everything to announce holds
the five frames in the order ACK, MAX_STREAM_DATA, MAX_DATA, MAX_STREAM_ID and
the frame of the queue. -/
theorem C23_frame_order_witness :
    send_pkt_frames example_server_all_pending 150 =
      [ngtcp2_frame.ack
         { type := NGTCP2_FRAME_ACK, largest_ack := 12, ack_delay := 50,
           first_ack_blklen := 1, num_ts := 0, blks := [] },
       ngtcp2_frame.max_stream_data { stream_id := 1, max_stream_data := 2048 },
       ngtcp2_frame.max_data { max_data := 16 },
       ngtcp2_frame.max_stream_id 5,
       ngtcp2_frame.other 30] ∧
    ∃ r, conn_send_pkt example_wire example_server_all_pending 1200 150 = some r ∧
      r.2.2 = some
        { hd := ngtcp2_pkt_hd_init NGTCP2_PKT_FLAG_CONN_ID NGTCP2_PKT_03
            example_server_all_pending.next_tx_pkt_num
          frames := send_pkt_frames example_server_all_pending 150 } :=
  ⟨by decide,
   C23_frame_order example_wire example_server_all_pending 1200 150 rfl
    (by
      intro id hid
      have h1 : id = 1 := by
        simpa [example_server_all_pending] using hid
      subst h1
      exact ⟨_, rfl, rfl⟩)
    (fun _ => rfl) (fun _ _ => rfl) (fun _ _ => rfl) (by decide) (by decide) (by decide)⟩

/-! ## Claims on sending packets and on buffered packets -/

/-- Claim C24: when no entry of the retransmission buffer has expired,
`ngtcp2_conn_send` returns, and the state moves as follows: a result that is
not negative moves CLIENT_INITIAL to CLIENT_WAIT_HANDSHAKE and SERVER_INITIAL
to SERVER_WAIT_HANDSHAKE; in CLIENT_HANDSHAKE_ALMOST_FINISHED the result 0
moves the state to POST_HANDSHAKE and a positive result leaves it; the other
four states are kept; a negative result keeps every state. -/
theorem C24_send_state (W : ngtcp2_wire) (conn : ngtcp2_conn) (destlen ts : Nat)
    (hdue : ∀ ent, ngtcp2_rtb_top conn.rtb = some ent → ts < ent.expiry) :
    ∃ r, ngtcp2_conn_send W conn destlen ts = some r ∧
      (r.1 < 0 → r.2.1.state = conn.state) ∧
      (conn.state = ngtcp2_conn_state.NGTCP2_CS_CLIENT_INITIAL → 0 ≤ r.1 →
        r.2.1.state = ngtcp2_conn_state.NGTCP2_CS_CLIENT_WAIT_HANDSHAKE) ∧
      (conn.state = ngtcp2_conn_state.NGTCP2_CS_SERVER_INITIAL → 0 ≤ r.1 →
        r.2.1.state = ngtcp2_conn_state.NGTCP2_CS_SERVER_WAIT_HANDSHAKE) ∧
      (conn.state = ngtcp2_conn_state.NGTCP2_CS_CLIENT_HANDSHAKE_ALMOST_FINISHED →
        (r.1 = 0 → r.2.1.state = ngtcp2_conn_state.NGTCP2_CS_POST_HANDSHAKE) ∧
        (0 < r.1 →
          r.2.1.state = ngtcp2_conn_state.NGTCP2_CS_CLIENT_HANDSHAKE_ALMOST_FINISHED)) ∧
      (conn.state = ngtcp2_conn_state.NGTCP2_CS_CLIENT_WAIT_HANDSHAKE ∨
        conn.state = ngtcp2_conn_state.NGTCP2_CS_SERVER_WAIT_HANDSHAKE ∨
        conn.state = ngtcp2_conn_state.NGTCP2_CS_POST_HANDSHAKE ∨
        conn.state = ngtcp2_conn_state.NGTCP2_CS_CLOSE_WAIT → r.2.1.state = conn.state) := by
  unfold ngtcp2_conn_send
  rw [retransmit_not_due W conn destlen ts hdue]
  simp only [ne_eq, not_true_eq_false, if_false]
  cases hst : conn.state with
  | NGTCP2_CS_CLIENT_INITIAL =>
    have hs := send_client_initial_state W conn destlen ts
    simp only []
    split_ifs with h1
    · exact ⟨_, rfl, fun _ => hs.trans hst, fun _ h => absurd h1 (not_lt.2 h),
        fun h => absurd h (by simp), fun h => absurd h (by simp),
        fun h => by simp at h⟩
    · exact ⟨_, rfl, fun h => absurd h h1, fun _ _ => rfl, fun h => absurd h (by simp),
        fun h => absurd h (by simp), fun h => by simp at h⟩
  | NGTCP2_CS_CLIENT_WAIT_HANDSHAKE =>
    have hs := (send_client_cleartext_state W conn destlen ts).trans hst
    exact ⟨_, rfl, fun _ => hs, fun h => absurd h (by simp), fun h => absurd h (by simp),
      fun h => absurd h (by simp), fun _ => hs⟩
  | NGTCP2_CS_CLIENT_HANDSHAKE_ALMOST_FINISHED =>
    have hs := (send_client_cleartext_state W conn destlen ts).trans hst
    simp only []
    split_ifs with h1 h2
    · exact ⟨_, rfl, fun _ => hs, fun h => absurd h (by simp), fun h => absurd h (by simp),
        fun _ => ⟨fun h => absurd h (ne_of_lt h1), fun h => absurd h1 (not_lt.2 (le_of_lt h))⟩,
        fun h => by simp at h⟩
    · exact ⟨_, rfl, fun h => absurd h h1, fun h => absurd h (by simp),
        fun h => absurd h (by simp),
        fun _ => ⟨fun _ => rfl, fun h => absurd h2 (ne_of_gt h)⟩, fun h => by simp at h⟩
    · exact ⟨_, rfl, fun _ => hs, fun h => absurd h (by simp), fun h => absurd h (by simp),
        fun _ => ⟨fun h => absurd h h2, fun _ => hs⟩, fun h => by simp at h⟩
  | NGTCP2_CS_SERVER_INITIAL =>
    have hs := send_server_cleartext_state W conn destlen true ts
    simp only []
    split_ifs with h1
    · exact ⟨_, rfl, fun _ => hs.trans hst, fun h => absurd h (by simp),
        fun _ h => absurd h1 (not_lt.2 h), fun h => absurd h (by simp),
        fun h => by simp at h⟩
    · exact ⟨_, rfl, fun h => absurd h h1, fun h => absurd h (by simp), fun _ _ => rfl,
        fun h => absurd h (by simp), fun h => by simp at h⟩
  | NGTCP2_CS_SERVER_WAIT_HANDSHAKE =>
    have hs := (send_server_cleartext_state W conn destlen false ts).trans hst
    exact ⟨_, rfl, fun _ => hs, fun h => absurd h (by simp), fun h => absurd h (by simp),
      fun h => absurd h (by simp), fun _ => hs⟩
  | NGTCP2_CS_POST_HANDSHAKE =>
    obtain ⟨r, hr1, hr2⟩ := conn_send_pkt_returns W conn destlen ts
    have hs := hr2.trans hst
    exact ⟨r, hr1, fun _ => hs, fun h => absurd h (by simp), fun h => absurd h (by simp),
      fun h => absurd h (by simp), fun _ => hs⟩
  | NGTCP2_CS_CLOSE_WAIT =>
    obtain ⟨r, hr1, hr2⟩ := conn_send_pkt_returns W conn destlen ts
    have hs := hr2.trans hst
    exact ⟨r, hr1, fun _ => hs, fun h => absurd h (by simp), fun h => absurd h (by simp),
      fun h => absurd h (by simp), fun _ => hs⟩

/-- Claim C24, witness: the first call of a client writes its first packet and
moves the state from CLIENT_INITIAL to CLIENT_WAIT_HANDSHAKE. -/
theorem C24_send_state_witness :
    (∀ ent, ngtcp2_rtb_top example_client_initial.rtb = some ent → 100 < ent.expiry) ∧
    (∃ r, ngtcp2_conn_send example_wire example_client_initial 1200 100 = some r ∧
      0 < r.1 ∧ r.2.1.state = ngtcp2_conn_state.NGTCP2_CS_CLIENT_WAIT_HANDSHAKE) := by
  have hdue : ∀ ent, ngtcp2_rtb_top example_client_initial.rtb = some ent → 100 < ent.expiry :=
    fun ent h => absurd h (by simp [ngtcp2_rtb_top, example_client_initial, example_client,
      example_server, ngtcp2_rtb_init])
  obtain ⟨r, hr, _, h2, _⟩ := C24_send_state example_wire example_client_initial 1200 100 hdue
  have hv : ngtcp2_conn_send example_wire example_client_initial 1200 100 = some r := hr
  have hpos : ((ngtcp2_conn_send example_wire example_client_initial 1200 100).map
      (fun r => decide (0 < r.1))) = some true := by decide
  rw [hv] at hpos
  simp only [Option.map_some', Option.some.injEq, decide_eq_true_eq] at hpos
  exact ⟨hdue, r, hr, hpos, h2 rfl (le_of_lt hpos)⟩

/-- Claim C26, counterexample: stream 1 has no credit left and three bytes are
offered, so no byte can be sent, but the buffer of 30 bytes leaves one byte
after the header and the call returns `NGTCP2_ERR_NOBUF`, not
`NGTCP2_ERR_STREAM_DATA_BLOCKED`. -/
theorem C26_counterexample :
    (∃ strm, ngtcp2_conn_find_stream example_server_strm1_blocked 1 = some strm ∧
      strm.tx_offset = strm.max_tx_offset) ∧
    (ngtcp2_conn_write_stream example_wire example_server_strm1_blocked 30 1 false [1, 2, 3]
      100).1 = NGTCP2_ERR_NOBUF ∧
    NGTCP2_ERR_NOBUF ≠ NGTCP2_ERR_STREAM_DATA_BLOCKED :=
  ⟨⟨_, rfl, rfl⟩, by decide, by decide⟩

/-- Claim C26, amended: `ngtcp2_conn_write_stream` returns
`NGTCP2_ERR_INVALID_ARGUMENT` for a stream id that is not in the map. For a
stream in the map under its id with `tx_offset ≤ max_tx_offset`: a positive
result comes with a packet; the packet of a call that writes one holds one
STREAM frame, whose length is the length stored through `pdatalen`, is at
most `datalen` and at most `max_tx_offset - tx_offset`, whose data are the
first bytes offered and whose offset is the old `tx_offset`; the stream, when
it is still in the map, has its `tx_offset` moved on by that length, within
`max_tx_offset`; and when the header and one byte of stream data fit in the
buffer, data are offered and the stream has no credit left or no byte may be
sent for another reason, the call returns `NGTCP2_ERR_STREAM_DATA_BLOCKED`
and changes nothing. -/
theorem C26_write_stream (W : ngtcp2_wire) (conn : ngtcp2_conn) (destlen stream_id : Nat)
    (fin : Bool) (data : List Nat) (ts : Nat) :
    (ngtcp2_conn_find_stream conn stream_id = none →
      ngtcp2_conn_write_stream W conn destlen stream_id fin data ts =
        (NGTCP2_ERR_INVALID_ARGUMENT, conn, none, none)) ∧
    ∀ strm, ngtcp2_conn_find_stream conn stream_id = some strm → strm.stream_id = stream_id →
      strm.tx_offset ≤ strm.max_tx_offset → strm.max_tx_offset ≤ UINT64_MAX →
      (0 < (ngtcp2_conn_write_stream W conn destlen stream_id fin data ts).1 →
        (ngtcp2_conn_write_stream W conn destlen stream_id fin data ts).2.2.2 ≠ none) ∧
      (∀ p, (ngtcp2_conn_write_stream W conn destlen stream_id fin data ts).2.2.2 = some p →
        ∃ n s,
          (ngtcp2_conn_write_stream W conn destlen stream_id fin data ts).2.2.1 = some n ∧
          p.frames = [ngtcp2_frame.stream s] ∧ s.stream_id = stream_id ∧ s.datalen = n ∧
          s.data = data.take n ∧ s.offset = strm.tx_offset ∧ n ≤ data.length ∧
          n ≤ strm.max_tx_offset - strm.tx_offset ∧
          (∀ s1, ngtcp2_conn_find_stream
              (ngtcp2_conn_write_stream W conn destlen stream_id fin data ts).2.1 stream_id =
              some s1 →
            s1.tx_offset = strm.tx_offset + n ∧ s1.tx_offset ≤ s1.max_tx_offset) ∧
          (fin = false → ∃ s1, ngtcp2_conn_find_stream
            (ngtcp2_conn_write_stream W conn destlen stream_id fin data ts).2.1 stream_id =
            some s1)) ∧
      (data ≠ [] →
        W.hdlen (ngtcp2_pkt_hd_init NGTCP2_PKT_FLAG_CONN_ID NGTCP2_PKT_03 conn.next_tx_pkt_num) +
          conn.aead_overhead + W.NGTCP2_STREAM_OVERHEAD < destlen →
        strm.tx_offset = strm.max_tx_offset ∨
          conn_write_stream_ndatalen conn strm data.length
            (destlen -
              W.hdlen (ngtcp2_pkt_hd_init NGTCP2_PKT_FLAG_CONN_ID NGTCP2_PKT_03
                conn.next_tx_pkt_num) - conn.aead_overhead - W.NGTCP2_STREAM_OVERHEAD) = 0 →
        ngtcp2_conn_write_stream W conn destlen stream_id fin data ts =
          (NGTCP2_ERR_STREAM_DATA_BLOCKED, conn, none, none)) := by
  refine ⟨fun h => ?_, fun strm hfind hsid hle hmax => ?_⟩
  · unfold ngtcp2_conn_write_stream
    rw [h]
  · generalize hr : ngtcp2_conn_write_stream W conn destlen stream_id fin data ts = r
    unfold ngtcp2_conn_write_stream at hr
    rw [hfind] at hr
    simp only [] at hr
    have hlen := write_stream_ndatalen_le conn strm data.length
      (ngtcp2_pe_left (ngtcp2_pe_encode_hd W (ngtcp2_ppe_init conn destlen)
        (ngtcp2_pkt_hd_init NGTCP2_PKT_FLAG_CONN_ID NGTCP2_PKT_03 conn.next_tx_pkt_num)).2 -
        W.NGTCP2_STREAM_OVERHEAD)
    have hcredit : (strm.max_tx_offset + 2 ^ 64 - strm.tx_offset) % 2 ^ 64 =
        strm.max_tx_offset - strm.tx_offset := by
      unfold UINT64_MAX at hmax
      omega
    rw [hcredit] at hlen
    have hfits : W.hdlen (ngtcp2_pkt_hd_init NGTCP2_PKT_FLAG_CONN_ID NGTCP2_PKT_03
          conn.next_tx_pkt_num) + conn.aead_overhead + W.NGTCP2_STREAM_OVERHEAD < destlen →
        ngtcp2_pe_encode_hd W (ngtcp2_ppe_init conn destlen)
          (ngtcp2_pkt_hd_init NGTCP2_PKT_FLAG_CONN_ID NGTCP2_PKT_03 conn.next_tx_pkt_num) =
        (0, { ngtcp2_ppe_init conn destlen with
              len := (ngtcp2_ppe_init conn destlen).len +
                W.hdlen (ngtcp2_pkt_hd_init NGTCP2_PKT_FLAG_CONN_ID NGTCP2_PKT_03
                  conn.next_tx_pkt_num) }) := fun h =>
      pe_encode_hd_fits W _ _ (by simp only [ngtcp2_ppe_init]; omega)
    split_ifs at hr with h1 h2 h3
    · rw [← hr]
      refine ⟨fun h => absurd h (not_lt.2 (pe_encode_hd_le _ _ _)),
        fun p hp => absurd hp (by simp), fun _ hf _ => ?_⟩
      rw [hfits hf] at h1
      exact absurd rfl h1
    · rw [← hr]
      refine ⟨fun h => absurd h (by decide : ¬ (0 : Int) < NGTCP2_ERR_NOBUF),
        fun p hp => absurd hp (by simp), fun _ hf _ => ?_⟩
      rw [hfits hf] at h2
      simp only [ngtcp2_pe_left, ngtcp2_ppe_init] at h2
      omega
    · rw [← hr]
      exact ⟨fun h => absurd h (by decide : ¬ (0 : Int) < NGTCP2_ERR_STREAM_DATA_BLOCKED),
        fun p hp => absurd hp (by simp), fun _ _ _ => rfl⟩
    · obtain ⟨k1, k2⟩ := write_stream_pkt_spec W conn _ _ strm stream_id fin data _ ts r hr.symm
      refine ⟨fun h hn => absurd (k1 hn) (not_lt.2 (le_of_lt h)), fun p hp => ?_,
        fun hd hf hb => ?_⟩
      · obtain ⟨q1, q2, q3, q4⟩ := k2 p hp
        rw [pe_encode_hd_frames] at q2
        rw [hsid] at q3 q4
        refine ⟨_, _, q1, q2, rfl, ?_, rfl, rfl, hlen.1, hlen.2, fun s1 hs1 => ?_,
          fun hf => ⟨_, q4 hf⟩⟩
        · simp only [ngtcp2_stream.datalen, List.length_take]
          omega
        · obtain ⟨t1, t2⟩ := q3 s1 hs1
          rw [t1, t2]
          unfold UINT64_MAX at hmax
          omega
      · exfalso
        apply h3
        refine ⟨List.length_pos.2 hd, ?_⟩
        rw [hfits hf]
        simp only [ngtcp2_pe_left, ngtcp2_ppe_init, Nat.zero_add]
        rcases hb with hb | hb
        · have := (write_stream_ndatalen_le conn strm data.length
            (destlen - W.hdlen (ngtcp2_pkt_hd_init NGTCP2_PKT_FLAG_CONN_ID NGTCP2_PKT_03
              conn.next_tx_pkt_num) - conn.aead_overhead - W.NGTCP2_STREAM_OVERHEAD)).2
          rw [hcredit] at this
          omega
        · exact hb

/-- Claim C26, witness: three bytes written on stream 1 of the example server. -/
theorem C26_write_stream_witness :
    ngtcp2_conn_find_stream example_server_strm1 1 = some (example_strm 1 0 1024) ∧
    ∃ (n : Nat) (s : ngtcp2_stream),
      (ngtcp2_conn_write_stream example_wire example_server_strm1 1200 1 false [1, 2, 3]
        100).2.2.1 = some n ∧
      s.datalen = n ∧ s.offset = (example_strm 1 0 1024).tx_offset ∧ n ≤ 3 := by
  obtain ⟨n, s, h1, _, _, h4, _, h6, h7, _⟩ :=
    ((C26_write_stream example_wire example_server_strm1 1200 1 false [1, 2, 3] 100).2
      (example_strm 1 0 1024) rfl rfl (by decide) (by decide)).2.1
      { hd := ngtcp2_pkt_hd_init NGTCP2_PKT_FLAG_CONN_ID NGTCP2_PKT_03 0
        frames := [ngtcp2_frame.stream { stream_id := 1, fin := false, offset := 0,
                                         data := [1, 2, 3] }] }
      (by decide)
  exact ⟨rfl, n, s, h1, h4, h6, h7⟩

/-- Claim C27: `conn_buffer_protected_pkt` keeps the list of buffered packets within
`NGTCP2_MAX_NUM_BUFFED_RX_PPKTS` entries: below the cap the packet is put at
the tail of the list when the allocation succeeds, and the list is left as it
is when the allocation fails; at the cap the call returns 0 and changes
nothing. -/
theorem C27_buffered_pkts_cap (NGTCP2_MAX_NUM_BUFFED_RX_PPKTS : Nat) (conn : ngtcp2_conn)
    (pkt : List Nat) (ts : Nat) :
    (conn.buffed_rx_ppkts.length ≤ NGTCP2_MAX_NUM_BUFFED_RX_PPKTS →
      (conn_buffer_protected_pkt NGTCP2_MAX_NUM_BUFFED_RX_PPKTS conn pkt
        ts).2.buffed_rx_ppkts.length ≤ NGTCP2_MAX_NUM_BUFFED_RX_PPKTS) ∧
    (conn.buffed_rx_ppkts.length < NGTCP2_MAX_NUM_BUFFED_RX_PPKTS →
      (ngtcp2_mem_malloc conn.mem).1 = true →
      (conn_buffer_protected_pkt NGTCP2_MAX_NUM_BUFFED_RX_PPKTS conn pkt ts).1 = 0 ∧
      (conn_buffer_protected_pkt NGTCP2_MAX_NUM_BUFFED_RX_PPKTS conn pkt ts).2.buffed_rx_ppkts =
        conn.buffed_rx_ppkts ++ [{ pkt := pkt, ts := ts }]) ∧
    (conn.buffed_rx_ppkts.length < NGTCP2_MAX_NUM_BUFFED_RX_PPKTS →
      (ngtcp2_mem_malloc conn.mem).1 = false →
      (conn_buffer_protected_pkt NGTCP2_MAX_NUM_BUFFED_RX_PPKTS conn pkt ts).1 =
        NGTCP2_ERR_NOMEM ∧
      (conn_buffer_protected_pkt NGTCP2_MAX_NUM_BUFFED_RX_PPKTS conn pkt ts).2.buffed_rx_ppkts =
        conn.buffed_rx_ppkts) ∧
    (NGTCP2_MAX_NUM_BUFFED_RX_PPKTS ≤ conn.buffed_rx_ppkts.length →
      conn_buffer_protected_pkt NGTCP2_MAX_NUM_BUFFED_RX_PPKTS conn pkt ts = (0, conn)) := by
  have hw := buffer_protected_pkt_walk_eq NGTCP2_MAX_NUM_BUFFED_RX_PPKTS conn.buffed_rx_ppkts 0
    (Nat.zero_le _)
  unfold conn_buffer_protected_pkt
  rw [hw]
  simp only []
  refine ⟨fun h => ?_, fun h hm => ?_, fun h hm => ?_, fun h => ?_⟩
  · split_ifs
    · exact h
    · exact h
    · simp only [List.length_append, List.length_singleton]
      omega
  · rw [if_neg (by omega), hm]
    exact ⟨rfl, rfl⟩
  · rw [if_neg (by omega), hm]
    exact ⟨rfl, rfl⟩
  · rw [if_pos (by omega)]

/-- Claim C27, witness: with a cap of one packet, the first packet is buffered and
the second is dropped. -/
theorem C27_buffered_pkts_cap_witness :
    example_server.buffed_rx_ppkts.length < 1 ∧
    (conn_buffer_protected_pkt 1 example_server [7] 5).2.buffed_rx_ppkts =
      example_server.buffed_rx_ppkts ++ [{ pkt := [7], ts := 5 }] ∧
    conn_buffer_protected_pkt 1 (conn_buffer_protected_pkt 1 example_server [7] 5).2 [8] 6 =
      (0, (conn_buffer_protected_pkt 1 example_server [7] 5).2) :=
  ⟨by decide,
   ((C27_buffered_pkts_cap 1 example_server [7] 5).2.1 (by decide) rfl).2,
   (C27_buffered_pkts_cap 1 (conn_buffer_protected_pkt 1 example_server [7] 5).2 [8] 6).2.2.2
     (by decide)⟩

/-! ## Claims on retransmission -/

/-- Claim C28, counterexample: the limit of stream ids announced is 3
(`local_settings.max_stream_id`), and the MAX_STREAM_ID frame with the value 3
is dropped all the same, because `max_remote_stream_id` has grown to 5. -/
theorem C28_counterexample :
    ¬ (3 < example_server_stream_id_pending.local_settings.max_stream_id) ∧
    (conn_retransmit_protected example_wire example_server_stream_id_pending 1200
      example_entry_max_stream_id 100).2.2.1.frc = [ngtcp2_frame.other 10] ∧
    (conn_retransmit_protected example_wire example_server_stream_id_pending 1200
      example_entry_max_stream_id 100).2.2.2 =
      some { hd := { flags := NGTCP2_PKT_FLAG_CONN_ID, type := NGTCP2_PKT_03, pkt_num := 7 }
             frames := [ngtcp2_frame.other 10] } := by
  decide

/-- Claim C28, amended: `conn_retransmit_protected` drops a MAX_STREAM_ID frame
exactly when its value is below `max_remote_stream_id`, a MAX_DATA frame
exactly when its value is below `max_rx_offset_high`, a MAX_STREAM_DATA frame
exactly when its stream is not in the map or its value is below the
`max_rx_offset` of the stream, and no other frame; and when no allocation
fails, either the call returns an error before its loop and leaves the entry
and the retransmission buffer as they are, or the frames `visited` that the
loop has passed are dropped when they are stale and kept in order otherwise,
in the new entry or in the entry, and the frames `rest` that the loop has
not passed, of which the first is not stale, are kept in order. -/
theorem C28_stale_frames_dropped (W : ngtcp2_wire) (conn : ngtcp2_conn) (destlen : Nat)
    (ent : ngtcp2_rtb_entry) (ts : Nat) (hmem : conn.mem = []) :
    (∀ n, conn_retransmit_protected_stale conn (ngtcp2_frame.max_stream_id n) = true ↔
      n < conn.max_remote_stream_id) ∧
    (∀ m, conn_retransmit_protected_stale conn (ngtcp2_frame.max_data m) = true ↔
      m.max_data < conn.max_rx_offset_high) ∧
    (∀ m, conn_retransmit_protected_stale conn (ngtcp2_frame.max_stream_data m) = true ↔
      ngtcp2_conn_find_stream conn m.stream_id = none ∨
      ∃ strm, ngtcp2_conn_find_stream conn m.stream_id = some strm ∧
        m.max_stream_data < strm.max_rx_offset) ∧
    (∀ s, conn_retransmit_protected_stale conn (ngtcp2_frame.stream s) = false) ∧
    (∀ a, conn_retransmit_protected_stale conn (ngtcp2_frame.ack a) = false) ∧
    (∀ n, conn_retransmit_protected_stale conn (ngtcp2_frame.padding n) = false) ∧
    (∀ t, conn_retransmit_protected_stale conn (ngtcp2_frame.other t) = false) ∧
    (((conn_retransmit_protected W conn destlen ent ts).1 < 0 ∧
        (conn_retransmit_protected W conn destlen ent ts).2.2.1 = ent ∧
        (conn_retransmit_protected W conn destlen ent ts).2.1.rtb = conn.rtb) ∨
      ∃ visited rest, ent.frc = visited ++ rest ∧
        (∀ f, rest.head? = some f → conn_retransmit_protected_stale conn f = false) ∧
        rtb_new_frames conn.rtb (conn_retransmit_protected W conn destlen ent ts).2.1.rtb ++
            (conn_retransmit_protected W conn destlen ent ts).2.2.1.frc =
          visited.filter (fun f => !conn_retransmit_protected_stale conn f) ++ rest) := by
  refine ⟨fun n => by simp [conn_retransmit_protected_stale],
    fun m => by simp [conn_retransmit_protected_stale], fun m => ?_, fun _ => rfl, fun _ => rfl,
    fun _ => rfl, fun _ => rfl, ?_⟩
  · unfold conn_retransmit_protected_stale
    cases hfind : ngtcp2_conn_find_stream conn m.stream_id with
    | none => simp [hfind]
    | some strm => simp [hfind]
  · rcases pe_encode_hd_cases W (ngtcp2_ppe_init conn destlen)
      { ent.hd with pkt_num := conn.next_tx_pkt_num } with ⟨_, he⟩ | ⟨_, he⟩
    · obtain ⟨ha1, ⟨acktr, nae, ha2⟩, ha3, _, ha5⟩ := retransmit_protected_ack_inv W conn
        { ent.hd with pkt_num := conn.next_tx_pkt_num }
        (ngtcp2_pe_encode_hd W (ngtcp2_ppe_init conn destlen)
          { ent.hd with pkt_num := conn.next_tx_pkt_num }).2 ts
      refine retransmit_protected_kept_aux W conn ent ts
        { ent.hd with pkt_num := conn.next_tx_pkt_num } _ ha1 (by rw [ha2]) (by rw [ha2, hmem])
        (by rw [ha2]; exact retransmit_protected_stale_ack conn acktr nae) ha3 ha5 _ ?_
      unfold conn_retransmit_protected
      simp only []
      rw [if_neg (by rw [he]; simp)]
    · left
      unfold conn_retransmit_protected
      simp only []
      rw [he, if_pos (by simp [NGTCP2_ERR_NOBUF])]
      exact ⟨nobuf_neg, rfl, rfl⟩

/-- Claim C28, witness: on the example, the stale MAX_STREAM_ID frame is dropped
and the other frame is kept. -/
theorem C28_stale_frames_dropped_witness :
    example_server_stream_id_pending.mem = [] ∧
    (conn_retransmit_protected_stale example_server_stream_id_pending
      (ngtcp2_frame.max_stream_id 3) = true ↔
      3 < example_server_stream_id_pending.max_remote_stream_id) :=
  ⟨rfl, (C28_stale_frames_dropped example_wire example_server_stream_id_pending 1200
    example_entry_max_stream_id 100 rfl).1 3⟩

/-- Claim C29: when the soonest entry of the retransmission buffer has expired, no
allocation and no callback fails, no ACK frame is due, the frames `visited` of
its chain are passed, the `k ≥ 1` of them that are not stale fit after the
header, and the next frame is not stale and does not fit, `conn_retransmit`
writes a packet with those `k` frames under the next packet number, the
retransmission buffer gets a new entry with that packet number, the expiry
`ts + NGTCP2_INITIAL_EXPIRY` and exactly those frames in order, the entry
itself is back with exactly the frames from the next frame on, and the packet
number moves on by one. -/
theorem C29_retransmit_in_part (W : ngtcp2_wire) (conn : ngtcp2_conn) (destlen ts : Nat)
    (ent : ngtcp2_rtb_entry) (visited : List ngtcp2_frame) (fr : ngtcp2_frame)
    (tail : List ngtcp2_frame) (htop : ngtcp2_rtb_top conn.rtb = some ent)
    (hexp : ent.expiry ≤ ts) (hsup : conn_retransmit_supported ent = true)
    (hmem : conn.mem = [])
    (hp : ∀ hd, conn_call_send_pkt conn hd = 0)
    (hf : ∀ hd f, conn_call_send_frame conn hd f = 0)
    (henc : ∀ hd frs, conn.encrypt hd frs = 0)
    (hack : ent.flags &&& NGTCP2_PKT_FLAG_LONG_FORM = 0 →
      conn.next_ack_expiry = 0 ∨ ts < conn.next_ack_expiry)
    (hchain : ent.frc = visited ++ fr :: tail)
    (hk : visited.filter (fun f => !retransmit_stale conn ent f) ≠ [])
    (hfr : retransmit_stale conn ent fr = false)
    (hhd : 0 < W.hdlen (retransmit_hd conn ent))
    (hfit : W.hdlen (retransmit_hd conn ent) +
      frames_len W (visited.filter (fun f => !retransmit_stale conn ent f)) +
      retransmit_overhead W conn ent ≤ destlen)
    (hno : destlen < W.hdlen (retransmit_hd conn ent) +
      frames_len W (visited.filter (fun f => !retransmit_stale conn ent f)) + W.framelen fr +
      retransmit_overhead W conn ent) :
    ∃ conn1, conn_retransmit W conn destlen ts =
        some (((W.hdlen (retransmit_hd conn ent) +
            frames_len W (visited.filter (fun f => !retransmit_stale conn ent f)) +
            retransmit_overhead W conn ent : Nat) : Int), conn1,
          some { hd := retransmit_hd conn ent
                 frames := visited.filter (fun f => !retransmit_stale conn ent f) }) ∧
      conn1.rtb.ents = conn.rtb.ents.erase ent ++
        [{ pkt_num := conn.next_tx_pkt_num
           expiry := (ts + W.NGTCP2_INITIAL_EXPIRY) % 2 ^ 64
           flags := ent.flags
           type := ent.type
           frc := visited.filter (fun f => !retransmit_stale conn ent f) },
         { ent with frc := fr :: tail }] ∧
      conn1.next_tx_pkt_num = (conn.next_tx_pkt_num + 1) % 2 ^ 64 := by
  have hst : (fun f => !retransmit_stale
      { conn with rtb := { ents := conn.rtb.ents.erase ent } } ent f) =
      fun f => !retransmit_stale conn ent f := by
    funext f
    rw [retransmit_stale_rtb]
  have he : conn_retransmit_entry W { conn with rtb := { ents := conn.rtb.ents.erase ent } }
      destlen ent ts =
      (((W.hdlen (retransmit_hd conn ent) +
          frames_len W (visited.filter (fun f => !retransmit_stale conn ent f)) +
          retransmit_overhead W conn ent : Nat) : Int),
        { conn with
          rtb := { ents := conn.rtb.ents.erase ent ++
            [{ pkt_num := conn.next_tx_pkt_num
               expiry := (ts + W.NGTCP2_INITIAL_EXPIRY) % 2 ^ 64
               flags := ent.flags
               type := ent.type
               frc := visited.filter (fun f => !retransmit_stale conn ent f) }] }
          mem := []
          next_tx_pkt_num := (conn.next_tx_pkt_num + 1) % 2 ^ 64 },
        { ent with frc := fr :: tail },
        some { hd := retransmit_hd conn ent
               frames := visited.filter (fun f => !retransmit_stale conn ent f) }) := by
    have h := retransmit_entry_part W
      { conn with rtb := { ents := conn.rtb.ents.erase ent } }
      destlen ts ent visited fr tail hmem hp hf henc hack hchain (by rw [hst]; exact hk)
      ((retransmit_stale_rtb conn _ ent fr).trans hfr) (by rw [hst]; exact hfit)
      (by rw [hst]; exact hno)
    rw [hst] at h
    exact h
  have hpos : (0 : Int) < ((W.hdlen (retransmit_hd conn ent) +
      frames_len W (visited.filter (fun f => !retransmit_stale conn ent f)) +
      retransmit_overhead W conn ent : Nat) : Int) := by
    omega
  rw [retransmit_first_round W conn destlen ts ent htop hexp hsup
    (by rw [he]; exact ne_of_gt hpos), he, retransmit_done_sent _ _ _ _ hpos rfl]
  refine ⟨_, rfl, ?_, rfl⟩
  simp

/-- Claim C29, witness: the entry with frames of 900, 901 and 902 bytes and a
buffer of 1200 bytes: the new entry holds the first frame and the entry keeps
the other two. -/
theorem C29_retransmit_in_part_witness :
    ngtcp2_rtb_top example_server_lost900.rtb = some example_entry900 ∧
    ∃ conn1, conn_retransmit example_wire example_server_lost900 1200 100 =
        some (929, conn1,
          some { hd := { flags := NGTCP2_PKT_FLAG_CONN_ID, type := NGTCP2_PKT_03, pkt_num := 7 }
                 frames := [ngtcp2_frame.other 900] }) ∧
      conn1.rtb.ents =
        [{ pkt_num := 7, expiry := 1100, flags := NGTCP2_PKT_FLAG_CONN_ID, type := NGTCP2_PKT_03
           frc := [ngtcp2_frame.other 900] },
         { example_entry900 with frc := [ngtcp2_frame.other 901, ngtcp2_frame.other 902] }] ∧
      conn1.next_tx_pkt_num = 8 := by
  obtain ⟨conn1, h1, h2, h3⟩ := C29_retransmit_in_part example_wire example_server_lost900
    1200 100 example_entry900 [ngtcp2_frame.other 900] (ngtcp2_frame.other 901)
    [ngtcp2_frame.other 902] rfl (by decide) rfl rfl (fun _ => rfl) (fun _ _ => rfl)
    (fun _ _ => rfl) (fun _ => Or.inl rfl) rfl (by decide) rfl (by decide) (by decide)
    (by decide)
  exact ⟨rfl, conn1, h1, h2, h3⟩

/-- Claim C30: when the soonest entry of the retransmission buffer has expired, the
header of its packet fits, no ACK frame is due, and the first frame of its
chain that is not stale does not fit, `conn_retransmit` returns
`NGTCP2_ERR_NOBUF`, the entry is back in the buffer with its header, its
expiry and its chain from that frame on, and `next_tx_pkt_num` is unchanged;
when no stale frame comes first, the entry is back as it was. -/
theorem C30_retransmit_nobuf (W : ngtcp2_wire) (conn : ngtcp2_conn) (destlen ts : Nat)
    (ent : ngtcp2_rtb_entry) (pre : List ngtcp2_frame) (fr : ngtcp2_frame)
    (tail : List ngtcp2_frame) (htop : ngtcp2_rtb_top conn.rtb = some ent)
    (hexp : ent.expiry ≤ ts) (hsup : conn_retransmit_supported ent = true)
    (halloc : (ngtcp2_mem_malloc conn.mem).1 = true)
    (hack : ent.flags &&& NGTCP2_PKT_FLAG_LONG_FORM = 0 →
      conn.next_ack_expiry = 0 ∨ ts < conn.next_ack_expiry)
    (hchain : ent.frc = pre ++ fr :: tail)
    (hpre : ∀ f ∈ pre, retransmit_stale conn ent f = true)
    (hfr : retransmit_stale conn ent fr = false)
    (hhd : W.hdlen (retransmit_hd conn ent) + retransmit_overhead W conn ent ≤ destlen)
    (hno : destlen <
      W.hdlen (retransmit_hd conn ent) + W.framelen fr + retransmit_overhead W conn ent) :
    ∃ conn1, conn_retransmit W conn destlen ts = some (NGTCP2_ERR_NOBUF, conn1, none) ∧
      conn1.rtb.ents = conn.rtb.ents.erase ent ++ [{ ent with frc := fr :: tail }] ∧
      conn1.next_tx_pkt_num = conn.next_tx_pkt_num ∧
      (pre = [] → ({ ent with frc := fr :: tail } : ngtcp2_rtb_entry) = ent) := by
  have he := retransmit_entry_nobuf W { conn with rtb := { ents := conn.rtb.ents.erase ent } }
    destlen ts ent pre fr tail hack hchain
    (fun f hf => (retransmit_stale_rtb conn _ ent f).trans (hpre f hf))
    ((retransmit_stale_rtb conn _ ent fr).trans hfr) hhd hno
  rw [retransmit_first_round W conn destlen ts ent htop hexp hsup
    (by rw [he]; exact (by decide : NGTCP2_ERR_NOBUF ≠ 0)), he,
    retransmit_done_nobuf { conn with rtb := { ents := conn.rtb.ents.erase ent } } _ halloc]
  refine ⟨_, rfl, rfl, rfl, fun hp => ?_⟩
  rw [hp, List.nil_append] at hchain
  rw [← hchain]

/-- Claim C30, witness: the entry with frames of 900, 901 and 902 bytes and a
buffer of 900 bytes: the first frame does not fit after the header. -/
theorem C30_retransmit_nobuf_witness :
    ngtcp2_rtb_top example_server_lost900.rtb = some example_entry900 ∧
    ∃ conn1, conn_retransmit example_wire example_server_lost900 900 100 =
        some (NGTCP2_ERR_NOBUF, conn1, none) ∧
      conn1.rtb.ents = [example_entry900] ∧ conn1.next_tx_pkt_num = 7 := by
  obtain ⟨conn1, h1, h2, h3, h4⟩ := C30_retransmit_nobuf example_wire example_server_lost900
    900 100 example_entry900 [] (ngtcp2_frame.other 900)
    [ngtcp2_frame.other 901, ngtcp2_frame.other 902] rfl (by decide) rfl rfl
    (fun _ => Or.inl rfl) rfl (fun f hf => absurd hf (List.not_mem_nil _)) rfl (by decide)
    (by decide)
  refine ⟨rfl, conn1, h1, ?_, h3⟩
  rw [h2, h4 rfl]
  rfl

/-! ## Claims on the frames of a packet sent -/

/-- Claim C31: in the loop of `conn_send_pkt`, for a STREAM frame at the head of
the queue that is longer than the room left after `NGTCP2_STREAM_OVERHEAD`:
when that room is at least 1024 bytes (and the allocation succeeds, and the
frame ends within 64 bits), the frame is replaced by a head of exactly that
many bytes at the offset of the frame, followed by a tail that starts where
the head ends and holds the other bytes, both with the stream id of the
frame, and the loop goes on to encode the head; when the room is below 1024
bytes the loop is left and the queue is as it was. -/
theorem C31_stream_split (W : ngtcp2_wire) (conn : ngtcp2_conn) (hd : ngtcp2_pkt_hd)
    (fuel : Nat) (st : pkt_loop_state) (s : ngtcp2_stream) (frq : List ngtcp2_frame)
    (hlt : ngtcp2_pe_left st.pe - W.NGTCP2_STREAM_OVERHEAD < s.datalen) :
    (1024 ≤ ngtcp2_pe_left st.pe - W.NGTCP2_STREAM_OVERHEAD →
      (ngtcp2_mem_malloc st.mem).1 = true → s.offset + s.datalen ≤ UINT64_MAX →
      ∃ head tail st1,
        conn_send_pkt_split W st (ngtcp2_frame.stream s) =
          (st1, loop_ctl.next, ngtcp2_frame.stream head, some (ngtcp2_frame.stream tail)) ∧
        head.stream_id = s.stream_id ∧ tail.stream_id = s.stream_id ∧
        head.offset = s.offset ∧
        head.datalen = ngtcp2_pe_left st.pe - W.NGTCP2_STREAM_OVERHEAD ∧
        tail.offset = head.offset + head.datalen ∧
        tail.datalen = s.datalen - head.datalen ∧
        head.data ++ tail.data = s.data ∧
        conn_send_pkt_loop W conn hd (fuel + 1) (ngtcp2_frame.stream s :: frq) st =
          if (conn_send_pkt_encode W conn hd st1 (ngtcp2_frame.stream head)).2 ≠ loop_ctl.next
          then
            some ((conn_send_pkt_encode W conn hd st1 (ngtcp2_frame.stream head)).1,
              ngtcp2_frame.stream head :: ngtcp2_frame.stream tail :: frq,
              (conn_send_pkt_encode W conn hd st1 (ngtcp2_frame.stream head)).2)
          else
            conn_send_pkt_loop W conn hd fuel (ngtcp2_frame.stream tail :: frq)
              (conn_send_pkt_encode W conn hd st1 (ngtcp2_frame.stream head)).1) ∧
    (ngtcp2_pe_left st.pe - W.NGTCP2_STREAM_OVERHEAD < 1024 →
      conn_send_pkt_loop W conn hd (fuel + 1) (ngtcp2_frame.stream s :: frq) st =
        some (st, ngtcp2_frame.stream s :: frq, loop_ctl.brk)) := by
  refine ⟨fun hge hmem hoff => ?_, fun hsm => ?_⟩
  · have hsp := send_pkt_split_at W st s hmem hlt hge
    have hlen : (s.data.take (ngtcp2_pe_left st.pe - W.NGTCP2_STREAM_OVERHEAD)).length =
        ngtcp2_pe_left st.pe - W.NGTCP2_STREAM_OVERHEAD := by
      rw [List.length_take]
      exact Nat.min_eq_left (le_of_lt hlt)
    refine ⟨_, _, _, hsp, rfl, rfl, rfl, hlen, ?_, ?_, List.take_append_drop _ _, ?_⟩
    · show (s.offset + (ngtcp2_pe_left st.pe - W.NGTCP2_STREAM_OVERHEAD)) % 2 ^ 64 =
        s.offset + (s.data.take (ngtcp2_pe_left st.pe - W.NGTCP2_STREAM_OVERHEAD)).length
      rw [hlen]
      unfold UINT64_MAX at hoff
      omega
    · show (s.data.drop (ngtcp2_pe_left st.pe - W.NGTCP2_STREAM_OVERHEAD)).length =
        s.data.length - (s.data.take (ngtcp2_pe_left st.pe - W.NGTCP2_STREAM_OVERHEAD)).length
      rw [hlen, List.length_drop]
    · rw [conn_send_pkt_loop]
      simp only []
      rw [hsp]
      simp only [ne_eq, not_true_eq_false, if_false]
  · rw [conn_send_pkt_loop]
    simp only []
    rw [send_pkt_split_short W st s hlt hsm]
    simp

/-- Claim C31, witness: a frame of 1100 bytes and room for 1024 bytes after the
overhead: the head holds 1024 bytes at offset 0 and the tail 76 bytes at
offset 1024. -/
theorem C31_stream_split_witness :
    ∃ head tail st1,
      conn_send_pkt_split example_wire
          { rv := 0, mem := [], pe := { destlen := 1068, overhead := 16, len := 13, frames := [] },
            pkt_empty := true, send_pkt_cb_called := false, sent := [] }
          (ngtcp2_frame.stream example_fin_frame1100) =
        (st1, loop_ctl.next, ngtcp2_frame.stream head, some (ngtcp2_frame.stream tail)) ∧
      head.offset = 0 ∧ head.datalen = 1024 ∧ tail.offset = 1024 ∧ tail.datalen = 76 := by
  have hdl : example_fin_frame1100.datalen = 1100 := List.length_replicate 1100 7
  have hroom : ngtcp2_pe_left
      ({ rv := 0, mem := [], pe := { destlen := 1068, overhead := 16, len := 13, frames := [] },
         pkt_empty := true, send_pkt_cb_called := false, sent := [] } : pkt_loop_state).pe -
      example_wire.NGTCP2_STREAM_OVERHEAD = 1024 := rfl
  obtain ⟨head, tail, st1, h1, -, -, h4, h5, h6, h7, -, -⟩ :=
    (C31_stream_split example_wire example_server
      { flags := NGTCP2_PKT_FLAG_CONN_ID, type := NGTCP2_PKT_03, pkt_num := 0 } 0
      { rv := 0, mem := [], pe := { destlen := 1068, overhead := 16, len := 13, frames := [] },
        pkt_empty := true, send_pkt_cb_called := false, sent := [] }
      example_fin_frame1100 [] (by rw [hroom, hdl]; decide)).1
      (by rw [hroom]) rfl (by rw [hdl]; decide)
  have h0 : example_fin_frame1100.offset = 0 := rfl
  rw [hroom] at h5
  rw [h4, h5, h0] at h6
  rw [hdl, h5] at h7
  exact ⟨head, tail, st1, h1, h4.trans h0, h5, h6, h7⟩

/-- Claim C33: the entry with frames of 900, 901 and 902 bytes is sent again into
a buffer of 900 bytes while an ACK frame is due: the ACK frame is written and
the first frame of the entry does not fit. The packet number 7 holds the ACK
frame alone, but the new entry for the packet number 7 holds the three frames
of the entry, none of which was written, and the entry itself is left without
frames. -/
theorem C33_unsent_frames_in_new_entry :
    (conn_retransmit example_wire example_server_lost900_ack_due 900 150).map
        (fun r => (r.1, r.2.2, r.2.1.rtb.ents)) =
      some (40,
        some { hd := { flags := NGTCP2_PKT_FLAG_CONN_ID, type := NGTCP2_PKT_03, pkt_num := 7 }
               frames := [ngtcp2_frame.ack
                 { type := NGTCP2_FRAME_ACK, largest_ack := 12, ack_delay := 50,
                   first_ack_blklen := 1, num_ts := 0, blks := [] }] },
        [{ pkt_num := 7, expiry := 1150, flags := NGTCP2_PKT_FLAG_CONN_ID, type := NGTCP2_PKT_03
           frc := [ngtcp2_frame.other 900, ngtcp2_frame.other 901, ngtcp2_frame.other 902] },
         { example_entry900 with frc := [] }]) := by
  decide

/-- Claim C35: stream 1 has credit for two bytes, and three bytes are offered
with `fin`: the STREAM frame carries the first two bytes without fin, two
bytes are consumed, and the stream is marked `NGTCP2_STRM_FLAG_SHUT_WR` all
the same. -/
theorem C35_shut_wr_without_fin :
    (ngtcp2_conn_write_stream example_wire example_server_strm1_credit2 1200 1 true [1, 2, 3]
        100).2.2 =
      (some 2,
       some { hd := { flags := NGTCP2_PKT_FLAG_CONN_ID, type := NGTCP2_PKT_03, pkt_num := 0 }
              frames := [ngtcp2_frame.stream
                { stream_id := 1, fin := false, offset := 0, data := [1, 2] }] }) ∧
    ((ngtcp2_conn_write_stream example_wire example_server_strm1_credit2 1200 1 true [1, 2, 3]
        100).2.1.strms 1).map (fun s => (s.flags, s.tx_offset, s.max_tx_offset)) =
      some (NGTCP2_STRM_FLAG_SHUT_WR, 2, 2) := by
  refine ⟨by decide, by decide⟩

/-- Claim C36: for a connection whose send offset is within its credit,
`tx_offset_high * 1024 + tx_offset_low ≤ max_tx_offset_high * 1024` with
`tx_offset_low ≤ 1023`, the same holds after every call of
`ngtcp2_conn_write_stream`, whatever its result; the credit is left as it is,
and the length stored through `pdatalen` is the number of bytes by which the
send offset has moved and is at most the credit that was left,
`(max_tx_offset_high - tx_offset_high) * 1024 - tx_offset_low`. -/
theorem C36_send_window (W : ngtcp2_wire) (conn : ngtcp2_conn) (destlen stream_id : Nat)
    (fin : Bool) (data : List Nat) (ts : Nat)
    (hinv : conn.tx_offset_high * 1024 + conn.tx_offset_low ≤ conn.max_tx_offset_high * 1024)
    (hlow : conn.tx_offset_low ≤ 1023) (hmax : conn.max_tx_offset_high ≤ UINT64_MAX)
    (hlen : data.length + 1023 ≤ UINT64_MAX) :
    (ngtcp2_conn_write_stream W conn destlen stream_id fin data ts).2.1.tx_offset_high * 1024 +
        (ngtcp2_conn_write_stream W conn destlen stream_id fin data ts).2.1.tx_offset_low ≤
      (ngtcp2_conn_write_stream W conn destlen stream_id fin data ts).2.1.max_tx_offset_high *
        1024 ∧
    (ngtcp2_conn_write_stream W conn destlen stream_id fin data ts).2.1.tx_offset_low ≤ 1023 ∧
    (ngtcp2_conn_write_stream W conn destlen stream_id fin data ts).2.1.max_tx_offset_high =
      conn.max_tx_offset_high ∧
    ∀ n, (ngtcp2_conn_write_stream W conn destlen stream_id fin data ts).2.2.1 = some n →
      n ≤ (conn.max_tx_offset_high - conn.tx_offset_high) * 1024 - conn.tx_offset_low ∧
      (ngtcp2_conn_write_stream W conn destlen stream_id fin data ts).2.1.tx_offset_high * 1024 +
          (ngtcp2_conn_write_stream W conn destlen stream_id fin data ts).2.1.tx_offset_low =
        conn.tx_offset_high * 1024 + conn.tx_offset_low + n := by
  unfold ngtcp2_conn_write_stream
  cases ngtcp2_conn_find_stream conn stream_id with
  | none => exact ⟨hinv, hlow, rfl, fun n h => absurd h (by simp)⟩
  | some strm =>
    simp only []
    split_ifs with h1 h2 h3
    · exact ⟨hinv, hlow, rfl, fun n h => absurd h (by simp)⟩
    · exact ⟨hinv, hlow, rfl, fun n h => absurd h (by simp)⟩
    · exact ⟨hinv, hlow, rfl, fun n h => absurd h (by simp)⟩
    · have hcr := write_stream_ndatalen_credit conn strm data.length
        (ngtcp2_pe_left (ngtcp2_pe_encode_hd W (ngtcp2_ppe_init conn destlen)
          (ngtcp2_pkt_hd_init NGTCP2_PKT_FLAG_CONN_ID NGTCP2_PKT_03 conn.next_tx_pkt_num)).2 -
          W.NGTCP2_STREAM_OVERHEAD) hinv hmax hlen hlow
      have hnd := (write_stream_ndatalen_le conn strm data.length
        (ngtcp2_pe_left (ngtcp2_pe_encode_hd W (ngtcp2_ppe_init conn destlen)
          (ngtcp2_pkt_hd_init NGTCP2_PKT_FLAG_CONN_ID NGTCP2_PKT_03 conn.next_tx_pkt_num)).2 -
          W.NGTCP2_STREAM_OVERHEAD)).1
      generalize conn_write_stream_ndatalen conn strm data.length
        (ngtcp2_pe_left (ngtcp2_pe_encode_hd W (ngtcp2_ppe_init conn destlen)
          (ngtcp2_pkt_hd_init NGTCP2_PKT_FLAG_CONN_ID NGTCP2_PKT_03 conn.next_tx_pkt_num)).2 -
          W.NGTCP2_STREAM_OVERHEAD) = nd at hcr hnd ⊢
      have hth : conn.tx_offset_high ≤ UINT64_MAX := by
        unfold UINT64_MAX at hmax ⊢
        omega
      have hdec := increment_offset_decode conn.tx_offset_high conn.tx_offset_low nd hth hlow
        (by unfold UINT64_MAX at hlen ⊢; omega)
      have hwf := (increment_offset_wellformed conn.tx_offset_high conn.tx_offset_low nd hth hlow
        (by unfold UINT64_MAX at hlen ⊢; omega)).1
      unfold decode_offset at hdec
      obtain ⟨w1, w2⟩ := write_stream_pkt_window W conn
        (ngtcp2_pkt_hd_init NGTCP2_PKT_FLAG_CONN_ID NGTCP2_PKT_03 conn.next_tx_pkt_num)
        (ngtcp2_pe_encode_hd W (ngtcp2_ppe_init conn destlen)
          (ngtcp2_pkt_hd_init NGTCP2_PKT_FLAG_CONN_ID NGTCP2_PKT_03 conn.next_tx_pkt_num)).2
        strm stream_id fin data nd ts _ rfl
      rw [w1]
      rcases w2 with ⟨w3, w4, w5⟩ | ⟨w3, w4, w5⟩
      · rw [w4, w5]
        exact ⟨hinv, hlow, rfl, fun n h => absurd (w3.symm.trans h) (by simp)⟩
      · rw [w4, w5]
        unfold UINT64_MAX at hdec hmax
        refine ⟨by omega, hwf, rfl, fun n h => ?_⟩
        have hn : nd = n := Option.some.inj (w3.symm.trans h)
        subst hn
        refine ⟨?_, by omega⟩
        have : conn.tx_offset_high * 1024 ≤ conn.max_tx_offset_high * 1024 := by omega
        rw [Nat.sub_mul]
        omega

/-- Claim C36, witness: three bytes written on stream 1 of the example server move
the send offset of the connection from 0 to 3, within the credit of 64 KiB. -/
theorem C36_send_window_witness :
    example_server_strm1.tx_offset_high * 1024 + example_server_strm1.tx_offset_low ≤
      example_server_strm1.max_tx_offset_high * 1024 ∧
    (ngtcp2_conn_write_stream example_wire example_server_strm1 1200 1 false [1, 2, 3]
      100).2.2.1 = some 3 ∧
    (ngtcp2_conn_write_stream example_wire example_server_strm1 1200 1 false [1, 2, 3]
        100).2.1.tx_offset_high * 1024 +
      (ngtcp2_conn_write_stream example_wire example_server_strm1 1200 1 false [1, 2, 3]
        100).2.1.tx_offset_low = 3 := by
  have h := C36_send_window example_wire example_server_strm1 1200 1 false [1, 2, 3] 100
    (by decide) (by decide) (by decide) (by decide)
  have h3 : (ngtcp2_conn_write_stream example_wire example_server_strm1 1200 1 false [1, 2, 3]
      100).2.2.1 = some 3 := by decide
  exact ⟨by decide, h3, (h.2.2.2 3 h3).2⟩

/-- Claim C37: the tracker 12, 10 is emptied by the call, but the frame covers
the packet number 12 alone: the packet 10 leaves the tracker without being
acknowledged. For the tracker 1000, 999, 10 the run 1000, 999 is written as
the first block and then once more as a block with the gap 220, so that the
frame covers the packet numbers 778 and 777, which were not in the tracker. -/
theorem C37_ack_accounting :
    (example_server_acks [12, 10]).acktr.pkt_nums = [12, 10] ∧
    ack_covered (conn_create_ack_frame (example_server_acks [12, 10]) ack_frame_unset 150).2.2
      = [12] ∧
    (conn_create_ack_frame (example_server_acks [12, 10]) ack_frame_unset 150).2.1.acktr.pkt_nums
      = [] ∧
    (example_server_acks [1000, 999, 10]).acktr.pkt_nums = [1000, 999, 10] ∧
    (conn_create_ack_frame (example_server_acks [1000, 999, 10]) ack_frame_unset 150).2.2.blks
      = [{ gap := 220, blklen := 2 }] ∧
    ack_covered
        (conn_create_ack_frame (example_server_acks [1000, 999, 10]) ack_frame_unset 150).2.2
      = [1000, 999, 778, 777] := by
  refine ⟨by decide, by decide, by decide, by decide, by decide, by decide⟩

/-- Claim C38: the example server whose limit of remote stream ids has grown to 5
and a buffer of 33 bytes: the header of 13 bytes and the tag of 16 bytes fit,
the MAX_STREAM_ID frame of 5 bytes that `conn_send_pkt` has just queued does
not; the call returns 29, writes a packet without frames under the packet
number 7, leaves the frame in the queue and moves the packet number on to 8. -/
theorem C38_packet_without_frames :
    (conn_send_pkt example_wire example_server_stream_id_pending 33 100).map
        (fun r => (r.1, r.2.2, r.2.1.frq, r.2.1.next_tx_pkt_num)) =
      some (29,
        some { hd := { flags := NGTCP2_PKT_FLAG_CONN_ID, type := NGTCP2_PKT_03, pkt_num := 7 }
               frames := [] },
        [ngtcp2_frame.max_stream_id 5], 8) := by
  decide

/-! ## Claims on the datagrams received -/

/-- Claim C39: a payload of 68 bytes that offers the versions 1 to 17: the
callback is handed the array `sv` and the number 17, but the 17 versions
were decoded into the allocation `p`, and not one element of `sv` was
written. With 16 versions, in 64 bytes, the array holds them in order. A
payload of 66 bytes is refused with `NGTCP2_ERR_PROTO` and the callback is not
invoked. -/
theorem C39_versions_beyond_sixteen :
    (example_versions 17).length = 68 ∧
    example_codec.decode_version_negotiation (example_versions 17) 68 =
      [1, 2, 3, 4, 5, 6, 7, 8, 9, 10, 11, 12, 13, 14, 15, 16, 17] ∧
    (conn_on_version_negotiation example_codec example_client_versions
        example_hd_version_negotiation (example_versions 17) 68).1 = 0 ∧
    (conn_on_version_negotiation example_codec example_client_versions
        example_hd_version_negotiation (example_versions 17) 68).2.2 =
      some (List.replicate 16 none, 17) ∧
    (conn_on_version_negotiation example_codec example_client_versions
        example_hd_version_negotiation (example_versions 16) 64).2.2 =
      some ([1, 2, 3, 4, 5, 6, 7, 8, 9, 10, 11, 12, 13, 14, 15, 16].map some, 16) ∧
    (conn_on_version_negotiation example_codec example_client_versions
        example_hd_version_negotiation (example_versions 17) 66).1 = NGTCP2_ERR_PROTO ∧
    (conn_on_version_negotiation example_codec example_client_versions
        example_hd_version_negotiation (example_versions 17) 66).2.2 = none := by
  refine ⟨by decide, by decide, by decide, by decide, by decide, by decide, by decide⟩

/-- Claim C40, counterexample: the packet `example_pkt_max_data` is not empty and is
not subject to the check of a hash. The example client handles it in the state
`NGTCP2_CS_POST_HANDSHAKE`, where its MAX_DATA frame raises the limit to 100. In
the states `NGTCP2_CS_CLIENT_INITIAL` and
`NGTCP2_CS_CLIENT_HANDSHAKE_ALMOST_FINISHED` the result is 0 and the connection
is as before; so it is for a server in the handshake that holds as many
buffered packets as it may. -/
theorem C40_discarded_without_change :
    example_pkt_max_data ≠ [] ∧
    (conn_recv_verify example_codec example_pkt_max_data example_pkt_max_data.length).1 = 0 ∧
    (ngtcp2_conn_recv example_codec
        (example_client_in ngtcp2_conn_state.NGTCP2_CS_POST_HANDSHAKE) example_pkt_max_data
        100).map (fun r => (r.1, r.2.max_tx_offset_high, r.2.max_rx_pkt_num)) =
      some (0, 100, 1) ∧
    ngtcp2_conn_recv example_codec (example_client_in ngtcp2_conn_state.NGTCP2_CS_CLIENT_INITIAL)
      example_pkt_max_data 100 =
      some (0, example_client_in ngtcp2_conn_state.NGTCP2_CS_CLIENT_INITIAL) ∧
    ngtcp2_conn_recv example_codec
      (example_client_in ngtcp2_conn_state.NGTCP2_CS_CLIENT_HANDSHAKE_ALMOST_FINISHED)
      example_pkt_max_data 100 =
      some (0, example_client_in ngtcp2_conn_state.NGTCP2_CS_CLIENT_HANDSHAKE_ALMOST_FINISHED) ∧
    example_codec.NGTCP2_MAX_NUM_BUFFED_RX_PPKTS = 2 ∧
    ngtcp2_conn_recv example_codec
      (example_server_wait_handshake [example_pkt_max_data, example_pkt_max_data])
      example_pkt_max_data 100 =
      some (0, example_server_wait_handshake [example_pkt_max_data, example_pkt_max_data]) :=
  ⟨by decide, by decide, by decide, rfl, rfl, rfl, rfl⟩

/-- Claim C40, amended: for a datagram that is not empty and passes the check of its
hash, `ngtcp2_conn_recv` goes by the state. In `NGTCP2_CS_POST_HANDSHAKE` and
`NGTCP2_CS_CLOSE_WAIT` the datagram is handed to `conn_recv_pkt`. In
`NGTCP2_CS_CLIENT_WAIT_HANDSHAKE`, `NGTCP2_CS_SERVER_INITIAL` and
`NGTCP2_CS_SERVER_WAIT_HANDSHAKE` it is handed to `conn_recv_handshake_pkt`;
there a packet with a short header, while the handshake is not completed, is
given to `conn_buffer_protected_pkt`, which drops it with the result 0 and no
change when `NGTCP2_MAX_NUM_BUFFED_RX_PPKTS` packets are buffered. In
`NGTCP2_CS_CLIENT_INITIAL` and `NGTCP2_CS_CLIENT_HANDSHAKE_ALMOST_FINISHED` the
result is 0 and the connection is left as it is. -/
theorem C40_recv_by_state (R : ngtcp2_codec) (conn : ngtcp2_conn) (pkt : List Nat) (ts : Nat)
    (hne : pkt ≠ []) (hver : (conn_recv_verify R pkt pkt.length).1 = 0) :
    ((conn.state = ngtcp2_conn_state.NGTCP2_CS_POST_HANDSHAKE ∨
        conn.state = ngtcp2_conn_state.NGTCP2_CS_CLOSE_WAIT) →
      ngtcp2_conn_recv R conn pkt ts =
        conn_recv_pkt R conn pkt (conn_recv_verify R pkt pkt.length).2 ts) ∧
    (conn.state = ngtcp2_conn_state.NGTCP2_CS_CLIENT_WAIT_HANDSHAKE →
      ngtcp2_conn_recv R conn pkt ts =
        conn_recv_handshake R conn ngtcp2_conn_state.NGTCP2_CS_CLIENT_HANDSHAKE_ALMOST_FINISHED
          pkt (conn_recv_verify R pkt pkt.length).2 ts) ∧
    ((conn.state = ngtcp2_conn_state.NGTCP2_CS_SERVER_INITIAL ∨
        conn.state = ngtcp2_conn_state.NGTCP2_CS_SERVER_WAIT_HANDSHAKE) →
      ngtcp2_conn_recv R conn pkt ts =
        conn_recv_handshake R conn ngtcp2_conn_state.NGTCP2_CS_POST_HANDSHAKE pkt
          (conn_recv_verify R pkt pkt.length).2 ts) ∧
    ((conn.state = ngtcp2_conn_state.NGTCP2_CS_CLIENT_WAIT_HANDSHAKE ∨
        conn.state = ngtcp2_conn_state.NGTCP2_CS_SERVER_INITIAL ∨
        conn.state = ngtcp2_conn_state.NGTCP2_CS_SERVER_WAIT_HANDSHAKE) →
      pkt.headD 0 &&& NGTCP2_HEADER_FORM_BIT = 0 → conn.handshake_completed = false →
      ngtcp2_conn_recv R conn pkt ts =
        some (conn_buffer_protected_pkt R.NGTCP2_MAX_NUM_BUFFED_RX_PPKTS conn pkt ts) ∧
      (R.NGTCP2_MAX_NUM_BUFFED_RX_PPKTS ≤ conn.buffed_rx_ppkts.length →
        ngtcp2_conn_recv R conn pkt ts = some (0, conn))) ∧
    ((conn.state = ngtcp2_conn_state.NGTCP2_CS_CLIENT_INITIAL ∨
        conn.state = ngtcp2_conn_state.NGTCP2_CS_CLIENT_HANDSHAKE_ALMOST_FINISHED) →
      ngtcp2_conn_recv R conn pkt ts = some (0, conn)) := by
  have hlen : ¬ pkt.length = 0 := fun h => hne (List.length_eq_zero.mp h)
  have hpost : (conn.state = ngtcp2_conn_state.NGTCP2_CS_POST_HANDSHAKE ∨
        conn.state = ngtcp2_conn_state.NGTCP2_CS_CLOSE_WAIT) →
      ngtcp2_conn_recv R conn pkt ts =
        conn_recv_pkt R conn pkt (conn_recv_verify R pkt pkt.length).2 ts := by
    intro hs
    unfold ngtcp2_conn_recv
    rw [if_neg hlen, if_neg (not_not.mpr hver)]
    rcases hs with hs | hs
    all_goals rw [hs]
  have hnone : (conn.state = ngtcp2_conn_state.NGTCP2_CS_CLIENT_INITIAL ∨
        conn.state = ngtcp2_conn_state.NGTCP2_CS_CLIENT_HANDSHAKE_ALMOST_FINISHED) →
      ngtcp2_conn_recv R conn pkt ts = some (0, conn) := by
    intro hs
    unfold ngtcp2_conn_recv
    rw [if_neg hlen, if_neg (not_not.mpr hver)]
    rcases hs with hs | hs
    all_goals rw [hs]
  have hshort : ∀ next,
      (conn.state = ngtcp2_conn_state.NGTCP2_CS_CLIENT_WAIT_HANDSHAKE ∧
        next = ngtcp2_conn_state.NGTCP2_CS_CLIENT_HANDSHAKE_ALMOST_FINISHED) ∨
      ((conn.state = ngtcp2_conn_state.NGTCP2_CS_SERVER_INITIAL ∨
        conn.state = ngtcp2_conn_state.NGTCP2_CS_SERVER_WAIT_HANDSHAKE) ∧
        next = ngtcp2_conn_state.NGTCP2_CS_POST_HANDSHAKE) →
      pkt.headD 0 &&& NGTCP2_HEADER_FORM_BIT = 0 → conn.handshake_completed = false →
      ngtcp2_conn_recv R conn pkt ts =
        some (conn_buffer_protected_pkt R.NGTCP2_MAX_NUM_BUFFED_RX_PPKTS conn pkt ts) := by
    intro next hst hsh hflag
    rw [recv_in_handshake_state R conn next pkt ts hst hne hver, recv_verify_short R pkt _ hsh]
    exact recv_handshake_short R conn next pkt ts hsh hflag
  refine ⟨hpost,
    fun hs => recv_in_handshake_state R conn _ pkt ts (Or.inl ⟨hs, rfl⟩) hne hver,
    fun hs => recv_in_handshake_state R conn _ pkt ts (Or.inr ⟨hs, rfl⟩) hne hver,
    fun hs hsh hflag => ?_, hnone⟩
  have hb : ngtcp2_conn_recv R conn pkt ts =
      some (conn_buffer_protected_pkt R.NGTCP2_MAX_NUM_BUFFED_RX_PPKTS conn pkt ts) := by
    rcases hs with hs | hs
    · exact hshort _ (Or.inl ⟨hs, rfl⟩) hsh hflag
    · exact hshort _ (Or.inr ⟨hs, rfl⟩) hsh hflag
  refine ⟨hb, fun hcap => ?_⟩
  rw [hb, buffer_protected_pkt_at_cap _ _ _ _ hcap]

/-- Claim C40, witness: the example server in the handshake holds one buffered
packet, and a second packet with a short header is put behind it. -/
theorem C40_recv_by_state_witness :
    example_pkt_max_data ≠ [] ∧
    (conn_recv_verify example_codec example_pkt_max_data example_pkt_max_data.length).1 = 0 ∧
    (example_server_wait_handshake [example_pkt_max_data]).state =
      ngtcp2_conn_state.NGTCP2_CS_SERVER_WAIT_HANDSHAKE ∧
    example_pkt_max_data.headD 0 &&& NGTCP2_HEADER_FORM_BIT = 0 ∧
    (example_server_wait_handshake [example_pkt_max_data]).handshake_completed = false ∧
    ngtcp2_conn_recv example_codec (example_server_wait_handshake [example_pkt_max_data])
      example_pkt_max_data 100 =
      some (conn_buffer_protected_pkt example_codec.NGTCP2_MAX_NUM_BUFFED_RX_PPKTS
        (example_server_wait_handshake [example_pkt_max_data]) example_pkt_max_data 100) ∧
    (conn_buffer_protected_pkt example_codec.NGTCP2_MAX_NUM_BUFFED_RX_PPKTS
      (example_server_wait_handshake [example_pkt_max_data]) example_pkt_max_data
      100).2.buffed_rx_ppkts =
      [{ pkt := example_pkt_max_data, ts := 90 }, { pkt := example_pkt_max_data, ts := 100 }] :=
  ⟨by decide, by decide, rfl, by decide, rfl,
   ((C40_recv_by_state example_codec (example_server_wait_handshake [example_pkt_max_data])
      example_pkt_max_data 100 (by decide) (by decide)).2.2.2.1 (Or.inr (Or.inr rfl))
      (by decide) rfl).1,
   by decide⟩

end Ngtcp2
